import Mathlib

/-! # DJM-850Audio: the USB Audio Class descriptor parser of `AppleUSBAudioDictionary.cpp`

A shallow embedding of `DJM03ConfigurationDictionary`, `DJM03ControlDictionary` and
`DJM03StreamDictionary`.

Conventions of the embedding.

* The descriptor that is parsed is the mutable copy made by `init`: a list of bytes.  A read
  at an offset is `rd`; bytes outside the allocation read as 0.
* Pointers into the descriptor are offsets from its first byte (`theInterfacePtr : Nat`).
  Pointer arithmetic never yields `NULL`, so the `theInterfacePtr ? ... : totalLength`
  tests of the source always take their first branch.
* `UInt8` and `UInt16` counters are `Nat` reduced `% 256` and `% 65536` where the source
  lets them overflow.
* An `OSDictionary` key that may be absent is an `Option` field.  An `OSArray` that only
  grows and is created together with its first element is a `List` (absent = `[]`).
* Allocation never fails (`new`, `OSArray::with...`, `OSNumber::withNumber`), so the
  `FailIf (NULL == ...)` tests on fresh objects never fire.
* The host is little-endian, so `USBToHostWord` and `USBToHostLong` are the identity on
  the value decoded from little-endian bytes.
* Loops of the source that walk the descriptor take a fuel argument; running out of fuel
  is a separate outcome (`none`, `Ending.outOfFuel`), never a result of the code.
-/

namespace DJM03

/-! ## Return codes, memory -/

/-- The two `IOReturn` values the dictionary code produces. -/
inductive IOReturn where
  | kIOReturnSuccess
  | kIOReturnError
  deriving DecidableEq, Repr

/-- Byte at offset `i` of the descriptor `m`. -/
def rd (m : List Nat) (i : Nat) : Nat := m.getD i 0 % 256

/-- Little-endian 16-bit field at offset `i` (`USBToHostWord` of a `UInt16` field). -/
def rd16 (m : List Nat) (i : Nat) : Nat := rd m i ||| (rd m (i + 1) <<< 8)

/-- Little-endian 32-bit field at offset `i` (`USBToHostLong` of a `UInt32` field). -/
def rd32 (m : List Nat) (i : Nat) : Nat :=
  rd m i ||| (rd m (i + 1) <<< 8) ||| (rd m (i + 2) <<< 16) ||| (rd m (i + 3) <<< 24)

/-- The `n` bytes starting at offset `i` (a `UInt8 *` array read element by element). -/
def rdBytes (m : List Nat) (i n : Nat) : List Nat := (List.range n).map (fun k => rd m (i + k))

/-! ## Constants

Modelled from the spec: the header `AppleUSBAudioDictionary.h` (descriptor type and subtype
constants, structure layouts, inline accessors) is not part of the sources.  The spec names
the USB Audio Class 1.0 / 2.0 configuration-descriptor wire format; the values and field
offsets below are those of that format. -/

/-- Modelled from the spec: descriptor type `CONFIGURATION`. -/
def CONFIGURATION : Nat := 0x02
/-- Modelled from the spec: descriptor type `INTERFACE`. -/
def INTERFACE : Nat := 0x04
/-- Modelled from the spec: descriptor type `ENDPOINT`. -/
def ENDPOINT : Nat := 0x05
/-- Modelled from the spec: descriptor type `INTERFACE_ASSOCIATION`. -/
def INTERFACE_ASSOCIATION : Nat := 0x0B
/-- Modelled from the spec: class-specific descriptor type `CS_INTERFACE`. -/
def CS_INTERFACE : Nat := 0x24
/-- Modelled from the spec: class-specific descriptor type `CS_ENDPOINT`. -/
def CS_ENDPOINT : Nat := 0x25
/-- Modelled from the spec: interface class `AUDIO`. -/
def AUDIO : Nat := 0x01
/-- Modelled from the spec: interface subclass `AUDIOCONTROL`. -/
def AUDIOCONTROL : Nat := 0x01
/-- Modelled from the spec: interface subclass `AUDIOSTREAMING`. -/
def AUDIOSTREAMING : Nat := 0x02
/-- Modelled from the spec: interface subclass `MIDISTREAMING`. -/
def MIDISTREAMING : Nat := 0x03
/-- Modelled from the spec: interface protocol of a UAC 1.0 interface. -/
def INTERFACE_PROTOCOL_UNDEFINED : Nat := 0x00
/-- Modelled from the spec: interface protocol of a UAC 2.0 interface. -/
def IP_VERSION_02_00 : Nat := 0x20
/-- Modelled from the spec: `USBAUDIO_0200::AUDIO_FUNCTION`. -/
def AUDIO_FUNCTION : Nat := 0x01
/-- Modelled from the spec: `USBAUDIO_0200::FUNCTION_SUBCLASS_UNDEFINED`. -/
def FUNCTION_SUBCLASS_UNDEFINED : Nat := 0x00
/-- Modelled from the spec: `USBAUDIO_0200::AF_VERSION_02_00`. -/
def AF_VERSION_02_00 : Nat := 0x20
/-- Modelled from the spec: transfer type bits of an interrupt endpoint. -/
def kInterruptType : Nat := 0x03
/-- Modelled from the spec: class-specific endpoint subtype `EP_GENERAL`. -/
def EP_GENERAL : Nat := 0x01
/-- Modelled from the spec: bit numbers of the UAC1 isochronous endpoint attributes. -/
def sampleFreqControlBit : Nat := 0
/-- Modelled from the spec: bit number of the pitch control attribute. -/
def pitchControlBit : Nat := 1
/-- Modelled from the spec: bit number of the max-packets-only attribute. -/
def maxPacketsOnlyBit : Nat := 7
/-- Modelled from the spec: bytes of one sample frequency in a FORMAT_TYPE record. -/
def kBytesPerSampleFrequency : Nat := 3
/-- Modelled from the spec: `kTransactionsPerMicroframe_Mask`, bits 12..11 of wMaxPacketSize. -/
def kTransactionsPerMicroframe_Mask : Nat := 0x1800
/-- Modelled from the spec: `kMaxPacketSize_Mask`, bits 10..0 of wMaxPacketSize. -/
def kMaxPacketSize_Mask : Nat := 0x07FF

/-- Modelled from the spec: UAC1 AudioControl descriptor subtypes. -/
def HEADER : Nat := 0x01
/-- Modelled from the spec: UAC1/UAC2 subtype `INPUT_TERMINAL`. -/
def INPUT_TERMINAL : Nat := 0x02
/-- Modelled from the spec: UAC1/UAC2 subtype `OUTPUT_TERMINAL`. -/
def OUTPUT_TERMINAL : Nat := 0x03
/-- Modelled from the spec: UAC1/UAC2 subtype `MIXER_UNIT`. -/
def MIXER_UNIT : Nat := 0x04
/-- Modelled from the spec: UAC1/UAC2 subtype `SELECTOR_UNIT`. -/
def SELECTOR_UNIT : Nat := 0x05
/-- Modelled from the spec: UAC1/UAC2 subtype `FEATURE_UNIT`. -/
def FEATURE_UNIT : Nat := 0x06
/-- Modelled from the spec: UAC1 subtype `PROCESSING_UNIT`. -/
def PROCESSING_UNIT : Nat := 0x07
/-- Modelled from the spec: UAC1 subtype `EXTENSION_UNIT`. -/
def EXTENSION_UNIT : Nat := 0x08
/-- Modelled from the spec: `USBAUDIO_0200::EFFECT_UNIT`. -/
def EFFECT_UNIT_0200 : Nat := 0x07
/-- Modelled from the spec: `USBAUDIO_0200::PROCESSING_UNIT`. -/
def PROCESSING_UNIT_0200 : Nat := 0x08
/-- Modelled from the spec: `USBAUDIO_0200::EXTENSION_UNIT`. -/
def EXTENSION_UNIT_0200 : Nat := 0x09
/-- Modelled from the spec: `USBAUDIO_0200::CLOCK_SOURCE`. -/
def CLOCK_SOURCE : Nat := 0x0A
/-- Modelled from the spec: `USBAUDIO_0200::CLOCK_SELECTOR`. -/
def CLOCK_SELECTOR : Nat := 0x0B
/-- Modelled from the spec: `USBAUDIO_0200::CLOCK_MULTIPLIER`. -/
def CLOCK_MULTIPLIER : Nat := 0x0C

/-- Modelled from the spec: AudioStreaming subtype `AS_GENERAL`. -/
def AS_GENERAL : Nat := 0x01
/-- Modelled from the spec: AudioStreaming subtype `FORMAT_TYPE`. -/
def FORMAT_TYPE : Nat := 0x02
/-- Modelled from the spec: UAC1 AudioStreaming subtype `FORMAT_SPECIFIC`. -/
def FORMAT_SPECIFIC : Nat := 0x03
/-- Modelled from the spec: `USBAUDIO_0200::ENCODER`. -/
def ENCODER : Nat := 0x03
/-- Modelled from the spec: `USBAUDIO_0200::DECODER`. -/
def DECODER : Nat := 0x04
/-- Modelled from the spec: `USBAUDIO_0200::MPEG_DECODER`. -/
def MPEG_DECODER : Nat := 0x01
/-- Modelled from the spec: `USBAUDIO_0200::AC3_DECODER`. -/
def AC3_DECODER : Nat := 0x02
/-- Modelled from the spec: format type codes. -/
def FORMAT_TYPE_I : Nat := 0x01
/-- Modelled from the spec: format type II. -/
def FORMAT_TYPE_II : Nat := 0x02
/-- Modelled from the spec: format type III. -/
def FORMAT_TYPE_III : Nat := 0x03

/-- Modelled from the spec: UAC1 audio data format tags (wFormatTag). -/
def TYPE_I_UNDEFINED : Nat := 0x0000
/-- Modelled from the spec: format tag `PCM`. -/
def PCM : Nat := 0x0001
/-- Modelled from the spec: format tag `PCM8`. -/
def PCM8 : Nat := 0x0002
/-- Modelled from the spec: format tag `IEEE_FLOAT`. -/
def IEEE_FLOAT : Nat := 0x0003
/-- Modelled from the spec: format tag `ALAW`. -/
def ALAW : Nat := 0x0004
/-- Modelled from the spec: format tag `TYPE_II_UNDEFINED`. -/
def TYPE_II_UNDEFINED : Nat := 0x1000
/-- Modelled from the spec: format tag `MPEG`. -/
def MPEG : Nat := 0x1001
/-- Modelled from the spec: format tag `AC3`. -/
def AC3 : Nat := 0x1002
/-- Modelled from the spec: format tag `TYPE_III_UNDEFINED`. -/
def TYPE_III_UNDEFINED : Nat := 0x2000
/-- Modelled from the spec: format tag `IEC1937_AC3`. -/
def IEC1937_AC3 : Nat := 0x2001
/-- Modelled from the spec: format tag `IEC1937_MPEG1_Layer1`. -/
def IEC1937_MPEG1_Layer1 : Nat := 0x2002
/-- Modelled from the spec: format tag `IEC1937_MPEG1_Layer2or3`. -/
def IEC1937_MPEG1_Layer2or3 : Nat := 0x2003
/-- Modelled from the spec: format tag `IEC1937_MPEG2_EXT`. -/
def IEC1937_MPEG2_EXT : Nat := 0x2004
/-- Modelled from the spec: format tag `IEC1937_MPEG2_Layer1_LS`. -/
def IEC1937_MPEG2_Layer1_LS : Nat := 0x2005
/-- Modelled from the spec: format tag `IEC1937_MPEG2_Layer2or3_LS`. -/
def IEC1937_MPEG2_Layer2or3_LS : Nat := 0x2006

/-- Modelled from the spec: UAC2 `bmFormats` bits of Format Type I (`USBAUDIO_0200::PCM` ...). -/
def PCM_0200 : Nat := 0x1
/-- Modelled from the spec: `USBAUDIO_0200::PCM8`. -/
def PCM8_0200 : Nat := 0x2
/-- Modelled from the spec: `USBAUDIO_0200::IEEE_FLOAT`. -/
def IEEE_FLOAT_0200 : Nat := 0x4
/-- Modelled from the spec: `USBAUDIO_0200::ALAW`. -/
def ALAW_0200 : Nat := 0x8
/-- Modelled from the spec: `USBAUDIO_0200::MPEG` (Format Type II bit). -/
def MPEG_0200 : Nat := 0x1
/-- Modelled from the spec: `USBAUDIO_0200::AC3` (Format Type II bit). -/
def AC3_0200 : Nat := 0x2
/-- Modelled from the spec: `USBAUDIO_0200::IEC61937_AC3` (Format Type III bit). -/
def IEC61937_AC3_0200 : Nat := 0x1
/-- Modelled from the spec: `USBAUDIO_0200::IEC1937_MPEG1_Layer1`. -/
def IEC1937_MPEG1_Layer1_0200 : Nat := 0x2
/-- Modelled from the spec: `USBAUDIO_0200::IEC1937_MPEG1_Layer2or3`. -/
def IEC1937_MPEG1_Layer2or3_0200 : Nat := 0x4
/-- Modelled from the spec: `USBAUDIO_0200::IEC61937_MPEG2_EXT`. -/
def IEC61937_MPEG2_EXT_0200 : Nat := 0x8
/-- Modelled from the spec: `USBAUDIO_0200::IEC1937_MPEG2_Layer1_LS`. -/
def IEC1937_MPEG2_Layer1_LS_0200 : Nat := 0x10
/-- Modelled from the spec: `USBAUDIO_0200::IEC1937_MPEG2_Layer2or3_LS`. -/
def IEC1937_MPEG2_Layer2or3_LS_0200 : Nat := 0x20

/-! ## The dictionaries

Each class of the source is an `OSDictionary`; its keys become the fields below. -/

/-- The keys of a `DJM03EndpointDictionary`. -/
structure DJM03EndpointDictionary where
  address : Option Nat := none
  attributes : Option Nat := none
  maxPacketSize : Option Nat := none
  interval : Option Nat := none
  refreshInt : Option Nat := none
  synchAddress : Option Nat := none
  deriving DecidableEq, Repr

/-- The keys of an `AUAASEndpointDictionary` (class-specific isochronous endpoint). -/
structure AUAASEndpointDictionary where
  hasSampleFreqControl : Bool
  hasPitchControl : Bool
  hasMaxPacketsOnly : Bool
  lockDelayUnits : Nat
  lockDelay : Nat
  deriving DecidableEq, Repr

/-- The keys of a unit dictionary (`DJM03UnitDictionary` and its subclasses: terminals, mixer,
selector, feature, effect, processing and extension units, clock entities).  The registry a
unit is stored in tells its kind. -/
structure DJM03UnitDictionary where
  descriptorSubType : Option Nat := none
  unitID : Option Nat := none
  terminalType : Option Nat := none
  assocTerminal : Option Nat := none
  numChannels : Option Nat := none
  channelConfig : Option Nat := none
  stringIndex : Option Nat := none
  channelNames : Option Nat := none
  sourceID : Option Nat := none
  clockSourceID : Option Nat := none
  controlSize : Option Nat := none
  numControls : Option Nat := none
  controls : Option (List Nat) := none
  numInPins : Option Nat := none
  sourceIDs : Option (List Nat) := none
  processType : Option Nat := none
  effectType : Option Nat := none
  attributes : Option Nat := none
  clockSourceIDs : Option (List Nat) := none
  deriving DecidableEq, Repr

/-- The keys of a `DJM03ControlDictionary`. -/
structure DJM03ControlDictionary where
  interfaceNumber : Nat
  alternateSetting : Nat
  numEndpoints : Nat
  interfaceClass : Nat
  interfaceSubClass : Nat
  interfaceProtocol : Nat
  adcVersion : Option Nat := none
  numStreamInterfaces : Option Nat := none
  streamInterfaceNumbers : Option (List Nat) := none
  inputTerminals : List DJM03UnitDictionary := []
  outputTerminals : List DJM03UnitDictionary := []
  mixerUnits : List DJM03UnitDictionary := []
  selectorUnits : List DJM03UnitDictionary := []
  featureUnits : List DJM03UnitDictionary := []
  effectUnits : List DJM03UnitDictionary := []
  processingUnits : List DJM03UnitDictionary := []
  extensionUnits : List DJM03UnitDictionary := []
  clockSources : List DJM03UnitDictionary := []
  clockSelectors : List DJM03UnitDictionary := []
  clockMultipliers : List DJM03UnitDictionary := []
  endpoints : List DJM03EndpointDictionary := []
  deriving DecidableEq, Repr

/-- The keys of a `DJM03StreamDictionary`: one (interface, alternate setting) pair. -/
structure DJM03StreamDictionary where
  interfaceNumber : Nat
  alternateSetting : Nat
  numEndpoints : Nat
  interfaceClass : Nat
  interfaceSubClass : Nat
  interfaceProtocol : Nat
  terminalLink : Option Nat := none
  delay : Option Nat := none
  formatTag : Option Nat := none
  formats : Option Nat := none
  numChannels : Option Nat := none
  subframeSize : Option Nat := none
  bitResolution : Option Nat := none
  numSampleRates : Option Nat := none
  sampleRates : List Nat := []
  maxBitRate : Option Nat := none
  samplesPerFrame : Option Nat := none
  mpegCapabilities : Option Nat := none
  mpegFeatures : Option Nat := none
  ac3BSID : Option Nat := none
  ac3Features : Option Nat := none
  endpoints : List DJM03EndpointDictionary := []
  asIsocEndpoint : Option AUAASEndpointDictionary := none
  deriving DecidableEq, Repr

/-- The keys of a `DJM03ConfigurationDictionary`: the control interface number given to
`init`, the control dictionaries and the stream dictionaries. -/
structure DJM03ConfigurationDictionary where
  controlInterfaceNum : Nat
  controlDictionaries : List DJM03ControlDictionary := []
  streamDictionaries : List DJM03StreamDictionary := []
  deriving DecidableEq, Repr

/-! ## Integer conversions -/

/-- Conversion of a C `int` to `UInt8`. -/
def toUInt8 (x : Int) : Nat := (x % 256).toNat

/-- Conversion of a C `int` to `UInt16`. -/
def toUInt16 (x : Int) : Nat := (x % 65536).toNat

/-- The value kept by `OSNumber::withNumber (value, bits)`: the low `bits` bits. -/
def OSNumber_withNumber (value bits : Nat) : Nat := value % 2 ^ bits

/-- The inline function `ConvertSampleFreq`: little-endian 24-bit value at offset `p`. -/
def ConvertSampleFreq (m : List Nat) (p : Nat) : Nat :=
  (rd m (p + 2) <<< 16) ||| (rd m (p + 1) <<< 8) ||| rd m p

/-! ## Unit dictionaries: the `init...` helpers -/

/-- The method `AUAFeatureUnitDictionary::initControlsArray`; `p` is the offset of
`bmaControls[0]`.  The control size was stored by `setControlSize` just before. -/
def AUAFeatureUnitDictionary.initControlsArray (m : List Nat) (u : DJM03UnitDictionary)
    (p numCntrls : Nat) : DJM03UnitDictionary :=
  let u1 := { u with numControls := some numCntrls }
  match u1.controlSize with
  | none => u1
  | some controlSize =>
    { u1 with controls := some ((List.range numCntrls).map (fun controlIndex =>
        if controlSize = 1 then OSNumber_withNumber (rd m (p + controlIndex)) 8
        else if controlSize = 2 then
          OSNumber_withNumber (rd16 m (p + 2 * controlIndex)) (controlSize * 8)
        else OSNumber_withNumber (rd32 m (p + 4 * controlIndex)) (controlSize * 8))) }

/-- The method `AUAEffectUnitDictionary::initControlsArray`; the 32-bit element goes through
`USBToHostWord`, which keeps its low 16 bits. -/
def AUAEffectUnitDictionary.initControlsArray (m : List Nat) (u : DJM03UnitDictionary)
    (p numCntrls : Nat) : DJM03UnitDictionary :=
  let u1 := { u with numControls := some numCntrls }
  match u1.controlSize with
  | none => u1
  | some controlSize =>
    { u1 with controls := some ((List.range numCntrls).map (fun controlIndex =>
        if controlSize = 1 then OSNumber_withNumber (rd m (p + controlIndex)) 8
        else OSNumber_withNumber (rd32 m (p + 4 * controlIndex) % 65536) (controlSize * 8))) }

/-- The byte-array `initControlsArray` of the mixer, processing, extension and clock
dictionaries: `bmControlSize` bytes starting at offset `p`. -/
def initControlsArray (m : List Nat) (u : DJM03UnitDictionary) (p bmControlSize : Nat) :
    DJM03UnitDictionary :=
  { u with controls := some ((rdBytes m p bmControlSize).map (fun b => OSNumber_withNumber b 8)) }

/-- The methods `initSourceIDs`: `nrInPins` bytes starting at offset `p`. -/
def initSourceIDs (m : List Nat) (u : DJM03UnitDictionary) (p nrInPins : Nat) :
    DJM03UnitDictionary :=
  { u with sourceIDs := some ((rdBytes m p nrInPins).map (fun b => OSNumber_withNumber b 8)) }

/-- The method `AUAClockSelectorDictionary::initClockSourceIDs`. -/
def initClockSourceIDs (m : List Nat) (u : DJM03UnitDictionary) (p nrInPins : Nat) :
    DJM03UnitDictionary :=
  { u with
    clockSourceIDs := some ((rdBytes m p nrInPins).map (fun b => OSNumber_withNumber b 8)) }

/-! ## `DJM03ControlDictionary::parseACInterfaceDescriptor` (UAC 1.0) -/

/-- The case `HEADER` of `parseACRecord`. -/
def parseACRecord.HEADER (m : List Nat) (p : Nat) (c : DJM03ControlDictionary) :
    Option DJM03ControlDictionary :=
  let adcVersion := rd16 m (p + 3)
  let numStreamInterfaces := rd m (p + 7)
  some { c with
    adcVersion := some adcVersion
    numStreamInterfaces := some numStreamInterfaces
    streamInterfaceNumbers :=
      some ((rdBytes m (p + 8) numStreamInterfaces).map (fun b => OSNumber_withNumber b 8)) }

/-- The case `INPUT_TERMINAL` of `parseACRecord`. -/
def parseACRecord.INPUT_TERMINAL (m : List Nat) (p : Nat) (c : DJM03ControlDictionary) :
    Option DJM03ControlDictionary :=
  let subtype := rd m (p + 2)
  let inputTerminal : DJM03UnitDictionary :=
    { descriptorSubType := some subtype
      unitID := some (rd m (p + 3))
      terminalType := some (rd16 m (p + 4))
      assocTerminal := some (rd m (p + 6))
      numChannels := some (rd m (p + 7))
      channelConfig := some (rd16 m (p + 8))
      stringIndex := some (rd m (p + 11))
      channelNames := some (rd m (p + 10)) }
  some { c with inputTerminals := c.inputTerminals ++ [inputTerminal] }

/-- The case `OUTPUT_TERMINAL` of `parseACRecord`. -/
def parseACRecord.OUTPUT_TERMINAL (m : List Nat) (p : Nat) (c : DJM03ControlDictionary) :
    Option DJM03ControlDictionary :=
  let subtype := rd m (p + 2)
  let outputTerminal : DJM03UnitDictionary :=
    { descriptorSubType := some subtype
      unitID := some (rd m (p + 3))
      terminalType := some (rd16 m (p + 4))
      assocTerminal := some (rd m (p + 6))
      sourceID := some (rd m (p + 7))
      stringIndex := some (rd m (p + 8)) }
  some { c with outputTerminals := c.outputTerminals ++ [outputTerminal] }

/-- The case `FEATURE_UNIT` of `parseACRecord`. -/
def parseACRecord.FEATURE_UNIT (m : List Nat) (p : Nat) (c : DJM03ControlDictionary) :
    Option DJM03ControlDictionary :=
  let bLength := rd m p
  let subtype := rd m (p + 2)
  let bControlSize := rd m (p + 5)
  let featureUnit : DJM03UnitDictionary :=
    { descriptorSubType := some subtype
      unitID := some (rd m (p + 3))
      sourceID := some (rd m (p + 4))
      controlSize := some bControlSize }
  if bControlSize = 0 then none
  else
    let numControls := toUInt8 (Int.tdiv ((bLength : Int) - 7) (bControlSize : Int))
    let featureUnit := AUAFeatureUnitDictionary.initControlsArray m featureUnit (p + 6) numControls
    let featureUnit := { featureUnit with stringIndex := some (rd m (p + bLength - 1)) }
    some { c with featureUnits := c.featureUnits ++ [featureUnit] }

/-- The case `MIXER_UNIT` of `parseACRecord`. -/
def parseACRecord.MIXER_UNIT (m : List Nat) (p : Nat) (c : DJM03ControlDictionary) :
    Option DJM03ControlDictionary :=
  let bLength := rd m p
  let subtype := rd m (p + 2)
  let bNrInPins := rd m (p + 4)
  let mixerUnit : DJM03UnitDictionary :=
    { descriptorSubType := some subtype
      unitID := some (rd m (p + 3))
      numInPins := some bNrInPins }
  let mixerUnit := initSourceIDs m mixerUnit (p + 5) bNrInPins
  let nrChannels := rd m (p + 5 + bNrInPins)
  let channelConfig := rd16 m (p + 5 + bNrInPins + 1)
  let controlSize := toUInt8 ((bLength : Int) - 10 - (bNrInPins : Int))
  let mixerUnit := { mixerUnit with
    numChannels := some nrChannels, channelConfig := some channelConfig }
  let mixerUnit := initControlsArray m mixerUnit (p + 5 + bNrInPins + 4) controlSize
  let mixerUnit := { mixerUnit with
    stringIndex := some (rd m (p + bLength - 1))
    channelNames := some (rd m (p + (bNrInPins + 8))) }
  some { c with mixerUnits := c.mixerUnits ++ [mixerUnit] }

/-- The case `SELECTOR_UNIT` of `parseACRecord`. -/
def parseACRecord.SELECTOR_UNIT (m : List Nat) (p : Nat) (c : DJM03ControlDictionary) :
    Option DJM03ControlDictionary :=
  let bLength := rd m p
  let subtype := rd m (p + 2)
  let bNrInPins := rd m (p + 4)
  let selectorUnit : DJM03UnitDictionary :=
    { descriptorSubType := some subtype
      numInPins := some bNrInPins
      unitID := some (rd m (p + 3)) }
  let selectorUnit := initSourceIDs m selectorUnit (p + 5) bNrInPins
  let selectorUnit := { selectorUnit with stringIndex := some (rd m (p + bLength - 1)) }
  some { c with selectorUnits := c.selectorUnits ++ [selectorUnit] }

/-- The case `PROCESSING_UNIT` of `parseACRecord`. -/
def parseACRecord.PROCESSING_UNIT (m : List Nat) (p : Nat) (c : DJM03ControlDictionary) :
    Option DJM03ControlDictionary :=
  let bLength := rd m p
  let subtype := rd m (p + 2)
  let bNrInPins := rd m (p + 6)
  let processingUnit : DJM03UnitDictionary :=
    { descriptorSubType := some subtype
      unitID := some (rd m (p + 3))
      processType := some (rd16 m (p + 4))
      numInPins := some bNrInPins }
  let processingUnit := initSourceIDs m processingUnit (p + 7) bNrInPins
  let nrChannels := rd m (p + 7 + bNrInPins)
  let channelConfig := rd16 m (p + 7 + bNrInPins + 1)
  let controlSize := rd m (p + 7 + bNrInPins + 4)
  let processingUnit := { processingUnit with
    numChannels := some nrChannels, channelConfig := some channelConfig }
  let processingUnit := initControlsArray m processingUnit (p + 7 + bNrInPins + 5) controlSize
  let processingUnit := { processingUnit with
    stringIndex := some (rd m (p + bLength - 1))
    channelNames := some (rd m (p + (bNrInPins + 10))) }
  some { c with processingUnits := c.processingUnits ++ [processingUnit] }

/-- The case `EXTENSION_UNIT` of `parseACRecord`. -/
def parseACRecord.EXTENSION_UNIT (m : List Nat) (p : Nat) (c : DJM03ControlDictionary) :
    Option DJM03ControlDictionary :=
  let bLength := rd m p
  let subtype := rd m (p + 2)
  let bNrInPins := rd m (p + 6)
  let extensionUnit : DJM03UnitDictionary :=
    { descriptorSubType := some subtype
      unitID := some (rd m (p + 3))
      numInPins := some bNrInPins }
  let extensionUnit := initSourceIDs m extensionUnit (p + 7) bNrInPins
  let extensionUnit := { extensionUnit with
    stringIndex := some (rd m (p + bLength - 1))
    channelNames := some (rd m (p + (bNrInPins + 10))) }
  some { c with extensionUnits := c.extensionUnits ++ [extensionUnit] }

/-- The body of the `switch (theInterfacePtr->bDescriptorSubtype)` of
`parseACInterfaceDescriptor` for the record at offset `p`.  The result is `none` when a
`FailIf` leaves the function (a Feature Unit with `bControlSize = 0`); the dictionary is
then as it was before the record. -/
def parseACRecord (m : List Nat) (p : Nat) (c : DJM03ControlDictionary) :
    Option DJM03ControlDictionary :=
  let subtype := rd m (p + 2)
  if subtype = HEADER then parseACRecord.HEADER m p c
  else if subtype = INPUT_TERMINAL then parseACRecord.INPUT_TERMINAL m p c
  else if subtype = OUTPUT_TERMINAL then parseACRecord.OUTPUT_TERMINAL m p c
  else if subtype = FEATURE_UNIT then parseACRecord.FEATURE_UNIT m p c
  else if subtype = MIXER_UNIT then parseACRecord.MIXER_UNIT m p c
  else if subtype = SELECTOR_UNIT then parseACRecord.SELECTOR_UNIT m p c
  else if subtype = PROCESSING_UNIT then parseACRecord.PROCESSING_UNIT m p c
  else if subtype = EXTENSION_UNIT then parseACRecord.EXTENSION_UNIT m p c
  else some c

/-- The `while` loop of `parseACInterfaceDescriptor`: the state is the cursor
`theInterfacePtr`, the counter `*parsedLength` and the control dictionary.  `none` only
when the fuel runs out. -/
def parseACInterfaceDescriptor_loop (m : List Nat) (totalLength : Nat) :
    Nat → Nat → Nat → DJM03ControlDictionary → Option (Nat × Nat × DJM03ControlDictionary)
  | fuel, theInterfacePtr, parsedLength, c =>
    if rd m theInterfacePtr > 0 ∧ rd m (theInterfacePtr + 1) = CS_INTERFACE
        ∧ parsedLength ≤ totalLength then
      match fuel with
      | 0 => none
      | fuel + 1 =>
        match parseACRecord m theInterfacePtr c with
        | none => some (theInterfacePtr, parsedLength, c)
        | some c1 =>
          let next := theInterfacePtr + rd m theInterfacePtr
          parseACInterfaceDescriptor_loop m totalLength fuel next
            ((parsedLength + rd m next) % 65536) c1
    else some (theInterfacePtr, parsedLength, c)

/-- The method `DJM03ControlDictionary::parseACInterfaceDescriptor`: returns the new cursor,
the new `*parsedLength` and the control dictionary. -/
def parseACInterfaceDescriptor (m : List Nat) (fuel theInterfacePtr parsedLength
    totalLength : Nat) (c : DJM03ControlDictionary) :
    Option (Nat × Nat × DJM03ControlDictionary) :=
  if rd m theInterfacePtr = 0 then some (theInterfacePtr, parsedLength, c)
  else if rd m (theInterfacePtr + 1) ≠ CS_INTERFACE then some (theInterfacePtr, parsedLength, c)
  else parseACInterfaceDescriptor_loop m totalLength fuel theInterfacePtr parsedLength c

/-! ## `DJM03ControlDictionary::parseACInterfaceDescriptor_0200` (UAC 2.0) -/

/-- The case `HEADER` of `parseACRecord_0200`. -/
def parseACRecord_0200.HEADER (m : List Nat) (p : Nat) (c : DJM03ControlDictionary) :
    DJM03ControlDictionary :=
  { c with adcVersion := some (rd16 m (p + 3)) }

/-- The case `INPUT_TERMINAL` of `parseACRecord_0200`. -/
def parseACRecord_0200.INPUT_TERMINAL (m : List Nat) (p : Nat) (c : DJM03ControlDictionary) :
    DJM03ControlDictionary :=
  let subtype := rd m (p + 2)
  let inputTerminal : DJM03UnitDictionary :=
    { descriptorSubType := some subtype
      unitID := some (rd m (p + 3))
      terminalType := some (rd16 m (p + 4))
      assocTerminal := some (rd m (p + 6))
      numChannels := some (rd m (p + 8))
      channelConfig := some (rd32 m (p + 9))
      clockSourceID := some (rd m (p + 7))
      stringIndex := some (rd m (p + 16))
      channelNames := some (rd m (p + 13)) }
  { c with inputTerminals := c.inputTerminals ++ [inputTerminal] }

/-- The case `OUTPUT_TERMINAL` of `parseACRecord_0200`. -/
def parseACRecord_0200.OUTPUT_TERMINAL (m : List Nat) (p : Nat) (c : DJM03ControlDictionary) :
    DJM03ControlDictionary :=
  let subtype := rd m (p + 2)
  let outputTerminal : DJM03UnitDictionary :=
    { descriptorSubType := some subtype
      unitID := some (rd m (p + 3))
      terminalType := some (rd16 m (p + 4))
      assocTerminal := some (rd m (p + 6))
      sourceID := some (rd m (p + 7))
      clockSourceID := some (rd m (p + 8))
      stringIndex := some (rd m (p + 11)) }
  { c with outputTerminals := c.outputTerminals ++ [outputTerminal] }

/-- The case `FEATURE_UNIT` of `parseACRecord_0200`. -/
def parseACRecord_0200.FEATURE_UNIT (m : List Nat) (p : Nat) (c : DJM03ControlDictionary) :
    DJM03ControlDictionary :=
  let bLength := rd m p
  let subtype := rd m (p + 2)
  let featureUnit : DJM03UnitDictionary :=
    { descriptorSubType := some subtype
      unitID := some (rd m (p + 3))
      sourceID := some (rd m (p + 4))
      controlSize := some 4 }
  let numControls := toUInt8 (Int.tdiv ((bLength : Int) - 6) 4)
  let featureUnit := AUAFeatureUnitDictionary.initControlsArray m featureUnit (p + 5) numControls
  let featureUnit := { featureUnit with stringIndex := some (rd m (p + bLength - 1)) }
  { c with featureUnits := c.featureUnits ++ [featureUnit] }

/-- The case `MIXER_UNIT` of `parseACRecord_0200`. -/
def parseACRecord_0200.MIXER_UNIT (m : List Nat) (p : Nat) (c : DJM03ControlDictionary) :
    DJM03ControlDictionary :=
  let bLength := rd m p
  let subtype := rd m (p + 2)
  let bNrInPins := rd m (p + 4)
  let mixerUnit : DJM03UnitDictionary :=
    { descriptorSubType := some subtype
      unitID := some (rd m (p + 3))
      numInPins := some bNrInPins }
  let mixerUnit := initSourceIDs m mixerUnit (p + 5) bNrInPins
  let nrChannels := rd m (p + 5 + bNrInPins)
  let channelConfig := rd32 m (p + 5 + bNrInPins + 1)
  let controlSize := toUInt8 ((bLength : Int) - 13 - (bNrInPins : Int))
  let mixerUnit := { mixerUnit with
    numChannels := some nrChannels, channelConfig := some channelConfig }
  let mixerUnit := initControlsArray m mixerUnit (p + 5 + bNrInPins + 6) controlSize
  let mixerUnit := { mixerUnit with
    stringIndex := some (rd m (p + bLength - 1))
    channelNames := some (rd m (p + (bNrInPins + 10))) }
  { c with mixerUnits := c.mixerUnits ++ [mixerUnit] }

/-- The case `SELECTOR_UNIT` of `parseACRecord_0200`. -/
def parseACRecord_0200.SELECTOR_UNIT (m : List Nat) (p : Nat) (c : DJM03ControlDictionary) :
    DJM03ControlDictionary :=
  let bLength := rd m p
  let subtype := rd m (p + 2)
  let bNrInPins := rd m (p + 4)
  let selectorUnit : DJM03UnitDictionary :=
    { descriptorSubType := some subtype
      numInPins := some bNrInPins
      unitID := some (rd m (p + 3)) }
  let selectorUnit := initSourceIDs m selectorUnit (p + 5) bNrInPins
  let selectorUnit := { selectorUnit with stringIndex := some (rd m (p + bLength - 1)) }
  { c with selectorUnits := c.selectorUnits ++ [selectorUnit] }

/-- The case `EFFECT_UNIT` of `parseACRecord_0200`. -/
def parseACRecord_0200.EFFECT_UNIT_0200 (m : List Nat) (p : Nat) (c : DJM03ControlDictionary) :
    DJM03ControlDictionary :=
  let bLength := rd m p
  let subtype := rd m (p + 2)
  let effectUnit : DJM03UnitDictionary :=
    { descriptorSubType := some subtype
      unitID := some (rd m (p + 3))
      effectType := some (rd16 m (p + 4))
      sourceID := some (rd m (p + 6))
      controlSize := some 4 }
  let numControls := toUInt8 (Int.tdiv ((bLength : Int) - 8) 4)
  let effectUnit := AUAEffectUnitDictionary.initControlsArray m effectUnit (p + 7) numControls
  let effectUnit := { effectUnit with stringIndex := some (rd m (p + bLength - 1)) }
  { c with effectUnits := c.effectUnits ++ [effectUnit] }

/-- The case `PROCESSING_UNIT` of `parseACRecord_0200`. -/
def parseACRecord_0200.PROCESSING_UNIT_0200 (m : List Nat) (p : Nat) (c : DJM03ControlDictionary) :
    DJM03ControlDictionary :=
  let bLength := rd m p
  let subtype := rd m (p + 2)
  let bNrInPins := rd m (p + 6)
  let processingUnit : DJM03UnitDictionary :=
    { descriptorSubType := some subtype
      unitID := some (rd m (p + 3))
      processType := some (rd16 m (p + 4))
      numInPins := some bNrInPins }
  let processingUnit := initSourceIDs m processingUnit (p + 7) bNrInPins
  let nrChannels := rd m (p + 7 + bNrInPins)
  let channelConfig := rd32 m (p + 7 + bNrInPins + 1)
  let processingUnit := { processingUnit with
    numChannels := some nrChannels, channelConfig := some channelConfig }
  let processingUnit := initControlsArray m processingUnit (p + 7 + bNrInPins + 6) 2
  let processingUnit := { processingUnit with
    stringIndex := some (rd m (p + bLength - 1))
    channelNames := some (rd m (p + (bNrInPins + 12))) }
  { c with processingUnits := c.processingUnits ++ [processingUnit] }

/-- The case `EXTENSION_UNIT` of `parseACRecord_0200`. -/
def parseACRecord_0200.EXTENSION_UNIT_0200 (m : List Nat) (p : Nat) (c : DJM03ControlDictionary) :
    DJM03ControlDictionary :=
  let bLength := rd m p
  let subtype := rd m (p + 2)
  let bNrInPins := rd m (p + 6)
  let extensionUnit : DJM03UnitDictionary :=
    { descriptorSubType := some subtype
      unitID := some (rd m (p + 3))
      numInPins := some bNrInPins }
  let extensionUnit := initSourceIDs m extensionUnit (p + 7) bNrInPins
  let extensionUnit := { extensionUnit with
    stringIndex := some (rd m (p + bLength - 1))
    channelNames := some (rd m (p + (bNrInPins + 13))) }
  { c with extensionUnits := c.extensionUnits ++ [extensionUnit] }

/-- The case `CLOCK_SOURCE` of `parseACRecord_0200`. -/
def parseACRecord_0200.CLOCK_SOURCE (m : List Nat) (p : Nat) (c : DJM03ControlDictionary) :
    DJM03ControlDictionary :=
  let subtype := rd m (p + 2)
  let clockSource : DJM03UnitDictionary :=
    { descriptorSubType := some subtype
      unitID := some (rd m (p + 3))
      attributes := some (rd m (p + 4))
      assocTerminal := some (rd m (p + 6)) }
  let clockSource := initControlsArray m clockSource (p + 5) 1
  let clockSource := { clockSource with stringIndex := some (rd m (p + 7)) }
  { c with clockSources := c.clockSources ++ [clockSource] }

/-- The case `CLOCK_SELECTOR` of `parseACRecord_0200`. -/
def parseACRecord_0200.CLOCK_SELECTOR (m : List Nat) (p : Nat) (c : DJM03ControlDictionary) :
    DJM03ControlDictionary :=
  let bLength := rd m p
  let subtype := rd m (p + 2)
  let bNrInPins := rd m (p + 4)
  let clockSelector : DJM03UnitDictionary :=
    { descriptorSubType := some subtype
      unitID := some (rd m (p + 3))
      numInPins := some bNrInPins }
  let clockSelector := initClockSourceIDs m clockSelector (p + 5) bNrInPins
  let clockSelector := initControlsArray m clockSelector (p + 5 + bNrInPins) 1
  let clockSelector := { clockSelector with stringIndex := some (rd m (p + bLength - 1)) }
  { c with clockSelectors := c.clockSelectors ++ [clockSelector] }

/-- The case `CLOCK_MULTIPLIER` of `parseACRecord_0200`. -/
def parseACRecord_0200.CLOCK_MULTIPLIER (m : List Nat) (p : Nat) (c : DJM03ControlDictionary) :
    DJM03ControlDictionary :=
  let subtype := rd m (p + 2)
  let clockMultiplier : DJM03UnitDictionary :=
    { descriptorSubType := some subtype
      unitID := some (rd m (p + 3))
      clockSourceID := some (rd m (p + 4)) }
  let clockMultiplier := initControlsArray m clockMultiplier (p + 5) 1
  let clockMultiplier := { clockMultiplier with stringIndex := some (rd m (p + 6)) }
  { c with clockMultipliers := c.clockMultipliers ++ [clockMultiplier] }

/-- The body of the `switch` of `parseACInterfaceDescriptor_0200` for the record at offset
`p`.  No `FailIf` of this function can fire once allocation succeeds. -/
def parseACRecord_0200 (m : List Nat) (p : Nat) (c : DJM03ControlDictionary) :
    DJM03ControlDictionary :=
  let subtype := rd m (p + 2)
  if subtype = HEADER then parseACRecord_0200.HEADER m p c
  else if subtype = INPUT_TERMINAL then parseACRecord_0200.INPUT_TERMINAL m p c
  else if subtype = OUTPUT_TERMINAL then parseACRecord_0200.OUTPUT_TERMINAL m p c
  else if subtype = FEATURE_UNIT then parseACRecord_0200.FEATURE_UNIT m p c
  else if subtype = MIXER_UNIT then parseACRecord_0200.MIXER_UNIT m p c
  else if subtype = SELECTOR_UNIT then parseACRecord_0200.SELECTOR_UNIT m p c
  else if subtype = EFFECT_UNIT_0200 then parseACRecord_0200.EFFECT_UNIT_0200 m p c
  else if subtype = PROCESSING_UNIT_0200 then parseACRecord_0200.PROCESSING_UNIT_0200 m p c
  else if subtype = EXTENSION_UNIT_0200 then parseACRecord_0200.EXTENSION_UNIT_0200 m p c
  else if subtype = CLOCK_SOURCE then parseACRecord_0200.CLOCK_SOURCE m p c
  else if subtype = CLOCK_SELECTOR then parseACRecord_0200.CLOCK_SELECTOR m p c
  else if subtype = CLOCK_MULTIPLIER then parseACRecord_0200.CLOCK_MULTIPLIER m p c
  else c

/-- The `while` loop of `parseACInterfaceDescriptor_0200`.  `none` only when the fuel runs
out. -/
def parseACInterfaceDescriptor_0200_loop (m : List Nat) (totalLength : Nat) :
    Nat → Nat → Nat → DJM03ControlDictionary → Option (Nat × Nat × DJM03ControlDictionary)
  | fuel, theInterfacePtr, parsedLength, c =>
    if rd m theInterfacePtr > 0 ∧ rd m (theInterfacePtr + 1) = CS_INTERFACE
        ∧ parsedLength ≤ totalLength then
      match fuel with
      | 0 => none
      | fuel + 1 =>
        let c1 := parseACRecord_0200 m theInterfacePtr c
        let next := theInterfacePtr + rd m theInterfacePtr
        parseACInterfaceDescriptor_0200_loop m totalLength fuel next
          ((parsedLength + rd m next) % 65536) c1
    else some (theInterfacePtr, parsedLength, c)

/-- The method `DJM03ControlDictionary::parseACInterfaceDescriptor_0200`. -/
def parseACInterfaceDescriptor_0200 (m : List Nat) (fuel theInterfacePtr parsedLength
    totalLength : Nat) (c : DJM03ControlDictionary) :
    Option (Nat × Nat × DJM03ControlDictionary) :=
  if rd m theInterfacePtr = 0 then some (theInterfacePtr, parsedLength, c)
  else if rd m (theInterfacePtr + 1) ≠ CS_INTERFACE then some (theInterfacePtr, parsedLength, c)
  else parseACInterfaceDescriptor_0200_loop m totalLength fuel theInterfacePtr parsedLength c

/-- The method `DJM03ControlDictionary::parseInterfaceAssociationDescriptor`;
`theInterfaceAssociationPtr` is `none` for `NULL`. -/
def parseInterfaceAssociationDescriptor (m : List Nat) (theInterfaceAssociationPtr : Option Nat)
    (c : DJM03ControlDictionary) : DJM03ControlDictionary :=
  match theInterfaceAssociationPtr with
  | none => c
  | some p =>
    if rd m p = 0 then c
    else if rd m (p + 1) ≠ INTERFACE_ASSOCIATION then c
    else if rd m (p + 4) ≠ AUDIO_FUNCTION then c
    else if rd m (p + 5) ≠ FUNCTION_SUBCLASS_UNDEFINED then c
    else if rd m (p + 6) ≠ AF_VERSION_02_00 then c
    else
      let bInterfaceCount := rd m (p + 3)
      if bInterfaceCount = 0 then c
      else
        let numStreamInterfaces := bInterfaceCount - 1
        let bFirstInterface := rd m (p + 2)
        { c with
          numStreamInterfaces := some numStreamInterfaces
          streamInterfaceNumbers := some ((List.range numStreamInterfaces).map (fun k =>
            OSNumber_withNumber (bFirstInterface + (k + 1)) 8)) }

/-- The method `DJM03ControlDictionary::parseACInterruptEndpointDescriptor`: returns the new
cursor and the control dictionary.  It has no access to `parsedLength`. -/
def parseACInterruptEndpointDescriptor (m : List Nat) (theInterfacePtr : Nat)
    (c : DJM03ControlDictionary) : Nat × DJM03ControlDictionary :=
  if rd m theInterfacePtr = 0 then (theInterfacePtr, c)
  else if rd m (theInterfacePtr + 1) = ENDPOINT then
    if kInterruptType = (rd m (theInterfacePtr + 3) &&& kInterruptType) then
      let thisEndpoint : DJM03EndpointDictionary :=
        { address := some (rd m (theInterfacePtr + 2))
          attributes := some (rd m (theInterfacePtr + 3))
          maxPacketSize := some (rd16 m (theInterfacePtr + 4))
          interval := some (rd m (theInterfacePtr + 6)) }
      (theInterfacePtr + rd m theInterfacePtr, { c with endpoints := c.endpoints ++ [thisEndpoint] })
    else (theInterfacePtr, c)
  else (theInterfacePtr, c)

/-! ## `DJM03StreamDictionary` -/

/-- The method `DJM03StreamDictionary::addSampleRate`: append to the sample-rate array. -/
def DJM03StreamDictionary.addSampleRate (s : DJM03StreamDictionary) (sampleRate : Nat) :
    DJM03StreamDictionary :=
  { s with sampleRates := s.sampleRates ++ [OSNumber_withNumber sampleRate 32] }

/-- The two sample-rate loops of a FORMAT_TYPE record: `numSampleFreqs` discrete rates of
three bytes each from offset `p`, or the two bounds of a range when `numSampleFreqs = 0`. -/
def addSampleRates (m : List Nat) (p numSampleFreqs : Nat) (s : DJM03StreamDictionary) :
    DJM03StreamDictionary :=
  if numSampleFreqs ≠ 0 then
    (List.range numSampleFreqs).foldl (fun s sampleRateIndex =>
      s.addSampleRate (ConvertSampleFreq m (p + sampleRateIndex * kBytesPerSampleFrequency))) s
  else
    (List.range 2).foldl (fun s sampleRateIndex =>
      s.addSampleRate (ConvertSampleFreq m (p + sampleRateIndex * 3))) s

/-- The method `DJM03EndpointDictionary::isIsocStreaming`. -/
def DJM03EndpointDictionary.isIsocStreaming (e : DJM03EndpointDictionary) : Bool :=
  match e.attributes with
  | none => false
  | some attributes =>
    (0x1 == (0x1 &&& attributes)) && (0 != ((attributes >>> 2) &&& 0x3))
      && (0x1 != ((attributes >>> 4) &&& 0x3))

/-- The method `DJM03EndpointDictionary::isIsocFeedback`. -/
def DJM03EndpointDictionary.isIsocFeedback (e : DJM03EndpointDictionary) : Bool :=
  match e.attributes with
  | none => false
  | some attributes =>
    (0x1 == (0x1 &&& attributes)) && (0 == ((attributes >>> 2) &&& 0x3))
      && (0x1 == ((attributes >>> 4) &&& 0x3))

/-- One pass through the body of the `while` loop of `parseASInterfaceDescriptor` (UAC 1.0)
for the record at offset `p`: the stream dictionary after the record, and whether the cursor
advances past the record (`false` for an INTERFACE record, which sets `done`). -/
def parseASRecord (m : List Nat) (p : Nat) (s : DJM03StreamDictionary) :
    DJM03StreamDictionary × Bool :=
  if rd m (p + 1) = CS_INTERFACE then
    let subtype := rd m (p + 2)
    if subtype = AS_GENERAL then
      let formatTag := (rd m (p + 6) <<< 8) ||| rd m (p + 5)
      ({ s with
          terminalLink := some (rd m (p + 3))
          delay := some (rd m (p + 4))
          formatTag := some formatTag }, true)
    else if subtype = FORMAT_TYPE then
      let bFormatType := rd m (p + 3)
      if bFormatType = FORMAT_TYPE_I ∨ bFormatType = FORMAT_TYPE_III then
        let numSampleFreqs := rd m (p + 7)
        let s1 := { s with
          numChannels := some (rd m (p + 4))
          subframeSize := some (rd m (p + 5))
          bitResolution := some (rd m (p + 6))
          numSampleRates := some numSampleFreqs }
        (addSampleRates m (p + 8) numSampleFreqs s1, true)
      else if bFormatType = FORMAT_TYPE_II then
        let numSampleFreqs := rd m (p + 8)
        let s1 := { s with
          maxBitRate := some (rd16 m (p + 4))
          samplesPerFrame := some (rd16 m (p + 6))
          numSampleRates := some numSampleFreqs }
        (addSampleRates m (p + 9) numSampleFreqs s1, true)
      else (s, true)
    else if subtype = FORMAT_SPECIFIC then
      let formatTag := (rd m (p + 4) <<< 8) ||| rd m (p + 3)
      if formatTag = MPEG then
        ({ s with
            mpegCapabilities := some ((rd m (p + 6) <<< 8) ||| rd m (p + 5))
            mpegFeatures := some (rd m (p + 7)) }, true)
      else if formatTag = AC3 then
        ({ s with
            ac3BSID := some ((rd m (p + 8) <<< 24) ||| (rd m (p + 7) <<< 16)
              ||| (rd m (p + 6) <<< 8) ||| rd m (p + 5))
            ac3Features := some (rd m (p + 9)) }, true)
      else (s, true)
    else (s, true)
  else
    let bDescriptorType := rd m (p + 1)
    if bDescriptorType = INTERFACE then (s, false)
    else if bDescriptorType = ENDPOINT then
      let thisEndpoint : DJM03EndpointDictionary :=
        { address := some (rd m (p + 2))
          attributes := some (rd m (p + 3))
          maxPacketSize := some (rd16 m (p + 4))
          refreshInt := some (rd m (p + 7))
          synchAddress := some (rd m (p + 8)) }
      ({ s with endpoints := s.endpoints ++ [thisEndpoint] }, true)
    else if bDescriptorType = CS_ENDPOINT then
      if EP_GENERAL = rd m (p + 2) then
        let bmAttributes := rd m (p + 3)
        let asIsocEndpoint : AUAASEndpointDictionary :=
          { hasSampleFreqControl := (bmAttributes &&& (1 <<< sampleFreqControlBit)) != 0
            hasPitchControl := (bmAttributes &&& (1 <<< pitchControlBit)) != 0
            hasMaxPacketsOnly := (bmAttributes &&& (1 <<< maxPacketsOnlyBit)) != 0
            lockDelayUnits := rd m (p + 4)
            lockDelay := rd16 m (p + 5) }
        ({ s with asIsocEndpoint := some asIsocEndpoint }, true)
      else (s, true)
    else (s, true)

/-- The `while` loop of `parseASInterfaceDescriptor`: cursor, `*parsedLength` and the stream
dictionary.  `none` only when the fuel runs out. -/
def parseASInterfaceDescriptor_loop (m : List Nat) (totalLength : Nat) :
    Nat → Nat → Nat → DJM03StreamDictionary → Option (Nat × Nat × DJM03StreamDictionary)
  | fuel, theInterfacePtr, parsedLength, s =>
    if rd m theInterfacePtr > 0 ∧ parsedLength ≤ totalLength then
      match fuel with
      | 0 => none
      | fuel + 1 =>
        match parseASRecord m theInterfacePtr s with
        | (s1, false) => some (theInterfacePtr, parsedLength, s1)
        | (s1, true) =>
          let next := theInterfacePtr + rd m theInterfacePtr
          parseASInterfaceDescriptor_loop m totalLength fuel next
            ((parsedLength + rd m next) % 65536) s1
    else some (theInterfacePtr, parsedLength, s)

/-- The method `DJM03StreamDictionary::parseASInterfaceDescriptor` (UAC 1.0). -/
def parseASInterfaceDescriptor (m : List Nat) (fuel theInterfacePtr parsedLength
    totalLength : Nat) (s : DJM03StreamDictionary) :
    Option (Nat × Nat × DJM03StreamDictionary) :=
  if rd m theInterfacePtr = 0 then some (theInterfacePtr, parsedLength, s)
  else parseASInterfaceDescriptor_loop m totalLength fuel theInterfacePtr parsedLength s

/-- The reduction of the UAC2 `bmFormats` bitmap to a pseudo format tag in the AS_GENERAL
case of `parseASInterfaceDescriptor_0200`. -/
def pseudoFormatTag (bFormatType formats : Nat) : Nat :=
  if bFormatType = FORMAT_TYPE_I then
    if formats &&& PCM_0200 ≠ 0 then PCM
    else if formats &&& PCM8_0200 ≠ 0 then PCM8
    else if formats &&& IEEE_FLOAT_0200 ≠ 0 then IEEE_FLOAT
    else if formats &&& ALAW_0200 ≠ 0 then ALAW
    else TYPE_I_UNDEFINED
  else if bFormatType = FORMAT_TYPE_II then
    if formats &&& MPEG_0200 ≠ 0 then MPEG
    else if formats &&& AC3_0200 ≠ 0 then AC3
    else TYPE_II_UNDEFINED
  else if bFormatType = FORMAT_TYPE_III then
    if formats &&& IEC61937_AC3_0200 ≠ 0 then IEC1937_AC3
    else if formats &&& IEC1937_MPEG1_Layer1_0200 ≠ 0 then IEC1937_MPEG1_Layer1
    else if formats &&& IEC1937_MPEG1_Layer2or3_0200 ≠ 0 then IEC1937_MPEG1_Layer2or3
    else if formats &&& IEC61937_MPEG2_EXT_0200 ≠ 0 then IEC1937_MPEG2_EXT
    else if formats &&& IEC1937_MPEG2_Layer1_LS_0200 ≠ 0 then IEC1937_MPEG2_Layer1_LS
    else if formats &&& IEC1937_MPEG2_Layer2or3_LS_0200 ≠ 0 then IEC1937_MPEG2_Layer2or3_LS
    else TYPE_III_UNDEFINED
  else 0

/-- The locals of `parseASInterfaceDescriptor_0200` that live across records: the stream
dictionary and the data and feedback endpoints seen so far (indices into its endpoint
array). -/
structure ASState_0200 where
  s : DJM03StreamDictionary
  dataEndpoint : Option Nat := none
  feedbackEndpoint : Option Nat := none
  deriving DecidableEq, Repr

/-- The ENDPOINT case of `parseASInterfaceDescriptor_0200` for the record at offset `p`. -/
def parseASEndpoint_0200 (m : List Nat) (p : Nat) (st : ASState_0200) : ASState_0200 :=
  let maxPacketSize := rd16 m (p + 4)
  let numTransactions := ((maxPacketSize &&& kTransactionsPerMicroframe_Mask) >>> 11) + 1
  let thisEndpoint : DJM03EndpointDictionary :=
    { address := some (rd m (p + 2))
      attributes := some (rd m (p + 3))
      maxPacketSize := some (((maxPacketSize &&& kMaxPacketSize_Mask) * numTransactions) % 65536)
      interval := some (rd m (p + 6)) }
  let index := st.s.endpoints.length
  let st1 : ASState_0200 :=
    if thisEndpoint.isIsocStreaming then
      { st with s := { st.s with endpoints := st.s.endpoints ++ [thisEndpoint] }
                dataEndpoint := some index }
    else if thisEndpoint.isIsocFeedback then
      let thisEndpoint := { thisEndpoint with
        refreshInt := some (toUInt8 ((rd m (p + 6) : Int) - 1 - 3)) }
      { st with s := { st.s with endpoints := st.s.endpoints ++ [thisEndpoint] }
                feedbackEndpoint := some index }
    else { st with s := { st.s with endpoints := st.s.endpoints ++ [thisEndpoint] } }
  match st1.feedbackEndpoint, st1.dataEndpoint with
  | some f, some d =>
    match (st1.s.endpoints.get? f).bind (fun e => e.address), st1.s.endpoints.get? d with
    | some endpointAddress, some dataE =>
      { st1 with s := { st1.s with
          endpoints := st1.s.endpoints.set d { dataE with synchAddress := some endpointAddress } } }
    | _, _ => st1
  | _, _ => st1

/-- One pass through the body of the `while` loop of `parseASInterfaceDescriptor_0200` for
the record at offset `p`; the flag is `false` for an INTERFACE record (`done`). -/
def parseASRecord_0200 (m : List Nat) (p : Nat) (st : ASState_0200) : ASState_0200 × Bool :=
  let s := st.s
  if rd m (p + 1) = CS_INTERFACE then
    let subtype := rd m (p + 2)
    if subtype = AS_GENERAL then
      let formats := rd32 m (p + 6)
      ({ st with s := { s with
          terminalLink := some (rd m (p + 3))
          formats := some formats
          formatTag := some (pseudoFormatTag (rd m (p + 5)) formats)
          numChannels := some (rd m (p + 10)) } }, true)
    else if subtype = FORMAT_TYPE then
      let bFormatType := rd m (p + 3)
      if bFormatType = FORMAT_TYPE_I ∨ bFormatType = FORMAT_TYPE_III then
        ({ st with s := { s with
            subframeSize := some (rd m (p + 4))
            bitResolution := some (rd m (p + 5)) } }, true)
      else if bFormatType = FORMAT_TYPE_II then
        ({ st with s := { s with
            maxBitRate := some (rd16 m (p + 4))
            samplesPerFrame := some (rd16 m (p + 6)) } }, true)
      else (st, true)
    else if subtype = ENCODER then (st, true)
    else if subtype = DECODER then
      let bDecoder := rd m (p + 4)
      if bDecoder = MPEG_DECODER then
        ({ st with s := { s with
            mpegCapabilities := some ((rd m (p + 6) <<< 8) ||| rd m (p + 5))
            mpegFeatures := some (rd m (p + 7)) } }, true)
      else if bDecoder = AC3_DECODER then
        ({ st with s := { s with
            ac3BSID := some ((rd m (p + 8) <<< 24) ||| (rd m (p + 7) <<< 16)
              ||| (rd m (p + 6) <<< 8) ||| rd m (p + 5))
            ac3Features := some (rd m (p + 9)) } }, true)
      else (st, true)
    else (st, true)
  else
    let bDescriptorType := rd m (p + 1)
    if bDescriptorType = INTERFACE then (st, false)
    else if bDescriptorType = ENDPOINT then (parseASEndpoint_0200 m p st, true)
    else if bDescriptorType = CS_ENDPOINT then
      if EP_GENERAL = rd m (p + 2) then
        let asIsocEndpoint : AUAASEndpointDictionary :=
          { hasSampleFreqControl := false
            hasPitchControl := (rd m (p + 4) &&& 0x3) == 0x3
            hasMaxPacketsOnly := (rd m (p + 3) &&& (1 <<< maxPacketsOnlyBit)) != 0
            lockDelayUnits := rd m (p + 5)
            lockDelay := rd16 m (p + 6) }
        ({ st with s := { s with asIsocEndpoint := some asIsocEndpoint } }, true)
      else (st, true)
    else (st, true)

/-- The `while` loop of `parseASInterfaceDescriptor_0200`.  `none` only when the fuel runs
out. -/
def parseASInterfaceDescriptor_0200_loop (m : List Nat) (totalLength : Nat) :
    Nat → Nat → Nat → ASState_0200 → Option (Nat × Nat × DJM03StreamDictionary)
  | fuel, theInterfacePtr, parsedLength, st =>
    if rd m theInterfacePtr > 0 ∧ parsedLength ≤ totalLength then
      match fuel with
      | 0 => none
      | fuel + 1 =>
        match parseASRecord_0200 m theInterfacePtr st with
        | (st1, false) => some (theInterfacePtr, parsedLength, st1.s)
        | (st1, true) =>
          let next := theInterfacePtr + rd m theInterfacePtr
          parseASInterfaceDescriptor_0200_loop m totalLength fuel next
            ((parsedLength + rd m next) % 65536) st1
    else some (theInterfacePtr, parsedLength, st.s)

/-- The method `DJM03StreamDictionary::parseASInterfaceDescriptor_0200` (UAC 2.0). -/
def parseASInterfaceDescriptor_0200 (m : List Nat) (fuel theInterfacePtr parsedLength
    totalLength : Nat) (s : DJM03StreamDictionary) :
    Option (Nat × Nat × DJM03StreamDictionary) :=
  if rd m theInterfacePtr = 0 then some (theInterfacePtr, parsedLength, s)
  else parseASInterfaceDescriptor_0200_loop m totalLength fuel theInterfacePtr parsedLength
    { s := s }

/-! ## `DJM03ConfigurationDictionary`: the descriptor walk -/

/-- The method `DJM03ConfigurationDictionary::getControlledStreamNumbers`: the return code,
the stream-interface-number array of the first control dictionary (`none` = `NULL`) and
its stored number of stream interfaces. -/
def getControlledStreamNumbers (cfg : DJM03ConfigurationDictionary) :
    IOReturn × Option (List Nat) × Nat :=
  match cfg.controlDictionaries.head? with
  | none => (.kIOReturnError, none, 0)
  | some thisControl =>
    match thisControl.streamInterfaceNumbers with
    | none => (.kIOReturnError, none, 0)
    | some controlledStreams =>
      match thisControl.numStreamInterfaces with
      | none => (.kIOReturnError, some controlledStreams, 0)
      | some numControlledStreams => (.kIOReturnSuccess, some controlledStreams, numControlledStreams)

/-- The method `DJM03ConfigurationDictionary::parseInterfaceDescriptor` for the interface
record at `theInterfacePtr`: the new cursor, the dictionary, and the out-parameters
`interfaceClass`, `interfaceSubClass`, `interfaceProtocol` (given back unchanged when the
`FailIf` on `bLength` fires).  The structure field the source calls `bDescriptorSubtype` is
the byte at offset 2, the interface number. -/
def parseInterfaceDescriptor (m : List Nat) (cfg : DJM03ConfigurationDictionary)
    (theInterfacePtr interfaceClass interfaceSubClass interfaceProtocol : Nat) :
    Nat × DJM03ConfigurationDictionary × Nat × Nat × Nat :=
  let p := theInterfacePtr
  if rd m p = 0 then (p, cfg, interfaceClass, interfaceSubClass, interfaceProtocol)
  else
    let cfg1 : DJM03ConfigurationDictionary :=
      if AUDIOCONTROL = rd m (p + 6) then
        if cfg.controlInterfaceNum = rd m (p + 2) then
          let controlDictionary : DJM03ControlDictionary :=
            { interfaceNumber := rd m (p + 2)
              alternateSetting := rd m (p + 3)
              numEndpoints := rd m (p + 4)
              interfaceClass := rd m (p + 5)
              interfaceSubClass := rd m (p + 6)
              interfaceProtocol := rd m (p + 7) }
          { cfg with controlDictionaries := cfg.controlDictionaries ++ [controlDictionary] }
        else cfg
      else if AUDIOSTREAMING = rd m (p + 6) then
        let streamDictionary : DJM03StreamDictionary :=
          { interfaceNumber := rd m (p + 2)
            alternateSetting := rd m (p + 3)
            numEndpoints := rd m (p + 4)
            interfaceClass := rd m (p + 5)
            interfaceSubClass := rd m (p + 6)
            interfaceProtocol := rd m (p + 7) }
        { cfg with streamDictionaries := cfg.streamDictionaries ++ [streamDictionary] }
      else cfg
    (p + rd m p, cfg1, rd m (p + 5), rd m (p + 6), rd m (p + 7))

/-- The `for` loop of the AUDIOSTREAMING branch over the indices `0 .. numStreamInterfaces-1`
of the stream-interface-number array: `none` when `getObject` gives `NULL` (the `FailIf`
leaves the function), otherwise whether `thisInterfaceNumber` was found. -/
def findStreamInterface (streamInterfaceNumbers : List Nat) (thisInterfaceNumber : Nat) :
    List Nat → Option Bool
  | [] => some false
  | streamInterfaceIndex :: rest =>
    match streamInterfaceNumbers.get? streamInterfaceIndex with
    | none => none
    | some streamInterfaceNumber =>
      if thisInterfaceNumber = streamInterfaceNumber % 256 then some true
      else findStreamInterface streamInterfaceNumbers thisInterfaceNumber rest

/-- The `for` loop of the MIDISTREAMING branch: removes the entries equal to
`thisInterfaceNumber` while the index runs over `0 .. numStreamInterfaces-1`.  The flag is
`false` when `getObject` gives `NULL` and the `FailIf` leaves the function; the removals
made before stay. -/
def pruneStreamInterface (thisInterfaceNumber : Nat) : List Nat → List Nat → List Nat × Bool
  | [], streamInterfaceNumbers => (streamInterfaceNumbers, true)
  | streamInterfaceIndex :: rest, streamInterfaceNumbers =>
    match streamInterfaceNumbers.get? streamInterfaceIndex with
    | none => (streamInterfaceNumbers, false)
    | some streamInterfaceNumber =>
      if thisInterfaceNumber = streamInterfaceNumber % 256 then
        pruneStreamInterface thisInterfaceNumber rest
          (streamInterfaceNumbers.eraseIdx streamInterfaceIndex)
      else pruneStreamInterface thisInterfaceNumber rest streamInterfaceNumbers

/-- The dictionary with its last control dictionary replaced (the object the local pointer
`controlDictionary` refers to is the last element of the array). -/
def setLastControl (cfg : DJM03ConfigurationDictionary) (c : DJM03ControlDictionary) :
    DJM03ConfigurationDictionary :=
  { cfg with controlDictionaries := cfg.controlDictionaries.dropLast ++ [c] }

/-- The dictionary with its last stream dictionary replaced. -/
def setLastStream (cfg : DJM03ConfigurationDictionary) (s : DJM03StreamDictionary) :
    DJM03ConfigurationDictionary :=
  { cfg with streamDictionaries := cfg.streamDictionaries.dropLast ++ [s] }

/-- The dictionary with the stream-interface-number array of its first control dictionary
replaced (the array the local pointer `streamInterfaceNumbers` refers to). -/
def setFirstStreamInterfaceNumbers (cfg : DJM03ConfigurationDictionary) (a : List Nat) :
    DJM03ConfigurationDictionary :=
  match cfg.controlDictionaries with
  | [] => cfg
  | c :: cs => { cfg with controlDictionaries := { c with streamInterfaceNumbers := some a } :: cs }

/-- The local variables of `parseConfigurationDescriptor` that live across iterations of its
`while` loop, together with the dictionary (`this`).  `controlDictionary` records whether
the local pointer of that name is non-`NULL`. -/
structure WalkState where
  cfg : DJM03ConfigurationDictionary
  result : IOReturn
  theInterfacePtr : Nat
  theInterfaceAssociationPtr : Option Nat
  controlDictionary : Bool
  numStreamInterfaces : Nat
  lastInterfaceNumber : Nat
  numParsedInterfaces : Nat
  parsedLength : Nat
  haveControlInterface : Bool
  foundStreamInterface : Bool
  deriving DecidableEq, Repr

/-- How one iteration of the `while` loop of `parseConfigurationDescriptor` ends. -/
inductive Step where
  | next (w : WalkState)
  | breakOut (w : WalkState)
  | failExit (w : WalkState)
  | outOfFuel
  deriving DecidableEq, Repr

/-- The step `theInterfacePtr += theInterfacePtr->bLength; parsedLength += (new) bLength`. -/
def WalkState.skip (m : List Nat) (w : WalkState) : WalkState :=
  let next := w.theInterfacePtr + rd m w.theInterfacePtr
  { w with theInterfacePtr := next, parsedLength := (w.parsedLength + rd m next) % 65536 }

/-- The part of the AUDIOCONTROL branch shared by both protocol versions once the control
body has been parsed into `c` (the last control dictionary): `getControlledStreamNumbers`,
then the optional status interrupt endpoint. -/
def afterControlBody (m : List Nat) (w : WalkState) (ptr parsedLength : Nat)
    (c : DJM03ControlDictionary) : Step :=
  let cfg := setLastControl w.cfg c
  match getControlledStreamNumbers cfg with
  | (.kIOReturnError, _, _) =>
    .failExit { w with cfg := cfg, result := .kIOReturnError, theInterfacePtr := ptr,
                       parsedLength := parsedLength, numStreamInterfaces := 0 }
  | (.kIOReturnSuccess, _, numStreamInterfaces) =>
    let w1 := { w with cfg := cfg, result := .kIOReturnSuccess, theInterfacePtr := ptr,
                       parsedLength := parsedLength, numStreamInterfaces := numStreamInterfaces,
                       haveControlInterface := true }
    if 1 = c.numEndpoints then
      let (ptr1, c1) := parseACInterruptEndpointDescriptor m ptr c
      .next { w1 with cfg := setLastControl cfg c1, theInterfacePtr := ptr1 }
    else .next w1

/-- The requested AUDIOCONTROL branch of the loop body, entered with the state `w` that
follows `parseInterfaceDescriptor` (cursor on the record after the interface record). -/
def audioControlBranch (m : List Nat) (totalLength interfaceProtocol : Nat) (w : WalkState) :
    Step :=
  match w.cfg.controlDictionaries.getLast? with
  | none => .failExit w
  | some controlDictionary =>
    let w1 := { w with controlDictionary := true }
    if INTERFACE_PROTOCOL_UNDEFINED = interfaceProtocol then
      match parseACInterfaceDescriptor m (m.length + 1) w1.theInterfacePtr w1.parsedLength
          totalLength controlDictionary with
      | none => .outOfFuel
      | some (ptr, parsedLength, c) => afterControlBody m w1 ptr parsedLength c
    else if IP_VERSION_02_00 = interfaceProtocol then
      match parseACInterfaceDescriptor_0200 m (m.length + 1) w1.theInterfacePtr w1.parsedLength
          totalLength controlDictionary with
      | none => .outOfFuel
      | some (ptr, parsedLength, c) =>
        afterControlBody m w1 ptr parsedLength
          (parseInterfaceAssociationDescriptor m w1.theInterfaceAssociationPtr c)
    else .breakOut w1

/-- The dispatch of a listed streaming interface to the sub-parser of its protocol version
(the body of `if (thisInterfaceNumber == ...)` in the AUDIOSTREAMING branch). -/
def dispatchStream (m : List Nat) (totalLength interfaceProtocol : Nat) (w : WalkState) : Step :=
  match w.cfg.streamDictionaries.getLast? with
  | none => .failExit w
  | some streamDictionary =>
    if INTERFACE_PROTOCOL_UNDEFINED = interfaceProtocol then
      match parseASInterfaceDescriptor m (m.length + 1) w.theInterfacePtr w.parsedLength
          totalLength streamDictionary with
      | none => .outOfFuel
      | some (ptr, parsedLength, s) =>
        .next { w with cfg := setLastStream w.cfg s, theInterfacePtr := ptr,
                       parsedLength := parsedLength, foundStreamInterface := true }
    else if IP_VERSION_02_00 = interfaceProtocol then
      match parseASInterfaceDescriptor_0200 m (m.length + 1) w.theInterfacePtr w.parsedLength
          totalLength streamDictionary with
      | none => .outOfFuel
      | some (ptr, parsedLength, s) =>
        .next { w with cfg := setLastStream w.cfg s, theInterfacePtr := ptr,
                       parsedLength := parsedLength, foundStreamInterface := true }
    else .next { w with foundStreamInterface := true }

/-- The end of the AUDIOSTREAMING branch: a new interface number counts as one more parsed
interface, and the loop is left once more interface numbers were seen than the control
interface lists. -/
def countInterface (thisInterfaceNumber : Nat) (w : WalkState) : Step :=
  if thisInterfaceNumber ≠ w.lastInterfaceNumber then
    let w1 := { w with lastInterfaceNumber := thisInterfaceNumber,
                       numParsedInterfaces := (w.numParsedInterfaces + 1) % 256 }
    if w1.numParsedInterfaces > w1.numStreamInterfaces then .breakOut w1 else .next w1
  else .next w

/-- The AUDIOSTREAMING branch of the loop body, entered with the state `w` that follows
`parseInterfaceDescriptor`. -/
def audioStreamingBranch (m : List Nat) (totalLength thisInterfaceNumber
    interfaceProtocol : Nat) (w : WalkState) : Step :=
  match getControlledStreamNumbers w.cfg with
  | (.kIOReturnError, _, _) => .failExit { w with result := .kIOReturnError, numStreamInterfaces := 0 }
  | (.kIOReturnSuccess, none, _) => .failExit { w with result := .kIOReturnError }
  | (.kIOReturnSuccess, some streamInterfaceNumbers, numStreamInterfaces) =>
    let w1 := { w with result := .kIOReturnSuccess, numStreamInterfaces := numStreamInterfaces }
    match findStreamInterface streamInterfaceNumbers thisInterfaceNumber
        (List.range numStreamInterfaces) with
    | none => .failExit w1
    | some found =>
      match (if found then dispatchStream m totalLength interfaceProtocol w1 else .next w1) with
      | .next w2 => countInterface thisInterfaceNumber w2
      | other => other

/-- The MIDISTREAMING branch of the loop body: the interface number is pruned from the
stream-interface-number array, then the record at the cursor is skipped. -/
def midiStreamingBranch (m : List Nat) (thisInterfaceNumber : Nat) (w : WalkState) : Step :=
  if w.numStreamInterfaces = 0 then .next (w.skip m)
  else
    match (w.cfg.controlDictionaries.head?).bind (fun c => c.streamInterfaceNumbers) with
    | none => .failExit w
    | some streamInterfaceNumbers =>
      match pruneStreamInterface thisInterfaceNumber (List.range w.numStreamInterfaces)
          streamInterfaceNumbers with
      | (a, true) => .next ({ w with cfg := setFirstStreamInterfaceNumbers w.cfg a }.skip m)
      | (a, false) => .failExit { w with cfg := setFirstStreamInterfaceNumbers w.cfg a }

/-- The branch of the loop body for an AUDIOCONTROL interface that is not the requested one:
the cursor moves from the class-specific header by the header's `wTotalLength`. -/
def otherControlBranch (m : List Nat) (interfaceProtocol : Nat) (w : WalkState) : Step :=
  let ptr := w.theInterfacePtr
  if INTERFACE_PROTOCOL_UNDEFINED = interfaceProtocol then
    let wTotalLength := (rd m (ptr + 6) <<< 8) ||| rd m (ptr + 5)
    let parsedLength := toUInt16 ((w.parsedLength : Int) - (rd m ptr : Int) + wTotalLength)
    let next := ptr + wTotalLength
    .next { w with theInterfacePtr := next, parsedLength := (parsedLength + rd m next) % 65536 }
  else if IP_VERSION_02_00 = interfaceProtocol then
    let wTotalLength := rd16 m (ptr + 6)
    let parsedLength := toUInt16 ((w.parsedLength : Int) - (rd m ptr : Int) + wTotalLength)
    let next := ptr + wTotalLength
    .next { w with theInterfacePtr := next, parsedLength := (parsedLength + rd m next) % 65536 }
  else .breakOut w

/-- The body of the `while` loop of `parseConfigurationDescriptor` for the record at the
cursor of `w`.  The loops of the sub-parsers get the fuel `m.length + 1`: each of their
iterations moves the cursor forward, and a cursor behind the last byte reads
`bLength = 0`. -/
def loopBody (m : List Nat) (totalLength : Nat) (w : WalkState) : Step :=
  let p := w.theInterfacePtr
  if INTERFACE_ASSOCIATION = rd m (p + 1) then
    let w1 :=
      if rd m (p + 4) = AUDIO_FUNCTION ∧ rd m (p + 5) = FUNCTION_SUBCLASS_UNDEFINED
          ∧ rd m (p + 6) = AF_VERSION_02_00 then
        { w with theInterfaceAssociationPtr := some p }
      else w
    .next (w1.skip m)
  else if INTERFACE = rd m (p + 1) then
    let thisInterfaceNumber := rd m (p + 2)
    if AUDIO = rd m (p + 5) then
      let (ptr, cfg, _, interfaceSubClass, interfaceProtocol) :=
        parseInterfaceDescriptor m w.cfg p 0 0 0
      let w1 := { w with cfg := cfg, theInterfacePtr := ptr,
                         parsedLength := (w.parsedLength + rd m ptr) % 65536 }
      if AUDIOCONTROL = interfaceSubClass ∧ cfg.controlInterfaceNum = thisInterfaceNumber then
        audioControlBranch m totalLength interfaceProtocol w1
      else if w1.haveControlInterface ∧ AUDIOSTREAMING = interfaceSubClass then
        audioStreamingBranch m totalLength thisInterfaceNumber interfaceProtocol w1
      else if MIDISTREAMING = interfaceSubClass then
        midiStreamingBranch m thisInterfaceNumber w1
      else if AUDIOCONTROL = interfaceSubClass then
        otherControlBranch m interfaceProtocol w1
      else .next (w1.skip m)
    else .next (w.skip m)
  else .next (w.skip m)

/-- How the walk of `parseConfigurationDescriptor` ended: the loop condition became false,
a `break` left the loop, a `FailIf` jumped to `Exit`, or the fuel of the model ran out. -/
inductive Ending where
  | loopEnd
  | breakOut
  | failExit
  | outOfFuel
  deriving DecidableEq, Repr

/-- The `while` loop of `parseConfigurationDescriptor`. -/
def parseLoop (m : List Nat) (totalLength : Nat) : Nat → WalkState → Ending × WalkState
  | fuel, w =>
    if rd m w.theInterfacePtr ≠ 0 ∧ w.parsedLength ≤ totalLength then
      match fuel with
      | 0 => (.outOfFuel, w)
      | fuel + 1 =>
        match loopBody m totalLength w with
        | .next w1 => parseLoop m totalLength fuel w1
        | .breakOut w1 => (.breakOut, w1)
        | .failExit w1 => (.failExit, w1)
        | .outOfFuel => (.outOfFuel, w)
    else (.loopEnd, w)

/-- What `parseConfigurationDescriptor` leaves behind: its return value, the dictionary,
the last values of the cursor, of `parsedLength`, of `controlDictionary` (whether the
pointer is non-`NULL`) and of `foundStreamInterface`, and how the walk ended. -/
structure ParseResult where
  result : IOReturn
  cfg : DJM03ConfigurationDictionary
  theInterfacePtr : Nat
  parsedLength : Nat
  controlDictionary : Bool
  foundStreamInterface : Bool
  ending : Ending
  deriving DecidableEq, Repr

/-- The state in which `parseConfigurationDescriptor` enters its `while` loop. -/
def initialState (m : List Nat) (cfg : DJM03ConfigurationDictionary) : WalkState :=
  { cfg := cfg
    result := .kIOReturnSuccess
    theInterfacePtr := rd m 0
    theInterfaceAssociationPtr := none
    controlDictionary := false
    numStreamInterfaces := 0
    lastInterfaceNumber := 0
    numParsedInterfaces := 0
    parsedLength := (rd m 0 + rd m (rd m 0)) % 65536
    haveControlInterface := false
    foundStreamInterface := false }

/-- The code of `parseConfigurationDescriptor` after its `while` loop: the control dictionary
parsed last is removed when no stream interface was dispatched, and the call succeeds.  A
`FailIf` jump skips it and returns the current `result`. -/
def finish (e : Ending) (w : WalkState) : ParseResult :=
  match e with
  | .failExit | .outOfFuel =>
    { result := w.result, cfg := w.cfg, theInterfacePtr := w.theInterfacePtr,
      parsedLength := w.parsedLength, controlDictionary := w.controlDictionary,
      foundStreamInterface := w.foundStreamInterface, ending := e }
  | .loopEnd | .breakOut =>
    let cfg :=
      if w.controlDictionary ∧ w.foundStreamInterface = false then
        { w.cfg with controlDictionaries := w.cfg.controlDictionaries.dropLast }
      else w.cfg
    { result := .kIOReturnSuccess, cfg := cfg, theInterfacePtr := w.theInterfacePtr,
      parsedLength := w.parsedLength, controlDictionary := w.controlDictionary,
      foundStreamInterface := w.foundStreamInterface, ending := e }

/-- The method `DJM03ConfigurationDictionary::parseConfigurationDescriptor`, applied to the
non-`NULL` descriptor `m`. -/
def parseConfigurationDescriptorWith (fuel : Nat) (m : List Nat)
    (cfg : DJM03ConfigurationDictionary) : ParseResult :=
  if rd m 0 = 0 then
    { result := .kIOReturnError, cfg := cfg, theInterfacePtr := 0, parsedLength := 0,
      controlDictionary := false, foundStreamInterface := false, ending := .failExit }
  else if CONFIGURATION ≠ rd m 1 then
    { result := .kIOReturnError, cfg := cfg, theInterfacePtr := 0, parsedLength := 0,
      controlDictionary := false, foundStreamInterface := false, ending := .failExit }
  else
    let totalLength := rd16 m 2
    if totalLength = 0 then
      { result := .kIOReturnSuccess, cfg := cfg, theInterfacePtr := 0, parsedLength := 0,
        controlDictionary := false, foundStreamInterface := false, ending := .failExit }
    else
      let (e, w) := parseLoop m totalLength fuel (initialState m cfg)
      finish e w

/-- The walk with the fuel the model always gives it: each iteration moves the cursor
forward and a cursor behind the last byte reads `bLength = 0`. -/
def parseConfigurationDescriptor (m : List Nat) (cfg : DJM03ConfigurationDictionary) :
    ParseResult :=
  parseConfigurationDescriptorWith (m.length + 1) m cfg

/-- The mutable copy `init` makes of the descriptor: `wTotalLength` bytes followed by a
zero byte. -/
def mutableDescriptor (newConfigurationDescriptor : List Nat) : List Nat :=
  (List.range (rd16 newConfigurationDescriptor 2)).map (fun i => rd newConfigurationDescriptor i)
    ++ [0]

/-- The method `DJM03ConfigurationDictionary::init`; `none` is the `NULL` descriptor.  The
second component is the dictionary as `init` leaves it. -/
def init (newConfigurationDescriptor : Option (List Nat)) (controlInterfaceNum : Nat) :
    Bool × DJM03ConfigurationDictionary :=
  let cfg : DJM03ConfigurationDictionary := { controlInterfaceNum := controlInterfaceNum % 256 }
  match newConfigurationDescriptor with
  | none => (false, cfg)
  | some d =>
    let r := parseConfigurationDescriptor (mutableDescriptor d) cfg
    if r.result = .kIOReturnSuccess then (true, r.cfg) else (false, r.cfg)

/-- The method `DJM03ConfigurationDictionary::create`: the dictionary, or `none` (`NULL`)
when `init` fails. -/
def create (newConfigurationDescriptor : Option (List Nat)) (controlInterfaceNum : Nat) :
    Option DJM03ConfigurationDictionary :=
  match newConfigurationDescriptor with
  | none => none
  | some d =>
    let r := init (some d) controlInterfaceNum
    if r.1 then some r.2 else none

/-- The method `DJM03ConfigurationDictionary::hasAudioStreamingInterfaces`. -/
def hasAudioStreamingInterfaces (cfg : DJM03ConfigurationDictionary) : Bool :=
  cfg.controlDictionaries.length != 0

/-! ## `DJM03ConfigurationDictionary`: queries -/

/-- The method `DJM03ConfigurationDictionary::getNumChannels`: the out-parameter is set to 8
whatever the interface and alternate setting. -/
def getNumChannels (_cfg : DJM03ConfigurationDictionary) (_interfaceNum _altSettingID : Nat) :
    IOReturn × Nat :=
  (.kIOReturnSuccess, 8)

/-- The file-scope array `sampleRates` as `getSampleRates` builds it on first use: 96000,
48000 and 44100, each an `OSNumber` of 24 bits. -/
def sampleRates : List Nat :=
  [OSNumber_withNumber 96000 24, OSNumber_withNumber 48000 24, OSNumber_withNumber 44100 24]

/-- The method `DJM03ConfigurationDictionary::getSampleRates`: the file-scope array. -/
def getSampleRates (_cfg : DJM03ConfigurationDictionary) (_interfaceNum _altSettingID : Nat) :
    List Nat :=
  sampleRates

/-- The method `DJM03ConfigurationDictionary::getNumSampleRates`: always 3. -/
def getNumSampleRates (_cfg : DJM03ConfigurationDictionary) (_interfaceNum _altSettingID : Nat) :
    IOReturn × Nat :=
  (.kIOReturnSuccess, 3)

/-- The discrete branch of `verifySampleRateIsSupported`: the `for` loop over the indices
`sampleRateIndex .. numSampleRates-1`, left through `Exit` when `getObject` gives `NULL`. -/
def verifyDiscrete (rates : List Nat) (numSampleRates verifyRate : Nat) : Nat → Nat → Bool
  | 0, _ => false
  | fuel + 1, sampleRateIndex =>
    if sampleRateIndex < numSampleRates then
      match rates.get? sampleRateIndex with
      | none => false
      | some sampleRateNumber =>
        if sampleRateNumber % 2 ^ 32 = verifyRate then true
        else verifyDiscrete rates numSampleRates verifyRate fuel (sampleRateIndex + 1)
    else false

/-- The method `DJM03ConfigurationDictionary::verifySampleRateIsSupported`.  The index of
the discrete loop is a `UInt8` below `numSampleRates <= 255`, so 256 steps exhaust it. -/
def verifySampleRateIsSupported (cfg : DJM03ConfigurationDictionary)
    (interfaceNum altSettingID verifyRate : Nat) : Bool :=
  let (_, numSampleRates) := getNumSampleRates cfg interfaceNum altSettingID
  let rates := getSampleRates cfg interfaceNum altSettingID
  if numSampleRates ≠ 0 then
    verifyDiscrete rates numSampleRates verifyRate 256 0
  else
    match rates.get? 0, rates.get? 1 with
    | some sampleRateNumber, some sampleRateNumberHigh =>
      decide (sampleRateNumber % 2 ^ 32 ≤ verifyRate ∧ sampleRateNumberHigh % 2 ^ 32 ≥ verifyRate)
    | _, _ => false

/-- The method `DJM03ConfigurationDictionary::getNumAltSettings`: the return code and the
`UInt8` count of stream dictionaries of the interface.  The loop index is a `UInt16`
compared with the array count, so the loop ends only when the array holds fewer than 65536
stream dictionaries; `none` stands for the loop that does not end. -/
def getNumAltSettings (cfg : DJM03ConfigurationDictionary) (interfaceNum : Nat) :
    Option (IOReturn × Nat) :=
  if cfg.streamDictionaries = [] then some (.kIOReturnError, 0)
  else if 65536 ≤ cfg.streamDictionaries.length then none
  else some (.kIOReturnSuccess,
    (cfg.streamDictionaries.filter (fun thisStream => thisStream.interfaceNumber == interfaceNum)).length
      % 256)

/-- The method `DJM03ConfigurationDictionary::getNextAltSettingWithNumChannels`: the return
code and the value left in `*altSettingID`.  The `for` loop visits the indices
`startingAltSettingID .. numAltSettings-1` in order and stops at the first one whose
`getNumChannels` equals the request. -/
def getNextAltSettingWithNumChannels (cfg : DJM03ConfigurationDictionary)
    (interfaceNum startingAltSettingID numChannelsRequested : Nat) : Option (IOReturn × Nat) :=
  match getNumAltSettings cfg interfaceNum with
  | none => none
  | some (.kIOReturnError, _) => some (.kIOReturnError, 0)
  | some (.kIOReturnSuccess, numAltSettings) =>
    match (List.range' startingAltSettingID (numAltSettings - startingAltSettingID)).find?
        (fun altSettingIndex =>
          numChannelsRequested == (getNumChannels cfg interfaceNum altSettingIndex).2) with
    | some altSettingIndex => some (.kIOReturnSuccess, altSettingIndex)
    | none => some (.kIOReturnError, 0)

/-- The method `DJM03ConfigurationDictionary::getAltSettingWithSettings`: the branch compiled
in (`#if 1`) sets `*altSettingID = 1` and succeeds. -/
def getAltSettingWithSettings (_cfg : DJM03ConfigurationDictionary)
    (_interfaceNum _numChannels _sampleSize _sampleRate : Nat) : IOReturn × Nat :=
  (.kIOReturnSuccess, 1)


/-! ## Notions used to state and prove the properties -/

/-- Zero or more steps of the shape every sub-parser loop takes: while the record at the
cursor has `bLength > 0` and `parsedLength <= totalLength`, move the cursor by that
`bLength` and add the `bLength` found at the new cursor to `parsedLength` (a `UInt16`). -/
inductive Skips (m : List Nat) (totalLength : Nat) : Nat → Nat → Nat → Nat → Prop where
  | refl (ptr parsedLength : Nat) : Skips m totalLength ptr parsedLength ptr parsedLength
  | step {ptr parsedLength ptr1 parsedLength1 : Nat} :
      rd m ptr > 0 → parsedLength ≤ totalLength →
      Skips m totalLength (ptr + rd m ptr) ((parsedLength + rd m (ptr + rd m ptr)) % 65536)
        ptr1 parsedLength1 →
      Skips m totalLength ptr parsedLength ptr1 parsedLength1


/-- The record at offset `p` is an INTERFACE record of class AUDIO and subclass
AUDIOCONTROL whose interface number is `n`. -/
def isControlInterfaceAt (m : List Nat) (n p : Nat) : Prop :=
  rd m (p + 1) = INTERFACE ∧ rd m (p + 5) = AUDIO ∧ rd m (p + 6) = AUDIOCONTROL ∧ rd m (p + 2) = n

instance (m : List Nat) (n p : Nat) : Decidable (isControlInterfaceAt m n p) := by
  unfold isControlInterfaceAt; infer_instance

/-- The record at offset `p` is an INTERFACE record of class AUDIO and subclass AUDIOCONTROL
whose interface number is not `n`, with one of the two supported protocols: the walk skips
its class-specific block, from the header at `p + bLength`, by the header's `wTotalLength`
(offset 5 of a UAC1 header, offset 6 of a UAC2 header).  `skipTarget` is where it lands. -/
def isOtherControlAt (m : List Nat) (n p : Nat) : Prop :=
  rd m (p + 1) = INTERFACE ∧ rd m (p + 5) = AUDIO ∧ rd m (p + 6) = AUDIOCONTROL ∧ rd m (p + 2) ≠ n
    ∧ (rd m (p + 7) = INTERFACE_PROTOCOL_UNDEFINED ∨ rd m (p + 7) = IP_VERSION_02_00)

instance (m : List Nat) (n p : Nat) : Decidable (isOtherControlAt m n p) := by
  unfold isOtherControlAt; infer_instance

/-- The `wTotalLength` field the walk reads in the header at offset `h`, for the protocol
byte `interfaceProtocol` of the interface record before it. -/
def headerTotalLength (m : List Nat) (interfaceProtocol h : Nat) : Nat :=
  if INTERFACE_PROTOCOL_UNDEFINED = interfaceProtocol then (rd m (h + 6) <<< 8) ||| rd m (h + 5)
  else rd16 m (h + 6)

/-- Where the walk lands after skipping the class-specific block of the AUDIOCONTROL
interface record at offset `p`. -/
def skipTarget (m : List Nat) (p : Nat) : Nat :=
  p + rd m p + headerTotalLength m (rd m (p + 7)) (p + rd m p)

/-- The moves of the cursor and of `parsedLength` during the walk: `skip` moves the cursor
by the `bLength` under it and adds the `bLength` under the new cursor to `parsedLength`;
`interrupt` is the move of `parseACInterruptEndpointDescriptor` (cursor only), made for a
requested control interface record at `p0` that declares one endpoint; `otherControl` is the
jump over the class-specific block of another control interface, whose record is at `p0`. -/
inductive Moves (m : List Nat) (n : Nat) : Nat → Nat → Nat → Nat → Prop where
  | refl (ptr parsedLength : Nat) : Moves m n ptr parsedLength ptr parsedLength
  | skip {ptr parsedLength ptr1 parsedLength1 : Nat} :
      Moves m n (ptr + rd m ptr) ((parsedLength + rd m (ptr + rd m ptr)) % 65536)
        ptr1 parsedLength1 →
      Moves m n ptr parsedLength ptr1 parsedLength1
  | interrupt {ptr parsedLength ptr1 parsedLength1 : Nat} (p0 : Nat) :
      isControlInterfaceAt m n p0 → rd m (p0 + 4) = 1 →
      Moves m n (ptr + rd m ptr) parsedLength ptr1 parsedLength1 →
      Moves m n ptr parsedLength ptr1 parsedLength1
  | otherControl {ptr parsedLength ptr1 parsedLength1 : Nat} (p0 : Nat) :
      isOtherControlAt m n p0 → ptr = p0 + rd m p0 →
      Moves m n (skipTarget m p0)
        ((toUInt16 ((parsedLength : Int) - (rd m ptr : Int)
            + (headerTotalLength m (rd m (p0 + 7)) ptr : Int))
          + rd m (skipTarget m p0)) % 65536) ptr1 parsedLength1 →
      Moves m n ptr parsedLength ptr1 parsedLength1

/-- The state a step of the loop body ends in, whichever way it ends (`none` when the fuel
of a sub-parser ran out). -/
def Step.state? : Step → Option WalkState
  | .next w => some w
  | .breakOut w => some w
  | .failExit w => some w
  | .outOfFuel => none

/-- What a part of the loop body may do between the states `w` and `w1`: the requested
control interface number stays, the cursor and `parsedLength` change by `Moves`, the
number of control dictionaries stays, and the local pointer `controlDictionary` stays set
once it is set. -/
structure StepSpec (m : List Nat) (w w1 : WalkState) : Prop where
  ctl : w1.cfg.controlInterfaceNum = w.cfg.controlInterfaceNum
  moves : Moves m w.cfg.controlInterfaceNum w.theInterfacePtr w.parsedLength
    w1.theInterfacePtr w1.parsedLength
  count : w1.cfg.controlDictionaries.length = w.cfg.controlDictionaries.length
  flag : w.controlDictionary = true → w1.controlDictionary = true

/-- What one iteration of the loop body does between the states `w` and `w1`: the requested
control interface number stays; the cursor first skips the record under it and then changes
by `Moves`; and either the number of control dictionaries stays, or the record under the
cursor of `w` is a requested control interface record, one control dictionary is added and
the local pointer `controlDictionary` is set. -/
structure BodySpec (m : List Nat) (w w1 : WalkState) : Prop where
  ctl : w1.cfg.controlInterfaceNum = w.cfg.controlInterfaceNum
  moves : Moves m w.cfg.controlInterfaceNum (w.theInterfacePtr + rd m w.theInterfacePtr)
    ((w.parsedLength + rd m (w.theInterfacePtr + rd m w.theInterfacePtr)) % 65536)
    w1.theInterfacePtr w1.parsedLength
  count : (w1.cfg.controlDictionaries.length = w.cfg.controlDictionaries.length
        ∧ (w.controlDictionary = true → w1.controlDictionary = true))
      ∨ (isControlInterfaceAt m w.cfg.controlInterfaceNum w.theInterfacePtr
        ∧ w1.cfg.controlDictionaries.length = w.cfg.controlDictionaries.length + 1
        ∧ w1.controlDictionary = true)

/-- The records from offset `p` on tile the descriptor up to `total`: following the
`bLength` of each record, starting at `p`, arrives exactly at `total`. -/
inductive Tiles (m : List Nat) (total : Nat) : Nat → Prop where
  | done : Tiles m total total
  | step {p : Nat} : 0 < rd m p → Tiles m total (p + rd m p) → Tiles m total p

/-- The check of `Tiles` by following at most `fuel` records. -/
def tilesFrom (m : List Nat) (total : Nat) : Nat → Nat → Bool
  | 0, p => p == total
  | fuel + 1, p => p == total || (decide (0 < rd m p) && tilesFrom m total fuel (p + rd m p))

/-- The walk that enters its loop in the state `w` is, after zero or more complete
iterations, at the top of the loop in the state `w1`. -/
inductive Reaches (m : List Nat) (totalLength : Nat) : WalkState → WalkState → Prop where
  | refl (w : WalkState) : Reaches m totalLength w w
  | step {w w1 w2 : WalkState} :
      rd m w.theInterfacePtr ≠ 0 ∧ w.parsedLength ≤ totalLength →
      loopBody m totalLength w = .next w1 →
      Reaches m totalLength w1 w2 → Reaches m totalLength w w2

/-- The control dictionary `parseInterfaceDescriptor` creates for the interface record at
offset `p`. -/
def controlDictionaryAt (m : List Nat) (p : Nat) : DJM03ControlDictionary :=
  { interfaceNumber := rd m (p + 2)
    alternateSetting := rd m (p + 3)
    numEndpoints := rd m (p + 4)
    interfaceClass := rd m (p + 5)
    interfaceSubClass := rd m (p + 6)
    interfaceProtocol := rd m (p + 7) }

/-- The stream dictionary `parseInterfaceDescriptor` creates for the interface record at
offset `p`. -/
def streamDictionaryAt (m : List Nat) (p : Nat) : DJM03StreamDictionary :=
  { interfaceNumber := rd m (p + 2)
    alternateSetting := rd m (p + 3)
    numEndpoints := rd m (p + 4)
    interfaceClass := rd m (p + 5)
    interfaceSubClass := rd m (p + 6)
    interfaceProtocol := rd m (p + 7) }

/-- The units of a control dictionary, array after array in the order in which
`getUnitDictionary` looks them up. -/
def allUnits (c : DJM03ControlDictionary) : List DJM03UnitDictionary :=
  c.inputTerminals ++ c.outputTerminals ++ c.mixerUnits ++ c.selectorUnits ++ c.featureUnits
    ++ c.effectUnits ++ c.processingUnits ++ c.extensionUnits ++ c.clockSources
    ++ c.clockSelectors ++ c.clockMultipliers

/-- The arrays of units of a control dictionary, in the order in which `getUnitDictionary`
looks them up. -/
def registries (c : DJM03ControlDictionary) : List (List DJM03UnitDictionary) :=
  [c.inputTerminals, c.outputTerminals, c.mixerUnits, c.selectorUnits, c.featureUnits,
    c.effectUnits, c.processingUnits, c.extensionUnits, c.clockSources, c.clockSelectors,
    c.clockMultipliers]

/-! ## Queries on the units of a control interface -/

/-- The methods `DJM03AudioDictionary::getDictionaryValue (key, UInt8 * value)`; `field` is
what the dictionary holds under the key.  The call fails (`none`) when the key is absent, and
gives the `unsigned8BitValue` of the number otherwise. -/
def getDictionaryValue_UInt8 (field : Option Nat) : Option Nat := field.map (fun v => v % 2 ^ 8)

/-- The methods `DJM03AudioDictionary::getDictionaryValue (key, UInt16 * value)`. -/
def getDictionaryValue_UInt16 (field : Option Nat) : Option Nat :=
  field.map (fun v => v % 2 ^ 16)

/-- Modelled from the spec: the accessor `getUnitID` of a unit dictionary, an inline method
of the header (not among the sources), reads the unit ID with `getDictionaryValue`. -/
def DJM03UnitDictionary.getUnitID (u : DJM03UnitDictionary) : Option Nat :=
  getDictionaryValue_UInt8 u.unitID

/-- Modelled from the spec: the accessor `getDescriptorSubType` of a unit dictionary, an
inline method of the header, reads the descriptor subtype with `getDictionaryValue`. -/
def DJM03UnitDictionary.getDescriptorSubType (u : DJM03UnitDictionary) : Option Nat :=
  getDictionaryValue_UInt8 u.descriptorSubType

/-- Modelled from the spec: the accessor `getSourceID` of a single-source unit, an inline
method of the header, reads the source ID with `getDictionaryValue`. -/
def DJM03UnitDictionary.getSourceID (u : DJM03UnitDictionary) : Option Nat :=
  getDictionaryValue_UInt8 u.sourceID

/-- Modelled from the spec: the accessor `getClockSourceID` of a terminal, an inline method
of the header, reads the clock source ID with `getDictionaryValue`. -/
def DJM03UnitDictionary.getClockSourceID (u : DJM03UnitDictionary) : Option Nat :=
  getDictionaryValue_UInt8 u.clockSourceID

/-- Modelled from the spec: the accessor `getNumControls` of a unit dictionary, an inline
method of the header, reads the number of controls with `getDictionaryValue`. -/
def DJM03UnitDictionary.getNumControls (u : DJM03UnitDictionary) : Option Nat :=
  getDictionaryValue_UInt8 u.numControls

/-- Modelled from the spec: the accessor `getControlSize` of a unit dictionary, an inline
method of the header, reads the control size with `getDictionaryValue`. -/
def DJM03UnitDictionary.getControlSize (u : DJM03UnitDictionary) : Option Nat :=
  getDictionaryValue_UInt8 u.controlSize

/-- Modelled from the spec: the accessor `getControls` of a unit dictionary, an inline
method of the header, gives the array of controls, `NULL` (`none`) when there is none. -/
def DJM03UnitDictionary.getControls (u : DJM03UnitDictionary) : Option (List Nat) := u.controls

/-- Modelled from the spec: the accessor `getSources` of a mixer, selector, processing or
extension unit, an inline method of the header, gives the unit's array of source IDs and
fails (`none`) when the unit has none. -/
def DJM03UnitDictionary.getSources (u : DJM03UnitDictionary) : Option (List Nat) := u.sourceIDs

/-- Modelled from the spec: the accessor `getClockSources` of a clock selector, an inline
method of the header, gives the selector's array of clock source IDs and fails (`none`)
when the selector has none. -/
def DJM03UnitDictionary.getClockSources (u : DJM03UnitDictionary) : Option (List Nat) :=
  u.clockSourceIDs

/-- Modelled from the spec: the accessor `getADCVersion` of a control dictionary, an inline
method of the header, reads the ADC version the HEADER record stored. -/
def DJM03ControlDictionary.getADCVersion (c : DJM03ControlDictionary) : Option Nat :=
  getDictionaryValue_UInt16 c.adcVersion

/-- Modelled from the spec: bit 0 of an element of a feature unit's control array is the
mute control.  This is the constant `kMuteBit` of the header, which is not among the
sources. -/
def kMuteBit : Nat := 0

/-- Modelled from the spec: bit 1 of an element of a feature unit's control array is the
volume control.  This is the constant `kVolumeBit` of the header, which is not among the
sources. -/
def kVolumeBit : Nat := 1

/-- The method `AUAFeatureUnitDictionary::channelHasMuteControl`.  `channelNum` is a
`UInt8`; the comparison `numControls >= channelNum + 1` is made on `int`.  The result is
`false` at each `FailIf` exit: no control array, no control count, no control size, no
element at `channelNum`. -/
def AUAFeatureUnitDictionary.channelHasMuteControl (u : DJM03UnitDictionary)
    (channelNum : Nat) : Bool :=
  match u.getControls with
  | none => false
  | some controls =>
    match u.getNumControls with
    | none => false
    | some numControls =>
      if numControls ≥ channelNum + 1 then
        match u.getControlSize with
        | none => false
        | some controlSize =>
          match controls.get? channelNum with
          | none => false
          | some controlNumber =>
            if 1 = controlSize then
              ((controlNumber % 2 ^ 8) &&& (1 <<< kMuteBit)) != 0
            else if 2 = controlSize then
              ((controlNumber % 2 ^ 16) &&& (1 <<< kMuteBit)) != 0
            else
              ((controlNumber % 2 ^ 32) &&& (0x3 <<< (kMuteBit * 2))) == (0x3 <<< (kMuteBit * 2))
      else false

/-- The method `AUAFeatureUnitDictionary::channelHasVolumeControl`: the same as
`channelHasMuteControl` with `kVolumeBit` for `kMuteBit`. -/
def AUAFeatureUnitDictionary.channelHasVolumeControl (u : DJM03UnitDictionary)
    (channelNum : Nat) : Bool :=
  match u.getControls with
  | none => false
  | some controls =>
    match u.getNumControls with
    | none => false
    | some numControls =>
      if numControls ≥ channelNum + 1 then
        match u.getControlSize with
        | none => false
        | some controlSize =>
          match controls.get? channelNum with
          | none => false
          | some controlNumber =>
            if 1 = controlSize then
              ((controlNumber % 2 ^ 8) &&& (1 <<< kVolumeBit)) != 0
            else if 2 = controlSize then
              ((controlNumber % 2 ^ 16) &&& (1 <<< kVolumeBit)) != 0
            else
              ((controlNumber % 2 ^ 32) &&& (0x3 <<< (kVolumeBit * 2)))
                == (0x3 <<< (kVolumeBit * 2))
      else false

/-! ### The lookups of a unit by its ID

The eleven `get...Dictionary` methods of `DJM03ControlDictionary` run the same loop over one
array of units, with an index of type `UInt8`. -/

/-- The `while (!found && index < units->getCount ())` loop of the `get...Dictionary`
lookups, from the index `index` on.  `some (some u)` is the unit found, `some none` is `NULL`
(the end of the array, or a `FailIf` exit at a unit without ID), and `none` is the end of the
fuel.  The index is a `UInt8`: `index++` wraps from 255 to 0. -/
def unitDictionaryLoop (units : List DJM03UnitDictionary) (unitID : Nat) :
    Nat → Nat → Option (Option DJM03UnitDictionary)
  | fuel, index =>
    if index < units.length then
      match fuel with
      | 0 => none
      | fuel + 1 =>
        match units[index]? with
        | none => some none
        | some unitDictionary =>
          match unitDictionary.getUnitID with
          | none => some none
          | some thisUnitID =>
            if unitID = thisUnitID then some (some unitDictionary)
            else unitDictionaryLoop units unitID fuel ((index + 1) % 256)
    else some none

/-- A lookup in one array of units: the loop from index 0.  An array that was never created
(`NULL`) is the empty list.  The fuel 256 is enough whenever the loop ends
(`unitDictionaryLoop_none_forever`), so `none` stands for the loop that does not end. -/
def getUnitDictionaryIn (units : List DJM03UnitDictionary) (unitID : Nat) :
    Option (Option DJM03UnitDictionary) :=
  unitDictionaryLoop units unitID 256 0

/-- The method `DJM03ControlDictionary::getInputTerminalDictionary`. -/
def getInputTerminalDictionary (c : DJM03ControlDictionary) (unitID : Nat) :
    Option (Option DJM03UnitDictionary) := getUnitDictionaryIn c.inputTerminals unitID

/-- The method `DJM03ControlDictionary::getOutputTerminalDictionary`. -/
def getOutputTerminalDictionary (c : DJM03ControlDictionary) (unitID : Nat) :
    Option (Option DJM03UnitDictionary) := getUnitDictionaryIn c.outputTerminals unitID

/-- The method `DJM03ControlDictionary::getMixerUnitDictionary`. -/
def getMixerUnitDictionary (c : DJM03ControlDictionary) (unitID : Nat) :
    Option (Option DJM03UnitDictionary) := getUnitDictionaryIn c.mixerUnits unitID

/-- The method `DJM03ControlDictionary::getSelectorUnitDictionary`. -/
def getSelectorUnitDictionary (c : DJM03ControlDictionary) (unitID : Nat) :
    Option (Option DJM03UnitDictionary) := getUnitDictionaryIn c.selectorUnits unitID

/-- The method `DJM03ControlDictionary::getFeatureUnitDictionary`. -/
def getFeatureUnitDictionary (c : DJM03ControlDictionary) (unitID : Nat) :
    Option (Option DJM03UnitDictionary) := getUnitDictionaryIn c.featureUnits unitID

/-- The method `DJM03ControlDictionary::getEffectUnitDictionary`. -/
def getEffectUnitDictionary (c : DJM03ControlDictionary) (unitID : Nat) :
    Option (Option DJM03UnitDictionary) := getUnitDictionaryIn c.effectUnits unitID

/-- The method `DJM03ControlDictionary::getProcessingUnitDictionary`. -/
def getProcessingUnitDictionary (c : DJM03ControlDictionary) (unitID : Nat) :
    Option (Option DJM03UnitDictionary) := getUnitDictionaryIn c.processingUnits unitID

/-- The method `DJM03ControlDictionary::getExtensionUnitDictionary`. -/
def getExtensionUnitDictionary (c : DJM03ControlDictionary) (unitID : Nat) :
    Option (Option DJM03UnitDictionary) := getUnitDictionaryIn c.extensionUnits unitID

/-- The method `DJM03ControlDictionary::getClockSourceDictionary`. -/
def getClockSourceDictionary (c : DJM03ControlDictionary) (unitID : Nat) :
    Option (Option DJM03UnitDictionary) := getUnitDictionaryIn c.clockSources unitID

/-- The method `DJM03ControlDictionary::getClockSelectorDictionary`. -/
def getClockSelectorDictionary (c : DJM03ControlDictionary) (unitID : Nat) :
    Option (Option DJM03UnitDictionary) := getUnitDictionaryIn c.clockSelectors unitID

/-- The method `DJM03ControlDictionary::getClockMultiplierDictionary`. -/
def getClockMultiplierDictionary (c : DJM03ControlDictionary) (unitID : Nat) :
    Option (Option DJM03UnitDictionary) := getUnitDictionaryIn c.clockMultipliers unitID

/-- The step `if (!unitDictionary) unitDictionary = next` of `getUnitDictionary`: `next` is
called only when the lookups before it gave `NULL`. -/
def ifNull (unitDictionary next : Option (Option DJM03UnitDictionary)) :
    Option (Option DJM03UnitDictionary) :=
  match unitDictionary with
  | none => none
  | some (some u) => some (some u)
  | some none => next

/-- The method `DJM03ControlDictionary::getUnitDictionary`: the eleven lookups in the order
of the source, each made only when those before it gave `NULL`. -/
def getUnitDictionary (c : DJM03ControlDictionary) (unitID : Nat) :
    Option (Option DJM03UnitDictionary) :=
  let unitDictionary := getInputTerminalDictionary c unitID
  let unitDictionary := ifNull unitDictionary (getOutputTerminalDictionary c unitID)
  let unitDictionary := ifNull unitDictionary (getMixerUnitDictionary c unitID)
  let unitDictionary := ifNull unitDictionary (getSelectorUnitDictionary c unitID)
  let unitDictionary := ifNull unitDictionary (getFeatureUnitDictionary c unitID)
  let unitDictionary := ifNull unitDictionary (getEffectUnitDictionary c unitID)
  let unitDictionary := ifNull unitDictionary (getProcessingUnitDictionary c unitID)
  let unitDictionary := ifNull unitDictionary (getExtensionUnitDictionary c unitID)
  let unitDictionary := ifNull unitDictionary (getClockSourceDictionary c unitID)
  let unitDictionary := ifNull unitDictionary (getClockSelectorDictionary c unitID)
  ifNull unitDictionary (getClockMultiplierDictionary c unitID)

/-- The method `AUAClockSourceDictionary::getControlBitmap`: element 0 of the array of
controls, read as a `UInt8`; the call fails (`none`) when the array or the element is
absent. -/
def AUAClockSourceDictionary.getControlBitmap (u : DJM03UnitDictionary) : Option Nat :=
  match u.getControls with
  | none => none
  | some controls =>
    match controls[0]? with
    | none => none
    | some bitmapNumber => some (bitmapNumber % 2 ^ 8)

/-- The method `DJM03ControlDictionary::clockSourceHasFrequencyControl`; `none` only when
the lookup of the clock source does not end. -/
def clockSourceHasFrequencyControl (c : DJM03ControlDictionary) (clockSourceID : Nat)
    (isProgrammable : Bool) : Option Bool :=
  match getClockSourceDictionary c clockSourceID with
  | none => none
  | some none => some false
  | some (some clockSourceDictionary) =>
    match AUAClockSourceDictionary.getControlBitmap clockSourceDictionary with
    | none => some false
    | some controls =>
      let isControlPresent := (controls &&& 0x1) != 0
      let isControlProgrammable := (controls &&& 0x2) != 0
      if isProgrammable then some (isControlPresent && isControlProgrammable)
      else some isControlPresent

/-- The method `DJM03ControlDictionary::getFeatureUnitIDConnectedToOutputTerminal`: the
result code and `*featureUnitID`; `none` only when a lookup does not end. -/
def getFeatureUnitIDConnectedToOutputTerminal (c : DJM03ControlDictionary)
    (outputTerminalID : Nat) : Option (IOReturn × Nat) :=
  match getOutputTerminalDictionary c outputTerminalID with
  | none => none
  | some none => some (.kIOReturnError, 0)
  | some (some outputTerminalDictionary) =>
    match outputTerminalDictionary.getSourceID with
    | none => some (.kIOReturnError, 0)
    | some outputTerminalSourceID =>
      if 0 ≠ outputTerminalSourceID then
        match getFeatureUnitDictionary c outputTerminalSourceID with
        | none => none
        | some none => some (.kIOReturnSuccess, outputTerminalSourceID)
        | some (some _) => some (.kIOReturnSuccess, 0)
      else some (.kIOReturnSuccess, 0)

/-! ### `getTerminalClockEntities` -/

/-- The inner `for` loop of `getTerminalClockEntities`: is `clockID` among the entries of
`clockEntities`, from the index `entityIndex` (a `UInt8`) on.  `none` is the end of the
fuel. -/
def isDuplicateLoop (clockEntities : List Nat) (clockID : Nat) : Nat → Nat → Option Bool
  | fuel, entityIndex =>
    if entityIndex < clockEntities.length then
      match fuel with
      | 0 => none
      | fuel + 1 =>
        if clockEntities.getD entityIndex 0 % 2 ^ 8 = clockID then some true
        else isDuplicateLoop clockEntities clockID fuel ((entityIndex + 1) % 256)
    else some false

/-- The inner `for` loop of `getTerminalClockEntities` with its condition
`clockEntities && entityIndex < clockEntities->getCount ()`, from index 0. -/
def isDuplicate (clockEntities : Option (List Nat)) (clockID : Nat) : Option Bool :=
  match clockEntities with
  | none => some false
  | some clockEntities => isDuplicateLoop clockEntities clockID 256 0

/-- How a loop over the terminals in `getTerminalClockEntities` ends: at the end of the
array (`done`) or at a `FailIf` (`exit`), each with the array `clockEntities` at that
point. -/
inductive ForEnd where
  | done (clockEntities : Option (List Nat))
  | exit (clockEntities : Option (List Nat))
  deriving DecidableEq, Repr

/-- The first `for` loop of `getTerminalClockEntities`, over the input terminals, from the
index `terminalIndex` (a `UInt8`) on.  A clock ID that is not in `clockEntities` is stored
as an 8-bit number, in a new array when `clockEntities` is `NULL`, and with `setObject`
otherwise, where `FailIf (true != setObject (...))` does not fire.  `none` is the end of the
fuel. -/
def inputTerminalsLoop (inputTerminals : List DJM03UnitDictionary) :
    Nat → Nat → Option (List Nat) → Option ForEnd
  | fuel, terminalIndex, clockEntities =>
    if terminalIndex < inputTerminals.length then
      match fuel with
      | 0 => none
      | fuel + 1 =>
        match inputTerminals[terminalIndex]? with
        | none => some (.exit clockEntities)
        | some inputTerminal =>
          match inputTerminal.getClockSourceID with
          | none => some (.exit clockEntities)
          | some clockID =>
            match isDuplicate clockEntities clockID with
            | none => none
            | some true =>
              inputTerminalsLoop inputTerminals fuel ((terminalIndex + 1) % 256) clockEntities
            | some false =>
              let clockIDNum := OSNumber_withNumber clockID 8
              match clockEntities with
              | none =>
                inputTerminalsLoop inputTerminals fuel ((terminalIndex + 1) % 256)
                  (some [clockIDNum])
              | some entities =>
                inputTerminalsLoop inputTerminals fuel ((terminalIndex + 1) % 256)
                  (some (entities ++ [clockIDNum]))
    else some (.done clockEntities)

/-- The second `for` loop of `getTerminalClockEntities`, over the output terminals.  It
differs from the first loop in the test after `setObject`:
`FailIf (kIOReturnSuccess != clockEntities->setObject (clockIDNum), Exit)` compares the
`bool` that `setObject` returns, `true` once the entry is added, with `kIOReturnSuccess`,
which is 0; so the `FailIf` fires after each entry added to an array that exists. -/
def outputTerminalsLoop (outputTerminals : List DJM03UnitDictionary) :
    Nat → Nat → Option (List Nat) → Option ForEnd
  | fuel, terminalIndex, clockEntities =>
    if terminalIndex < outputTerminals.length then
      match fuel with
      | 0 => none
      | fuel + 1 =>
        match outputTerminals[terminalIndex]? with
        | none => some (.exit clockEntities)
        | some outputTerminal =>
          match outputTerminal.getClockSourceID with
          | none => some (.exit clockEntities)
          | some clockID =>
            match isDuplicate clockEntities clockID with
            | none => none
            | some true =>
              outputTerminalsLoop outputTerminals fuel ((terminalIndex + 1) % 256) clockEntities
            | some false =>
              let clockIDNum := OSNumber_withNumber clockID 8
              match clockEntities with
              | none =>
                outputTerminalsLoop outputTerminals fuel ((terminalIndex + 1) % 256)
                  (some [clockIDNum])
              | some entities => some (.exit (some (entities ++ [clockIDNum])))
    else some (.done clockEntities)

/-- The method `DJM03ControlDictionary::getTerminalClockEntities`.  The result is `none`
when a loop runs out of its fuel, `some none` for `NULL`, and `some (some l)` for the array
`l` of clock IDs.  An array of terminals that was never created is the empty list. -/
def getTerminalClockEntities (c : DJM03ControlDictionary) : Option (Option (List Nat)) :=
  if c.inputTerminals = [] then some none
  else if c.outputTerminals = [] then some none
  else
    match inputTerminalsLoop c.inputTerminals 256 0 none with
    | none => none
    | some (.exit clockEntities) => some clockEntities
    | some (.done clockEntities) =>
      match outputTerminalsLoop c.outputTerminals 256 0 clockEntities with
      | none => none
      | some (.exit clockEntities) => some clockEntities
      | some (.done clockEntities) => some clockEntities

/-! ### `getSourceIDs` -/

/-- Modelled from the spec: the ADC version 1.0, as the `bcdADC` field of a HEADER record
holds it.  This is the constant `kAUAUSBSpec1_0` of the header, which is not among the
sources. -/
def kAUAUSBSpec1_0 : Nat := 0x0100

/-- Modelled from the spec: the ADC version 2.0, as the `bcdADC` field of a HEADER record
holds it.  This is the constant `kAUAUSBSpec2_0` of the header, which is not among the
sources. -/
def kAUAUSBSpec2_0 : Nat := 0x0200

/-- The method `DJM03ControlDictionary::getMixerSources`: the result code and
`*mixerSources`; `none` only when the lookup does not end. -/
def getMixerSources (c : DJM03ControlDictionary) (unitID : Nat) :
    Option (IOReturn × Option (List Nat)) :=
  match getMixerUnitDictionary c unitID with
  | none => none
  | some none => some (.kIOReturnError, none)
  | some (some thisMixerUnit) =>
    match thisMixerUnit.getSources with
    | none => some (.kIOReturnError, none)
    | some mixerSources => some (.kIOReturnSuccess, some mixerSources)

/-- The method `DJM03ControlDictionary::getSelectorSources`. -/
def getSelectorSources (c : DJM03ControlDictionary) (unitID : Nat) :
    Option (IOReturn × Option (List Nat)) :=
  match getSelectorUnitDictionary c unitID with
  | none => none
  | some none => some (.kIOReturnError, none)
  | some (some thisSelectorUnit) =>
    match thisSelectorUnit.getSources with
    | none => some (.kIOReturnError, none)
    | some selectorSources => some (.kIOReturnSuccess, some selectorSources)

/-- The method `DJM03ControlDictionary::getProcessingUnitSources`. -/
def getProcessingUnitSources (c : DJM03ControlDictionary) (unitID : Nat) :
    Option (IOReturn × Option (List Nat)) :=
  match getProcessingUnitDictionary c unitID with
  | none => none
  | some none => some (.kIOReturnError, none)
  | some (some thisProcessingUnit) =>
    match thisProcessingUnit.getSources with
    | none => some (.kIOReturnError, none)
    | some processingUnitSources => some (.kIOReturnSuccess, some processingUnitSources)

/-- The method `DJM03ControlDictionary::getExtensionUnitSources`. -/
def getExtensionUnitSources (c : DJM03ControlDictionary) (unitID : Nat) :
    Option (IOReturn × Option (List Nat)) :=
  match getExtensionUnitDictionary c unitID with
  | none => none
  | some none => some (.kIOReturnError, none)
  | some (some thisExtensionUnit) =>
    match thisExtensionUnit.getSources with
    | none => some (.kIOReturnError, none)
    | some extensionUnitSources => some (.kIOReturnSuccess, some extensionUnitSources)

/-- The method `DJM03ControlDictionary::getClockSelectorSources`. -/
def getClockSelectorSources (c : DJM03ControlDictionary) (unitID : Nat) :
    Option (IOReturn × Option (List Nat)) :=
  match getClockSelectorDictionary c unitID with
  | none => none
  | some none => some (.kIOReturnError, none)
  | some (some thisClockSelector) =>
    match thisClockSelector.getClockSources with
    | none => some (.kIOReturnError, none)
    | some clockSelectorSources => some (.kIOReturnSuccess, some clockSelectorSources)

/-- The result codes of `getSourceIDs`: an `IOReturn` value as the other methods give it, or
`kIOReturnUnsupported`, which only this method gives. -/
inductive SourceIDsReturn where
  | code (result : IOReturn)
  | kIOReturnUnsupported
  deriving DecidableEq, Repr

/-- The result of a `get...Sources` call as the result of `getSourceIDs`. -/
def sourcesResult (r : Option (IOReturn × Option (List Nat))) :
    Option (SourceIDsReturn × Option (List Nat)) :=
  r.map (fun x => (.code x.1, x.2))

/-- The method `DJM03ControlDictionary::getSourceIDs`: the result code and `*sourceIDs`;
`none` only when a lookup does not end. -/
def getSourceIDs (c : DJM03ControlDictionary) (unitID : Nat) :
    Option (SourceIDsReturn × Option (List Nat)) :=
  match getUnitDictionary c unitID with
  | none => none
  | some none => some (.code .kIOReturnError, none)
  | some (some unitDictionary) =>
    match c.getADCVersion with
    | none => some (.code .kIOReturnError, none)
    | some adcVersion =>
      match unitDictionary.getDescriptorSubType with
      | none => some (.code .kIOReturnError, none)
      | some descriptorSubType =>
        if kAUAUSBSpec1_0 = adcVersion then
          if descriptorSubType = MIXER_UNIT then sourcesResult (getMixerSources c unitID)
          else if descriptorSubType = SELECTOR_UNIT then
            sourcesResult (getSelectorSources c unitID)
          else if descriptorSubType = PROCESSING_UNIT then
            sourcesResult (getProcessingUnitSources c unitID)
          else if descriptorSubType = EXTENSION_UNIT then
            sourcesResult (getExtensionUnitSources c unitID)
          else some (.code .kIOReturnError, none)
        else if kAUAUSBSpec2_0 = adcVersion then
          if descriptorSubType = MIXER_UNIT then sourcesResult (getMixerSources c unitID)
          else if descriptorSubType = SELECTOR_UNIT then
            sourcesResult (getSelectorSources c unitID)
          else if descriptorSubType = PROCESSING_UNIT_0200 then
            sourcesResult (getProcessingUnitSources c unitID)
          else if descriptorSubType = EXTENSION_UNIT_0200 then
            sourcesResult (getExtensionUnitSources c unitID)
          else if descriptorSubType = CLOCK_SELECTOR then
            sourcesResult (getClockSelectorSources c unitID)
          else some (.code .kIOReturnError, none)
        else some (.kIOReturnUnsupported, none)

/-! ## `DJM03StreamDictionary::addSampleRatesToStreamDictionary` -/

/-- Modelled from the spec: the accessor `getAddress` of an endpoint dictionary, an inline
method of the header (not among the sources), reads the endpoint address with
`getDictionaryValue`. -/
def DJM03EndpointDictionary.getAddress (e : DJM03EndpointDictionary) : Option Nat :=
  getDictionaryValue_UInt8 e.address

/-- Modelled from the spec: the accessor `getMaxPacketSize` of an endpoint dictionary, an
inline method of the header, reads the maximum packet size with `getDictionaryValue`. -/
def DJM03EndpointDictionary.getMaxPacketSize (e : DJM03EndpointDictionary) : Option Nat :=
  getDictionaryValue_UInt16 e.maxPacketSize

/-- Modelled from the spec: the accessor `getInterval` of an endpoint dictionary, an inline
method of the header, reads the interval with `getDictionaryValue`. -/
def DJM03EndpointDictionary.getInterval (e : DJM03EndpointDictionary) : Option Nat :=
  getDictionaryValue_UInt8 e.interval

/-- Modelled from the spec: the accessor `getNumChannels` of a stream dictionary, an inline
method of the header, reads the number of channels with `getDictionaryValue`. -/
def DJM03StreamDictionary.getNumChannels (s : DJM03StreamDictionary) : Option Nat :=
  getDictionaryValue_UInt8 s.numChannels

/-- Modelled from the spec: the accessor `getBitResolution` of a stream dictionary, an
inline method of the header, reads the bit resolution with `getDictionaryValue`. -/
def DJM03StreamDictionary.getBitResolution (s : DJM03StreamDictionary) : Option Nat :=
  getDictionaryValue_UInt8 s.bitResolution

/-- The method `DJM03EndpointDictionary::getDirection`: bit 7 of the address; the call fails
(`none`) when the endpoint has no address. -/
def DJM03EndpointDictionary.getDirection (e : DJM03EndpointDictionary) : Option Nat :=
  match e.getAddress with
  | none => none
  | some address => some ((address &&& 0x80) >>> 7)

/-- The `while` loop of `DJM03StreamDictionary::getIsocEndpointMaxPacketSize`, entered while
`*maxPacketSize` is 0: the result code and `*maxPacketSize`.  `result` is the code assigned
last; the index is a `UInt8`; `none` is the end of the fuel. -/
def getIsocEndpointMaxPacketSize_loop (endpoints : List DJM03EndpointDictionary)
    (direction : Nat) : Nat → Nat → IOReturn → Option (IOReturn × Nat)
  | fuel, endpointIndex, result =>
    if endpointIndex < endpoints.length then
      match fuel with
      | 0 => none
      | fuel + 1 =>
        match endpoints[endpointIndex]? with
        | none => some (result, 0)
        | some thisEndpoint =>
          match thisEndpoint.getDirection with
          | none => some (.kIOReturnError, 0)
          | some thisDirection =>
            if direction = thisDirection then
              match thisEndpoint.getMaxPacketSize with
              | none => some (.kIOReturnError, 0)
              | some maxPacketSize =>
                if maxPacketSize ≠ 0 then some (.kIOReturnSuccess, maxPacketSize)
                else getIsocEndpointMaxPacketSize_loop endpoints direction fuel
                  ((endpointIndex + 1) % 256) .kIOReturnSuccess
            else getIsocEndpointMaxPacketSize_loop endpoints direction fuel
              ((endpointIndex + 1) % 256) .kIOReturnSuccess
    else some (result, 0)

/-- The method `DJM03StreamDictionary::getIsocEndpointMaxPacketSize`: the result code and
`*maxPacketSize`.  An array of endpoints that was never created (`NULL`) is the empty
list. -/
def DJM03StreamDictionary.getIsocEndpointMaxPacketSize (s : DJM03StreamDictionary)
    (direction : Nat) : Option (IOReturn × Nat) :=
  if s.endpoints = [] then some (.kIOReturnError, 0)
  else getIsocEndpointMaxPacketSize_loop s.endpoints direction 256 0 .kIOReturnError

/-- The `while` loop of `DJM03StreamDictionary::getIsocEndpointInterval`, entered while
`*interval` is 0.  The `FailIf (false == thisEndpoint->isIsocStreaming (), Exit)` leaves
with the code of `getDirection`, which is success. -/
def getIsocEndpointInterval_loop (endpoints : List DJM03EndpointDictionary)
    (direction : Nat) : Nat → Nat → IOReturn → Option (IOReturn × Nat)
  | fuel, endpointIndex, result =>
    if endpointIndex < endpoints.length then
      match fuel with
      | 0 => none
      | fuel + 1 =>
        match endpoints[endpointIndex]? with
        | none => some (result, 0)
        | some thisEndpoint =>
          match thisEndpoint.getDirection with
          | none => some (.kIOReturnError, 0)
          | some thisDirection =>
            if direction = thisDirection then
              if thisEndpoint.isIsocStreaming = false then some (.kIOReturnSuccess, 0)
              else
                match thisEndpoint.getInterval with
                | none => some (.kIOReturnError, 0)
                | some interval =>
                  if interval ≠ 0 then some (.kIOReturnSuccess, interval)
                  else getIsocEndpointInterval_loop endpoints direction fuel
                    ((endpointIndex + 1) % 256) .kIOReturnSuccess
            else getIsocEndpointInterval_loop endpoints direction fuel
              ((endpointIndex + 1) % 256) .kIOReturnSuccess
    else some (result, 0)

/-- The method `DJM03StreamDictionary::getIsocEndpointInterval`: the result code and
`*interval`. -/
def DJM03StreamDictionary.getIsocEndpointInterval (s : DJM03StreamDictionary)
    (direction : Nat) : Option (IOReturn × Nat) :=
  if s.endpoints = [] then some (.kIOReturnError, 0)
  else getIsocEndpointInterval_loop s.endpoints direction 256 0 .kIOReturnError

/-- The `for` loop of `addSampleRatesToStreamDictionary` over the endpoints, which looks for
the first isochronous streaming endpoint: `some (some direction)` is its direction, and
`some none` stands for the `FailIf` exits (no such endpoint, or one without address).  The
index is a `UInt8`; `none` is the end of the fuel. -/
def isocStreamingDirection_loop (endpoints : List DJM03EndpointDictionary) :
    Nat → Nat → Option (Option Nat)
  | fuel, endpointIndex =>
    if endpointIndex < endpoints.length then
      match fuel with
      | 0 => none
      | fuel + 1 =>
        match endpoints[endpointIndex]? with
        | none => some none
        | some endpoint =>
          if endpoint.isIsocStreaming then
            match endpoint.getDirection with
            | none => some none
            | some direction => some (some direction)
          else isocStreamingDirection_loop endpoints fuel ((endpointIndex + 1) % 256)
    else some none

/-- The number of transfer opportunities per millisecond that
`addSampleRatesToStreamDictionary` takes for the interval of the isochronous endpoint: 1 for
the interval 0, `8 >> (interval - 1)` for the intervals 1 to 4, and the `FailIf` exit
(`none`) for an interval above 4.  The value is a `UInt8`. -/
def transactionsPerUSBFrame (interval : Nat) : Option Nat :=
  if 0 = interval then some 1
  else if interval > 4 then none
  else some ((8 >>> (interval - 1)) % 2 ^ 8)

/-- The test the body of `addSampleRatesToStreamDictionary` makes for a new rate
`sampleRate` (a `UInt32`, not 0): `some (some true)` when the average frame size does not
exceed the maximum packet size, `some (some false)` when it does, `some none` at a `FailIf`
exit, and `none` when a loop over the endpoints runs out of fuel.  `averageFrameSamples` is
a `UInt32` and `averageFrameSize` a `UInt16`. -/
def averageFrameSizeFits (s : DJM03StreamDictionary) (sampleRate : Nat) :
    Option (Option Bool) :=
  if s.endpoints = [] then some none
  else
    match isocStreamingDirection_loop s.endpoints 256 0 with
    | none => none
    | some none => some none
    | some (some direction) =>
      match s.getIsocEndpointMaxPacketSize direction with
      | none => none
      | some (result, maxPacketSize) =>
        if result ≠ .kIOReturnSuccess then some none
        else
          match s.getNumChannels with
          | none => some none
          | some numChannels =>
            match s.getBitResolution with
            | none => some none
            | some bitResolution =>
              match s.getIsocEndpointInterval direction with
              | none => none
              | some (result, interval) =>
                if result ≠ .kIOReturnSuccess then some none
                else
                  match transactionsPerUSBFrame interval with
                  | none => some none
                  | some transactionsPerUSBFrame =>
                    let averageFrameSamples :=
                      (sampleRate / (1000 * transactionsPerUSBFrame)) % 2 ^ 32
                    let averageFrameSize :=
                      ((averageFrameSamples * numChannels % 2 ^ 32) * (bitResolution / 8)
                        % 2 ^ 32) % 2 ^ 16
                    if averageFrameSize > maxPacketSize then some (some false)
                    else some (some true)

/-- The inner `for` loop of `addSampleRatesToStreamDictionary`: is the number
`sampleRateNumber` equal (`isEqualTo`) to an entry of `existingSampleRates`, from the index
`rateIndex` (a `UInt16`) on.  `none` is the end of the fuel. -/
def isDuplicateRate_loop (existingSampleRates : List Nat) (sampleRateNumber : Nat) :
    Nat → Nat → Option Bool
  | fuel, rateIndex =>
    if rateIndex < existingSampleRates.length then
      match fuel with
      | 0 => none
      | fuel + 1 =>
        if existingSampleRates.getD rateIndex 0 = sampleRateNumber then some true
        else isDuplicateRate_loop existingSampleRates sampleRateNumber fuel
          ((rateIndex + 1) % 65536)
    else some false

/-- The outer `for` loop of `addSampleRatesToStreamDictionary` over the candidate numbers
`sampleRates`, from the index `sampleRateIndex` (a `UInt16`) on.  `existingSampleRates`
tells whether the pointer of that name, set once before the loop, is not `NULL`; it then
refers to the array of rates of the stream as it grows.  The result is the stream
dictionary together with `true` at the end of the array and `false` at a `FailIf` exit;
`none` is the end of the fuel. -/
def addSampleRates_loop (sampleRates : List Nat) (existingSampleRates : Bool) :
    Nat → Nat → DJM03StreamDictionary → Option (Bool × DJM03StreamDictionary)
  | fuel, sampleRateIndex, s =>
    if sampleRateIndex < sampleRates.length then
      match fuel with
      | 0 => none
      | fuel + 1 =>
        let sampleRateNumber := sampleRates.getD sampleRateIndex 0
        let isDuplicate :=
          if existingSampleRates then isDuplicateRate_loop s.sampleRates sampleRateNumber 65536 0
          else some false
        match isDuplicate with
        | none => none
        | some true =>
          addSampleRates_loop sampleRates existingSampleRates fuel
            ((sampleRateIndex + 1) % 65536) s
        | some false =>
          if sampleRateNumber % 2 ^ 32 ≠ 0 then
            match averageFrameSizeFits s (sampleRateNumber % 2 ^ 32) with
            | none => none
            | some none => some (false, s)
            | some (some false) =>
              addSampleRates_loop sampleRates existingSampleRates fuel
                ((sampleRateIndex + 1) % 65536) s
            | some (some true) =>
              addSampleRates_loop sampleRates existingSampleRates fuel
                ((sampleRateIndex + 1) % 65536) (s.addSampleRate (sampleRateNumber % 2 ^ 32))
          else
            addSampleRates_loop sampleRates existingSampleRates fuel
              ((sampleRateIndex + 1) % 65536) s
    else some (true, s)

/-- The method `DJM03StreamDictionary::addSampleRatesToStreamDictionary`; `sampleRates` is
`none` for `NULL`, and otherwise the values of the numbers of the array.  The result is the
code returned and the stream dictionary as the call leaves it; `none` when a loop runs out
of its fuel.  An array of rates that was never created (`NULL`) is the empty list;
`numSampleFreqs` is a `UInt8`. -/
def DJM03StreamDictionary.addSampleRatesToStreamDictionary (s : DJM03StreamDictionary)
    (sampleRates : Option (List Nat)) : Option (IOReturn × DJM03StreamDictionary) :=
  match sampleRates with
  | none => some (.kIOReturnError, s)
  | some sampleRates =>
    let existingSampleRates := decide (s.sampleRates ≠ [])
    match addSampleRates_loop sampleRates existingSampleRates 65536 0 s with
    | none => none
    | some (false, s1) => some (.kIOReturnError, s1)
    | some (true, s1) =>
      let numSampleFreqs := if s1.sampleRates = [] then 0 else s1.sampleRates.length % 2 ^ 8
      some (.kIOReturnSuccess, { s1 with numSampleRates := some numSampleFreqs })

/-- The array `clockEntities` with which a loop over the terminals ends. -/
def ForEnd.clockEntities : ForEnd → Option (List Nat)
  | .done clockEntities => clockEntities
  | .exit clockEntities => clockEntities

/-- The invariant of the array `clockEntities` in `getTerminalClockEntities`: it holds no
value twice, and each value is an 8-bit number. -/
def ClockEntitiesOK (clockEntities : Option (List Nat)) : Prop :=
  ∀ l, clockEntities = some l → l.Nodup ∧ ∀ e ∈ l, e < 256

/-- The number of entries of the array `clockEntities`, 0 for `NULL`. -/
def clockEntitiesCount (clockEntities : Option (List Nat)) : Nat :=
  match clockEntities with
  | none => 0
  | some l => l.length

/-- The control dictionaries `c` and `c1` hold the same units and the same ADC version. -/
def SameUnits (c c1 : DJM03ControlDictionary) : Prop :=
  c1.adcVersion = c.adcVersion ∧ c1.inputTerminals = c.inputTerminals
    ∧ c1.outputTerminals = c.outputTerminals ∧ c1.mixerUnits = c.mixerUnits
    ∧ c1.selectorUnits = c.selectorUnits ∧ c1.featureUnits = c.featureUnits
    ∧ c1.effectUnits = c.effectUnits ∧ c1.processingUnits = c.processingUnits
    ∧ c1.extensionUnits = c.extensionUnits ∧ c1.clockSources = c.clockSources
    ∧ c1.clockSelectors = c.clockSelectors ∧ c1.clockMultipliers = c.clockMultipliers

/-- The control dictionary `c2` comes from `c` by parsing zero or more class-specific records
of a UAC 1.0 control interface (`record`: the `switch` of `parseACInterfaceDescriptor` for
the record at offset `p`), and by updates that keep the units and the ADC version (`other`:
the stream interface numbers, the interrupt endpoint). -/
inductive ParsesRecords (m : List Nat) :
    DJM03ControlDictionary → DJM03ControlDictionary → Prop where
  | refl (c : DJM03ControlDictionary) : ParsesRecords m c c
  | record {c c1 c2 : DJM03ControlDictionary} (p : Nat) :
      parseACRecord m p c = some c1 → ParsesRecords m c1 c2 → ParsesRecords m c c2
  | other {c c1 c2 : DJM03ControlDictionary} :
      SameUnits c c1 → ParsesRecords m c1 c2 → ParsesRecords m c c2

/-- The control dictionary `c2` comes from `c` by parsing zero or more class-specific records
of a UAC 2.0 control interface (`record`: the `switch` of `parseACInterfaceDescriptor_0200`
for the record at offset `p`), and by updates that keep the units and the ADC version
(`other`: the stream interface numbers of the interface association, the interrupt
endpoint). -/
inductive ParsesRecords_0200 (m : List Nat) :
    DJM03ControlDictionary → DJM03ControlDictionary → Prop where
  | refl (c : DJM03ControlDictionary) : ParsesRecords_0200 m c c
  | record {c c2 : DJM03ControlDictionary} (p : Nat) :
      ParsesRecords_0200 m (parseACRecord_0200 m p c) c2 → ParsesRecords_0200 m c c2
  | other {c c1 c2 : DJM03ControlDictionary} :
      SameUnits c c1 → ParsesRecords_0200 m c1 c2 → ParsesRecords_0200 m c c2

/-- The unit `u` has the descriptor subtype `subtype` and a unit ID, an 8-bit number. -/
def UnitOK (subtype : Nat) (u : DJM03UnitDictionary) : Prop :=
  u.descriptorSubType = some subtype ∧ ∃ unitID, unitID < 256 ∧ u.unitID = some unitID

/-- The unit `u` holds the source IDs its record declares: for a record at offset `p` with
`bNrInPins` at offset `p + k`, the `bNrInPins` bytes that follow, in the order of the
descriptor. -/
def SourcesOK (m : List Nat) (u : DJM03UnitDictionary) : Prop :=
  ∃ p k, u.unitID = some (rd m (p + 3)) ∧ u.numInPins = some (rd m (p + k))
    ∧ u.sourceIDs = some (rdBytes m (p + k + 1) (rd m (p + k)))

/-- The clock selector `u` holds the clock source IDs its record declares: for a record at
offset `p`, the `bNrInPins` bytes that follow `bNrInPins`, in the order of the descriptor. -/
def ClockSourcesOK (m : List Nat) (u : DJM03UnitDictionary) : Prop :=
  ∃ p, u.unitID = some (rd m (p + 3)) ∧ u.numInPins = some (rd m (p + 4))
    ∧ u.clockSourceIDs = some (rdBytes m (p + 4 + 1) (rd m (p + 4)))

/-- What the records of a UAC 1.0 control interface leave in the arrays of units: each unit
has the descriptor subtype of its array and an ID; the mixer, selector, processing and
extension units hold their declared source IDs; and there are no effect units and no clock
entities. -/
structure ParsedUnits (m : List Nat) (c : DJM03ControlDictionary) : Prop where
  inputTerminals : ∀ u ∈ c.inputTerminals, UnitOK INPUT_TERMINAL u
  outputTerminals : ∀ u ∈ c.outputTerminals, UnitOK OUTPUT_TERMINAL u
  mixerUnits : ∀ u ∈ c.mixerUnits, UnitOK MIXER_UNIT u ∧ SourcesOK m u
  selectorUnits : ∀ u ∈ c.selectorUnits, UnitOK SELECTOR_UNIT u ∧ SourcesOK m u
  featureUnits : ∀ u ∈ c.featureUnits, UnitOK FEATURE_UNIT u
  effectUnits : c.effectUnits = []
  processingUnits : ∀ u ∈ c.processingUnits, UnitOK PROCESSING_UNIT u ∧ SourcesOK m u
  extensionUnits : ∀ u ∈ c.extensionUnits, UnitOK EXTENSION_UNIT u ∧ SourcesOK m u
  clockSources : c.clockSources = []
  clockSelectors : c.clockSelectors = []
  clockMultipliers : c.clockMultipliers = []

/-- What the records of a UAC 2.0 control interface leave in the arrays of units: each unit
has the descriptor subtype of its array and an ID; the mixer, selector, processing and
extension units hold their declared source IDs, and the clock selectors their declared clock
source IDs. -/
structure ParsedUnits_0200 (m : List Nat) (c : DJM03ControlDictionary) : Prop where
  inputTerminals : ∀ u ∈ c.inputTerminals, UnitOK INPUT_TERMINAL u
  outputTerminals : ∀ u ∈ c.outputTerminals, UnitOK OUTPUT_TERMINAL u
  mixerUnits : ∀ u ∈ c.mixerUnits, UnitOK MIXER_UNIT u ∧ SourcesOK m u
  selectorUnits : ∀ u ∈ c.selectorUnits, UnitOK SELECTOR_UNIT u ∧ SourcesOK m u
  featureUnits : ∀ u ∈ c.featureUnits, UnitOK FEATURE_UNIT u
  effectUnits : ∀ u ∈ c.effectUnits, UnitOK EFFECT_UNIT_0200 u
  processingUnits : ∀ u ∈ c.processingUnits, UnitOK PROCESSING_UNIT_0200 u ∧ SourcesOK m u
  extensionUnits : ∀ u ∈ c.extensionUnits, UnitOK EXTENSION_UNIT_0200 u ∧ SourcesOK m u
  clockSources : ∀ u ∈ c.clockSources, UnitOK CLOCK_SOURCE u
  clockSelectors : ∀ u ∈ c.clockSelectors, UnitOK CLOCK_SELECTOR u ∧ ClockSourcesOK m u
  clockMultipliers : ∀ u ∈ c.clockMultipliers, UnitOK CLOCK_MULTIPLIER u

instance (c c1 : DJM03ControlDictionary) : Decidable (SameUnits c c1) := by
  unfold SameUnits; infer_instance
/-! ## Queries on the stream dictionaries -/

/-- Modelled from the spec: the accessor `getInterfaceNumber` of a stream dictionary, an
inline method of the header (not among the sources), reads the interface number with
`getDictionaryValue`. -/
def DJM03StreamDictionary.getInterfaceNumber (s : DJM03StreamDictionary) : Option Nat :=
  getDictionaryValue_UInt8 (some s.interfaceNumber)

/-- Modelled from the spec: the accessor `getAlternateSetting` of a stream dictionary, an
inline method of the header, reads the alternate setting with `getDictionaryValue`. -/
def DJM03StreamDictionary.getAlternateSetting (s : DJM03StreamDictionary) : Option Nat :=
  getDictionaryValue_UInt8 (some s.alternateSetting)

/-- Modelled from the spec: the accessor `getMaxBitRate` of a stream dictionary, an inline
method of the header, reads the maximum bit rate with `getDictionaryValue`. -/
def DJM03StreamDictionary.getMaxBitRate (s : DJM03StreamDictionary) : Option Nat :=
  getDictionaryValue_UInt16 s.maxBitRate

/-- Modelled from the spec: the accessor `getSamplesPerFrame` of a stream dictionary, an
inline method of the header, reads the samples per frame with `getDictionaryValue`. -/
def DJM03StreamDictionary.getSamplesPerFrame (s : DJM03StreamDictionary) : Option Nat :=
  getDictionaryValue_UInt16 s.samplesPerFrame

/-- The `while (!found && streamIndex < streamDictionaries->getCount ())` loop of
`DJM03ConfigurationDictionary::getStreamDictionary`, from the index `streamIndex` on.
`some (some s)` is the stream dictionary found, `some none` is `NULL`, and `none` is the end
of the fuel.  The index is a `UInt8`: `streamIndex++` wraps from 255 to 0. -/
def streamDictionaryLoop (streamDictionaries : List DJM03StreamDictionary)
    (interfaceNum altSettingID : Nat) : Nat → Nat → Option (Option DJM03StreamDictionary)
  | fuel, streamIndex =>
    if streamIndex < streamDictionaries.length then
      match fuel with
      | 0 => none
      | fuel + 1 =>
        match streamDictionaries[streamIndex]? with
        | none => some none
        | some thisStream =>
          match thisStream.getInterfaceNumber with
          | none => some none
          | some streamInterfaceNum =>
            match thisStream.getAlternateSetting with
            | none => some none
            | some streamAltSettingID =>
              if interfaceNum = streamInterfaceNum ∧ altSettingID = streamAltSettingID then
                some (some thisStream)
              else streamDictionaryLoop streamDictionaries interfaceNum altSettingID fuel
                ((streamIndex + 1) % 256)
    else some none

/-- The method `DJM03ConfigurationDictionary::getStreamDictionary`: the loop from index 0.
The fuel 256 is enough whenever the loop ends, so `none` stands for the loop that does not
end.  The arguments are `UInt8` values. -/
def getStreamDictionary (cfg : DJM03ConfigurationDictionary) (interfaceNum altSettingID : Nat) :
    Option (Option DJM03StreamDictionary) :=
  streamDictionaryLoop cfg.streamDictionaries (interfaceNum % 256) (altSettingID % 256) 256 0

/-- The method `DJM03ConfigurationDictionary::getMaxBitRate`: the return code and
`*maxBitRate`. -/
def getMaxBitRate (cfg : DJM03ConfigurationDictionary) (interfaceNum altSettingID : Nat) :
    Option (IOReturn × Nat) :=
  match getStreamDictionary cfg interfaceNum altSettingID with
  | none => none
  | some none => some (.kIOReturnError, 0)
  | some (some thisStream) =>
    match thisStream.getMaxBitRate with
    | none => some (.kIOReturnError, 0)
    | some maxBitRate => some (.kIOReturnSuccess, maxBitRate)

/-- The method `DJM03ConfigurationDictionary::getSamplesPerFrame`: the return code and
`*samplesPerFrame`.  The source calls `thisStream->getMaxBitRate (samplesPerFrame)`. -/
def getSamplesPerFrame (cfg : DJM03ConfigurationDictionary) (interfaceNum altSettingID : Nat) :
    Option (IOReturn × Nat) :=
  match getStreamDictionary cfg interfaceNum altSettingID with
  | none => none
  | some none => some (.kIOReturnError, 0)
  | some (some thisStream) =>
    match thisStream.getMaxBitRate with
    | none => some (.kIOReturnError, 0)
    | some samplesPerFrame => some (.kIOReturnSuccess, samplesPerFrame)
/-! ## Notions of the specification: the priority of the format bits -/

/-- The tag of the first mask of a priority list that has a bit in common with `formats`,
and `undefinedTag` when there is none.  The entries of the list are pairs of a `bmFormats`
mask and the format tag it stands for, the highest priority first. -/
def firstSetTag (formats undefinedTag : Nat) : List (Nat × Nat) → Nat
  | [] => undefinedTag
  | (mask, tag) :: rest =>
    if formats &&& mask ≠ 0 then tag else firstSetTag formats undefinedTag rest

/-- The priority rules of the specification for the reduction of `bmFormats` to one format
tag: the undefined tag of the format type and its list of (bit, tag) pairs in priority
order.  Type I: PCM, PCM8, IEEE_FLOAT, ALAW; Type II: MPEG, AC3; Type III: IEC61937_AC3,
MPEG1_Layer1, MPEG1_Layer2or3, MPEG2_EXT, MPEG2_Layer1_LS, MPEG2_Layer2or3_LS. -/
def formatPriority (bFormatType : Nat) : Option (Nat × List (Nat × Nat)) :=
  if bFormatType = FORMAT_TYPE_I then
    some (TYPE_I_UNDEFINED,
      [(PCM_0200, PCM), (PCM8_0200, PCM8), (IEEE_FLOAT_0200, IEEE_FLOAT), (ALAW_0200, ALAW)])
  else if bFormatType = FORMAT_TYPE_II then
    some (TYPE_II_UNDEFINED, [(MPEG_0200, MPEG), (AC3_0200, AC3)])
  else if bFormatType = FORMAT_TYPE_III then
    some (TYPE_III_UNDEFINED,
      [(IEC61937_AC3_0200, IEC1937_AC3), (IEC1937_MPEG1_Layer1_0200, IEC1937_MPEG1_Layer1),
       (IEC1937_MPEG1_Layer2or3_0200, IEC1937_MPEG1_Layer2or3),
       (IEC61937_MPEG2_EXT_0200, IEC1937_MPEG2_EXT),
       (IEC1937_MPEG2_Layer1_LS_0200, IEC1937_MPEG2_Layer1_LS),
       (IEC1937_MPEG2_Layer2or3_LS_0200, IEC1937_MPEG2_Layer2or3_LS)])
  else none

/-! ## Notions of the specification: a run of the control sub-parser -/

/-- The loop of `parseACInterfaceDescriptor`, entered with the cursor `ptr`, the counter
`parsedLength` and the control dictionary `c`, gets to the cursor `ptr2`, the counter
`parsedLength2` and the dictionary `c2` by parsing the records in between: each step is one
iteration that passes the loop condition and whose record is parsed without a `FailIf`. -/
inductive ACParsesTo (m : List Nat) (totalLength : Nat) :
    Nat → Nat → DJM03ControlDictionary → Nat → Nat → DJM03ControlDictionary → Prop where
  | refl (ptr parsedLength : Nat) (c : DJM03ControlDictionary) :
      ACParsesTo m totalLength ptr parsedLength c ptr parsedLength c
  | step {ptr parsedLength ptr2 parsedLength2 : Nat} {c c1 c2 : DJM03ControlDictionary} :
      rd m ptr > 0 → rd m (ptr + 1) = CS_INTERFACE → parsedLength ≤ totalLength →
      parseACRecord m ptr c = some c1 →
      ACParsesTo m totalLength (ptr + rd m ptr)
        ((parsedLength + rd m (ptr + rd m ptr)) % 65536) c1 ptr2 parsedLength2 c2 →
      ACParsesTo m totalLength ptr parsedLength c ptr2 parsedLength2 c2

/-! ## `DJM03ConfigurationDictionary`: the format queries -/

/-- The method `DJM03ConfigurationDictionary::getFormat`: the out-parameter is set to `PCM`
whatever the interface and alternate setting. -/
def getFormat (_cfg : DJM03ConfigurationDictionary) (_interfaceNum _altSettingID : Nat) :
    IOReturn × Nat :=
  (.kIOReturnSuccess, PCM)

/-- The method `DJM03ConfigurationDictionary::getBitResolution`: the out-parameter is set to
24 whatever the interface and alternate setting. -/
def getBitResolution (_cfg : DJM03ConfigurationDictionary) (_interfaceNum _altSettingID : Nat) :
    IOReturn × Nat :=
  (.kIOReturnSuccess, 24)

/-- The method `DJM03ConfigurationDictionary::getSubframeSize`: the out-parameter is set to 3
whatever the interface and alternate setting. -/
def getSubframeSize (_cfg : DJM03ConfigurationDictionary) (_interfaceNum _altSettingID : Nat) :
    IOReturn × Nat :=
  (.kIOReturnSuccess, 3)

/-! ## The records the walk visits -/

/-- The record at offset `p` is an interface record of the class AUDIO and the subclass
AUDIOSTREAMING. -/
def isAudioStreamingInterfaceAt (m : List Nat) (p : Nat) : Bool :=
  rd m (p + 1) == INTERFACE && rd m (p + 5) == AUDIO && rd m (p + 6) == AUDIOSTREAMING

/-- The offsets of the records the `while` loop of `parseConfigurationDescriptor` visits from
the state `w` on: the cursor at the top of the loop, iteration after iteration, as long as
the loop condition holds and the body ends its iteration normally. -/
def visited (m : List Nat) (totalLength : Nat) : Nat → WalkState → List Nat
  | fuel, w =>
    if rd m w.theInterfacePtr ≠ 0 ∧ w.parsedLength ≤ totalLength then
      match fuel with
      | 0 => []
      | fuel + 1 =>
        w.theInterfacePtr ::
          (match loopBody m totalLength w with
          | .next w1 => visited m totalLength fuel w1
          | _ => [])
    else []

/-- The offsets of the records the walk of `init` visits in the descriptor `d`: none when
`parseConfigurationDescriptor` leaves before its loop. -/
def visitedRecords (d : List Nat) (controlInterfaceNum : Nat) : List Nat :=
  let m := mutableDescriptor d
  if rd m 0 = 0 ∨ CONFIGURATION ≠ rd m 1 ∨ rd16 m 2 = 0 then []
  else visited m (rd16 m 2) (m.length + 1)
    (initialState m { controlInterfaceNum := controlInterfaceNum % 256 })

/-- The offsets of the AUDIO-class AUDIOSTREAMING interface records the walk of `init`
visits in the descriptor `d`, in the order of the visits. -/
def visitedStreamInterfaces (d : List Nat) (controlInterfaceNum : Nat) : List Nat :=
  (visitedRecords d controlInterfaceNum).filter
    (fun p => isAudioStreamingInterfaceAt (mutableDescriptor d) p)

/-- The interface numbers of the stream dictionaries, in the order of the array. -/
def streamInterfaceNumbersOf (cfg : DJM03ConfigurationDictionary) : List Nat :=
  cfg.streamDictionaries.map (fun s => s.interfaceNumber)

/-! ## The records of a control interface and what they declare -/

/-- The offsets of the records that start at `p` and follow one another by their `bLength`,
as long as the offset is below `stop` and the `bLength` is not 0; at most `fuel` of them. -/
def recordOffsets (m : List Nat) (stop : Nat) : Nat → Nat → List Nat
  | 0, _ => []
  | fuel + 1, p =>
    if p < stop ∧ 0 < rd m p then p :: recordOffsets m stop fuel (p + rd m p) else []

/-- The offsets of the records between the offset `ptr` and the offset `stop`, in the order
of the descriptor: the records a sub-parser has passed when it starts with its cursor on
`ptr` and returns with its cursor on `stop`. -/
def recordsBetween (m : List Nat) (ptr stop : Nat) : List Nat :=
  recordOffsets m stop stop ptr

/-- What the class-specific record at offset `p` of a UAC 1.0 control interface declares
about the sources of its unit, by the layout of the USB audio class: `some (some l)` for a
mixer or selector unit (`bNrInPins` at offset 4) and for a processing or extension unit
(`bNrInPins` at offset 6), where `l` is the `bNrInPins` bytes that follow `bNrInPins`;
`some none` for a terminal or a feature unit, which has no list of sources; and `none` for a
record that declares no unit. -/
def declaredSources (m : List Nat) (p : Nat) : Option (Option (List Nat)) :=
  let subtype := rd m (p + 2)
  if subtype = MIXER_UNIT ∨ subtype = SELECTOR_UNIT then
    some (some (rdBytes m (p + 5) (rd m (p + 4))))
  else if subtype = PROCESSING_UNIT ∨ subtype = EXTENSION_UNIT then
    some (some (rdBytes m (p + 7) (rd m (p + 6))))
  else if subtype = INPUT_TERMINAL ∨ subtype = OUTPUT_TERMINAL ∨ subtype = FEATURE_UNIT then
    some none
  else none

/-- What the class-specific record at offset `p` of a UAC 2.0 control interface declares
about the sources of its unit: `some (some l)` for a mixer or selector unit and for a clock
selector (`bNrInPins` at offset 4) and for a processing or extension unit (`bNrInPins` at
offset 6), where `l` is the `bNrInPins` bytes that follow `bNrInPins`; `some none` for a
terminal, a feature unit, an effect unit, a clock source or a clock multiplier; and `none`
for a record that declares no unit. -/
def declaredSources_0200 (m : List Nat) (p : Nat) : Option (Option (List Nat)) :=
  let subtype := rd m (p + 2)
  if subtype = MIXER_UNIT ∨ subtype = SELECTOR_UNIT ∨ subtype = CLOCK_SELECTOR then
    some (some (rdBytes m (p + 5) (rd m (p + 4))))
  else if subtype = PROCESSING_UNIT_0200 ∨ subtype = EXTENSION_UNIT_0200 then
    some (some (rdBytes m (p + 7) (rd m (p + 6))))
  else if subtype = INPUT_TERMINAL ∨ subtype = OUTPUT_TERMINAL ∨ subtype = FEATURE_UNIT
      ∨ subtype = EFFECT_UNIT_0200 ∨ subtype = CLOCK_SOURCE ∨ subtype = CLOCK_MULTIPLIER then
    some none
  else none

/-- What the record at offset `p` declares, for the ADC version of the control interface. -/
def declaredSourcesIn (adcVersion : Nat) (m : List Nat) (p : Nat) :
    Option (Option (List Nat)) :=
  if adcVersion = kAUAUSBSpec2_0 then declaredSources_0200 m p else declaredSources m p

/-- What `getSourceIDs` is to return for a unit: success and the list of the sources when
the unit has one, an error and no list otherwise. -/
def sourceIDsResult (sources : Option (List Nat)) : SourceIDsReturn × Option (List Nat) :=
  match sources with
  | some l => (.code .kIOReturnSuccess, some l)
  | none => (.code .kIOReturnError, none)

/-- The units with a list of sources: the mixer, selector, processing and extension
units. -/
def sourceUnits (c : DJM03ControlDictionary) : List DJM03UnitDictionary :=
  c.mixerUnits ++ c.selectorUnits ++ c.processingUnits ++ c.extensionUnits

/-- The units without a list of sources: the terminals, the feature and effect units, the
clock sources and the clock multipliers. -/
def plainUnits (c : DJM03ControlDictionary) : List DJM03UnitDictionary :=
  c.inputTerminals ++ c.outputTerminals ++ c.featureUnits ++ c.effectUnits
    ++ c.clockSources ++ c.clockMultipliers

/-- The control dictionary `c` holds the unit the record at offset `p` declares, with the
unit ID of the record: among the units with sources or the clock selectors, with the list
`l`, when the record declares the list `l`, and among the units without sources when it
declares none. -/
def HoldsUnit (m : List Nat) (p : Nat) (sources : Option (List Nat))
    (c : DJM03ControlDictionary) : Prop :=
  match sources with
  | some l =>
    (∃ u ∈ sourceUnits c, u.unitID = some (rd m (p + 3)) ∧ u.sourceIDs = some l)
      ∨ (∃ u ∈ c.clockSelectors, u.unitID = some (rd m (p + 3)) ∧ u.clockSourceIDs = some l)
  | none => ∃ u ∈ plainUnits c, u.unitID = some (rd m (p + 3))

/-- The control dictionary `c1` comes from `c` by the records at the offsets `ps`, of which
`declared` tells what they declare: the units of `c` are in `c1`, each in its kind; `c1`
holds the unit of each record that declares one; and each unit of `c1` is a unit of `c` or
has the unit ID of a record that declares a unit. -/
def Declares (m : List Nat) (declared : Nat → Option (Option (List Nat))) (ps : List Nat)
    (c c1 : DJM03ControlDictionary) : Prop :=
  (∀ u ∈ sourceUnits c, u ∈ sourceUnits c1)
    ∧ (∀ u ∈ c.clockSelectors, u ∈ c1.clockSelectors)
    ∧ (∀ u ∈ plainUnits c, u ∈ plainUnits c1)
    ∧ (∀ p ∈ ps, ∀ sources, declared p = some sources → HoldsUnit m p sources c1)
    ∧ (∀ u ∈ allUnits c1, u ∈ allUnits c
        ∨ ∃ p ∈ ps, declared p ≠ none ∧ u.unitID = some (rd m (p + 3)))

/-! ## Concrete descriptors -/

/-- A UAC 1.0 configuration descriptor of 100 bytes: control interface 0 (header listing
streaming interface 1, an input terminal, an output terminal), streaming interface 1 with
the alternate settings 0 and 1, the latter with AS_GENERAL, FORMAT_TYPE (2 channels, 16 bits,
44100 Hz), an isochronous endpoint and its class-specific endpoint record. -/
def uac1Descriptor : List Nat :=
  [9, 2, 100, 0, 2, 1, 0, 0x80, 50]
  ++ [9, 4, 0, 0, 0, 1, 1, 0, 0]
  ++ [9, 0x24, 1, 0, 1, 30, 0, 1, 1]
  ++ [12, 0x24, 2, 1, 1, 1, 0, 2, 3, 0, 0, 0]
  ++ [9, 0x24, 3, 2, 1, 3, 0, 1, 0]
  ++ [9, 4, 1, 0, 0, 1, 2, 0, 0]
  ++ [9, 4, 1, 1, 1, 1, 2, 0, 0]
  ++ [7, 0x24, 1, 1, 1, 1, 0]
  ++ [11, 0x24, 2, 1, 2, 2, 16, 1, 0x44, 0xAC, 0]
  ++ [9, 5, 1, 9, 0xC8, 0, 1, 0, 0]
  ++ [7, 0x25, 1, 0, 0, 0, 0]

/-- A UAC 1.0 configuration descriptor of 79 bytes with two audio functions: control
interface 0 lists streaming interface 1, control interface 2 lists streaming interface 3. -/
def twoFunctionDescriptor : List Nat :=
  [9, 2, 79, 0, 4, 1, 0, 0x80, 50]
  ++ [9, 4, 0, 0, 0, 1, 1, 0, 0]
  ++ [9, 0x24, 1, 0, 1, 9, 0, 1, 1]
  ++ [9, 4, 1, 0, 0, 1, 2, 0, 0]
  ++ [9, 4, 2, 0, 0, 1, 1, 0, 0]
  ++ [9, 0x24, 1, 0, 1, 9, 0, 1, 3]
  ++ [9, 4, 3, 0, 0, 1, 2, 0, 0]
  ++ [9, 4, 3, 1, 0, 1, 2, 0, 0]
  ++ [7, 0x24, 1, 1, 1, 1, 0]

/-- A configuration descriptor whose own `bLength` (200) lies beyond its `wTotalLength`
(9). -/
def oversizedHeaderDescriptor : List Nat :=
  [200, 2, 9, 0, 1, 1, 0, 0x80, 50]

/-- A UAC 1.0 configuration descriptor of 81 bytes in which the alternate settings 0 and 1 of
streaming interface 1 declare 2 and 8 channels. -/
def twoAltDescriptor : List Nat :=
  [9, 2, 81, 0, 2, 1, 0, 0x80, 50]
  ++ [9, 4, 0, 0, 0, 1, 1, 0, 0]
  ++ [9, 0x24, 1, 0, 1, 9, 0, 1, 1]
  ++ [9, 4, 1, 0, 1, 1, 2, 0, 0]
  ++ [7, 0x24, 1, 1, 1, 1, 0]
  ++ [11, 0x24, 2, 1, 2, 2, 16, 1, 0x44, 0xAC, 0]
  ++ [9, 4, 1, 1, 1, 1, 2, 0, 0]
  ++ [7, 0x24, 1, 1, 1, 1, 0]
  ++ [11, 0x24, 2, 1, 8, 3, 24, 1, 0x44, 0xAC, 0]

/-- A UAC 1.0 configuration descriptor of 57 bytes whose streaming interface 1, alternate
setting 1, has a FORMAT_TYPE record with `bSamFreqType = 0` and the continuous range from
44100 Hz (`0x00AC44`) to 96000 Hz (`0x017700`). -/
def rangeDescriptor : List Nat :=
  [9, 2, 57, 0, 2, 1, 0, 0x80, 50]
  ++ [9, 4, 0, 0, 0, 1, 1, 0, 0]
  ++ [9, 0x24, 1, 0, 1, 9, 0, 1, 1]
  ++ [9, 4, 1, 1, 1, 1, 2, 0, 0]
  ++ [7, 0x24, 1, 1, 1, 1, 0]
  ++ [14, 0x24, 2, 1, 2, 2, 16, 0, 0x44, 0xAC, 0, 0x00, 0x77, 0x01]

/-- The stream dictionary that parsing `rangeDescriptor` builds for interface 1, alternate
setting 1. -/
def rangeStream : DJM03StreamDictionary :=
  { interfaceNumber := 1
    alternateSetting := 1
    numEndpoints := 1
    interfaceClass := 1
    interfaceSubClass := 2
    interfaceProtocol := 0
    terminalLink := some 1
    delay := some 1
    formatTag := some 1
    numChannels := some 2
    subframeSize := some 2
    bitResolution := some 16
    numSampleRates := some 0
    sampleRates := [44100, 96000] }

/-- A configuration descriptor of 27 bytes with the control interface 0 (header listing
streaming interface 1) and no streaming interface. -/
def controlOnlyDescriptor : List Nat :=
  [9, 2, 27, 0, 1, 1, 0, 0x80, 50]
  ++ [9, 4, 0, 0, 0, 1, 1, 0, 0]
  ++ [9, 0x24, 1, 0, 1, 9, 0, 1, 1]

/-- A configuration descriptor of 45 bytes with two records of the control interface 0
(alternate settings 0 and 1, each with a header listing streaming interface 1) and no
streaming interface. -/
def twoControlRecordsDescriptor : List Nat :=
  [9, 2, 45, 0, 1, 1, 0, 0x80, 50]
  ++ [9, 4, 0, 0, 0, 1, 1, 0, 0]
  ++ [9, 0x24, 1, 0, 1, 9, 0, 1, 1]
  ++ [9, 4, 0, 1, 0, 1, 1, 0, 0]
  ++ [9, 0x24, 1, 0, 1, 9, 0, 1, 1]

/-- A configuration descriptor of 27 bytes: a HID interface 3, then the control interface 0
with the interface protocol `0x30`, which is neither UNDEFINED nor `IP_VERSION_02_00`. -/
def unsupportedProtocolDescriptor : List Nat :=
  [9, 2, 27, 0, 2, 1, 0, 0x80, 50]
  ++ [9, 4, 3, 0, 0, 3, 0, 0, 0]
  ++ [9, 4, 0, 0, 0, 1, 1, 0x30, 0]

/-- A UAC 1.0 configuration descriptor cut off after 48 bytes (`wTotalLength = 48`): control
interface 0 listing streaming interface 1, then interface 1, alternate setting 1, with a
complete AS_GENERAL record (offsets 36..42) and the first 5 of the 11 bytes its FORMAT_TYPE
record declares (offsets 43..47). -/
def truncatedFormatDescriptor : List Nat :=
  [9, 2, 48, 0, 2, 1, 0, 0x80, 50]
  ++ [9, 4, 0, 0, 0, 1, 1, 0, 0]
  ++ [9, 0x24, 1, 0, 1, 9, 0, 1, 1]
  ++ [9, 4, 1, 1, 1, 1, 2, 0, 0]
  ++ [7, 0x24, 1, 1, 1, 1, 0]
  ++ [11, 0x24, 2, 1, 2]

/-- A UAC 1.0 configuration descriptor cut off after 66 bytes (`wTotalLength = 66`) in which
the streaming interfaces 2 and 3, not listed by control interface 0, come before the listed
streaming interface 1, whose alternate setting 1 has a complete AS_GENERAL record (offsets
54..60) and the first 5 of the 11 bytes its FORMAT_TYPE record declares (offsets 61..65). -/
def unreachedStreamDescriptor : List Nat :=
  [9, 2, 66, 0, 4, 1, 0, 0x80, 50]
  ++ [9, 4, 0, 0, 0, 1, 1, 0, 0]
  ++ [9, 0x24, 1, 0, 1, 9, 0, 1, 1]
  ++ [9, 4, 2, 0, 0, 1, 2, 0, 0]
  ++ [9, 4, 3, 0, 0, 1, 2, 0, 0]
  ++ [9, 4, 1, 1, 1, 1, 2, 0, 0]
  ++ [7, 0x24, 1, 9, 1, 1, 0]
  ++ [11, 0x24, 2, 1, 2]

/-- The descriptor `uac1Descriptor` with a status interrupt endpoint on the control
interface (`bNumEndpoints = 1`, ENDPOINT record at offsets 48..54): 107 bytes. -/
def interruptDescriptor : List Nat :=
  [9, 2, 107, 0, 2, 1, 0, 0x80, 50]
  ++ [9, 4, 0, 0, 1, 1, 1, 0, 0]
  ++ [9, 0x24, 1, 0, 1, 30, 0, 1, 1]
  ++ [12, 0x24, 2, 1, 1, 1, 0, 2, 3, 0, 0, 0]
  ++ [9, 0x24, 3, 2, 1, 3, 0, 1, 0]
  ++ [7, 5, 0x81, 3, 2, 0, 10]
  ++ [9, 4, 1, 0, 0, 1, 2, 0, 0]
  ++ [9, 4, 1, 1, 1, 1, 2, 0, 0]
  ++ [7, 0x24, 1, 1, 1, 1, 0]
  ++ [11, 0x24, 2, 1, 2, 2, 16, 1, 0x44, 0xAC, 0]
  ++ [9, 5, 1, 9, 0xC8, 0, 1, 0, 0]
  ++ [7, 0x25, 1, 0, 0, 0, 0]

/-- The descriptor `interruptDescriptor` cut off after 85 bytes (`wTotalLength = 85`): the
FORMAT_TYPE record at offset 80 declares 11 bytes, of which 5 are present. -/
def interruptTruncatedDescriptor : List Nat :=
  [9, 2, 85, 0, 2, 1, 0, 0x80, 50]
  ++ [9, 4, 0, 0, 1, 1, 1, 0, 0]
  ++ [9, 0x24, 1, 0, 1, 30, 0, 1, 1]
  ++ [12, 0x24, 2, 1, 1, 1, 0, 2, 3, 0, 0, 0]
  ++ [9, 0x24, 3, 2, 1, 3, 0, 1, 0]
  ++ [7, 5, 0x81, 3, 2, 0, 10]
  ++ [9, 4, 1, 0, 0, 1, 2, 0, 0]
  ++ [9, 4, 1, 1, 1, 1, 2, 0, 0]
  ++ [7, 0x24, 1, 1, 1, 1, 0]
  ++ [11, 0x24, 2, 1, 2]

/-- An AUDIOCONTROL interface dictionary with no unit yet. -/
def emptyControl : DJM03ControlDictionary :=
  { interfaceNumber := 0, alternateSetting := 0, numEndpoints := 0, interfaceClass := AUDIO,
    interfaceSubClass := AUDIOCONTROL, interfaceProtocol := INTERFACE_PROTOCOL_UNDEFINED }

/-- A UAC1 FEATURE_UNIT record: unit 2, source 1, `bControlSize = 1`, one element
`bmaControls[0] = 0b00000011` (mute and volume on the master channel). -/
def featureUnitRecord : List Nat := [8, 0x24, 0x06, 2, 1, 1, 0b00000011, 0]

/-- A UAC2 AUDIOCONTROL interface dictionary with no unit yet. -/
def emptyControl_0200 : DJM03ControlDictionary :=
  { interfaceNumber := 0, alternateSetting := 0, numEndpoints := 0, interfaceClass := AUDIO,
    interfaceSubClass := AUDIOCONTROL, interfaceProtocol := IP_VERSION_02_00 }

/-- A UAC2 CLOCK_SOURCE record: clock ID 1, `bmAttributes = 0x3`, `bmControls = 0x3`. -/
def clockSourceRecord : List Nat := [8, 0x24, 0x0A, 1, 0x3, 0x3, 0, 0]

/-- The control dictionary after 256 CLOCK_SOURCE records with the clock ID 1. -/
def manyClockSources : DJM03ControlDictionary :=
  Nat.iterate (parseACRecord_0200 clockSourceRecord 0) 256 emptyControl_0200

/-- A UAC2 INPUT_TERMINAL record: terminal ID 1, clock source 1, two channels. -/
def inputTerminalRecord : List Nat :=
  [17, 0x24, 0x02, 1, 0x01, 0x01, 0, 1, 2, 0x03, 0, 0, 0, 0, 0, 0, 0]

/-- A UAC2 OUTPUT_TERMINAL record: terminal ID 1, source 5, clock source 1. -/
def outputTerminalRecord : List Nat := [12, 0x24, 0x03, 1, 0x01, 0x03, 0, 5, 1, 0, 0, 0]

/-- A UAC2 OUTPUT_TERMINAL record: terminal ID 2, source 5, clock source 1. -/
def outputTerminalRecord2 : List Nat := [12, 0x24, 0x03, 2, 0x01, 0x03, 0, 5, 1, 0, 0, 0]

/-- The control dictionary after 256 OUTPUT_TERMINAL records with the terminal ID 1. -/
def manyOutputTerminals : DJM03ControlDictionary :=
  Nat.iterate (parseACRecord_0200 outputTerminalRecord 0) 256 emptyControl_0200

/-- The control dictionary after 256 INPUT_TERMINAL records with the terminal ID 1 and one
OUTPUT_TERMINAL record with the terminal ID 2. -/
def manyInputTerminals : DJM03ControlDictionary :=
  parseACRecord_0200 outputTerminalRecord2 0
    (Nat.iterate (parseACRecord_0200 inputTerminalRecord 0) 256 emptyControl_0200)

/-- A UAC 2.0 configuration descriptor of 109 bytes: an interface association (interfaces 0
and 1), the control interface 0 with a header (`bcdADC = 0x0200`), the clock sources 1
(`bmAttributes = 0x3`, `bmControls = 0x0`), 2 and 3 (`bmAttributes = 0x3`,
`bmControls = 0x3`), the input terminal 4 on clock 1, the output terminals 5 on clock 2 and
6 on clock 3, and the streaming interface 1. -/
def uac2Descriptor : List Nat :=
  [9, 0x02, 109, 0, 2, 1, 0, 0x80, 50,
   8, 0x0B, 0, 2, 0x01, 0x00, 0x20, 0,
   9, 0x04, 0, 0, 0, 0x01, 0x01, 0x20, 0,
   9, 0x24, 0x01, 0x00, 0x02, 0x01, 74, 0, 0,
   8, 0x24, 0x0A, 1, 0x3, 0x0, 0, 0,
   8, 0x24, 0x0A, 2, 0x3, 0x3, 0, 0,
   8, 0x24, 0x0A, 3, 0x3, 0x3, 0, 0,
   17, 0x24, 0x02, 4, 0x01, 0x01, 0, 1, 2, 0x03, 0, 0, 0, 0, 0, 0, 0,
   12, 0x24, 0x03, 5, 0x01, 0x03, 0, 4, 2, 0, 0, 0,
   12, 0x24, 0x03, 6, 0x01, 0x03, 0, 4, 3, 0, 0, 0,
   9, 0x04, 1, 0, 0, 0x01, 0x02, 0x20, 0]

/-- A UAC2 control dictionary with the input terminals 1 and 2 on clock 7 and 3 on clock 8,
and the output terminals 4 on clock 8 and 5 on clock 9. -/
def clockTerminalsControl : DJM03ControlDictionary :=
  { emptyControl_0200 with
    inputTerminals := [{ unitID := some 1, clockSourceID := some 7 },
      { unitID := some 2, clockSourceID := some 7 }, { unitID := some 3, clockSourceID := some 8 }]
    outputTerminals := [{ unitID := some 4, clockSourceID := some 8 },
      { unitID := some 5, clockSourceID := some 9 }] }

/-- The control dictionary that `init` parses from `uac2Descriptor`. -/
def uac2Control : DJM03ControlDictionary :=
  (init (some uac2Descriptor) 0).2.controlDictionaries.headD emptyControl_0200

/-- A UAC 1.0 configuration descriptor of 99 bytes: the control interface 0 (record at offset
9) with a header (`bcdADC = 0x0100`, at offset 18), the input terminals 1 and 2, the selector
unit 3 and the mixer unit 4 (each with the sources 1 and 2), the feature unit 5 (source 3),
the output terminal 6 (source 5), and the streaming interface 1. -/
def uac1UnitsDescriptor : List Nat :=
  [9, 0x02, 99, 0, 2, 1, 0, 0x80, 50,
   9, 0x04, 0, 0, 0, 0x01, 0x01, 0x00, 0,
   9, 0x24, 0x01, 0x00, 0x01, 72, 0, 1, 1,
   12, 0x24, 0x02, 1, 0x01, 0x01, 0, 2, 0x03, 0, 0, 0,
   12, 0x24, 0x02, 2, 0x01, 0x01, 0, 2, 0x03, 0, 0, 0,
   8, 0x24, 0x05, 3, 2, 1, 2, 0,
   13, 0x24, 0x04, 4, 2, 1, 2, 2, 0x03, 0, 0, 0, 0,
   9, 0x24, 0x06, 5, 3, 1, 0x03, 0x00, 0,
   9, 0x24, 0x03, 6, 0x01, 0x03, 0, 5, 0,
   9, 0x04, 1, 0, 0, 0x01, 0x02, 0x00, 0]

/-- The control dictionary that `parseACInterfaceDescriptor` makes of the class-specific
records of `uac1UnitsDescriptor`, from offset 18 on. -/
def uac1UnitsRecords : DJM03ControlDictionary :=
  ((parseACInterfaceDescriptor (mutableDescriptor uac1UnitsDescriptor) 100 18 27 99
    (controlDictionaryAt (mutableDescriptor uac1UnitsDescriptor) 9)).map
      (fun r => r.2.2)).getD emptyControl

/-- The control dictionary that `init` parses from `uac1UnitsDescriptor`. -/
def uac1UnitsControl : DJM03ControlDictionary :=
  (init (some uac1UnitsDescriptor) 0).2.controlDictionaries.headD emptyControl

/-- A UAC 2.0 stream dictionary without rates: 114 channels of 24 bits, and one isochronous
data endpoint (address `0x01`, attributes `0x05`) with the maximum packet size 1024 and the
interval 4. -/
def wideStream : DJM03StreamDictionary :=
  { interfaceNumber := 1, alternateSetting := 1, numEndpoints := 1, interfaceClass := AUDIO,
    interfaceSubClass := AUDIOSTREAMING, interfaceProtocol := IP_VERSION_02_00,
    numChannels := some 114, bitResolution := some 24,
    endpoints := [{ address := some 0x01, attributes := some 0x05, maxPacketSize := some 1024,
                    interval := some 4 }] }

/-- A stream dictionary with the rate 44100: two channels of 16 bits, and one isochronous
data endpoint with the maximum packet size 200 and the interval 4. -/
def stereoStream : DJM03StreamDictionary :=
  { interfaceNumber := 1, alternateSetting := 1, numEndpoints := 1, interfaceClass := AUDIO,
    interfaceSubClass := AUDIOSTREAMING, interfaceProtocol := INTERFACE_PROTOCOL_UNDEFINED,
    numChannels := some 2, bitResolution := some 16, numSampleRates := some 1,
    sampleRates := [44100],
    endpoints := [{ address := some 0x01, attributes := some 0x05, maxPacketSize := some 200,
                    interval := some 4 }] }
/-! ## Sample data for the stream queries and the walk branches -/

/-- The stream `stereoStream` with the interval 5 in place of 4 at its isochronous data
endpoint (a UAC 2.0 ENDPOINT record with `bInterval = 5`). -/
def slowStream : DJM03StreamDictionary :=
  { stereoStream with
    endpoints := [{ address := some 0x01, attributes := some 0x05, maxPacketSize := some 200,
                    interval := some 5 }] }

/-- A UAC 2.0 configuration descriptor of 92 bytes: an interface association (interfaces 0
and 1), the control interface 0 with a header, and the streaming interface 1 with the
alternate settings 0 and 1; the alternate setting 1 has an AS_GENERAL record (Format Type II,
`bmFormats = 0x3`: MPEG and AC3), a FORMAT_TYPE record of Type II (`wMaxBitRate = 384`,
`wSlotsPerFrame = 1152`), and an isochronous data endpoint with `wMaxPacketSize = 0x1400`
(1024 bytes, three transactions per microframe) and `bInterval = 1`. -/
def uac2TypeIIDescriptor : List Nat :=
  [9, 0x02, 92, 0, 2, 1, 0, 0x80, 50,
   8, 0x0B, 0, 2, 0x01, 0x00, 0x20, 0,
   9, 0x04, 0, 0, 0, 0x01, 0x01, 0x20, 0,
   9, 0x24, 0x01, 0x00, 0x02, 0x01, 9, 0, 0,
   9, 0x04, 1, 0, 0, 0x01, 0x02, 0x20, 0,
   9, 0x04, 1, 1, 1, 0x01, 0x02, 0x20, 0,
   16, 0x24, 0x01, 1, 0, 0x02, 0x03, 0, 0, 0, 2, 0x03, 0, 0, 0, 0,
   8, 0x24, 0x02, 0x02, 0x80, 0x01, 0x80, 0x04,
   7, 0x05, 0x01, 0x05, 0x00, 0x14, 1,
   8, 0x25, 0x01, 0, 0, 0, 0, 0]

/-- A UAC 1.0 configuration descriptor of 65530 bytes (`wTotalLength = 0xFFFA`): the
AUDIOCONTROL interface 1 (record at offset 9) with a class-specific header at offset 18 whose
`wTotalLength` is 0xFFDF = 65503, 65494 zero bytes, and at offset 18 + 65503 = 65521 an
AudioStreaming interface record for the interface 2 with `bLength = 15`, of which the nine
bytes up to the end of the descriptor are there. -/
def wrapLengthDescriptor : List Nat :=
  [9, 0x02, 0xFA, 0xFF, 2, 1, 0, 0x80, 50,
   9, 0x04, 1, 0, 0, 0x01, 0x01, 0x00, 0,
   9, 0x24, 0x01, 0x00, 0x01, 0xDF, 0xFF, 0, 0]
    ++ (List.replicate 65494 0
    ++ [15, 0x04, 2, 0, 0, 0x01, 0x02, 0x00, 0])

/-- The stream dictionary that `parseInterfaceDescriptor` makes for the interface record at
the end of `wrapLengthDescriptor`. -/
def wrapLengthStream : DJM03StreamDictionary :=
  { interfaceNumber := 2, alternateSetting := 0, numEndpoints := 0, interfaceClass := AUDIO,
    interfaceSubClass := AUDIOSTREAMING, interfaceProtocol := INTERFACE_PROTOCOL_UNDEFINED }

/-- A UAC 1.0 configuration descriptor of 64 bytes: the control interface 0 (record at offset
9) with a header (at offset 18, listing the streaming interface 1), the input terminal 1 (at
offset 27), the feature unit 2 with `bControlSize = 0` (at offset 39), the output terminal 3
(at offset 46), and the streaming interface 1. -/
def zeroControlSizeDescriptor : List Nat :=
  [9, 0x02, 64, 0, 2, 1, 0, 0x80, 50,
   9, 0x04, 0, 0, 0, 0x01, 0x01, 0x00, 0,
   9, 0x24, 0x01, 0x00, 0x01, 37, 0, 1, 1,
   12, 0x24, 0x02, 1, 0x01, 0x01, 0, 2, 0x03, 0, 0, 0,
   7, 0x24, 0x06, 2, 1, 0, 0,
   9, 0x24, 0x03, 3, 0x01, 0x03, 0, 2, 0,
   9, 0x04, 1, 0, 0, 0x01, 0x02, 0x00, 0]

/-- The control dictionary of the interface 0 of `zeroControlSizeDescriptor` after its
header: the streaming interface 1 is listed, no unit is parsed yet. -/
def zeroControlSizeHeader : DJM03ControlDictionary :=
  { interfaceNumber := 0, alternateSetting := 0, numEndpoints := 0, interfaceClass := AUDIO,
    interfaceSubClass := AUDIOCONTROL, interfaceProtocol := INTERFACE_PROTOCOL_UNDEFINED,
    adcVersion := some 0x0100, numStreamInterfaces := some 1,
    streamInterfaceNumbers := some [1] }

/-- The input terminal 1 of `zeroControlSizeDescriptor`. -/
def zeroControlSizeInputTerminal : DJM03UnitDictionary :=
  ((parseACRecord zeroControlSizeDescriptor 27 zeroControlSizeHeader).getD
    zeroControlSizeHeader).inputTerminals.headD {}

/-- A UAC 2.0 configuration descriptor of 44 bytes: an interface association with
`bFirstInterface = 254` and `bInterfaceCount = 3`, the control interface 254 with a header,
and the streaming interface 255. -/
def wrapIADDescriptor : List Nat :=
  [9, 0x02, 44, 0, 2, 1, 0, 0x80, 50,
   8, 0x0B, 254, 3, 0x01, 0x00, 0x20, 0,
   9, 0x04, 254, 0, 0, 0x01, 0x01, 0x20, 0,
   9, 0x24, 0x01, 0x00, 0x02, 0x01, 9, 0, 0,
   9, 0x04, 255, 0, 0, 0x01, 0x02, 0x20, 0]

/-- The control dictionary `parseInterfaceDescriptor` makes for the interface record at
offset 17 of `uac2TypeIIDescriptor`. -/
def uac2TypeIIControlRecord : DJM03ControlDictionary :=
  { interfaceNumber := 0, alternateSetting := 0, numEndpoints := 0, interfaceClass := AUDIO,
    interfaceSubClass := AUDIOCONTROL, interfaceProtocol := IP_VERSION_02_00 }

/-- The state of the walk over `uac2TypeIIDescriptor` when the branch of the requested
control interface is entered: the interface association at offset 9 is remembered,
`parseInterfaceDescriptor` has made the control dictionary of the interface record at offset
17, and the cursor is on the header at offset 26. -/
def uac2TypeIIControlState : WalkState :=
  { cfg := { controlInterfaceNum := 0, controlDictionaries := [uac2TypeIIControlRecord] }
    result := .kIOReturnSuccess
    theInterfacePtr := 26
    theInterfaceAssociationPtr := some 9
    controlDictionary := false
    numStreamInterfaces := 0
    lastInterfaceNumber := 0
    numParsedInterfaces := 0
    parsedLength := 35
    haveControlInterface := false
    foundStreamInterface := false }

/-- A UAC 1.0 configuration descriptor of 60 bytes: the control interface 0 whose header
lists the interfaces 1 and 2 (in this order), the MIDISTREAMING interface 1 (record at offset
28) with its class-specific header, and the AudioStreaming interface 2 (record at offset 44)
with an AS_GENERAL record (terminal link 1, format tag PCM). -/
def midiFirstDescriptor : List Nat :=
  [9, 0x02, 60, 0, 3, 1, 0, 0x80, 50,
   9, 0x04, 0, 0, 0, 0x01, 0x01, 0x00, 0,
   10, 0x24, 0x01, 0x00, 0x01, 10, 0, 2, 1, 2,
   9, 0x04, 1, 0, 0, 0x01, 0x03, 0x00, 0,
   7, 0x24, 0x01, 0x00, 0x01, 7, 0,
   9, 0x04, 2, 0, 0, 0x01, 0x02, 0x00, 0,
   7, 0x24, 0x01, 1, 1, 0x01, 0x00]

/-- The descriptor `midiFirstDescriptor` with the two interface numbers of the header in the
other order: the header lists the interfaces 2 and 1. -/
def midiLastDescriptor : List Nat :=
  [9, 0x02, 60, 0, 3, 1, 0, 0x80, 50,
   9, 0x04, 0, 0, 0, 0x01, 0x01, 0x00, 0,
   10, 0x24, 0x01, 0x00, 0x01, 10, 0, 2, 2, 1,
   9, 0x04, 1, 0, 0, 0x01, 0x03, 0x00, 0,
   7, 0x24, 0x01, 0x00, 0x01, 7, 0,
   9, 0x04, 2, 0, 0, 0x01, 0x02, 0x00, 0,
   7, 0x24, 0x01, 1, 1, 0x01, 0x00]

/-- A UAC 1.0 configuration descriptor of 44 bytes: the control interface 0 whose header
lists the interface 1 twice, and the MIDISTREAMING interface 1 (record at offset 28) with its
class-specific header. -/
def midiTwiceDescriptor : List Nat :=
  [9, 0x02, 44, 0, 2, 1, 0, 0x80, 50,
   9, 0x04, 0, 0, 0, 0x01, 0x01, 0x00, 0,
   10, 0x24, 0x01, 0x00, 0x01, 10, 0, 2, 1, 1,
   9, 0x04, 1, 0, 0, 0x01, 0x03, 0x00, 0,
   7, 0x24, 0x01, 0x00, 0x01, 7, 0]

/-! ## Sample data for the stream records and the queries on the streams -/

/-- A UAC 1.0 FORMAT_TYPE record of Type I: two channels, 16 bits in two bytes, and the three
discrete rates 44100, 48000 and 96000. -/
def formatTypeRecord : List Nat :=
  [17, 0x24, 0x02, 0x01, 2, 2, 16, 3, 0x44, 0xAC, 0x00, 0x80, 0xBB, 0x00, 0x00, 0x77, 0x01]

/-- A stream dictionary as `parseInterfaceDescriptor` makes it for the alternate setting 1 of
the AudioStreaming interface 1 with one endpoint: nothing is parsed into it yet. -/
def freshStream : DJM03StreamDictionary :=
  { interfaceNumber := 1, alternateSetting := 1, numEndpoints := 1, interfaceClass := AUDIO,
    interfaceSubClass := AUDIOSTREAMING, interfaceProtocol := INTERFACE_PROTOCOL_UNDEFINED }

/-- A UAC 2.0 FEATURE_UNIT record: unit 2, source 1, and two control bitmaps of four bytes:
`0x0000000F` for the master channel (mute and volume present and programmable) and
`0x00000005` for channel 1 (mute and volume present, read-only). -/
def featureUnitRecord_0200 : List Nat :=
  [14, 0x24, 0x06, 2, 1, 0x0F, 0, 0, 0, 0x05, 0, 0, 0, 0]

/-- A UAC 2.0 OUTPUT_TERMINAL record: terminal 3, a speaker, with the source ID 2 and the
clock source 1. -/
def outputTerminalRecord_0200 : List Nat := [12, 0x24, 0x03, 3, 0x01, 0x03, 0, 2, 1, 0, 0, 0]

/-- The control dictionary after the feature unit 2 and the output terminal 3, whose source
is the feature unit. -/
def chainControl_0200 : DJM03ControlDictionary :=
  parseACRecord_0200.OUTPUT_TERMINAL outputTerminalRecord_0200 0
    (parseACRecord_0200.FEATURE_UNIT featureUnitRecord_0200 0 emptyControl_0200)

/-- An AudioStreaming interface record: interface 1 with the alternate setting
`altSetting`, no endpoint, UAC 2.0. -/
def streamInterfaceRecord (altSetting : Nat) : List Nat :=
  [9, INTERFACE, 1, altSetting, 0, AUDIO, AUDIOSTREAMING, IP_VERSION_02_00, 0]

/-- The configuration dictionary after `parseInterfaceDescriptor` on the 256 alternate
settings 0 .. 255 of the stream interface 1. -/
def manyStreams : DJM03ConfigurationDictionary :=
  (List.range 256).foldl
    (fun cfg altSetting =>
      (parseInterfaceDescriptor (streamInterfaceRecord altSetting) cfg 0 0 0 0).2.1)
    { controlInterfaceNum := 0 }

/-- A stream dictionary with no rate yet, as the parser of a UAC 2.0 stream interface leaves
it: two channels of 16 bits, and one isochronous data endpoint with the maximum packet size
200 and the interval 4. -/
def unratedStream : DJM03StreamDictionary :=
  { interfaceNumber := 1, alternateSetting := 1, numEndpoints := 1, interfaceClass := AUDIO,
    interfaceSubClass := AUDIOSTREAMING, interfaceProtocol := IP_VERSION_02_00,
    numChannels := some 2, bitResolution := some 16,
    endpoints := [{ address := some 0x01, attributes := some 0x05, maxPacketSize := some 200,
                    interval := some 4 }] }

/-- A UAC 1.0 configuration descriptor of 77 bytes: the AudioStreaming interface 1 (offset 9)
with an AS_GENERAL record comes before the control interface 0 (offset 25), whose header
lists the interface 2 only; then the alternate settings 0 and 1 of the AudioStreaming
interface 2 (offsets 43 and 52), the second with an AS_GENERAL record, and the
AudioStreaming interface 3 (offset 68), which the header does not list. -/
def streamFirstDescriptor : List Nat :=
  [9, 0x02, 77, 0, 4, 1, 0, 0x80, 50,
   9, 0x04, 1, 0, 0, 0x01, 0x02, 0x00, 0,
   7, 0x24, 0x01, 1, 1, 0x01, 0x00,
   9, 0x04, 0, 0, 0, 0x01, 0x01, 0x00, 0,
   9, 0x24, 0x01, 0x00, 0x01, 9, 0, 1, 2,
   9, 0x04, 2, 0, 0, 0x01, 0x02, 0x00, 0,
   9, 0x04, 2, 1, 0, 0x01, 0x02, 0x00, 0,
   7, 0x24, 0x01, 1, 1, 0x01, 0x00,
   9, 0x04, 3, 0, 0, 0x01, 0x02, 0x00, 0]

/-- A UAC 2.0 configuration descriptor of 131 bytes: an interface association (interfaces 0
and 1), the control interface 0 (record at offset 17) with a header (`bcdADC = 0x0200`, at
offset 26), the clock sources 1 and 2, the clock selector 3 (clock sources 1 and 2), the
input terminals 4 and 5 on clock 3, the mixer unit 6 (sources 4 and 5), the output terminal
7 (source 6), and the streaming interface 1 (record at offset 122). -/
def uac2UnitsDescriptor : List Nat :=
  [9, 0x02, 131, 0, 2, 1, 0, 0x80, 50,
   8, 0x0B, 0, 2, 0x01, 0x00, 0x20, 0,
   9, 0x04, 0, 0, 0, 0x01, 0x01, 0x20, 0,
   9, 0x24, 0x01, 0x00, 0x02, 0x01, 96, 0, 0,
   8, 0x24, 0x0A, 1, 0x3, 0x3, 0, 0,
   8, 0x24, 0x0A, 2, 0x3, 0x3, 0, 0,
   9, 0x24, 0x0B, 3, 2, 1, 2, 0x03, 0,
   17, 0x24, 0x02, 4, 0x01, 0x01, 0, 3, 2, 0x03, 0, 0, 0, 0, 0, 0, 0,
   17, 0x24, 0x02, 5, 0x01, 0x01, 0, 3, 2, 0x03, 0, 0, 0, 0, 0, 0, 0,
   16, 0x24, 0x04, 6, 2, 4, 5, 2, 0x03, 0, 0, 0, 0, 0, 0, 0,
   12, 0x24, 0x03, 7, 0x01, 0x03, 0, 6, 3, 0, 0, 0,
   9, 0x04, 1, 0, 0, 0x01, 0x02, 0x20, 0]

/-- The control dictionary that `parseACInterfaceDescriptor_0200` makes of the
class-specific records of `uac2UnitsDescriptor`, from offset 26 on. -/
def uac2UnitsRecords : DJM03ControlDictionary :=
  ((parseACInterfaceDescriptor_0200 (mutableDescriptor uac2UnitsDescriptor) 132 26 35 131
    (controlDictionaryAt (mutableDescriptor uac2UnitsDescriptor) 17)).map
      (fun r => r.2.2)).getD emptyControl_0200

/-- The control dictionary that `init` parses from `uac2UnitsDescriptor`. -/
def uac2UnitsControl : DJM03ControlDictionary :=
  (init (some uac2UnitsDescriptor) 0).2.controlDictionaries.headD emptyControl_0200

/-! # Theorems -/

/-! ## Reads -/

theorem rd_lt (m : List Nat) (i : Nat) : rd m i < 256 := by
  unfold rd; exact Nat.mod_lt _ (by decide)

theorem rd_of_length_le (m : List Nat) (i : Nat) (h : m.length ≤ i) : rd m i = 0 := by
  unfold rd
  rw [List.getD_eq_default _ _ h]

theorem lt_length_of_rd_ne_zero (m : List Nat) (i : Nat) (h : rd m i ≠ 0) : i < m.length := by
  by_contra hc
  exact h (rd_of_length_le m i (Nat.le_of_not_lt hc))

theorem rd16_lt (m : List Nat) (i : Nat) : rd16 m i < 65536 := by
  unfold rd16
  have h1 := rd_lt m i
  have h2 := rd_lt m (i + 1)
  have : rd m (i + 1) <<< 8 < 2 ^ 16 := by
    rw [Nat.shiftLeft_eq]; omega
  exact Nat.or_lt_two_pow (by omega) this

theorem rd_mutableDescriptor (d : List Nat) (i : Nat) :
    rd (mutableDescriptor d) i = if i < rd16 d 2 then rd d i else 0 := by
  unfold mutableDescriptor
  split
  · next h =>
    unfold rd
    rw [List.getD_append _ _ _ _ (by simpa using h)]
    simp [List.getD_eq_getElem?_getD, h, rd]
  · next h =>
    unfold rd
    rw [List.getD_append_right _ _ _ _ (by simpa using h)]
    simp only [List.length_map, List.length_range]
    rcases Nat.eq_or_lt_of_le (Nat.le_of_not_lt h) with h1 | h1
    · simp [h1]
    · rw [List.getD_eq_default]
      simp; omega

/-! ## The sub-parser loops advance record by record -/

theorem Skips.ptr_le {m : List Nat} {totalLength ptr parsedLength ptr1 parsedLength1 : Nat}
    (h : Skips m totalLength ptr parsedLength ptr1 parsedLength1) : ptr ≤ ptr1 := by
  induction h with
  | refl => exact Nat.le_refl _
  | step _ _ _ ih => omega

theorem parseACInterfaceDescriptor_loop_skips (m : List Nat) (totalLength : Nat) :
    ∀ (fuel ptr parsedLength : Nat) (c : DJM03ControlDictionary)
      (r : Nat × Nat × DJM03ControlDictionary),
      parseACInterfaceDescriptor_loop m totalLength fuel ptr parsedLength c = some r →
      Skips m totalLength ptr parsedLength r.1 r.2.1 := by
  intro fuel
  induction fuel with
  | zero =>
    intro ptr parsedLength c r h
    unfold parseACInterfaceDescriptor_loop at h
    split at h
    · simp at h
    · cases h; exact Skips.refl _ _
  | succ n ih =>
    intro ptr parsedLength c r h
    unfold parseACInterfaceDescriptor_loop at h
    split at h
    · next hc =>
      simp only at h
      split at h
      · cases h; exact Skips.refl _ _
      · exact Skips.step hc.1 hc.2.2 (ih _ _ _ _ h)
    · cases h; exact Skips.refl _ _

theorem parseACInterfaceDescriptor_skips (m : List Nat) (fuel ptr parsedLength totalLength : Nat)
    (c : DJM03ControlDictionary) (r : Nat × Nat × DJM03ControlDictionary)
    (h : parseACInterfaceDescriptor m fuel ptr parsedLength totalLength c = some r) :
    Skips m totalLength ptr parsedLength r.1 r.2.1 := by
  unfold parseACInterfaceDescriptor at h
  split at h
  · cases h; exact Skips.refl _ _
  · split at h
    · cases h; exact Skips.refl _ _
    · exact parseACInterfaceDescriptor_loop_skips m totalLength _ _ _ _ _ h

theorem parseACInterfaceDescriptor_0200_loop_skips (m : List Nat) (totalLength : Nat) :
    ∀ (fuel ptr parsedLength : Nat) (c : DJM03ControlDictionary)
      (r : Nat × Nat × DJM03ControlDictionary),
      parseACInterfaceDescriptor_0200_loop m totalLength fuel ptr parsedLength c = some r →
      Skips m totalLength ptr parsedLength r.1 r.2.1 := by
  intro fuel
  induction fuel with
  | zero =>
    intro ptr parsedLength c r h
    unfold parseACInterfaceDescriptor_0200_loop at h
    split at h
    · simp at h
    · cases h; exact Skips.refl _ _
  | succ n ih =>
    intro ptr parsedLength c r h
    unfold parseACInterfaceDescriptor_0200_loop at h
    split at h
    · next hc =>
      simp only at h
      exact Skips.step hc.1 hc.2.2 (ih _ _ _ _ h)
    · cases h; exact Skips.refl _ _

theorem parseACInterfaceDescriptor_0200_skips (m : List Nat)
    (fuel ptr parsedLength totalLength : Nat)
    (c : DJM03ControlDictionary) (r : Nat × Nat × DJM03ControlDictionary)
    (h : parseACInterfaceDescriptor_0200 m fuel ptr parsedLength totalLength c = some r) :
    Skips m totalLength ptr parsedLength r.1 r.2.1 := by
  unfold parseACInterfaceDescriptor_0200 at h
  split at h
  · cases h; exact Skips.refl _ _
  · split at h
    · cases h; exact Skips.refl _ _
    · exact parseACInterfaceDescriptor_0200_loop_skips m totalLength _ _ _ _ _ h

theorem parseASInterfaceDescriptor_loop_skips (m : List Nat) (totalLength : Nat) :
    ∀ (fuel ptr parsedLength : Nat) (s : DJM03StreamDictionary)
      (r : Nat × Nat × DJM03StreamDictionary),
      parseASInterfaceDescriptor_loop m totalLength fuel ptr parsedLength s = some r →
      Skips m totalLength ptr parsedLength r.1 r.2.1 := by
  intro fuel
  induction fuel with
  | zero =>
    intro ptr parsedLength s r h
    unfold parseASInterfaceDescriptor_loop at h
    split at h
    · simp at h
    · cases h; exact Skips.refl _ _
  | succ n ih =>
    intro ptr parsedLength s r h
    unfold parseASInterfaceDescriptor_loop at h
    split at h
    · next hc =>
      simp only at h
      split at h
      · cases h; exact Skips.refl _ _
      · exact Skips.step hc.1 hc.2 (ih _ _ _ _ h)
    · cases h; exact Skips.refl _ _

theorem parseASInterfaceDescriptor_skips (m : List Nat) (fuel ptr parsedLength totalLength : Nat)
    (s : DJM03StreamDictionary) (r : Nat × Nat × DJM03StreamDictionary)
    (h : parseASInterfaceDescriptor m fuel ptr parsedLength totalLength s = some r) :
    Skips m totalLength ptr parsedLength r.1 r.2.1 := by
  unfold parseASInterfaceDescriptor at h
  split at h
  · cases h; exact Skips.refl _ _
  · exact parseASInterfaceDescriptor_loop_skips m totalLength _ _ _ _ _ h

theorem parseASInterfaceDescriptor_0200_loop_skips (m : List Nat) (totalLength : Nat) :
    ∀ (fuel ptr parsedLength : Nat) (st : ASState_0200)
      (r : Nat × Nat × DJM03StreamDictionary),
      parseASInterfaceDescriptor_0200_loop m totalLength fuel ptr parsedLength st = some r →
      Skips m totalLength ptr parsedLength r.1 r.2.1 := by
  intro fuel
  induction fuel with
  | zero =>
    intro ptr parsedLength st r h
    unfold parseASInterfaceDescriptor_0200_loop at h
    split at h
    · simp at h
    · cases h; exact Skips.refl _ _
  | succ n ih =>
    intro ptr parsedLength st r h
    unfold parseASInterfaceDescriptor_0200_loop at h
    split at h
    · next hc =>
      simp only at h
      split at h
      · cases h; exact Skips.refl _ _
      · exact Skips.step hc.1 hc.2 (ih _ _ _ _ h)
    · cases h; exact Skips.refl _ _

theorem parseASInterfaceDescriptor_0200_skips (m : List Nat)
    (fuel ptr parsedLength totalLength : Nat)
    (s : DJM03StreamDictionary) (r : Nat × Nat × DJM03StreamDictionary)
    (h : parseASInterfaceDescriptor_0200 m fuel ptr parsedLength totalLength s = some r) :
    Skips m totalLength ptr parsedLength r.1 r.2.1 := by
  unfold parseASInterfaceDescriptor_0200 at h
  split at h
  · cases h; exact Skips.refl _ _
  · exact parseASInterfaceDescriptor_0200_loop_skips m totalLength _ _ _ _ _ h

/-! ## The fuel of the model is never exhausted -/

theorem parseACInterfaceDescriptor_loop_isSome (m : List Nat) (totalLength : Nat) :
    ∀ (fuel ptr parsedLength : Nat) (c : DJM03ControlDictionary), m.length ≤ ptr + fuel →
      parseACInterfaceDescriptor_loop m totalLength fuel ptr parsedLength c ≠ none := by
  intro fuel
  induction fuel with
  | zero =>
    intro ptr parsedLength c hf
    unfold parseACInterfaceDescriptor_loop
    have h0 : rd m ptr = 0 := rd_of_length_le m ptr (by omega)
    simp [h0]
  | succ n ih =>
    intro ptr parsedLength c hf
    unfold parseACInterfaceDescriptor_loop
    split
    · next hc =>
      simp only
      split
      · simp
      · exact ih _ _ _ (by omega)
    · simp

theorem parseACInterfaceDescriptor_0200_loop_isSome (m : List Nat) (totalLength : Nat) :
    ∀ (fuel ptr parsedLength : Nat) (c : DJM03ControlDictionary), m.length ≤ ptr + fuel →
      parseACInterfaceDescriptor_0200_loop m totalLength fuel ptr parsedLength c ≠ none := by
  intro fuel
  induction fuel with
  | zero =>
    intro ptr parsedLength c hf
    unfold parseACInterfaceDescriptor_0200_loop
    have h0 : rd m ptr = 0 := rd_of_length_le m ptr (by omega)
    simp [h0]
  | succ n ih =>
    intro ptr parsedLength c hf
    unfold parseACInterfaceDescriptor_0200_loop
    split
    · next hc =>
      simp only
      exact ih _ _ _ (by omega)
    · simp

theorem parseASInterfaceDescriptor_loop_isSome (m : List Nat) (totalLength : Nat) :
    ∀ (fuel ptr parsedLength : Nat) (s : DJM03StreamDictionary), m.length ≤ ptr + fuel →
      parseASInterfaceDescriptor_loop m totalLength fuel ptr parsedLength s ≠ none := by
  intro fuel
  induction fuel with
  | zero =>
    intro ptr parsedLength s hf
    unfold parseASInterfaceDescriptor_loop
    have h0 : rd m ptr = 0 := rd_of_length_le m ptr (by omega)
    simp [h0]
  | succ n ih =>
    intro ptr parsedLength s hf
    unfold parseASInterfaceDescriptor_loop
    split
    · next hc =>
      simp only
      split
      · simp
      · exact ih _ _ _ (by omega)
    · simp

theorem parseASInterfaceDescriptor_0200_loop_isSome (m : List Nat) (totalLength : Nat) :
    ∀ (fuel ptr parsedLength : Nat) (st : ASState_0200), m.length ≤ ptr + fuel →
      parseASInterfaceDescriptor_0200_loop m totalLength fuel ptr parsedLength st ≠ none := by
  intro fuel
  induction fuel with
  | zero =>
    intro ptr parsedLength st hf
    unfold parseASInterfaceDescriptor_0200_loop
    have h0 : rd m ptr = 0 := rd_of_length_le m ptr (by omega)
    simp [h0]
  | succ n ih =>
    intro ptr parsedLength st hf
    unfold parseASInterfaceDescriptor_0200_loop
    split
    · next hc =>
      simp only
      split
      · simp
      · exact ih _ _ _ (by omega)
    · simp

theorem parseACInterfaceDescriptor_isSome (m : List Nat) (ptr parsedLength totalLength : Nat)
    (c : DJM03ControlDictionary) :
    parseACInterfaceDescriptor m (m.length + 1) ptr parsedLength totalLength c ≠ none := by
  unfold parseACInterfaceDescriptor
  split
  · simp
  · split
    · simp
    · exact parseACInterfaceDescriptor_loop_isSome m totalLength _ _ _ _ (by omega)

theorem parseACInterfaceDescriptor_0200_isSome (m : List Nat) (ptr parsedLength totalLength : Nat)
    (c : DJM03ControlDictionary) :
    parseACInterfaceDescriptor_0200 m (m.length + 1) ptr parsedLength totalLength c ≠ none := by
  unfold parseACInterfaceDescriptor_0200
  split
  · simp
  · split
    · simp
    · exact parseACInterfaceDescriptor_0200_loop_isSome m totalLength _ _ _ _ (by omega)

theorem parseASInterfaceDescriptor_isSome (m : List Nat) (ptr parsedLength totalLength : Nat)
    (s : DJM03StreamDictionary) :
    parseASInterfaceDescriptor m (m.length + 1) ptr parsedLength totalLength s ≠ none := by
  unfold parseASInterfaceDescriptor
  split
  · simp
  · exact parseASInterfaceDescriptor_loop_isSome m totalLength _ _ _ _ (by omega)

theorem parseASInterfaceDescriptor_0200_isSome (m : List Nat) (ptr parsedLength totalLength : Nat)
    (s : DJM03StreamDictionary) :
    parseASInterfaceDescriptor_0200 m (m.length + 1) ptr parsedLength totalLength s ≠ none := by
  unfold parseASInterfaceDescriptor_0200
  split
  · simp
  · exact parseASInterfaceDescriptor_0200_loop_isSome m totalLength _ _ _ _ (by omega)

/-! ## What one iteration of the walk does to the cursor and to `parsedLength` -/

theorem Moves.trans {m : List Nat} {n a b c d e f : Nat} (h1 : Moves m n a b c d)
    (h2 : Moves m n c d e f) : Moves m n a b e f := by
  induction h1 with
  | refl => exact h2
  | skip _ ih => exact Moves.skip (ih h2)
  | interrupt p0 hp he _ ih => exact Moves.interrupt p0 hp he (ih h2)
  | otherControl p0 hp he _ ih => exact Moves.otherControl p0 hp he (ih h2)

theorem Moves.cursor_le {m : List Nat} {n a b c d : Nat} (h : Moves m n a b c d) : a ≤ c := by
  induction h with
  | refl => exact Nat.le_refl _
  | skip _ ih => omega
  | interrupt _ _ _ _ ih => omega
  | otherControl p0 _ he _ ih =>
    unfold skipTarget at ih
    omega

theorem Skips.moves {m : List Nat} {totalLength n a b c d : Nat}
    (h : Skips m totalLength a b c d) : Moves m n a b c d := by
  induction h with
  | refl => exact Moves.refl _ _
  | step _ _ _ ih => exact Moves.skip ih

/-! ## The control sub-parsers keep the endpoint count of the interface record -/

theorem ite_ind {α : Sort _} (P : α → Prop) {c : Prop} [Decidable c] {a b : α}
    (ha : P a) (hb : P b) : P (if c then a else b) := by
  split <;> assumption

theorem parseACRecord_numEndpoints (m : List Nat) (p : Nat) (c c1 : DJM03ControlDictionary)
    (h : parseACRecord m p c = some c1) : c1.numEndpoints = c.numEndpoints := by
  unfold parseACRecord at h
  simp only at h
  split_ifs at h
  · cases h; rfl
  · cases h; rfl
  · cases h; rfl
  · unfold parseACRecord.FEATURE_UNIT at h
    simp only at h
    split_ifs at h
    cases h; rfl
  · cases h; rfl
  · cases h; rfl
  · cases h; rfl
  · cases h; rfl
  · cases h; rfl

theorem parseACRecord_0200_numEndpoints (m : List Nat) (p : Nat) (c : DJM03ControlDictionary) :
    (parseACRecord_0200 m p c).numEndpoints = c.numEndpoints := by
  unfold parseACRecord_0200
  repeat first
    | rfl
    | refine ite_ind (fun x : DJM03ControlDictionary => x.numEndpoints = c.numEndpoints) ?_ ?_

theorem parseInterfaceAssociationDescriptor_numEndpoints (m : List Nat) (q : Option Nat)
    (c : DJM03ControlDictionary) :
    (parseInterfaceAssociationDescriptor m q c).numEndpoints = c.numEndpoints := by
  unfold parseInterfaceAssociationDescriptor
  cases q with
  | none => rfl
  | some p =>
    simp only
    repeat first
      | rfl
      | refine ite_ind (fun x : DJM03ControlDictionary => x.numEndpoints = c.numEndpoints) ?_ ?_

theorem parseACInterfaceDescriptor_loop_numEndpoints (m : List Nat) (totalLength : Nat) :
    ∀ (fuel ptr parsedLength : Nat) (c : DJM03ControlDictionary)
      (r : Nat × Nat × DJM03ControlDictionary),
      parseACInterfaceDescriptor_loop m totalLength fuel ptr parsedLength c = some r →
      r.2.2.numEndpoints = c.numEndpoints := by
  intro fuel
  induction fuel with
  | zero =>
    intro ptr parsedLength c r h
    unfold parseACInterfaceDescriptor_loop at h
    split at h
    · simp at h
    · cases h; rfl
  | succ n ih =>
    intro ptr parsedLength c r h
    unfold parseACInterfaceDescriptor_loop at h
    split at h
    · simp only at h
      split at h
      · cases h; rfl
      · next c1 hc1 =>
        rw [ih _ _ _ _ h]
        exact parseACRecord_numEndpoints m ptr c c1 hc1
    · cases h; rfl

theorem parseACInterfaceDescriptor_numEndpoints (m : List Nat)
    (fuel ptr parsedLength totalLength : Nat) (c : DJM03ControlDictionary)
    (r : Nat × Nat × DJM03ControlDictionary)
    (h : parseACInterfaceDescriptor m fuel ptr parsedLength totalLength c = some r) :
    r.2.2.numEndpoints = c.numEndpoints := by
  unfold parseACInterfaceDescriptor at h
  split at h
  · cases h; rfl
  · split at h
    · cases h; rfl
    · exact parseACInterfaceDescriptor_loop_numEndpoints m totalLength _ _ _ _ _ h

theorem parseACInterfaceDescriptor_0200_loop_numEndpoints (m : List Nat) (totalLength : Nat) :
    ∀ (fuel ptr parsedLength : Nat) (c : DJM03ControlDictionary)
      (r : Nat × Nat × DJM03ControlDictionary),
      parseACInterfaceDescriptor_0200_loop m totalLength fuel ptr parsedLength c = some r →
      r.2.2.numEndpoints = c.numEndpoints := by
  intro fuel
  induction fuel with
  | zero =>
    intro ptr parsedLength c r h
    unfold parseACInterfaceDescriptor_0200_loop at h
    split at h
    · simp at h
    · cases h; rfl
  | succ n ih =>
    intro ptr parsedLength c r h
    unfold parseACInterfaceDescriptor_0200_loop at h
    split at h
    · simp only at h
      rw [ih _ _ _ _ h]
      exact parseACRecord_0200_numEndpoints m ptr c
    · cases h; rfl

theorem parseACInterfaceDescriptor_0200_numEndpoints (m : List Nat)
    (fuel ptr parsedLength totalLength : Nat) (c : DJM03ControlDictionary)
    (r : Nat × Nat × DJM03ControlDictionary)
    (h : parseACInterfaceDescriptor_0200 m fuel ptr parsedLength totalLength c = some r) :
    r.2.2.numEndpoints = c.numEndpoints := by
  unfold parseACInterfaceDescriptor_0200 at h
  split at h
  · cases h; rfl
  · split at h
    · cases h; rfl
    · exact parseACInterfaceDescriptor_0200_loop_numEndpoints m totalLength _ _ _ _ _ h

/-! ## Each branch of the loop body, as moves of the cursor -/

theorem parseInterfaceDescriptor_eq (m : List Nat) (cfg : DJM03ConfigurationDictionary)
    (p a b c : Nat) (h : rd m p ≠ 0) :
    ∃ cfg1, parseInterfaceDescriptor m cfg p a b c
      = (p + rd m p, cfg1, rd m (p + 5), rd m (p + 6), rd m (p + 7))
      ∧ cfg1.controlInterfaceNum = cfg.controlInterfaceNum := by
  unfold parseInterfaceDescriptor
  simp only [h, if_false]
  refine ⟨_, rfl, ?_⟩
  split
  · split <;> rfl
  · split <;> rfl

theorem setLastControl_length (cfg : DJM03ConfigurationDictionary) (c : DJM03ControlDictionary)
    (h : cfg.controlDictionaries ≠ []) :
    (setLastControl cfg c).controlDictionaries.length = cfg.controlDictionaries.length := by
  unfold setLastControl
  simp only [List.length_append, List.length_dropLast, List.length_singleton]
  have := List.length_pos.mpr h
  omega

theorem setLastControl_ne_nil (cfg : DJM03ConfigurationDictionary) (c : DJM03ControlDictionary) :
    (setLastControl cfg c).controlDictionaries ≠ [] := by
  unfold setLastControl; simp

theorem afterControlBody_spec (m : List Nat) (w : WalkState) (ptr parsedLength p0 : Nat)
    (c : DJM03ControlDictionary)
    (hp0 : isControlInterfaceAt m w.cfg.controlInterfaceNum p0)
    (hne : c.numEndpoints = rd m (p0 + 4))
    (hnonempty : w.cfg.controlDictionaries ≠ []) :
    afterControlBody m w ptr parsedLength c ≠ .outOfFuel
    ∧ ∀ w1, (afterControlBody m w ptr parsedLength c).state? = some w1 →
        w1.cfg.controlInterfaceNum = w.cfg.controlInterfaceNum
        ∧ Moves m w.cfg.controlInterfaceNum ptr parsedLength w1.theInterfacePtr w1.parsedLength
        ∧ w1.cfg.controlDictionaries.length = w.cfg.controlDictionaries.length
        ∧ w1.controlDictionary = w.controlDictionary := by
  unfold afterControlBody
  rcases hg : getControlledStreamNumbers (setLastControl w.cfg c) with ⟨r, a, n⟩
  have hlen := setLastControl_length w.cfg c hnonempty
  cases r
  · by_cases h1 : 1 = c.numEndpoints
    · simp only [hg, h1, if_true]
      refine ⟨by simp, ?_⟩
      intro w1 h
      simp only [Step.state?, Option.some.injEq] at h
      subst h
      refine ⟨rfl, ?_, ?_, rfl⟩
      · simp only
        unfold parseACInterruptEndpointDescriptor
        split
        · exact Moves.refl _ _
        · split
          · split
            · exact Moves.interrupt p0 hp0 (by rw [← hne, ← h1]) (Moves.refl _ _)
            · exact Moves.refl _ _
          · exact Moves.refl _ _
      · simp only
        rw [setLastControl_length _ _ (setLastControl_ne_nil _ _), hlen]
    · simp only [hg, h1, if_false]
      refine ⟨by simp, ?_⟩
      intro w1 h
      simp only [Step.state?, Option.some.injEq] at h
      subst h
      exact ⟨rfl, Moves.refl _ _, hlen, rfl⟩
  · simp only [hg]
    refine ⟨by simp, ?_⟩
    intro w1 h
    simp only [Step.state?, Option.some.injEq] at h
    subst h
    exact ⟨rfl, Moves.refl _ _, hlen, rfl⟩

theorem audioControlBranch_spec (m : List Nat) (totalLength interfaceProtocol p0 : Nat)
    (w : WalkState) (cd : DJM03ControlDictionary)
    (hp0 : isControlInterfaceAt m w.cfg.controlInterfaceNum p0)
    (hlast : w.cfg.controlDictionaries.getLast? = some cd)
    (hne : cd.numEndpoints = rd m (p0 + 4)) :
    audioControlBranch m totalLength interfaceProtocol w ≠ .outOfFuel
    ∧ ∀ w1, (audioControlBranch m totalLength interfaceProtocol w).state? = some w1 →
        StepSpec m w w1 ∧ w1.controlDictionary = true := by
  have hnonempty : w.cfg.controlDictionaries ≠ [] := by
    intro h; rw [h] at hlast; simp at hlast
  unfold audioControlBranch
  simp only [hlast]
  by_cases h1 : INTERFACE_PROTOCOL_UNDEFINED = interfaceProtocol
  · simp only [h1, if_true]
    rcases hp : parseACInterfaceDescriptor m (m.length + 1) w.theInterfacePtr w.parsedLength
      totalLength cd with _ | ⟨ptr, parsedLength, c⟩
    · exact absurd hp (parseACInterfaceDescriptor_isSome m _ _ _ _)
    · simp only
      have hs := parseACInterfaceDescriptor_skips m _ _ _ _ _ _ hp
      have hn := parseACInterfaceDescriptor_numEndpoints m _ _ _ _ _ _ hp
      simp only at hs hn
      have ha := afterControlBody_spec m { w with controlDictionary := true } ptr parsedLength p0 c
        hp0 (by rw [hn, hne]) hnonempty
      refine ⟨ha.1, ?_⟩
      intro w1 hw1
      obtain ⟨a1, a2, a3, a4⟩ := ha.2 w1 hw1
      exact ⟨⟨a1, Moves.trans hs.moves a2, a3, fun _ => a4⟩, a4⟩
  · simp only [h1, if_false]
    by_cases h2 : IP_VERSION_02_00 = interfaceProtocol
    · simp only [h2, if_true]
      rcases hp : parseACInterfaceDescriptor_0200 m (m.length + 1) w.theInterfacePtr
        w.parsedLength totalLength cd with _ | ⟨ptr, parsedLength, c⟩
      · exact absurd hp (parseACInterfaceDescriptor_0200_isSome m _ _ _ _)
      · simp only
        have hs := parseACInterfaceDescriptor_0200_skips m _ _ _ _ _ _ hp
        have hn := parseACInterfaceDescriptor_0200_numEndpoints m _ _ _ _ _ _ hp
        simp only at hs hn
        have ha := afterControlBody_spec m { w with controlDictionary := true } ptr parsedLength p0
          (parseInterfaceAssociationDescriptor m w.theInterfaceAssociationPtr c)
          hp0 (by rw [parseInterfaceAssociationDescriptor_numEndpoints, hn, hne]) hnonempty
        refine ⟨ha.1, ?_⟩
        intro w1 hw1
        obtain ⟨a1, a2, a3, a4⟩ := ha.2 w1 hw1
        exact ⟨⟨a1, Moves.trans hs.moves a2, a3, fun _ => a4⟩, a4⟩
    · simp only [h2, if_false]
      refine ⟨by simp, ?_⟩
      intro w1 h
      simp only [Step.state?, Option.some.injEq] at h
      subst h
      exact ⟨⟨rfl, Moves.refl _ _, rfl, fun _ => rfl⟩, rfl⟩

theorem dispatchStream_spec (m : List Nat) (totalLength interfaceProtocol : Nat)
    (w : WalkState) :
    dispatchStream m totalLength interfaceProtocol w ≠ .outOfFuel
    ∧ ∀ w1, (dispatchStream m totalLength interfaceProtocol w).state? = some w1 →
        StepSpec m w w1 := by
  unfold dispatchStream
  rcases hl : w.cfg.streamDictionaries.getLast? with _ | sd
  · simp only
    refine ⟨by simp, ?_⟩
    intro w1 h
    simp only [Step.state?, Option.some.injEq] at h
    subst h
    exact ⟨rfl, Moves.refl _ _, rfl, id⟩
  · simp only
    by_cases h1 : INTERFACE_PROTOCOL_UNDEFINED = interfaceProtocol
    · simp only [h1, if_true]
      rcases hp : parseASInterfaceDescriptor m (m.length + 1) w.theInterfacePtr w.parsedLength
        totalLength sd with _ | ⟨ptr, parsedLength, s⟩
      · exact absurd hp (parseASInterfaceDescriptor_isSome m _ _ _ _)
      · simp only
        have hs := parseASInterfaceDescriptor_skips m _ _ _ _ _ _ hp
        refine ⟨by simp, ?_⟩
        intro w1 h
        simp only [Step.state?, Option.some.injEq] at h
        subst h
        exact ⟨rfl, hs.moves, rfl, id⟩
    · simp only [h1, if_false]
      by_cases h2 : IP_VERSION_02_00 = interfaceProtocol
      · simp only [h2, if_true]
        rcases hp : parseASInterfaceDescriptor_0200 m (m.length + 1) w.theInterfacePtr
          w.parsedLength totalLength sd with _ | ⟨ptr, parsedLength, s⟩
        · exact absurd hp (parseASInterfaceDescriptor_0200_isSome m _ _ _ _)
        · simp only
          have hs := parseASInterfaceDescriptor_0200_skips m _ _ _ _ _ _ hp
          refine ⟨by simp, ?_⟩
          intro w1 h
          simp only [Step.state?, Option.some.injEq] at h
          subst h
          exact ⟨rfl, hs.moves, rfl, id⟩
      · simp only [h2, if_false]
        refine ⟨by simp, ?_⟩
        intro w1 h
        simp only [Step.state?, Option.some.injEq] at h
        subst h
        exact ⟨rfl, Moves.refl _ _, rfl, id⟩

theorem countInterface_spec (m : List Nat) (thisInterfaceNumber : Nat) (w : WalkState) :
    countInterface thisInterfaceNumber w ≠ .outOfFuel
    ∧ ∀ w1, (countInterface thisInterfaceNumber w).state? = some w1 → StepSpec m w w1 := by
  unfold countInterface
  by_cases h1 : thisInterfaceNumber ≠ w.lastInterfaceNumber
  · rw [if_pos h1]
    simp only
    by_cases h2 : (w.numParsedInterfaces + 1) % 256 > w.numStreamInterfaces
    · rw [if_pos h2]
      refine ⟨by simp, ?_⟩
      intro w1 h
      simp only [Step.state?, Option.some.injEq] at h
      subst h
      exact ⟨rfl, Moves.refl _ _, rfl, id⟩
    · rw [if_neg h2]
      refine ⟨by simp, ?_⟩
      intro w1 h
      simp only [Step.state?, Option.some.injEq] at h
      subst h
      exact ⟨rfl, Moves.refl _ _, rfl, id⟩
  · rw [if_neg h1]
    refine ⟨by simp, ?_⟩
    intro w1 h
    simp only [Step.state?, Option.some.injEq] at h
    subst h
    exact ⟨rfl, Moves.refl _ _, rfl, id⟩

theorem StepSpec.andThen {m : List Nat} {w w1 w2 : WalkState} (h1 : StepSpec m w w1)
    (h2 : StepSpec m w1 w2) : StepSpec m w w2 :=
  ⟨h2.ctl.trans h1.ctl, Moves.trans h1.moves (h1.ctl ▸ h2.moves), h2.count.trans h1.count,
    fun h => h2.flag (h1.flag h)⟩

theorem setFirstStreamInterfaceNumbers_length (cfg : DJM03ConfigurationDictionary)
    (a : List Nat) :
    (setFirstStreamInterfaceNumbers cfg a).controlDictionaries.length
      = cfg.controlDictionaries.length := by
  unfold setFirstStreamInterfaceNumbers
  split
  · rfl
  · rename_i c cs h
    simp only [h, List.length_cons]

theorem setFirstStreamInterfaceNumbers_ctl (cfg : DJM03ConfigurationDictionary)
    (a : List Nat) :
    (setFirstStreamInterfaceNumbers cfg a).controlInterfaceNum = cfg.controlInterfaceNum := by
  unfold setFirstStreamInterfaceNumbers
  split <;> rfl

theorem skip_spec (m : List Nat) (w : WalkState) : StepSpec m w (w.skip m) :=
  ⟨rfl, Moves.skip (Moves.refl _ _), rfl, id⟩

theorem midiStreamingBranch_spec (m : List Nat) (thisInterfaceNumber : Nat) (w : WalkState) :
    midiStreamingBranch m thisInterfaceNumber w ≠ .outOfFuel
    ∧ ∀ w1, (midiStreamingBranch m thisInterfaceNumber w).state? = some w1 →
        StepSpec m w w1 := by
  unfold midiStreamingBranch
  by_cases h0 : w.numStreamInterfaces = 0
  · rw [if_pos h0]
    refine ⟨by simp, ?_⟩
    intro w1 h
    simp only [Step.state?, Option.some.injEq] at h
    subst h
    exact skip_spec m w
  · rw [if_neg h0]
    rcases hh : (w.cfg.controlDictionaries.head?).bind (fun c => c.streamInterfaceNumbers)
      with _ | nums
    · simp only
      refine ⟨by simp, ?_⟩
      intro w1 h
      simp only [Step.state?, Option.some.injEq] at h
      subst h
      exact ⟨rfl, Moves.refl _ _, rfl, id⟩
    · simp only
      rcases hpr : pruneStreamInterface thisInterfaceNumber (List.range w.numStreamInterfaces)
        nums with ⟨a, b⟩
      cases b
      · simp only
        refine ⟨by simp, ?_⟩
        intro w1 h
        simp only [Step.state?, Option.some.injEq] at h
        subst h
        exact ⟨setFirstStreamInterfaceNumbers_ctl _ _, Moves.refl _ _,
          setFirstStreamInterfaceNumbers_length _ _, id⟩
      · simp only
        refine ⟨by simp, ?_⟩
        intro w1 h
        simp only [Step.state?, Option.some.injEq] at h
        subst h
        exact ⟨setFirstStreamInterfaceNumbers_ctl _ _, Moves.skip (Moves.refl _ _),
          setFirstStreamInterfaceNumbers_length _ _, id⟩

theorem otherControlBranch_spec (m : List Nat) (p0 : Nat) (w : WalkState)
    (h1 : rd m (p0 + 1) = INTERFACE) (h5 : rd m (p0 + 5) = AUDIO)
    (h6 : rd m (p0 + 6) = AUDIOCONTROL) (h2 : rd m (p0 + 2) ≠ w.cfg.controlInterfaceNum)
    (hptr : w.theInterfacePtr = p0 + rd m p0) :
    otherControlBranch m (rd m (p0 + 7)) w ≠ .outOfFuel
    ∧ ∀ w1, (otherControlBranch m (rd m (p0 + 7)) w).state? = some w1 → StepSpec m w w1 := by
  unfold otherControlBranch
  by_cases ha : INTERFACE_PROTOCOL_UNDEFINED = rd m (p0 + 7)
  · rw [if_pos ha]
    refine ⟨by simp, ?_⟩
    intro w1 h
    simp only [Step.state?, Option.some.injEq] at h
    subst h
    have ho : isOtherControlAt m w.cfg.controlInterfaceNum p0 := ⟨h1, h5, h6, h2, Or.inl ha.symm⟩
    refine ⟨rfl, ?_, rfl, id⟩
    refine Moves.otherControl p0 ho hptr ?_
    simp only [skipTarget, headerTotalLength, if_pos ha, hptr]
    exact Moves.refl _ _
  · rw [if_neg ha]
    by_cases hb : IP_VERSION_02_00 = rd m (p0 + 7)
    · rw [if_pos hb]
      refine ⟨by simp, ?_⟩
      intro w1 h
      simp only [Step.state?, Option.some.injEq] at h
      subst h
      have ho : isOtherControlAt m w.cfg.controlInterfaceNum p0 :=
        ⟨h1, h5, h6, h2, Or.inr hb.symm⟩
      refine ⟨rfl, ?_, rfl, id⟩
      refine Moves.otherControl p0 ho hptr ?_
      simp only [skipTarget, headerTotalLength, if_neg ha, hptr]
      exact Moves.refl _ _
    · rw [if_neg hb]
      refine ⟨by simp, ?_⟩
      intro w1 h
      simp only [Step.state?, Option.some.injEq] at h
      subst h
      exact ⟨rfl, Moves.refl _ _, rfl, id⟩

theorem audioStreamingBranch_spec (m : List Nat) (totalLength thisInterfaceNumber
    interfaceProtocol : Nat) (w : WalkState) :
    audioStreamingBranch m totalLength thisInterfaceNumber interfaceProtocol w ≠ .outOfFuel
    ∧ ∀ w1, (audioStreamingBranch m totalLength thisInterfaceNumber interfaceProtocol w).state?
        = some w1 → StepSpec m w w1 := by
  unfold audioStreamingBranch
  rcases hg : getControlledStreamNumbers w.cfg with ⟨r, a, n⟩
  cases r
  · cases a
    · simp only
      refine ⟨by simp, ?_⟩
      intro w1 h
      simp only [Step.state?, Option.some.injEq] at h
      subst h
      exact ⟨rfl, Moves.refl _ _, rfl, id⟩
    · rename_i nums
      simp only
      rcases hf : findStreamInterface nums thisInterfaceNumber (List.range n) with _ | found
      · simp only
        refine ⟨by simp, ?_⟩
        intro w1 h
        simp only [Step.state?, Option.some.injEq] at h
        subst h
        exact ⟨rfl, Moves.refl _ _, rfl, id⟩
      · simp only
        have hw : StepSpec m w
            { w with result := .kIOReturnSuccess, numStreamInterfaces := n } :=
          ⟨rfl, Moves.refl _ _, rfl, id⟩
        cases found
        · simp only [Bool.false_eq_true, if_false]
          have hc := countInterface_spec m thisInterfaceNumber
            { w with result := .kIOReturnSuccess, numStreamInterfaces := n }
          exact ⟨hc.1, fun w1 h => hw.andThen (hc.2 w1 h)⟩
        · simp only [if_true]
          have hd := dispatchStream_spec m totalLength interfaceProtocol
            { w with result := .kIOReturnSuccess, numStreamInterfaces := n }
          rcases hds : dispatchStream m totalLength interfaceProtocol
            { w with result := .kIOReturnSuccess, numStreamInterfaces := n } with w2 | w2 | w2 | _
          · simp only
            have h2 := hd.2 w2 (by rw [hds]; rfl)
            have hc := countInterface_spec m thisInterfaceNumber w2
            exact ⟨hc.1, fun w1 h => hw.andThen (h2.andThen (hc.2 w1 h))⟩
          · simp only
            refine ⟨by simp, ?_⟩
            intro w1 h
            simp only [Step.state?, Option.some.injEq] at h
            subst h
            exact hw.andThen (hd.2 w2 (by rw [hds]; rfl))
          · simp only
            refine ⟨by simp, ?_⟩
            intro w1 h
            simp only [Step.state?, Option.some.injEq] at h
            subst h
            exact hw.andThen (hd.2 w2 (by rw [hds]; rfl))
          · exact absurd hds hd.1
  · simp only
    refine ⟨by simp, ?_⟩
    intro w1 h
    simp only [Step.state?, Option.some.injEq] at h
    subst h
    exact ⟨rfl, Moves.refl _ _, rfl, id⟩

theorem parseInterfaceDescriptor_spec (m : List Nat) (cfg : DJM03ConfigurationDictionary)
    (p a b c : Nat) (h : rd m p ≠ 0) :
    ∃ cfg1, parseInterfaceDescriptor m cfg p a b c
      = (p + rd m p, cfg1, rd m (p + 5), rd m (p + 6), rd m (p + 7))
      ∧ cfg1.controlInterfaceNum = cfg.controlInterfaceNum
      ∧ ((AUDIOCONTROL = rd m (p + 6) ∧ cfg.controlInterfaceNum = rd m (p + 2)) →
          ∃ cd, cfg1.controlDictionaries = cfg.controlDictionaries ++ [cd]
            ∧ cd.numEndpoints = rd m (p + 4))
      ∧ (¬ (AUDIOCONTROL = rd m (p + 6) ∧ cfg.controlInterfaceNum = rd m (p + 2)) →
          cfg1.controlDictionaries = cfg.controlDictionaries) := by
  unfold parseInterfaceDescriptor
  simp only [h, if_false]
  refine ⟨_, rfl, ?_, ?_, ?_⟩
  · split
    · split <;> rfl
    · split <;> rfl
  · rintro ⟨h1, h2⟩
    rw [if_pos h1, if_pos h2]
    exact ⟨_, rfl, rfl⟩
  · intro hn
    by_cases h1 : AUDIOCONTROL = rd m (p + 6)
    · have h2 : ¬ cfg.controlInterfaceNum = rd m (p + 2) := fun h2 => hn ⟨h1, h2⟩
      rw [if_pos h1, if_neg h2]
    · rw [if_neg h1]
      split <;> rfl

theorem BodySpec.of_skip (m : List Nat) (w w1 : WalkState)
    (hc : w1.cfg = w.cfg) (hp : w1.theInterfacePtr = w.theInterfacePtr)
    (hl : w1.parsedLength = w.parsedLength) (hf : w1.controlDictionary = w.controlDictionary) :
    BodySpec m w (w1.skip m) := by
  refine ⟨?_, ?_, Or.inl ⟨?_, ?_⟩⟩
  · simp only [WalkState.skip, hc]
  · simp only [WalkState.skip, hp, hl]
    exact Moves.refl _ _
  · simp only [WalkState.skip, hc]
  · simp only [WalkState.skip, hf]
    exact id

theorem BodySpec.of_stepSpec {m : List Nat} {w w0 w1 : WalkState} (hs : StepSpec m w0 w1)
    (hctl : w0.cfg.controlInterfaceNum = w.cfg.controlInterfaceNum)
    (hp : w0.theInterfacePtr = w.theInterfacePtr + rd m w.theInterfacePtr)
    (hl : w0.parsedLength
      = (w.parsedLength + rd m (w.theInterfacePtr + rd m w.theInterfacePtr)) % 65536)
    (hlen : w0.cfg.controlDictionaries.length = w.cfg.controlDictionaries.length)
    (hf : w0.controlDictionary = w.controlDictionary) : BodySpec m w w1 := by
  refine ⟨hs.ctl.trans hctl, ?_, Or.inl ⟨hs.count.trans hlen, ?_⟩⟩
  · have := hs.moves
    rw [hctl, hp, hl] at this
    exact this
  · intro h
    exact hs.flag (hf ▸ h)

theorem loopBody_spec (m : List Nat) (totalLength : Nat) (w : WalkState)
    (hne : rd m w.theInterfacePtr ≠ 0) :
    loopBody m totalLength w ≠ .outOfFuel
    ∧ ∀ w1, (loopBody m totalLength w).state? = some w1 → BodySpec m w w1 := by
  unfold loopBody
  simp only
  by_cases hIA : INTERFACE_ASSOCIATION = rd m (w.theInterfacePtr + 1)
  · rw [if_pos hIA]
    refine ⟨by simp, ?_⟩
    intro w1 h
    simp only [Step.state?, Option.some.injEq] at h
    subst h
    split
    · exact BodySpec.of_skip m w _ rfl rfl rfl rfl
    · exact BodySpec.of_skip m w _ rfl rfl rfl rfl
  · rw [if_neg hIA]
    by_cases hI : INTERFACE = rd m (w.theInterfacePtr + 1)
    · rw [if_pos hI]
      by_cases hA : AUDIO = rd m (w.theInterfacePtr + 5)
      · rw [if_pos hA]
        obtain ⟨cfg1, he, hctl, hadd, hsame⟩ :=
          parseInterfaceDescriptor_spec m w.cfg w.theInterfacePtr 0 0 0 hne
        simp only [he]
        by_cases hC : AUDIOCONTROL = rd m (w.theInterfacePtr + 6)
            ∧ cfg1.controlInterfaceNum = rd m (w.theInterfacePtr + 2)
        · rw [if_pos hC]
          obtain ⟨cd, hcd, hcdn⟩ := hadd ⟨hC.1, hctl ▸ hC.2⟩
          have hat : isControlInterfaceAt m w.cfg.controlInterfaceNum w.theInterfacePtr :=
            ⟨hI.symm, hA.symm, hC.1.symm, (hctl ▸ hC.2).symm⟩
          have hb := audioControlBranch_spec m totalLength (rd m (w.theInterfacePtr + 7))
            w.theInterfacePtr
            { w with cfg := cfg1, theInterfacePtr := w.theInterfacePtr + rd m w.theInterfacePtr,
                     parsedLength := (w.parsedLength
                       + rd m (w.theInterfacePtr + rd m w.theInterfacePtr)) % 65536 }
            cd (by simp only [hctl]; exact hat) (by simp [hcd]) hcdn
          refine ⟨hb.1, ?_⟩
          intro w1 h
          obtain ⟨hs, hfl⟩ := hb.2 w1 h
          refine ⟨hs.ctl.trans hctl, ?_, Or.inr ⟨hat, ?_, hfl⟩⟩
          · have := hs.moves
            simp only [hctl] at this
            exact this
          · have := hs.count
            simp only [hcd, List.length_append, List.length_singleton] at this
            exact this
        · rw [if_neg hC]
          have hlen := congrArg List.length (hsame (fun h => hC ⟨h.1, hctl.symm ▸ h.2⟩))
          by_cases hS : w.haveControlInterface = true
              ∧ AUDIOSTREAMING = rd m (w.theInterfacePtr + 6)
          · rw [if_pos hS]
            have hb := audioStreamingBranch_spec m totalLength (rd m (w.theInterfacePtr + 2))
              (rd m (w.theInterfacePtr + 7))
              { w with cfg := cfg1,
                       theInterfacePtr := w.theInterfacePtr + rd m w.theInterfacePtr,
                       parsedLength := (w.parsedLength
                         + rd m (w.theInterfacePtr + rd m w.theInterfacePtr)) % 65536 }
            exact ⟨hb.1, fun w1 h => BodySpec.of_stepSpec (hb.2 w1 h) hctl rfl rfl hlen rfl⟩
          · rw [if_neg hS]
            by_cases hM : MIDISTREAMING = rd m (w.theInterfacePtr + 6)
            · rw [if_pos hM]
              have hb := midiStreamingBranch_spec m (rd m (w.theInterfacePtr + 2))
                { w with cfg := cfg1,
                         theInterfacePtr := w.theInterfacePtr + rd m w.theInterfacePtr,
                         parsedLength := (w.parsedLength
                           + rd m (w.theInterfacePtr + rd m w.theInterfacePtr)) % 65536 }
              exact ⟨hb.1, fun w1 h => BodySpec.of_stepSpec (hb.2 w1 h) hctl rfl rfl hlen rfl⟩
            · rw [if_neg hM]
              by_cases hO : AUDIOCONTROL = rd m (w.theInterfacePtr + 6)
              · rw [if_pos hO]
                have hb := otherControlBranch_spec m w.theInterfacePtr
                  { w with cfg := cfg1,
                           theInterfacePtr := w.theInterfacePtr + rd m w.theInterfacePtr,
                           parsedLength := (w.parsedLength
                             + rd m (w.theInterfacePtr + rd m w.theInterfacePtr)) % 65536 }
                  hI.symm hA.symm hO.symm (fun h => hC ⟨hO, h.symm⟩) rfl
                exact ⟨hb.1, fun w1 h => BodySpec.of_stepSpec (hb.2 w1 h) hctl rfl rfl hlen rfl⟩
              · rw [if_neg hO]
                refine ⟨by simp, ?_⟩
                intro w1 h
                simp only [Step.state?, Option.some.injEq] at h
                subst h
                exact BodySpec.of_stepSpec (skip_spec m _) hctl rfl rfl hlen rfl
      · rw [if_neg hA]
        refine ⟨by simp, ?_⟩
        intro w1 h
        simp only [Step.state?, Option.some.injEq] at h
        subst h
        exact BodySpec.of_skip m w _ rfl rfl rfl rfl
    · rw [if_neg hI]
      refine ⟨by simp, ?_⟩
      intro w1 h
      simp only [Step.state?, Option.some.injEq] at h
      subst h
      exact BodySpec.of_skip m w _ rfl rfl rfl rfl
/-! ## The loop of the walk -/

theorem BodySpec.lt {m : List Nat} {w w1 : WalkState} (h : BodySpec m w w1)
    (hne : rd m w.theInterfacePtr ≠ 0) : w.theInterfacePtr < w1.theInterfacePtr := by
  have := h.moves.cursor_le
  have := Nat.pos_of_ne_zero hne
  omega

theorem parseLoop_ne_outOfFuel (m : List Nat) (totalLength : Nat) :
    ∀ (fuel : Nat) (w : WalkState), m.length ≤ w.theInterfacePtr + fuel →
      (parseLoop m totalLength fuel w).1 ≠ .outOfFuel := by
  intro fuel
  induction fuel with
  | zero =>
    intro w hw
    unfold parseLoop
    by_cases hc : rd m w.theInterfacePtr ≠ 0 ∧ w.parsedLength ≤ totalLength
    · have := lt_length_of_rd_ne_zero m _ hc.1
      omega
    · rw [if_neg hc]
      simp
  | succ fuel ih =>
    intro w hw
    unfold parseLoop
    by_cases hc : rd m w.theInterfacePtr ≠ 0 ∧ w.parsedLength ≤ totalLength
    · rw [if_pos hc]
      have hb := loopBody_spec m totalLength w hc.1
      rcases hl : loopBody m totalLength w with w1 | w1 | w1 | _
      · simp only
        have hlt := (hb.2 w1 (by rw [hl]; rfl)).lt hc.1
        exact ih w1 (by omega)
      · simp
      · simp
      · exact absurd hl hb.1
    · rw [if_neg hc]
      simp

theorem parseLoop_invariant (m : List Nat) (totalLength : Nat) (I : WalkState → Prop)
    (hstep : ∀ w w1, I w → rd m w.theInterfacePtr ≠ 0 → w.parsedLength ≤ totalLength →
      (loopBody m totalLength w).state? = some w1 → I w1) :
    ∀ (fuel : Nat) (w : WalkState), I w → I (parseLoop m totalLength fuel w).2 := by
  intro fuel
  induction fuel with
  | zero =>
    intro w hw
    unfold parseLoop
    split <;> exact hw
  | succ fuel ih =>
    intro w hw
    unfold parseLoop
    by_cases hc : rd m w.theInterfacePtr ≠ 0 ∧ w.parsedLength ≤ totalLength
    · rw [if_pos hc]
      rcases hl : loopBody m totalLength w with w1 | w1 | w1 | _
      · simp only
        exact ih w1 (hstep w w1 hw hc.1 hc.2 (by rw [hl]; rfl))
      · exact hstep w w1 hw hc.1 hc.2 (by rw [hl]; rfl)
      · exact hstep w w1 hw hc.1 hc.2 (by rw [hl]; rfl)
      · exact hw
    · rw [if_neg hc]
      exact hw

theorem parseLoop_loopEnd (m : List Nat) (totalLength : Nat) :
    ∀ (fuel : Nat) (w : WalkState), (parseLoop m totalLength fuel w).1 = .loopEnd →
      ¬ (rd m (parseLoop m totalLength fuel w).2.theInterfacePtr ≠ 0
        ∧ (parseLoop m totalLength fuel w).2.parsedLength ≤ totalLength) := by
  intro fuel
  induction fuel with
  | zero =>
    intro w
    unfold parseLoop
    by_cases hc : rd m w.theInterfacePtr ≠ 0 ∧ w.parsedLength ≤ totalLength
    · rw [if_pos hc]
      simp
    · rw [if_neg hc]
      intro _
      exact hc
  | succ fuel ih =>
    intro w
    unfold parseLoop
    by_cases hc : rd m w.theInterfacePtr ≠ 0 ∧ w.parsedLength ≤ totalLength
    · rw [if_pos hc]
      rcases hl : loopBody m totalLength w with w1 | w1 | w1 | _
      · simp only
        exact ih w1
      · simp
      · simp
      · simp
    · rw [if_neg hc]
      intro _
      exact hc
/-! ## Descriptors whose records tile `wTotalLength` -/

theorem tiles_of_tilesFrom (m : List Nat) (total : Nat) :
    ∀ (fuel p : Nat), tilesFrom m total fuel p = true → Tiles m total p := by
  intro fuel
  induction fuel with
  | zero =>
    intro p h
    simp only [tilesFrom, beq_iff_eq] at h
    subst h
    exact Tiles.done
  | succ fuel ih =>
    intro p h
    simp only [tilesFrom, Bool.or_eq_true, beq_iff_eq, Bool.and_eq_true, decide_eq_true_eq] at h
    rcases h with h | ⟨h1, h2⟩
    · subst h
      exact Tiles.done
    · exact Tiles.step h1 (ih _ h2)

theorem Tiles.le_total {m : List Nat} {total p : Nat} (h : Tiles m total p) : p ≤ total := by
  induction h with
  | done => exact Nat.le_refl _
  | step _ _ ih => omega

theorem Tiles.next {m : List Nat} {total p : Nat} (h : Tiles m total p)
    (hz : rd m total = 0) : Tiles m total (p + rd m p) := by
  cases h with
  | done => rw [hz]; exact Tiles.done
  | step _ h2 => exact h2

theorem Tiles.eq_of_rd_eq_zero {m : List Nat} {total p : Nat} (h : Tiles m total p)
    (h0 : rd m p = 0) : p = total := by
  cases h with
  | done => rfl
  | step h1 _ => omega

theorem isControlInterfaceAt.control_lt_length {m : List Nat} {n p : Nat}
    (h : isControlInterfaceAt m n p) : p < m.length := by
  have h1 : rd m (p + 1) ≠ 0 := by rw [h.1]; decide
  have := lt_length_of_rd_ne_zero m _ h1
  omega

theorem isOtherControlAt.other_lt_length {m : List Nat} {n p : Nat}
    (h : isOtherControlAt m n p) : p < m.length := by
  have h1 : rd m (p + 1) ≠ 0 := by rw [h.1]; decide
  have := lt_length_of_rd_ne_zero m _ h1
  omega

theorem Moves.tiles {m : List Nat} {n total a b c d : Nat} (h : Moves m n a b c d)
    (htot : total < 65536) (hz : rd m total = 0)
    (hint : ∀ p < m.length, isControlInterfaceAt m n p → rd m (p + 4) ≠ 1)
    (hoth : ∀ p < m.length, isOtherControlAt m n p → Tiles m total (skipTarget m p))
    (ht : Tiles m total a) (hb : b = a + rd m a) :
    Tiles m total c ∧ d = c + rd m c := by
  induction h with
  | refl => exact ⟨ht, hb⟩
  | @skip ptr pl ptr1 pl1 _ ih =>
    have hn := ht.next hz
    have h1 := (hn.next hz).le_total
    refine ih hn ?_
    rw [hb, Nat.mod_eq_of_lt (by omega)]
  | interrupt p0 hp he _ ih =>
    exact absurd he (hint p0 hp.control_lt_length hp)
  | @otherControl ptr pl ptr1 pl1 p0 hp he _ ih =>
    have hn := hoth p0 hp.other_lt_length hp
    have h1 := (hn.next hz).le_total
    have h2 := hn.le_total
    refine ih hn ?_
    have hs : skipTarget m p0 = ptr + headerTotalLength m (rd m (p0 + 7)) ptr := by
      rw [he]; rfl
    have : toUInt16 ((pl : Int) - (rd m ptr : Int)
        + (headerTotalLength m (rd m (p0 + 7)) ptr : Int)) = skipTarget m p0 := by
      rw [hs, hb]
      unfold toUInt16
      have e : ((ptr + rd m ptr : Nat) : Int) - (rd m ptr : Int)
          + (headerTotalLength m (rd m (p0 + 7)) ptr : Int)
          = ((ptr + headerTotalLength m (rd m (p0 + 7)) ptr : Nat) : Int) := by
        push_cast; ring
      rw [e]
      have : ptr + headerTotalLength m (rd m (p0 + 7)) ptr < 65536 := by omega
      omega
    rw [this, Nat.mod_eq_of_lt (by omega)]
/-! ## The whole walk -/

theorem finish_ending (e : Ending) (w : WalkState) : (finish e w).ending = e := by
  cases e <;> rfl

theorem finish_parsedLength (e : Ending) (w : WalkState) :
    (finish e w).parsedLength = w.parsedLength := by
  cases e <;> rfl

theorem finish_theInterfacePtr (e : Ending) (w : WalkState) :
    (finish e w).theInterfacePtr = w.theInterfacePtr := by
  cases e <;> rfl

theorem parseConfigurationDescriptor_eq (m : List Nat) (cfg : DJM03ConfigurationDictionary)
    (h0 : rd m 0 ≠ 0) (h1 : CONFIGURATION = rd m 1) (h2 : rd16 m 2 ≠ 0) :
    parseConfigurationDescriptor m cfg
      = finish (parseLoop m (rd16 m 2) (m.length + 1) (initialState m cfg)).1
          (parseLoop m (rd16 m 2) (m.length + 1) (initialState m cfg)).2 := by
  unfold parseConfigurationDescriptor parseConfigurationDescriptorWith
  rw [if_neg h0, if_neg (not_not.mpr h1)]
  simp only [if_neg h2]

theorem parseLoop_initialState_ne_outOfFuel (m : List Nat) (totalLength : Nat)
    (cfg : DJM03ConfigurationDictionary) :
    (parseLoop m totalLength (m.length + 1) (initialState m cfg)).1 ≠ .outOfFuel :=
  parseLoop_ne_outOfFuel m totalLength (m.length + 1) (initialState m cfg) (by omega)

theorem parseLoop_tiles (m : List Nat) (cfg : DJM03ConfigurationDictionary) (fuel : Nat)
    (hz : rd m (rd16 m 2) = 0) (ht : Tiles m (rd16 m 2) 0)
    (hint : ∀ p < m.length, isControlInterfaceAt m cfg.controlInterfaceNum p → rd m (p + 4) ≠ 1)
    (hoth : ∀ p < m.length, isOtherControlAt m cfg.controlInterfaceNum p →
      Tiles m (rd16 m 2) (skipTarget m p)) :
    Tiles m (rd16 m 2) (parseLoop m (rd16 m 2) fuel (initialState m cfg)).2.theInterfacePtr
    ∧ (parseLoop m (rd16 m 2) fuel (initialState m cfg)).2.parsedLength
      = (parseLoop m (rd16 m 2) fuel (initialState m cfg)).2.theInterfacePtr
        + rd m (parseLoop m (rd16 m 2) fuel (initialState m cfg)).2.theInterfacePtr := by
  have htot := rd16_lt m 2
  have hinv := parseLoop_invariant m (rd16 m 2)
    (fun w => w.cfg.controlInterfaceNum = cfg.controlInterfaceNum
      ∧ Tiles m (rd16 m 2) w.theInterfacePtr
      ∧ w.parsedLength = w.theInterfacePtr + rd m w.theInterfacePtr)
    (by
      rintro w w1 ⟨hc, hT, hP⟩ hne _ hs
      have hb := (loopBody_spec m (rd16 m 2) w hne).2 w1 hs
      have hn := hT.next hz
      have hle := (hn.next hz).le_total
      have hm := hb.moves
      rw [hc] at hm
      have := hm.tiles htot hz hint hoth hn (by rw [hP, Nat.mod_eq_of_lt (by omega)])
      exact ⟨hb.ctl.trans hc, this⟩)
    fuel (initialState m cfg)
    (by
      have hn := ht.next hz
      have hle := (hn.next hz).le_total
      simp only [Nat.zero_add] at hn hle
      refine ⟨rfl, hn, ?_⟩
      simp only [initialState]
      rw [Nat.mod_eq_of_lt (by omega)])
  exact hinv.2
/-! ## The number of control dictionaries -/

theorem isControlInterfaceAt_unique_of_filter (m : List Nat) (n : Nat)
    (h : ((List.range m.length).filter
      (fun p => decide (isControlInterfaceAt m n p))).length ≤ 1) :
    ∀ p q, isControlInterfaceAt m n p → isControlInterfaceAt m n q → p = q := by
  intro p q hp hq
  have hpm : p ∈ (List.range m.length).filter (fun p => decide (isControlInterfaceAt m n p)) :=
    List.mem_filter.mpr ⟨List.mem_range.mpr hp.control_lt_length, decide_eq_true hp⟩
  have hqm : q ∈ (List.range m.length).filter (fun p => decide (isControlInterfaceAt m n p)) :=
    List.mem_filter.mpr ⟨List.mem_range.mpr hq.control_lt_length, decide_eq_true hq⟩
  generalize (List.range m.length).filter (fun p => decide (isControlInterfaceAt m n p)) = l
    at h hpm hqm
  match l, h, hpm, hqm with
  | [], _, hpm, _ => simp at hpm
  | [x], _, hpm, hqm =>
    simp only [List.mem_singleton] at hpm hqm
    rw [hpm, hqm]
  | _ :: _ :: _, h, _, _ =>
    simp only [List.length_cons] at h
    omega

theorem parseLoop_control_count (m : List Nat) (totalLength : Nat)
    (cfg : DJM03ConfigurationDictionary) (fuel : Nat)
    (hempty : cfg.controlDictionaries = [])
    (huniq : ∀ p q, isControlInterfaceAt m cfg.controlInterfaceNum p →
      isControlInterfaceAt m cfg.controlInterfaceNum q → p = q) :
    (parseLoop m totalLength fuel (initialState m cfg)).2.cfg.controlDictionaries.length ≤ 1
    ∧ (0 < (parseLoop m totalLength fuel (initialState m cfg)).2.cfg.controlDictionaries.length →
        (parseLoop m totalLength fuel (initialState m cfg)).2.controlDictionary = true) := by
  have hinv := parseLoop_invariant m totalLength
    (fun w => w.cfg.controlInterfaceNum = cfg.controlInterfaceNum
      ∧ w.cfg.controlDictionaries.length ≤ 1
      ∧ (0 < w.cfg.controlDictionaries.length → w.controlDictionary = true
          ∧ ∃ p0, p0 < w.theInterfacePtr ∧ isControlInterfaceAt m cfg.controlInterfaceNum p0))
    (by
      rintro w w1 ⟨hc, hlen, hpos⟩ hne _ hs
      have hb := (loopBody_spec m totalLength w hne).2 w1 hs
      have hlt := hb.lt hne
      refine ⟨hb.ctl.trans hc, ?_⟩
      rcases hb.count with ⟨h1, h2⟩ | ⟨h1, h2, h3⟩
      · rw [h1]
        refine ⟨hlen, ?_⟩
        intro h0
        obtain ⟨hf, p0, hp0, hat⟩ := hpos h0
        exact ⟨h2 hf, p0, by omega, hat⟩
      · rw [hc] at h1
        have hz : w.cfg.controlDictionaries.length = 0 := by
          by_contra hz
          obtain ⟨_, p0, hp0, hat⟩ := hpos (Nat.pos_of_ne_zero hz)
          have := huniq p0 w.theInterfacePtr hat h1
          omega
        rw [h2, hz]
        exact ⟨Nat.le_refl _, fun _ => ⟨h3, w.theInterfacePtr, hlt, h1⟩⟩)
    fuel (initialState m cfg)
    (by
      refine ⟨rfl, ?_, ?_⟩
      · simp [initialState, hempty]
      · simp [initialState, hempty])
  exact ⟨hinv.2.1, fun h => (hinv.2.2 h).1⟩

theorem finish_foundStreamInterface (e : Ending) (w : WalkState) :
    (finish e w).foundStreamInterface = w.foundStreamInterface := by
  cases e <;> rfl
/-! ## States the walk reaches -/

theorem parseLoop_of_reaches {m : List Nat} {totalLength : Nat} {w w2 : WalkState}
    (h : Reaches m totalLength w w2) :
    ∀ fuel, m.length ≤ w.theInterfacePtr + fuel →
      ∃ fuel2, m.length ≤ w2.theInterfacePtr + fuel2
        ∧ parseLoop m totalLength fuel w = parseLoop m totalLength fuel2 w2 := by
  induction h with
  | refl w => exact fun fuel hf => ⟨fuel, hf, rfl⟩
  | @step w w1 w2 hc hb _ ih =>
    intro fuel hf
    have hlt := lt_length_of_rd_ne_zero m _ hc.1
    have hs := (loopBody_spec m totalLength w hc.1).2 w1 (by rw [hb]; rfl)
    have hlt1 := hs.lt hc.1
    cases fuel with
    | zero => omega
    | succ fuel =>
      obtain ⟨fuel2, hf2, he⟩ := ih fuel (by omega)
      refine ⟨fuel2, hf2, ?_⟩
      rw [← he]
      conv => lhs; unfold parseLoop
      rw [if_pos hc, hb]

theorem loopBody_unsupported_protocol (m : List Nat) (totalLength : Nat) (w : WalkState)
    (hne : rd m w.theInterfacePtr ≠ 0)
    (hat : isControlInterfaceAt m w.cfg.controlInterfaceNum w.theInterfacePtr)
    (hp0 : rd m (w.theInterfacePtr + 7) ≠ INTERFACE_PROTOCOL_UNDEFINED)
    (hp2 : rd m (w.theInterfacePtr + 7) ≠ IP_VERSION_02_00) :
    loopBody m totalLength w
      = .breakOut { w with
          cfg := { w.cfg with controlDictionaries :=
            w.cfg.controlDictionaries ++ [controlDictionaryAt m w.theInterfacePtr] }
          theInterfacePtr := w.theInterfacePtr + rd m w.theInterfacePtr
          parsedLength := (w.parsedLength
            + rd m (w.theInterfacePtr + rd m w.theInterfacePtr)) % 65536
          controlDictionary := true } := by
  obtain ⟨h1, h5, h6, h2⟩ := hat
  have hIA : ¬ INTERFACE_ASSOCIATION = rd m (w.theInterfacePtr + 1) := by
    rw [h1]; decide
  unfold loopBody
  simp only
  rw [if_neg hIA, if_pos h1.symm, if_pos h5.symm]
  unfold parseInterfaceDescriptor
  simp only [if_neg hne, if_pos h6.symm, if_pos h2.symm]
  rw [if_pos ⟨h6.symm, h2.symm⟩]
  unfold audioControlBranch
  simp only [List.getLast?_append, List.getLast?_singleton, Option.or_some]
  rw [if_neg (fun h => hp0 h.symm), if_neg (fun h => hp2 h.symm)]
  rfl
theorem parse_unsupported_protocol (m : List Nat) (cfg : DJM03ConfigurationDictionary)
    (w : WalkState)
    (h0 : rd m 0 ≠ 0) (h1 : rd m 1 = CONFIGURATION) (h2 : rd16 m 2 ≠ 0)
    (hr : Reaches m (rd16 m 2) (initialState m cfg) w)
    (hloop : rd m w.theInterfacePtr ≠ 0 ∧ w.parsedLength ≤ rd16 m 2)
    (hat : isControlInterfaceAt m w.cfg.controlInterfaceNum w.theInterfacePtr)
    (hp0 : rd m (w.theInterfacePtr + 7) ≠ INTERFACE_PROTOCOL_UNDEFINED)
    (hp2 : rd m (w.theInterfacePtr + 7) ≠ IP_VERSION_02_00) :
    parseConfigurationDescriptor m cfg
      = finish .breakOut { w with
          cfg := { w.cfg with controlDictionaries :=
            w.cfg.controlDictionaries ++ [controlDictionaryAt m w.theInterfacePtr] }
          theInterfacePtr := w.theInterfacePtr + rd m w.theInterfacePtr
          parsedLength := (w.parsedLength
            + rd m (w.theInterfacePtr + rd m w.theInterfacePtr)) % 65536
          controlDictionary := true } := by
  rw [parseConfigurationDescriptor_eq m cfg h0 h1.symm h2]
  obtain ⟨fuel2, hf2, he⟩ := parseLoop_of_reaches hr (m.length + 1) (by omega)
  rw [he]
  have hlt := lt_length_of_rd_ne_zero m _ hloop.1
  cases fuel2 with
  | zero => omega
  | succ fuel2 =>
    have hb := loopBody_unsupported_protocol m (rd16 m 2) w hloop.1 hat hp0 hp2
    have : parseLoop m (rd16 m 2) (fuel2 + 1) w = (.breakOut, { w with
          cfg := { w.cfg with controlDictionaries :=
            w.cfg.controlDictionaries ++ [controlDictionaryAt m w.theInterfacePtr] }
          theInterfacePtr := w.theInterfacePtr + rd m w.theInterfacePtr
          parsedLength := (w.parsedLength
            + rd m (w.theInterfacePtr + rd m w.theInterfacePtr)) % 65536
          controlDictionary := true }) := by
      conv => lhs; unfold parseLoop
      rw [if_pos hloop, hb]
    rw [this]
/-! ## A streaming interface whose FORMAT_TYPE record ends beyond `wTotalLength` -/

theorem parseASInterfaceDescriptor_loop_stop (m : List Nat) (totalLength fuel p pl : Nat)
    (s : DJM03StreamDictionary) (h : ¬ (rd m p > 0 ∧ pl ≤ totalLength)) :
    parseASInterfaceDescriptor_loop m totalLength fuel p pl s = some (p, pl, s) := by
  unfold parseASInterfaceDescriptor_loop
  rw [if_neg h]

theorem parseASRecord_AS_GENERAL (m : List Nat) (p : Nat) (s : DJM03StreamDictionary)
    (hcs : rd m (p + 1) = CS_INTERFACE) (hg : rd m (p + 2) = AS_GENERAL) :
    parseASRecord m p s
      = ({ s with
            terminalLink := some (rd m (p + 3))
            delay := some (rd m (p + 4))
            formatTag := some ((rd m (p + 6) <<< 8) ||| rd m (p + 5)) }, true) := by
  unfold parseASRecord
  rw [if_pos hcs]
  simp only
  rw [if_pos hg]

theorem parseASInterfaceDescriptor_truncated (m : List Nat) (fuel totalLength p pl : Nat)
    (s : DJM03StreamDictionary)
    (hp : rd m p ≠ 0) (hcs : rd m (p + 1) = CS_INTERFACE) (hg : rd m (p + 2) = AS_GENERAL)
    (hpl : pl ≤ totalLength) (hq : totalLength < (pl + rd m (p + rd m p)) % 65536) :
    parseASInterfaceDescriptor m (fuel + 1) p pl totalLength s
      = some (p + rd m p, (pl + rd m (p + rd m p)) % 65536,
          { s with
            terminalLink := some (rd m (p + 3))
            delay := some (rd m (p + 4))
            formatTag := some ((rd m (p + 6) <<< 8) ||| rd m (p + 5)) }) := by
  unfold parseASInterfaceDescriptor
  rw [if_neg hp]
  unfold parseASInterfaceDescriptor_loop
  rw [if_pos ⟨Nat.pos_of_ne_zero hp, hpl⟩]
  simp only [parseASRecord_AS_GENERAL m p s hcs hg]
  exact parseASInterfaceDescriptor_loop_stop m totalLength fuel _ _ _ (fun h => by omega)
theorem setLastStream_append (cfg : DJM03ConfigurationDictionary)
    (l : List DJM03StreamDictionary) (s s1 : DJM03StreamDictionary) :
    setLastStream { cfg with streamDictionaries := l ++ [s] } s1
      = { cfg with streamDictionaries := l ++ [s1] } := by
  simp [setLastStream, List.dropLast_concat]

theorem getControlledStreamNumbers_congr (cfg1 cfg2 : DJM03ConfigurationDictionary)
    (h : cfg1.controlDictionaries = cfg2.controlDictionaries) :
    getControlledStreamNumbers cfg1 = getControlledStreamNumbers cfg2 := by
  unfold getControlledStreamNumbers
  rw [h]

theorem loopBody_truncated_stream (m : List Nat) (totalLength : Nat) (w : WalkState)
    (p q n : Nat) (nums : List Nat)
    (hp : p = w.theInterfacePtr + rd m w.theInterfacePtr) (hq : q = p + rd m p)
    (hne : rd m w.theInterfacePtr ≠ 0)
    (hI : rd m (w.theInterfacePtr + 1) = INTERFACE)
    (hA : rd m (w.theInterfacePtr + 5) = AUDIO)
    (hS : rd m (w.theInterfacePtr + 6) = AUDIOSTREAMING)
    (hP : rd m (w.theInterfacePtr + 7) = INTERFACE_PROTOCOL_UNDEFINED)
    (hhave : w.haveControlInterface = true)
    (hnums : getControlledStreamNumbers w.cfg = (.kIOReturnSuccess, some nums, n))
    (hlisted : findStreamInterface nums (rd m (w.theInterfacePtr + 2)) (List.range n)
      = some true)
    (hexact : w.parsedLength = p)
    (hpne : rd m p ≠ 0) (hcs : rd m (p + 1) = CS_INTERFACE) (hg : rd m (p + 2) = AS_GENERAL)
    (hcomplete : q ≤ totalLength) (htrunc : totalLength < q + rd m q)
    (hwrap : q + rd m q < 65536) :
    loopBody m totalLength w
      = countInterface (rd m (w.theInterfacePtr + 2))
          { w with
            cfg := { w.cfg with streamDictionaries := w.cfg.streamDictionaries ++
              [{ streamDictionaryAt m w.theInterfacePtr with
                  terminalLink := some (rd m (p + 3))
                  delay := some (rd m (p + 4))
                  formatTag := some ((rd m (p + 6) <<< 8) ||| rd m (p + 5)) }] }
            result := .kIOReturnSuccess
            theInterfacePtr := q
            parsedLength := q + rd m q
            numStreamInterfaces := n
            foundStreamInterface := true } := by
  have hIA : ¬ INTERFACE_ASSOCIATION = rd m (w.theInterfacePtr + 1) := by
    rw [hI]; decide
  have hnc : ¬ AUDIOCONTROL = rd m (w.theInterfacePtr + 6) := by
    rw [hS]; decide
  have hpl1 : (w.parsedLength + rd m p) % 65536 = q := by
    rw [hexact, ← hq]
    exact Nat.mod_eq_of_lt (by omega)
  have hpl2 : (q + rd m q) % 65536 = q + rd m q := Nat.mod_eq_of_lt hwrap
  unfold loopBody
  simp only
  rw [if_neg hIA, if_pos hI.symm, if_pos hA.symm]
  unfold parseInterfaceDescriptor
  simp only [if_neg hne, if_neg hnc, if_pos hS.symm]
  rw [if_neg (fun h => hnc h.1), if_pos ⟨hhave, hS.symm⟩]
  unfold audioStreamingBranch
  simp only [← hp, hpl1]
  have hg2 : ∀ sd, getControlledStreamNumbers { w.cfg with streamDictionaries := sd }
      = (.kIOReturnSuccess, some nums, n) :=
    fun sd => (getControlledStreamNumbers_congr _ w.cfg rfl).trans hnums
  rw [hg2]
  simp only
  rw [hlisted]
  simp only [if_true]
  unfold dispatchStream
  simp only [List.getLast?_append, List.getLast?_singleton, Option.or_some]
  rw [if_pos hP.symm]
  rw [parseASInterfaceDescriptor_truncated m m.length totalLength p q _ hpne hcs hg hcomplete
    (by rw [← hq, hpl2]; exact htrunc)]
  simp only [← hq, hpl2, setLastStream_append]
  rfl
theorem countInterface_cases (thisInterfaceNumber : Nat) (w : WalkState) :
    ∃ w1, (countInterface thisInterfaceNumber w = .next w1
        ∨ countInterface thisInterfaceNumber w = .breakOut w1)
      ∧ w1.cfg = w.cfg ∧ w1.theInterfacePtr = w.theInterfacePtr
      ∧ w1.parsedLength = w.parsedLength
      ∧ w1.controlDictionary = w.controlDictionary
      ∧ w1.foundStreamInterface = w.foundStreamInterface := by
  unfold countInterface
  by_cases h1 : thisInterfaceNumber ≠ w.lastInterfaceNumber
  · rw [if_pos h1]
    simp only
    by_cases h2 : (w.numParsedInterfaces + 1) % 256 > w.numStreamInterfaces
    · rw [if_pos h2]
      exact ⟨_, Or.inr rfl, rfl, rfl, rfl, rfl, rfl⟩
    · rw [if_neg h2]
      exact ⟨_, Or.inl rfl, rfl, rfl, rfl, rfl, rfl⟩
  · rw [if_neg h1]
    exact ⟨_, Or.inl rfl, rfl, rfl, rfl, rfl, rfl⟩

theorem parseLoop_stop (m : List Nat) (totalLength fuel : Nat) (w : WalkState)
    (h : ¬ (rd m w.theInterfacePtr ≠ 0 ∧ w.parsedLength ≤ totalLength)) :
    parseLoop m totalLength fuel w = (.loopEnd, w) := by
  unfold parseLoop
  rw [if_neg h]

theorem parseLoop_truncated_stream (m : List Nat) (totalLength fuel : Nat) (w : WalkState)
    (p q n : Nat) (nums : List Nat)
    (hp : p = w.theInterfacePtr + rd m w.theInterfacePtr) (hq : q = p + rd m p)
    (hloop : rd m w.theInterfacePtr ≠ 0 ∧ w.parsedLength ≤ totalLength)
    (hI : rd m (w.theInterfacePtr + 1) = INTERFACE)
    (hA : rd m (w.theInterfacePtr + 5) = AUDIO)
    (hS : rd m (w.theInterfacePtr + 6) = AUDIOSTREAMING)
    (hP : rd m (w.theInterfacePtr + 7) = INTERFACE_PROTOCOL_UNDEFINED)
    (hhave : w.haveControlInterface = true)
    (hnums : getControlledStreamNumbers w.cfg = (.kIOReturnSuccess, some nums, n))
    (hlisted : findStreamInterface nums (rd m (w.theInterfacePtr + 2)) (List.range n)
      = some true)
    (hexact : w.parsedLength = p)
    (hpne : rd m p ≠ 0) (hcs : rd m (p + 1) = CS_INTERFACE) (hg : rd m (p + 2) = AS_GENERAL)
    (hcomplete : q ≤ totalLength) (htrunc : totalLength < q + rd m q)
    (hwrap : q + rd m q < 65536) :
    ∃ e w1, parseLoop m totalLength (fuel + 1) w = (e, w1)
      ∧ (e = .loopEnd ∨ e = .breakOut)
      ∧ w1.cfg = { w.cfg with streamDictionaries := w.cfg.streamDictionaries ++
              [{ streamDictionaryAt m w.theInterfacePtr with
                  terminalLink := some (rd m (p + 3))
                  delay := some (rd m (p + 4))
                  formatTag := some ((rd m (p + 6) <<< 8) ||| rd m (p + 5)) }] }
      ∧ w1.theInterfacePtr = q ∧ w1.parsedLength = q + rd m q
      ∧ w1.foundStreamInterface = true := by
  have hb := loopBody_truncated_stream m totalLength w p q n nums hp hq hloop.1 hI hA hS hP
    hhave hnums hlisted hexact hpne hcs hg hcomplete htrunc hwrap
  obtain ⟨w1, hc, h1, h2, h3, _, h5⟩ := countInterface_cases (rd m (w.theInterfacePtr + 2))
    { w with
      cfg := { w.cfg with streamDictionaries := w.cfg.streamDictionaries ++
        [{ streamDictionaryAt m w.theInterfacePtr with
            terminalLink := some (rd m (p + 3))
            delay := some (rd m (p + 4))
            formatTag := some ((rd m (p + 6) <<< 8) ||| rd m (p + 5)) }] }
      result := .kIOReturnSuccess
      theInterfacePtr := q
      parsedLength := q + rd m q
      numStreamInterfaces := n
      foundStreamInterface := true }
  simp only at h1 h2 h3 h5
  rcases hc with hc | hc
  · refine ⟨.loopEnd, w1, ?_, Or.inl rfl, h1, h2, h3, h5⟩
    conv => lhs; unfold parseLoop
    rw [if_pos hloop, hb, hc]
    simp only
    exact parseLoop_stop m totalLength fuel w1 (fun h => by omega)
  · refine ⟨.breakOut, w1, ?_, Or.inr rfl, h1, h2, h3, h5⟩
    conv => lhs; unfold parseLoop
    rw [if_pos hloop, hb, hc]

/-! ## The removal of the control dictionary after the loop -/

/-- Where the removal after the loop does its work: when the dictionary starts without
control dictionaries (as `init` makes it), the descriptor holds at most one control
interface record with the requested number, the walk of `parseConfigurationDescriptor` ends
through its loop condition or a `break` (so the code after the loop runs and the call
returns success), and no streaming interface was dispatched (`foundStreamInterface` is
false), then no control dictionary is left in the model and `hasAudioStreamingInterfaces`
is false. -/
theorem hasAudioStreamingInterfaces_false_of_no_stream (m : List Nat)
    (cfg : DJM03ConfigurationDictionary)
    (hempty : cfg.controlDictionaries = [])
    (huniq : ∀ p q, isControlInterfaceAt m cfg.controlInterfaceNum p →
      isControlInterfaceAt m cfg.controlInterfaceNum q → p = q)
    (hend : (parseConfigurationDescriptor m cfg).ending = .loopEnd
      ∨ (parseConfigurationDescriptor m cfg).ending = .breakOut)
    (hfound : (parseConfigurationDescriptor m cfg).foundStreamInterface = false) :
    (parseConfigurationDescriptor m cfg).result = .kIOReturnSuccess
    ∧ (parseConfigurationDescriptor m cfg).cfg.controlDictionaries = []
    ∧ hasAudioStreamingInterfaces (parseConfigurationDescriptor m cfg).cfg = false := by
  by_cases h0 : rd m 0 = 0
  · simp [parseConfigurationDescriptor, parseConfigurationDescriptorWith, h0] at hend
  by_cases h1 : CONFIGURATION = rd m 1
  swap
  · simp [parseConfigurationDescriptor, parseConfigurationDescriptorWith, h0, h1] at hend
  by_cases h2 : rd16 m 2 = 0
  · simp [parseConfigurationDescriptor, parseConfigurationDescriptorWith, h0, h1, h2] at hend
  rw [parseConfigurationDescriptor_eq m cfg h0 h1 h2] at hend hfound ⊢
  rw [finish_ending] at hend
  rw [finish_foundStreamInterface] at hfound
  obtain ⟨hlen, hflag⟩ := parseLoop_control_count m (rd16 m 2) cfg (m.length + 1) hempty huniq
  generalize parseLoop m (rd16 m 2) (m.length + 1) (initialState m cfg) = r
    at hend hfound hlen hflag
  obtain ⟨e, w⟩ := r
  simp only at hend hfound hlen hflag
  have hcfg : (finish e w).result = .kIOReturnSuccess
      ∧ (finish e w).cfg.controlDictionaries = [] := by
    have key : (if w.controlDictionary = true ∧ w.foundStreamInterface = false then
          { w.cfg with controlDictionaries := w.cfg.controlDictionaries.dropLast }
        else w.cfg).controlDictionaries = [] := by
      by_cases hf : w.controlDictionary = true
      · rw [if_pos ⟨hf, hfound⟩]
        simp only
        apply List.eq_nil_of_length_eq_zero
        rw [List.length_dropLast]
        omega
      · rw [if_neg (fun h => hf h.1)]
        apply List.eq_nil_of_length_eq_zero
        by_contra hz
        exact hf (hflag (Nat.pos_of_ne_zero hz))
    rcases hend with he | he <;> subst he <;> exact ⟨rfl, key⟩
  refine ⟨hcfg.1, hcfg.2, ?_⟩
  simp [hasAudioStreamingInterfaces, hcfg.2]

/-- Example: `controlOnlyDescriptor` has one record of the requested control interface and
no streaming interface, and its control dictionary is removed. -/
theorem hasAudioStreamingInterfaces_false_controlOnlyDescriptor :
    (parseConfigurationDescriptor (mutableDescriptor controlOnlyDescriptor)
        { controlInterfaceNum := 0 }).result = .kIOReturnSuccess
    ∧ (parseConfigurationDescriptor (mutableDescriptor controlOnlyDescriptor)
        { controlInterfaceNum := 0 }).cfg.controlDictionaries = []
    ∧ hasAudioStreamingInterfaces (parseConfigurationDescriptor
        (mutableDescriptor controlOnlyDescriptor) { controlInterfaceNum := 0 }).cfg = false :=
  hasAudioStreamingInterfaces_false_of_no_stream (mutableDescriptor controlOnlyDescriptor)
    { controlInterfaceNum := 0 } rfl
    (isControlInterfaceAt_unique_of_filter _ _ (by decide!)) (Or.inl (by decide!)) (by decide!)
/-! ## Queries -/

theorem parse_error_of_bad_header (l : List Nat) (cfg : DJM03ConfigurationDictionary)
    (h : rd16 l 2 = 0 ∨ rd l 0 = 0 ∨ rd l 1 ≠ CONFIGURATION) :
    (parseConfigurationDescriptor (mutableDescriptor l) cfg).result = .kIOReturnError := by
  unfold parseConfigurationDescriptor parseConfigurationDescriptorWith
  have h0 := rd_mutableDescriptor l 0
  have h1 := rd_mutableDescriptor l 1
  by_cases hz : rd (mutableDescriptor l) 0 = 0
  · simp [hz]
  · have hc : CONFIGURATION ≠ rd (mutableDescriptor l) 1 := by
      rcases h with h | h | h
      · rw [h] at h0; simp at h0; exact absurd h0 hz
      · rw [h] at h0; simp at h0; exact absurd h0 hz
      · rw [h1]; split
        · exact fun e => h e.symm
        · decide
    simp [hz, hc]

theorem verifySampleRateIsSupported_iff (cfg : DJM03ConfigurationDictionary)
    (interfaceNum altSettingID verifyRate : Nat) :
    verifySampleRateIsSupported cfg interfaceNum altSettingID verifyRate = true
      ↔ (verifyRate = 44100 ∨ verifyRate = 48000 ∨ verifyRate = 96000) := by
  simp [verifySampleRateIsSupported, getNumSampleRates, getSampleRates, sampleRates,
    OSNumber_withNumber, verifyDiscrete]
  by_cases h1 : 96000 = verifyRate
  · simp [h1.symm]
  · by_cases h2 : 48000 = verifyRate
    · simp [h2.symm]
    · by_cases h3: 44100 = verifyRate
      · simp [h3.symm]
      · simp [h1, h2, h3]; omega

theorem find?_range'_const (b : Bool) (s k : Nat) :
    (List.range' s k).find? (fun _ => b) = if b = true ∧ 0 < k then some s else none := by
  cases k with
  | zero => simp
  | succ k =>
    cases b
    · simp
    · simp [List.range'_succ]

/-! ## The status interrupt endpoint and `parsedLength` -/

/-- Evaluation: in `interruptDescriptor` every `bLength` is the true size of its record and
the sizes sum to `wTotalLength = 107`.  `parseACInterruptEndpointDescriptor` moves the cursor
over the ENDPOINT record without adding to `parsedLength`, so the counter stays behind by
the `bLength` (9) of the record after the endpoint: the walk ends with the cursor at 107 and
`parsedLength = 98`. -/
theorem parsedLength_lags_after_interrupt_endpoint :
    Tiles (mutableDescriptor interruptDescriptor) 107 0
    ∧ rd16 (mutableDescriptor interruptDescriptor) 2 = 107
    ∧ (parseConfigurationDescriptor (mutableDescriptor interruptDescriptor)
        { controlInterfaceNum := 0 }).result = .kIOReturnSuccess
    ∧ (parseConfigurationDescriptor (mutableDescriptor interruptDescriptor)
        { controlInterfaceNum := 0 }).ending = .loopEnd
    ∧ (parseConfigurationDescriptor (mutableDescriptor interruptDescriptor)
        { controlInterfaceNum := 0 }).theInterfacePtr = 107
    ∧ (parseConfigurationDescriptor (mutableDescriptor interruptDescriptor)
        { controlInterfaceNum := 0 }).parsedLength = 98 :=
  ⟨tiles_of_tilesFrom _ _ 12 0 (by decide), by decide, by decide!, by decide!, by decide!,
    by decide!⟩

/-- Evaluation: in `interruptTruncatedDescriptor` the FORMAT_TYPE record at offset 80
declares 11 bytes and `wTotalLength` is 85.  With the counter 9 behind, the loop of
`parseASInterfaceDescriptor` sees `parsedLength = 82 <= 85` and parses the record: the
stream dictionary gets its channel count (offset 84) and fields read at and beyond offset
85, and the cursor ends at 91. -/
theorem truncated_FORMAT_TYPE_parsed_after_interrupt_endpoint :
    rd16 (mutableDescriptor interruptTruncatedDescriptor) 2 = 85
    ∧ rd (mutableDescriptor interruptTruncatedDescriptor) 80 = 11
    ∧ rd (mutableDescriptor interruptTruncatedDescriptor) (80 + 2) = FORMAT_TYPE
    ∧ (parseConfigurationDescriptor (mutableDescriptor interruptTruncatedDescriptor)
        { controlInterfaceNum := 0 }).result = .kIOReturnSuccess
    ∧ (parseConfigurationDescriptor (mutableDescriptor interruptTruncatedDescriptor)
        { controlInterfaceNum := 0 }).theInterfacePtr = 91
    ∧ (parseConfigurationDescriptor (mutableDescriptor interruptTruncatedDescriptor)
        { controlInterfaceNum := 0 }).parsedLength = 82
    ∧ (parseConfigurationDescriptor (mutableDescriptor interruptTruncatedDescriptor)
        { controlInterfaceNum := 0 }).cfg.streamDictionaries.map
          (fun s => (s.alternateSetting, s.terminalLink, s.numChannels, s.subframeSize))
      = [(0, none, none, none), (1, some 1, some 2, some 0)] := by
  decide!
/-! ## The claims -/

/-- C1 (evaluation on a failing input): for the descriptor whose first record declares
`bLength = 200` and `wTotalLength = 9`, `init` copies 9 bytes and appends the terminator (10
bytes in all), and `parseConfigurationDescriptor` sets its cursor to offset 200 and reads
`theInterfacePtr->bLength` there, both for the first `parsedLength` and in the loop
condition: the cursor it ends with is 200, beyond `wTotalLength`. -/
theorem parse_cursor_beyond_wTotalLength :
    rd16 oversizedHeaderDescriptor 2 = 9
    ∧ (mutableDescriptor oversizedHeaderDescriptor).length = 10
    ∧ (initialState (mutableDescriptor oversizedHeaderDescriptor)
        { controlInterfaceNum := 0 }).theInterfacePtr = 200
    ∧ (parseConfigurationDescriptor (mutableDescriptor oversizedHeaderDescriptor)
        { controlInterfaceNum := 0 }).theInterfacePtr = 200 := by
  decide

/-- C2 (amended): when the records of the descriptor tile `wTotalLength` (each `bLength`
leads to the next record and the last one ends at `wTotalLength`), the byte at
`wTotalLength` is the zero terminator, no requested control interface record declares one
endpoint (so the status interrupt endpoint parser is never entered), and the class-specific
block of every other control interface ends on a record boundary, then the walk of
`parseConfigurationDescriptor` ends, `parsedLength` never exceeds `wTotalLength`, and when
the walk ends because its loop condition fails `parsedLength` equals `wTotalLength`. -/
theorem parsedLength_eq_wTotalLength (m : List Nat) (cfg : DJM03ConfigurationDictionary)
    (hz : rd m (rd16 m 2) = 0) (ht : Tiles m (rd16 m 2) 0)
    (hint : ∀ p < m.length, isControlInterfaceAt m cfg.controlInterfaceNum p → rd m (p + 4) ≠ 1)
    (hoth : ∀ p < m.length, isOtherControlAt m cfg.controlInterfaceNum p →
      Tiles m (rd16 m 2) (skipTarget m p)) :
    (parseConfigurationDescriptor m cfg).ending ≠ .outOfFuel
    ∧ (parseConfigurationDescriptor m cfg).parsedLength ≤ rd16 m 2
    ∧ ((parseConfigurationDescriptor m cfg).ending = .loopEnd →
        (parseConfigurationDescriptor m cfg).parsedLength = rd16 m 2) := by
  by_cases h0 : rd m 0 = 0
  · simp [parseConfigurationDescriptor, parseConfigurationDescriptorWith, h0]
  by_cases h1 : CONFIGURATION = rd m 1
  swap
  · simp [parseConfigurationDescriptor, parseConfigurationDescriptorWith, h0, h1]
  by_cases h2 : rd16 m 2 = 0
  · simp [parseConfigurationDescriptor, parseConfigurationDescriptorWith, h0, h1, h2]
  rw [parseConfigurationDescriptor_eq m cfg h0 h1 h2, finish_ending, finish_parsedLength]
  obtain ⟨hT, hP⟩ := parseLoop_tiles m cfg (m.length + 1) hz ht hint hoth
  have hle := (hT.next hz).le_total
  refine ⟨parseLoop_initialState_ne_outOfFuel m _ cfg, by omega, ?_⟩
  intro he
  have hc := parseLoop_loopEnd m (rd16 m 2) (m.length + 1) (initialState m cfg) he
  have hr : rd m (parseLoop m (rd16 m 2) (m.length + 1)
      (initialState m cfg)).2.theInterfacePtr = 0 := by
    by_contra hr
    exact hc ⟨hr, by omega⟩
  have := hT.eq_of_rd_eq_zero hr
  omega

/-- C2 (witness): the 100-byte UAC 1.0 descriptor `uac1Descriptor` meets the hypotheses. -/
theorem parsedLength_eq_wTotalLength_witness :
    (parseConfigurationDescriptor (mutableDescriptor uac1Descriptor)
        { controlInterfaceNum := 0 }).ending ≠ .outOfFuel
    ∧ (parseConfigurationDescriptor (mutableDescriptor uac1Descriptor)
        { controlInterfaceNum := 0 }).parsedLength ≤ rd16 (mutableDescriptor uac1Descriptor) 2
    ∧ ((parseConfigurationDescriptor (mutableDescriptor uac1Descriptor)
          { controlInterfaceNum := 0 }).ending = .loopEnd →
        (parseConfigurationDescriptor (mutableDescriptor uac1Descriptor)
          { controlInterfaceNum := 0 }).parsedLength
          = rd16 (mutableDescriptor uac1Descriptor) 2) :=
  parsedLength_eq_wTotalLength (mutableDescriptor uac1Descriptor) { controlInterfaceNum := 0 }
    (by decide) (tiles_of_tilesFrom _ _ 11 0 (by decide)) (by decide!)
    (fun p hp h => absurd h
      ((by decide! : ∀ p < (mutableDescriptor uac1Descriptor).length,
        ¬ isOtherControlAt (mutableDescriptor uac1Descriptor) 0 p) p hp))

/-- C2 (counterexample): in `twoFunctionDescriptor` every `bLength` is the true size of its
record, the sizes sum to `wTotalLength = 79` and the requested control interface 0 has
protocol UNDEFINED and no interrupt endpoint; the walk leaves its loop at the streaming
interface 3 of the second audio function (one more interface number than control interface
0 lists) and returns success with `parsedLength = 72`. -/
theorem parsedLength_ne_wTotalLength_twoFunctions :
    Tiles (mutableDescriptor twoFunctionDescriptor) 79 0
    ∧ rd16 (mutableDescriptor twoFunctionDescriptor) 2 = 79
    ∧ rd (mutableDescriptor twoFunctionDescriptor) (9 + 7) = INTERFACE_PROTOCOL_UNDEFINED
    ∧ rd (mutableDescriptor twoFunctionDescriptor) (9 + 4) = 0
    ∧ (parseConfigurationDescriptor (mutableDescriptor twoFunctionDescriptor)
        { controlInterfaceNum := 0 }).result = .kIOReturnSuccess
    ∧ (parseConfigurationDescriptor (mutableDescriptor twoFunctionDescriptor)
        { controlInterfaceNum := 0 }).ending = .breakOut
    ∧ (parseConfigurationDescriptor (mutableDescriptor twoFunctionDescriptor)
        { controlInterfaceNum := 0 }).parsedLength = 72 :=
  ⟨tiles_of_tilesFrom _ _ 9 0 (by decide), by decide, by decide, by decide, by decide!,
    by decide!, by decide!⟩

/-- C3 (amended): suppose the walk reaches, at the top of its loop, a UAC 1.0 AUDIOSTREAMING
interface record after the control interface was parsed, the interface number is listed by
the control interface, `parsedLength` is exact there (it equals the offset `p` of the next
record), the record at `p` is an AS_GENERAL record that ends at `q <= wTotalLength`, and the
record at `q` (the FORMAT_TYPE record) declares a `bLength` that ends beyond `wTotalLength`
(and below 65536).  Then `parseASInterfaceDescriptor` stops with the cursor at `q` without
parsing that record; `parseConfigurationDescriptor` returns success; the model holds
everything the state held, plus the stream dictionary of this alternate setting with the
terminal link, delay and format tag of AS_GENERAL and no FORMAT_TYPE field. -/
theorem parse_success_of_truncated_FORMAT_TYPE (m : List Nat)
    (cfg : DJM03ConfigurationDictionary) (w : WalkState) (p q n : Nat) (nums : List Nat)
    (h0 : rd m 0 ≠ 0) (h1 : rd m 1 = CONFIGURATION) (h2 : rd16 m 2 ≠ 0)
    (hr : Reaches m (rd16 m 2) (initialState m cfg) w)
    (hp : p = w.theInterfacePtr + rd m w.theInterfacePtr) (hq : q = p + rd m p)
    (hne : rd m w.theInterfacePtr ≠ 0)
    (hI : rd m (w.theInterfacePtr + 1) = INTERFACE)
    (hA : rd m (w.theInterfacePtr + 5) = AUDIO)
    (hS : rd m (w.theInterfacePtr + 6) = AUDIOSTREAMING)
    (hP : rd m (w.theInterfacePtr + 7) = INTERFACE_PROTOCOL_UNDEFINED)
    (hhave : w.haveControlInterface = true)
    (hnums : getControlledStreamNumbers w.cfg = (.kIOReturnSuccess, some nums, n))
    (hlisted : findStreamInterface nums (rd m (w.theInterfacePtr + 2)) (List.range n)
      = some true)
    (hexact : w.parsedLength = p)
    (hpne : rd m p ≠ 0) (hcs : rd m (p + 1) = CS_INTERFACE) (hg : rd m (p + 2) = AS_GENERAL)
    (hcomplete : q ≤ rd16 m 2) (htrunc : rd16 m 2 < q + rd m q)
    (hwrap : q + rd m q < 65536) :
    (parseConfigurationDescriptor m cfg).result = .kIOReturnSuccess
    ∧ (parseConfigurationDescriptor m cfg).cfg
      = { w.cfg with streamDictionaries := w.cfg.streamDictionaries ++
            [{ streamDictionaryAt m w.theInterfacePtr with
                terminalLink := some (rd m (p + 3))
                delay := some (rd m (p + 4))
                formatTag := some ((rd m (p + 6) <<< 8) ||| rd m (p + 5)) }] }
    ∧ (parseConfigurationDescriptor m cfg).theInterfacePtr = q
    ∧ ((parseConfigurationDescriptor m cfg).ending = .loopEnd
      ∨ (parseConfigurationDescriptor m cfg).ending = .breakOut) := by
  rw [parseConfigurationDescriptor_eq m cfg h0 h1.symm h2]
  obtain ⟨fuel2, hf2, he⟩ := parseLoop_of_reaches hr (m.length + 1) (by omega)
  rw [he]
  have hlt := lt_length_of_rd_ne_zero m _ hne
  have hpos := Nat.pos_of_ne_zero hpne
  cases fuel2 with
  | zero => omega
  | succ fuel2 =>
    obtain ⟨e, w1, hpl, hend, hcfg, hptr, _, hfound⟩ :=
      parseLoop_truncated_stream m (rd16 m 2) fuel2 w p q n nums hp hq ⟨hne, by omega⟩
        hI hA hS hP hhave hnums hlisted hexact hpne hcs hg hcomplete htrunc hwrap
    rw [hpl]
    simp only
    have hfin : (finish e w1).result = .kIOReturnSuccess ∧ (finish e w1).cfg = w1.cfg := by
      rcases hend with h | h <;> subst h <;> simp [finish, hfound]
    refine ⟨hfin.1, hfin.2.trans hcfg, ?_, ?_⟩
    · rw [finish_theInterfacePtr, hptr]
    · rw [finish_ending]; exact hend

/-- C3 (witness): in `truncatedFormatDescriptor` the walk parses control interface 0 and is
then at the record of streaming interface 1, alternate setting 1 (offset 27); AS_GENERAL is
at `p = 36`, the FORMAT_TYPE record at `q = 43` declares 11 bytes and `wTotalLength` is
48. -/
theorem parse_success_of_truncated_FORMAT_TYPE_witness :
    rd (mutableDescriptor truncatedFormatDescriptor) (43 + 2) = FORMAT_TYPE
    ∧ (parseConfigurationDescriptor (mutableDescriptor truncatedFormatDescriptor)
        { controlInterfaceNum := 0 }).result = .kIOReturnSuccess
    ∧ (parseConfigurationDescriptor (mutableDescriptor truncatedFormatDescriptor)
        { controlInterfaceNum := 0 }).theInterfacePtr = 43 :=
  ⟨by decide,
    (fun h => ⟨h.1, h.2.2.1⟩)
      (parse_success_of_truncated_FORMAT_TYPE (mutableDescriptor truncatedFormatDescriptor)
        { controlInterfaceNum := 0 }
        ((loopBody (mutableDescriptor truncatedFormatDescriptor) 48
            (initialState (mutableDescriptor truncatedFormatDescriptor)
              { controlInterfaceNum := 0 })).state?.getD
          (initialState (mutableDescriptor truncatedFormatDescriptor)
            { controlInterfaceNum := 0 }))
        36 43 1 [1] (by decide) (by decide) (by decide)
        (Reaches.step (by decide) (by decide!) (Reaches.refl _))
        (by decide!) (by decide!) (by decide!) (by decide!) (by decide!) (by decide!)
        (by decide!) (by decide!) (by decide!) (by decide!) (by decide!) (by decide!)
        (by decide!) (by decide!) (by decide!) (by decide!) (by decide!))⟩

/-- C3 (counterexample): in `unreachedStreamDescriptor` control interface 0 lists streaming
interface 1, whose alternate setting 1 (offset 45) has a complete AS_GENERAL record (offset
54, terminal link 9) followed by a FORMAT_TYPE record (offset 61) declaring 11 bytes, beyond
`wTotalLength = 66`.  The walk leaves its loop at the second unlisted streaming interface
before it: the parse returns success, but the model holds no stream dictionary for interface
1 (so no terminal link from AS_GENERAL) and the control dictionary parsed earlier has been
removed. -/
theorem parse_unreachedStreamDescriptor :
    rd (mutableDescriptor unreachedStreamDescriptor) (18 + 7) = 1
    ∧ rd (mutableDescriptor unreachedStreamDescriptor) (18 + 8) = 1
    ∧ rd (mutableDescriptor unreachedStreamDescriptor) (45 + 1) = INTERFACE
    ∧ rd (mutableDescriptor unreachedStreamDescriptor) (45 + 2) = 1
    ∧ rd (mutableDescriptor unreachedStreamDescriptor) (45 + 6) = AUDIOSTREAMING
    ∧ rd (mutableDescriptor unreachedStreamDescriptor) (45 + 7) = INTERFACE_PROTOCOL_UNDEFINED
    ∧ rd (mutableDescriptor unreachedStreamDescriptor) 54 = 7
    ∧ rd (mutableDescriptor unreachedStreamDescriptor) (54 + 2) = AS_GENERAL
    ∧ rd (mutableDescriptor unreachedStreamDescriptor) (54 + 3) = 9
    ∧ rd (mutableDescriptor unreachedStreamDescriptor) 61 = 11
    ∧ rd (mutableDescriptor unreachedStreamDescriptor) (61 + 2) = FORMAT_TYPE
    ∧ rd16 (mutableDescriptor unreachedStreamDescriptor) 2 = 66
    ∧ (parseConfigurationDescriptor (mutableDescriptor unreachedStreamDescriptor)
        { controlInterfaceNum := 0 }).result = .kIOReturnSuccess
    ∧ (parseConfigurationDescriptor (mutableDescriptor unreachedStreamDescriptor)
        { controlInterfaceNum := 0 }).ending = .breakOut
    ∧ (parseConfigurationDescriptor (mutableDescriptor unreachedStreamDescriptor)
        { controlInterfaceNum := 0 }).cfg.streamDictionaries.map
          (fun s => (s.interfaceNumber, s.terminalLink)) = [(2, none), (3, none)]
    ∧ (parseConfigurationDescriptor (mutableDescriptor unreachedStreamDescriptor)
        { controlInterfaceNum := 0 }).cfg.controlDictionaries = [] := by
  decide!


/-- C4 (amended): when the walk reaches, at the top of its loop, an AUDIOCONTROL interface
record with the requested number whose interface protocol is neither UNDEFINED nor
`IP_VERSION_02_00`, it leaves the loop there with a `break`: the records behind it are not
parsed, `parseConfigurationDescriptor` returns success, `init` returns true and `create`
yields a model.  The control dictionary made for that record is removed again unless a
streaming interface was dispatched before. -/
theorem init_true_of_unsupported_protocol (d : List Nat) (controlInterfaceNum : Nat)
    (w : WalkState)
    (h0 : rd (mutableDescriptor d) 0 ≠ 0) (h1 : rd (mutableDescriptor d) 1 = CONFIGURATION)
    (h2 : rd16 (mutableDescriptor d) 2 ≠ 0)
    (hr : Reaches (mutableDescriptor d) (rd16 (mutableDescriptor d) 2)
      (initialState (mutableDescriptor d) { controlInterfaceNum := controlInterfaceNum % 256 })
      w)
    (hloop : rd (mutableDescriptor d) w.theInterfacePtr ≠ 0
      ∧ w.parsedLength ≤ rd16 (mutableDescriptor d) 2)
    (hat : isControlInterfaceAt (mutableDescriptor d) w.cfg.controlInterfaceNum
      w.theInterfacePtr)
    (hp0 : rd (mutableDescriptor d) (w.theInterfacePtr + 7) ≠ INTERFACE_PROTOCOL_UNDEFINED)
    (hp2 : rd (mutableDescriptor d) (w.theInterfacePtr + 7) ≠ IP_VERSION_02_00) :
    (parseConfigurationDescriptor (mutableDescriptor d)
        { controlInterfaceNum := controlInterfaceNum % 256 }).result = .kIOReturnSuccess
    ∧ (parseConfigurationDescriptor (mutableDescriptor d)
        { controlInterfaceNum := controlInterfaceNum % 256 }).ending = .breakOut
    ∧ (parseConfigurationDescriptor (mutableDescriptor d)
        { controlInterfaceNum := controlInterfaceNum % 256 }).theInterfacePtr
      = w.theInterfacePtr + rd (mutableDescriptor d) w.theInterfacePtr
    ∧ (parseConfigurationDescriptor (mutableDescriptor d)
        { controlInterfaceNum := controlInterfaceNum % 256 }).cfg.controlDictionaries
      = (if w.foundStreamInterface = true then
          w.cfg.controlDictionaries
            ++ [controlDictionaryAt (mutableDescriptor d) w.theInterfacePtr]
        else w.cfg.controlDictionaries)
    ∧ (init (some d) controlInterfaceNum).1 = true
    ∧ create (some d) controlInterfaceNum ≠ none := by
  have hp := parse_unsupported_protocol (mutableDescriptor d)
    { controlInterfaceNum := controlInterfaceNum % 256 } w h0 h1 h2 hr hloop hat hp0 hp2
  have hres : (parseConfigurationDescriptor (mutableDescriptor d)
      { controlInterfaceNum := controlInterfaceNum % 256 }).result = .kIOReturnSuccess := by
    rw [hp]; rfl
  have hi : (init (some d) controlInterfaceNum).1 = true := by
    simp [init, hres]
  refine ⟨hres, by rw [hp]; rfl, by rw [hp]; rfl, ?_, hi, by simp [create, hi]⟩
  rw [hp]
  simp only [finish]
  by_cases hf : w.foundStreamInterface = true
  · simp [hf]
  · simp [hf]

/-- C4 (witness): in `unsupportedProtocolDescriptor` the walk skips the HID interface record
and then is at the record of control interface 0 with the protocol `0x30`. -/
theorem init_true_of_unsupported_protocol_witness :
    isControlInterfaceAt (mutableDescriptor unsupportedProtocolDescriptor) 0 18
    ∧ rd (mutableDescriptor unsupportedProtocolDescriptor) (18 + 7) = 0x30
    ∧ (init (some unsupportedProtocolDescriptor) 0).1 = true
    ∧ create (some unsupportedProtocolDescriptor) 0 ≠ none :=
  ⟨by decide, by decide,
    (init_true_of_unsupported_protocol unsupportedProtocolDescriptor 0
      ((initialState (mutableDescriptor unsupportedProtocolDescriptor)
        { controlInterfaceNum := 0 }).skip (mutableDescriptor unsupportedProtocolDescriptor))
      (by decide) (by decide) (by decide)
      (Reaches.step (by decide) (by decide!) (Reaches.refl _))
      (by decide) (by decide) (by decide) (by decide)).2.2.2.2⟩

/-- C4 (counterexample): `unsupportedProtocolDescriptor` holds the requested control
interface 0 with the interface protocol `0x30`; `parseConfigurationDescriptor` leaves its
loop at that record and returns success, `init` returns true and `create` yields a model
(without control dictionaries). -/
theorem init_true_on_unsupportedProtocolDescriptor :
    isControlInterfaceAt (mutableDescriptor unsupportedProtocolDescriptor) 0 18
    ∧ rd (mutableDescriptor unsupportedProtocolDescriptor) (18 + 7) ≠ INTERFACE_PROTOCOL_UNDEFINED
    ∧ rd (mutableDescriptor unsupportedProtocolDescriptor) (18 + 7) ≠ IP_VERSION_02_00
    ∧ (parseConfigurationDescriptor (mutableDescriptor unsupportedProtocolDescriptor)
        { controlInterfaceNum := 0 }).result = .kIOReturnSuccess
    ∧ (parseConfigurationDescriptor (mutableDescriptor unsupportedProtocolDescriptor)
        { controlInterfaceNum := 0 }).ending = .breakOut
    ∧ (init (some unsupportedProtocolDescriptor) 0).1 = true
    ∧ create (some unsupportedProtocolDescriptor) 0
      = some { controlInterfaceNum := 0, controlDictionaries := [], streamDictionaries := [] } := by
  decide!

/-- C5: `init` returns false, and `create` returns no object, whenever the supplied
configuration descriptor is `NULL`, has `wTotalLength = 0`, has `bLength = 0`, or has a
`bDescriptorType` other than CONFIGURATION. -/
theorem init_false_of_bad_descriptor (d : Option (List Nat)) (controlInterfaceNum : Nat)
    (h : d = none ∨ ∃ l, d = some l ∧ (rd16 l 2 = 0 ∨ rd l 0 = 0 ∨ rd l 1 ≠ CONFIGURATION)) :
    (init d controlInterfaceNum).1 = false ∧ create d controlInterfaceNum = none := by
  rcases h with h | ⟨l, hl, h⟩
  · subst h; exact ⟨rfl, rfl⟩
  · subst hl
    have hp := parse_error_of_bad_header l { controlInterfaceNum := controlInterfaceNum % 256 } h
    have hi : (init (some l) controlInterfaceNum).1 = false := by
      simp [init, hp]
    exact ⟨hi, by simp [create, hi]⟩

/-- C5 (witness): a descriptor whose type byte is INTERFACE instead of CONFIGURATION. -/
theorem init_false_of_bad_descriptor_witness :
    (init (some [9, 4, 9, 0, 1, 1, 0, 128, 50]) 0).1 = false
      ∧ create (some [9, 4, 9, 0, 1, 1, 0, 128, 50]) 0 = none :=
  init_false_of_bad_descriptor (some [9, 4, 9, 0, 1, 1, 0, 128, 50]) 0
    (Or.inr ⟨_, rfl, Or.inr (Or.inr (by decide))⟩)

/-- C6 (evaluation on a failing input): `twoControlRecordsDescriptor` holds two records of
the requested control interface 0 and no streaming interface.  The parse returns success
with the control interface found and no streaming interface dispatched, the code after the
loop removes only the control dictionary added last, and `hasAudioStreamingInterfaces` is
true. -/
theorem hasAudioStreamingInterfaces_true_without_stream :
    (parseConfigurationDescriptor (mutableDescriptor twoControlRecordsDescriptor)
        { controlInterfaceNum := 0 }).result = .kIOReturnSuccess
    ∧ (parseConfigurationDescriptor (mutableDescriptor twoControlRecordsDescriptor)
        { controlInterfaceNum := 0 }).ending = .loopEnd
    ∧ (parseConfigurationDescriptor (mutableDescriptor twoControlRecordsDescriptor)
        { controlInterfaceNum := 0 }).controlDictionary = true
    ∧ (parseConfigurationDescriptor (mutableDescriptor twoControlRecordsDescriptor)
        { controlInterfaceNum := 0 }).foundStreamInterface = false
    ∧ (init (some twoControlRecordsDescriptor) 0).1 = true
    ∧ (init (some twoControlRecordsDescriptor) 0).2.controlDictionaries.length = 1
    ∧ hasAudioStreamingInterfaces (init (some twoControlRecordsDescriptor) 0).2 = true := by
  decide!

/-- C7 (amended): `getNextAltSettingWithNumChannels` compares the request with the constant
8 that `getNumChannels` returns for every alternate setting.  On a model with fewer than
65536 stream dictionaries it succeeds exactly when `getNumAltSettings` succeeds, the request
is 8 and the start index is below the number of alternate settings, and it then returns the
start index; otherwise it returns an error and leaves the alternate setting 0. -/
theorem getNextAltSettingWithNumChannels_spec (cfg : DJM03ConfigurationDictionary)
    (interfaceNum startingAltSettingID numChannelsRequested : Nat)
    (hlen : cfg.streamDictionaries.length < 65536) :
    ∃ r numAltSettings, getNumAltSettings cfg interfaceNum = some (r, numAltSettings)
      ∧ getNextAltSettingWithNumChannels cfg interfaceNum startingAltSettingID
          numChannelsRequested
        = some (if r = .kIOReturnSuccess ∧ numChannelsRequested = 8
              ∧ startingAltSettingID < numAltSettings
            then (.kIOReturnSuccess, startingAltSettingID) else (.kIOReturnError, 0)) := by
  unfold getNextAltSettingWithNumChannels
  rcases hg : getNumAltSettings cfg interfaceNum with _ | ⟨r, k⟩
  · unfold getNumAltSettings at hg
    split at hg
    · simp at hg
    · rw [if_neg (by omega)] at hg
      simp at hg
  · refine ⟨r, k, rfl, ?_⟩
    cases r
    · simp only [getNumChannels, find?_range'_const]
      by_cases h8 : numChannelsRequested = 8
      · by_cases hs : startingAltSettingID < k
        · have : 0 < k - startingAltSettingID := by omega
          simp [h8, hs, this]
        · have : ¬ 0 < k - startingAltSettingID := by omega
          simp [h8, hs, this]
      · simp [h8]
    · simp

/-- C7 (witness): the model parsed from `twoAltDescriptor`, interface 1, start 0, request
8. -/
theorem getNextAltSettingWithNumChannels_spec_witness :
    ∃ r numAltSettings, getNumAltSettings (init (some twoAltDescriptor) 0).2 1
        = some (r, numAltSettings)
      ∧ getNextAltSettingWithNumChannels (init (some twoAltDescriptor) 0).2 1 0 8
        = some (if r = .kIOReturnSuccess ∧ 8 = 8 ∧ 0 < numAltSettings
            then (.kIOReturnSuccess, 0) else (.kIOReturnError, 0)) :=
  getNextAltSettingWithNumChannels_spec (init (some twoAltDescriptor) 0).2 1 0 8 (by decide!)

/-- C7 (counterexample): `twoAltDescriptor` parses into a model whose two alternate settings
of interface 1 declare 2 and 8 channels; a request for 8 channels from start 0 returns the
index 0 (not the second one), and a request for 2 channels is not found. -/
theorem getNextAltSettingWithNumChannels_ignores_descriptor :
    (init (some twoAltDescriptor) 0).1 = true
    ∧ (init (some twoAltDescriptor) 0).2.streamDictionaries.map
        (fun s => (s.interfaceNumber, s.alternateSetting, s.numChannels))
      = [(1, 0, some 2), (1, 1, some 8)]
    ∧ getNextAltSettingWithNumChannels (init (some twoAltDescriptor) 0).2 1 0 8
      = some (.kIOReturnSuccess, 0)
    ∧ getNextAltSettingWithNumChannels (init (some twoAltDescriptor) 0).2 1 0 2
      = some (.kIOReturnError, 0) := by
  decide!

/-- C8: the rate set every query reports is the discrete set of the three rates 44100,
48000 and 96000 (`getNumSampleRates` gives 3), and `verifySampleRateIsSupported` returns
true for exactly these three rates and false for every other rate. -/
theorem verifySampleRateIsSupported_discrete (cfg : DJM03ConfigurationDictionary)
    (interfaceNum altSettingID : Nat) :
    (getNumSampleRates cfg interfaceNum altSettingID).2 = 3
    ∧ (∀ x, x ∈ getSampleRates cfg interfaceNum altSettingID ↔ x = 44100 ∨ x = 48000 ∨ x = 96000)
    ∧ ∀ verifyRate, verifySampleRateIsSupported cfg interfaceNum altSettingID verifyRate = true
        ↔ (verifyRate = 44100 ∨ verifyRate = 48000 ∨ verifyRate = 96000) := by
  refine ⟨rfl, ?_, verifySampleRateIsSupported_iff cfg interfaceNum altSettingID⟩
  intro x
  simp [getSampleRates, sampleRates, OSNumber_withNumber]
  omega

/-- C9 (amended): for a stream alternate setting whose parsed rate set is the continuous
range from `low` to `high` (`numSampleRates = 0`, two stored rates),
`verifySampleRateIsSupported` does not consult that range: it is true exactly for the rates
44100, 48000 and 96000. -/
theorem verifySampleRateIsSupported_range (cfg : DJM03ConfigurationDictionary)
    (s : DJM03StreamDictionary) (low high verifyRate : Nat)
    (_hs : s ∈ cfg.streamDictionaries) (_hn : s.numSampleRates = some 0)
    (_hr : s.sampleRates = [low, high]) :
    verifySampleRateIsSupported cfg s.interfaceNumber s.alternateSetting verifyRate = true
      ↔ (verifyRate = 44100 ∨ verifyRate = 48000 ∨ verifyRate = 96000) :=
  verifySampleRateIsSupported_iff cfg s.interfaceNumber s.alternateSetting verifyRate

/-- C9 (witness): the stream dictionary parsed from `rangeDescriptor` holds the range from
44100 to 96000, and the rate 50000 inside it is supported only if it is one of the three
fixed rates. -/
theorem verifySampleRateIsSupported_range_witness :
    verifySampleRateIsSupported (init (some rangeDescriptor) 0).2 rangeStream.interfaceNumber
        rangeStream.alternateSetting 50000 = true
      ↔ (50000 = 44100 ∨ 50000 = 48000 ∨ 50000 = 96000) :=
  verifySampleRateIsSupported_range (init (some rangeDescriptor) 0).2 rangeStream 44100 96000
    50000 (by decide!) rfl rfl

/-- C9 (counterexample): `rangeDescriptor` parses into a model whose only stream dictionary
(interface 1, alternate setting 1) holds the continuous range from 44100 to 96000, yet the
rate 50000 inside the range is reported as not supported. -/
theorem verifySampleRateIsSupported_rejects_rate_in_range :
    (init (some rangeDescriptor) 0).1 = true
    ∧ (init (some rangeDescriptor) 0).2.streamDictionaries = [rangeStream]
    ∧ rangeStream.numSampleRates = some 0
    ∧ rangeStream.sampleRates = [44100, 96000]
    ∧ verifySampleRateIsSupported (init (some rangeDescriptor) 0).2 1 1 50000 = false := by
  decide!

/-- C10: for every model and every interface number, channel count, sample size and sample
rate, `getAltSettingWithSettings` returns `kIOReturnSuccess` and the alternate setting 1; its
model does not look at the dictionary. -/
theorem getAltSettingWithSettings_constant (cfg : DJM03ConfigurationDictionary)
    (interfaceNum numChannels sampleSize sampleRate : Nat) :
    getAltSettingWithSettings cfg interfaceNum numChannels sampleSize sampleRate
      = (.kIOReturnSuccess, 1) := rfl

/-! ## Feature unit controls -/

/-- Testing bit 0 with the mask `1`. -/
theorem land_one_ne_zero (x : Nat) : ((x &&& 1) != 0) = x.testBit 0 := by
  simp [Nat.testBit, Nat.land_comm]

/-- Testing bit 1 with the mask `2`. -/
theorem land_two_ne_zero (x : Nat) : ((x &&& 2) != 0) = x.testBit 1 := by
  have h := Nat.and_two_pow x 1
  simp only [pow_one] at h
  rw [h]
  cases x.testBit 1 <;> simp

/-- C11: a UAC1 FEATURE_UNIT record at offset `p` with `bControlSize = 1` and `n` control
bytes (`bLength = 7 + n`) is parsed into a feature unit `u`, appended to the feature units,
for which `channelHasMuteControl u ch` is true iff `ch < n` and bit 0 of `bmaControls[ch]`
(the byte at `p + 6 + ch`) is set, and `channelHasVolumeControl u ch` is true iff `ch < n`
and bit 1 of that byte is set; so both are false for every `ch >= n`. -/
theorem channelHasControl_of_FEATURE_UNIT (m : List Nat) (p : Nat) (c : DJM03ControlDictionary)
    (n : Nat) (hsize : rd m (p + 5) = 1) (hlen : rd m p = 7 + n) :
    ∃ u, parseACRecord.FEATURE_UNIT m p c
        = some { c with featureUnits := c.featureUnits ++ [u] }
      ∧ u.unitID = some (rd m (p + 3))
      ∧ ∀ ch : Nat,
        (AUAFeatureUnitDictionary.channelHasMuteControl u ch = true
          ↔ ch < n ∧ (rd m (p + 6 + ch)).testBit 0 = true)
        ∧ (AUAFeatureUnitDictionary.channelHasVolumeControl u ch = true
          ↔ ch < n ∧ (rd m (p + 6 + ch)).testBit 1 = true) := by
  have hn : n < 256 := by have := rd_lt m p; omega
  have hnum : toUInt8 (Int.tdiv ((rd m p : Int) - 7) ((1 : Nat) : Int)) = n := by
    rw [hlen]; simp [toUInt8]; omega
  have hmod : ∀ i, rd m i % 2 ^ 8 = rd m i := fun i => Nat.mod_eq_of_lt (rd_lt m i)
  refine ⟨{ descriptorSubType := some (rd m (p + 2)), unitID := some (rd m (p + 3)),
            sourceID := some (rd m (p + 4)), controlSize := some 1, numControls := some n,
            controls := some ((List.range n).map (fun i => rd m (p + 6 + i))),
            stringIndex := some (rd m (p + rd m p - 1)) }, ?_, rfl, ?_⟩
  · unfold parseACRecord.FEATURE_UNIT
    simp only [hsize, hnum]
    rw [if_neg (by decide)]
    simp [AUAFeatureUnitDictionary.initControlsArray, OSNumber_withNumber, hmod]
    exact fun a _ => rd_lt m _
  · intro ch
    by_cases hch : ch < n
    · have h1 : n ≥ ch + 1 := hch
      simp [AUAFeatureUnitDictionary.channelHasMuteControl,
        AUAFeatureUnitDictionary.channelHasVolumeControl, DJM03UnitDictionary.getControls,
        DJM03UnitDictionary.getNumControls, DJM03UnitDictionary.getControlSize,
        getDictionaryValue_UInt8, Nat.mod_eq_of_lt hn, h1, hch, kMuteBit, kVolumeBit,
        hmod, Nat.mod_eq_of_lt (rd_lt m (p + 6 + ch)), List.getElem?_map,
        List.getElem?_range hch]
      rw [← land_two_ne_zero]
      simp
    · have h1 : ¬ n ≥ ch + 1 := by omega
      simp [AUAFeatureUnitDictionary.channelHasMuteControl,
        AUAFeatureUnitDictionary.channelHasVolumeControl, DJM03UnitDictionary.getControls,
        DJM03UnitDictionary.getNumControls, DJM03UnitDictionary.getControlSize,
        getDictionaryValue_UInt8, Nat.mod_eq_of_lt hn, h1, hch]

/-- The witness of C11: the record `featureUnitRecord`, whose control array is
`[0b00000011]`. -/
theorem channelHasControl_of_FEATURE_UNIT_witness :
    rd featureUnitRecord (0 + 5) = 1 ∧ rd featureUnitRecord 0 = 7 + 1
      ∧ ∃ u, parseACRecord.FEATURE_UNIT featureUnitRecord 0 emptyControl
          = some { emptyControl with featureUnits := emptyControl.featureUnits ++ [u] }
        ∧ u.unitID = some (rd featureUnitRecord (0 + 3))
        ∧ ∀ ch : Nat,
          (AUAFeatureUnitDictionary.channelHasMuteControl u ch = true
            ↔ ch < 1 ∧ (rd featureUnitRecord (0 + 6 + ch)).testBit 0 = true)
          ∧ (AUAFeatureUnitDictionary.channelHasVolumeControl u ch = true
            ↔ ch < 1 ∧ (rd featureUnitRecord (0 + 6 + ch)).testBit 1 = true) :=
  ⟨by decide, by decide,
    channelHasControl_of_FEATURE_UNIT featureUnitRecord 0 emptyControl 1 (by decide) (by decide)⟩

/-- The example of the control array `[0b00000011]`: the feature unit parsed from
`featureUnitRecord` has the mute and the volume control on channel 0 and neither on
channel 1. -/
theorem channelHasControl_featureUnitRecord :
    ∃ u, parseACRecord.FEATURE_UNIT featureUnitRecord 0 emptyControl
        = some { emptyControl with featureUnits := [u] }
      ∧ AUAFeatureUnitDictionary.channelHasMuteControl u 0 = true
      ∧ AUAFeatureUnitDictionary.channelHasVolumeControl u 0 = true
      ∧ AUAFeatureUnitDictionary.channelHasMuteControl u 1 = false
      ∧ AUAFeatureUnitDictionary.channelHasVolumeControl u 1 = false :=
  ⟨{ descriptorSubType := some 6, unitID := some 2, sourceID := some 1, controlSize := some 1,
     numControls := some 1, controls := some [3], stringIndex := some 0 },
    by decide, by decide, by decide, by decide, by decide⟩

/-! ## The lookups of a unit by its ID -/

/-- One unfolding of `unitDictionaryLoop` with fuel left. -/
theorem unitDictionaryLoop_succ (units : List DJM03UnitDictionary) (unitID fuel index : Nat) :
    unitDictionaryLoop units unitID (fuel + 1) index
      = if index < units.length then
          match units[index]? with
          | none => some none
          | some unitDictionary =>
            match unitDictionary.getUnitID with
            | none => some none
            | some thisUnitID =>
              if unitID = thisUnitID then some (some unitDictionary)
              else unitDictionaryLoop units unitID fuel ((index + 1) % 256)
        else some none := by
  rw [unitDictionaryLoop]

/-- Beyond the end of the array the loop gives `NULL`, whatever the fuel. -/
theorem unitDictionaryLoop_of_length_le (units : List DJM03UnitDictionary)
    (unitID fuel index : Nat) (h : units.length ≤ index) :
    unitDictionaryLoop units unitID fuel index = some none := by
  unfold unitDictionaryLoop
  rw [if_neg (by omega)]

/-- The loop finds the first unit with the ID, when every unit has an ID and either the
array has fewer than 256 entries or the index reaches a unit with the ID before it wraps. -/
theorem unitDictionaryLoop_eq_find (units : List DJM03UnitDictionary) (unitID : Nat)
    (hid : ∀ u ∈ units, u.getUnitID ≠ none) :
    ∀ k index fuel, index + k = 256 → k ≤ fuel →
      (units.length < 256 ∨ ∃ j u, index ≤ j ∧ j < 256 ∧ units[j]? = some u
        ∧ u.getUnitID = some unitID) →
      unitDictionaryLoop units unitID fuel index
        = some ((units.drop index).find? (fun u => u.getUnitID == some unitID)) := by
  intro k
  induction k with
  | zero =>
    intro index fuel hk _ h
    have hlen : units.length < 256 := by
      rcases h with h | ⟨j, _, h1, h2, _⟩
      · exact h
      · omega
    rw [unitDictionaryLoop_of_length_le _ _ _ _ (by omega), List.drop_of_length_le (by omega)]
    rfl
  | succ k ih =>
    intro index fuel hk hfuel h
    obtain ⟨fuel, rfl⟩ : ∃ f, fuel = f + 1 := ⟨fuel - 1, by omega⟩
    by_cases hlt : index < units.length
    · rw [unitDictionaryLoop_succ, if_pos hlt, List.getElem?_eq_getElem hlt]
      have hmem : units[index] ∈ units := List.getElem_mem hlt
      rcases hu : (units[index]).getUnitID with _ | thisUnitID
      · exact absurd hu (hid _ hmem)
      · simp only [hu]
        rw [List.drop_eq_getElem_cons hlt]
        by_cases heq : unitID = thisUnitID
        · rw [if_pos heq, List.find?_cons_of_pos]
          simp [hu, heq]
        · rw [if_neg heq, List.find?_cons_of_neg]
          · have hj : ∀ j u, index ≤ j → units[j]? = some u → u.getUnitID = some unitID →
                index + 1 ≤ j := by
              intro j u h1 h2 h3
              rcases Nat.eq_or_lt_of_le h1 with h4 | h4
              · subst h4
                rw [List.getElem?_eq_getElem hlt] at h2
                cases h2
                rw [hu] at h3
                cases h3
                exact absurd rfl heq
              · exact h4
            by_cases h255 : index + 1 < 256
            · rw [Nat.mod_eq_of_lt h255]
              apply ih (index + 1) fuel (by omega) (by omega)
              rcases h with h | ⟨j, u, h1, h2, h3, h4⟩
              · exact Or.inl h
              · exact Or.inr ⟨j, u, hj j u h1 h3 h4, h2, h3, h4⟩
            · exfalso
              rcases h with h | ⟨j, u, h1, h2, h3, h4⟩
              · omega
              · have := hj j u h1 h3 h4
                omega
          · simp [hu, heq]
            exact fun h => heq h.symm
    · rw [unitDictionaryLoop_of_length_le _ _ _ _ (by omega),
        List.drop_of_length_le (by omega)]
      rfl

/-- A lookup in an array of fewer than 256 units that all have an ID gives the first unit
with the ID, and `NULL` when there is none. -/
theorem getUnitDictionaryIn_eq_find (units : List DJM03UnitDictionary) (unitID : Nat)
    (hid : ∀ u ∈ units, u.getUnitID ≠ none) (hlen : units.length < 256) :
    getUnitDictionaryIn units unitID
      = some (units.find? (fun u => u.getUnitID == some unitID)) :=
  unitDictionaryLoop_eq_find units unitID hid 256 0 256 rfl (le_refl _) (Or.inl hlen)

/-- The index passes the entry `j` of the array: the entry is a unit with an ID other than
`unitID`. -/
theorem unitDictionaryLoop_none_of_passes (units : List DJM03UnitDictionary) (unitID : Nat)
    (hp : ∀ j, j < 256 → ∃ u t, units[j]? = some u ∧ u.getUnitID = some t ∧ unitID ≠ t) :
    ∀ fuel index, index < 256 → unitDictionaryLoop units unitID fuel index = none := by
  intro fuel
  induction fuel with
  | zero =>
    intro index hi
    obtain ⟨u, t, h1, _, _⟩ := hp index hi
    have hlt : index < units.length := (List.getElem?_eq_some_iff.1 h1).1
    unfold unitDictionaryLoop
    rw [if_pos hlt]
  | succ fuel ih =>
    intro index hi
    obtain ⟨u, t, h1, h2, h3⟩ := hp index hi
    have hlt : index < units.length := (List.getElem?_eq_some_iff.1 h1).1
    rw [unitDictionaryLoop_succ, if_pos hlt, h1]
    simp only [h2]
    rw [if_neg h3]
    exact ih _ (Nat.mod_lt _ (by decide))

/-- When the fuel 256 runs out, the index has passed each of the first 256 entries. -/
theorem passes_of_unitDictionaryLoop_none (units : List DJM03UnitDictionary) (unitID : Nat) :
    ∀ k index, index + k = 256 → unitDictionaryLoop units unitID k index = none →
      ∀ j, index ≤ j → j < 256 →
        ∃ u t, units[j]? = some u ∧ u.getUnitID = some t ∧ unitID ≠ t := by
  intro k
  induction k with
  | zero => intro index hk _ j h1 h2; omega
  | succ k ih =>
    intro index hk h j h1 h2
    rw [unitDictionaryLoop_succ] at h
    by_cases hlt : index < units.length
    · rw [if_pos hlt, List.getElem?_eq_getElem hlt] at h
      rcases hu : (units[index]).getUnitID with _ | t
      · simp [hu] at h
      · simp only [hu] at h
        by_cases heq : unitID = t
        · rw [if_pos heq] at h; cases h
        · rw [if_neg heq] at h
          rcases Nat.eq_or_lt_of_le h1 with h3 | h3
          · subst h3
            exact ⟨_, t, List.getElem?_eq_getElem hlt, hu, heq⟩
          · rw [Nat.mod_eq_of_lt (by omega)] at h
            exact ih (index + 1) (by omega) h j h3 h2
    · rw [if_neg hlt] at h; cases h

/-- A lookup that runs out of its fuel 256 runs out of any fuel: the loop does not end. -/
theorem unitDictionaryLoop_none_forever (units : List DJM03UnitDictionary) (unitID : Nat)
    (h : getUnitDictionaryIn units unitID = none) (fuel : Nat) :
    unitDictionaryLoop units unitID fuel 0 = none :=
  unitDictionaryLoop_none_of_passes units unitID
    (fun j hj => passes_of_unitDictionaryLoop_none units unitID 256 0 rfl h j (Nat.zero_le _) hj)
    fuel 0 (by decide)

/-- A lookup ends in every array of fewer than 256 units. -/
theorem getUnitDictionaryIn_isSome (units : List DJM03UnitDictionary) (unitID : Nat)
    (hlen : units.length < 256) : (getUnitDictionaryIn units unitID).isSome = true := by
  rcases h : getUnitDictionaryIn units unitID with _ | r
  · obtain ⟨u, t, h1, _, _⟩ :=
      passes_of_unitDictionaryLoop_none units unitID 256 0 rfl h 255 (Nat.zero_le _) (by decide)
    have := (List.getElem?_eq_some_iff.1 h1).1
    omega
  · rfl

/-! ## `clockSourceHasFrequencyControl` -/

/-- In a control dictionary with fewer than 256 clock sources, all with an ID,
`clockSourceHasFrequencyControl` returns, and it is true iff the first clock source with
the ID `clockSourceID` has a control bitmap with bit 0 set and, when `isProgrammable` is
true, bit 1 set too.  It is false when no clock source has the ID. -/
theorem clockSourceHasFrequencyControl_of_lt (c : DJM03ControlDictionary) (clockSourceID : Nat)
    (isProgrammable : Bool) (hid : ∀ u ∈ c.clockSources, u.getUnitID ≠ none)
    (hlen : c.clockSources.length < 256) :
    ∃ b, clockSourceHasFrequencyControl c clockSourceID isProgrammable = some b
      ∧ (b = true ↔ ∃ cs controls,
          c.clockSources.find? (fun u => u.getUnitID == some clockSourceID) = some cs
          ∧ AUAClockSourceDictionary.getControlBitmap cs = some controls
          ∧ controls.testBit 0 = true ∧ (isProgrammable = true → controls.testBit 1 = true)) := by
  unfold clockSourceHasFrequencyControl getClockSourceDictionary
  rw [getUnitDictionaryIn_eq_find _ _ hid hlen]
  generalize c.clockSources.find? (fun u => u.getUnitID == some clockSourceID) = r
  rcases r with _ | cs
  · exact ⟨false, rfl, by simp⟩
  · simp only
    rcases hb : AUAClockSourceDictionary.getControlBitmap cs with _ | controls
    · exact ⟨false, rfl, by simp [hb]⟩
    · simp only
      cases isProgrammable
      · refine ⟨_, rfl, ?_⟩
        rw [land_one_ne_zero]
        simp [hb]
      · refine ⟨_, rfl, ?_⟩
        rw [land_one_ne_zero, land_two_ne_zero]
        simp [hb]

/-! ## `getUnitDictionary` -/

/-- The step `if (!unitDictionary)` between two lookups that end. -/
theorem ifNull_some (a : Option DJM03UnitDictionary) (b : Option DJM03UnitDictionary) :
    ifNull (some a) (some b) = some (a.or b) := by
  cases a <;> rfl

/-- When each of the eleven lookups gives the first unit of its array with the ID,
`getUnitDictionary` gives the first unit with the ID in the arrays taken one after the
other, in the order input terminals, output terminals, mixer, selector, feature, effect,
processing and extension units, clock sources, clock selectors, clock multipliers. -/
theorem getUnitDictionary_eq_find_of (c : DJM03ControlDictionary) (unitID : Nat)
    (h : ∀ units ∈ [c.inputTerminals, c.outputTerminals, c.mixerUnits, c.selectorUnits,
        c.featureUnits, c.effectUnits, c.processingUnits, c.extensionUnits, c.clockSources,
        c.clockSelectors, c.clockMultipliers],
      getUnitDictionaryIn units unitID
        = some (units.find? (fun u => u.getUnitID == some unitID))) :
    getUnitDictionary c unitID
      = some ((allUnits c).find? (fun u => u.getUnitID == some unitID)) := by
  simp only [List.mem_cons, List.mem_singleton, forall_eq_or_imp, forall_eq, List.not_mem_nil,
    false_implies, implies_true, and_true] at h
  obtain ⟨h1, h2, h3, h4, h5, h6, h7, h8, h9, h10, h11⟩ := h
  simp only [getUnitDictionary, getInputTerminalDictionary, getOutputTerminalDictionary,
    getMixerUnitDictionary, getSelectorUnitDictionary, getFeatureUnitDictionary,
    getEffectUnitDictionary, getProcessingUnitDictionary, getExtensionUnitDictionary,
    getClockSourceDictionary, getClockSelectorDictionary, getClockMultiplierDictionary,
    h1, h2, h3, h4, h5, h6, h7, h8, h9, h10, h11, ifNull_some, allUnits, List.find?_append,
    Option.or_assoc]

/-- In a control dictionary whose arrays of units each have fewer than 256 entries, all
with an ID, `getUnitDictionary` returns: `NULL` iff no array holds a unit with the ID, and
otherwise the first unit with the ID, in the order of the arrays. -/
theorem getUnitDictionary_of_lt (c : DJM03ControlDictionary) (unitID : Nat)
    (hid : ∀ u ∈ allUnits c, u.getUnitID ≠ none)
    (hlen : ∀ units ∈ [c.inputTerminals, c.outputTerminals, c.mixerUnits, c.selectorUnits,
        c.featureUnits, c.effectUnits, c.processingUnits, c.extensionUnits, c.clockSources,
        c.clockSelectors, c.clockMultipliers], units.length < 256) :
    getUnitDictionary c unitID
      = some ((allUnits c).find? (fun u => u.getUnitID == some unitID)) := by
  apply getUnitDictionary_eq_find_of
  intro units hu
  apply getUnitDictionaryIn_eq_find _ _ _ (hlen units hu)
  intro u hmem
  apply hid
  simp only [List.mem_cons, List.mem_singleton, List.not_mem_nil, or_false] at hu
  simp only [allUnits, List.mem_append]
  rcases hu with rfl | rfl | rfl | rfl | rfl | rfl | rfl | rfl | rfl | rfl | rfl <;> tauto

/-! ## `getFeatureUnitIDConnectedToOutputTerminal` -/

/-- In a control dictionary with fewer than 256 output terminals and fewer than 256 feature
units, all with an ID, `getFeatureUnitIDConnectedToOutputTerminal` returns: an error when no
output terminal has the ID or the terminal has no source ID; and otherwise success, with the
source ID of the first output terminal with the ID when that source ID is not 0 and no
feature unit has it, and with 0 when it is 0 or a feature unit has it. -/
theorem getFeatureUnitIDConnectedToOutputTerminal_eq (c : DJM03ControlDictionary)
    (outputTerminalID : Nat)
    (hidO : ∀ u ∈ c.outputTerminals, u.getUnitID ≠ none) (hlenO : c.outputTerminals.length < 256)
    (hidF : ∀ u ∈ c.featureUnits, u.getUnitID ≠ none) (hlenF : c.featureUnits.length < 256) :
    getFeatureUnitIDConnectedToOutputTerminal c outputTerminalID
      = some (match c.outputTerminals.find? (fun u => u.getUnitID == some outputTerminalID) with
        | none => (.kIOReturnError, 0)
        | some outputTerminal =>
          match outputTerminal.getSourceID with
          | none => (.kIOReturnError, 0)
          | some sourceID =>
            if sourceID ≠ 0
                ∧ c.featureUnits.find? (fun u => u.getUnitID == some sourceID) = none then
              (.kIOReturnSuccess, sourceID)
            else (.kIOReturnSuccess, 0)) := by
  unfold getFeatureUnitIDConnectedToOutputTerminal getOutputTerminalDictionary
    getFeatureUnitDictionary
  rw [getUnitDictionaryIn_eq_find _ _ hidO hlenO]
  generalize c.outputTerminals.find? (fun u => u.getUnitID == some outputTerminalID) = r
  rcases r with _ | outputTerminal
  · rfl
  · simp only
    rcases outputTerminal.getSourceID with _ | sourceID
    · rfl
    · simp only
      rw [getUnitDictionaryIn_eq_find _ _ hidF hlenF]
      by_cases h0 : 0 ≠ sourceID
      · rw [if_pos h0]
        generalize c.featureUnits.find? (fun u => u.getUnitID == some sourceID) = r
        rcases r with _ | featureUnit
        · simp [Ne.symm h0]
        · simp
      · rw [if_neg h0, if_neg (fun h => h0 (Ne.symm h.1))]

/-- No unit of a list has the ID: the list has no first unit with the ID. -/
theorem find?_unitID_eq_none (units : List DJM03UnitDictionary) (unitID : Nat) :
    units.find? (fun u => u.getUnitID == some unitID) = none
      ↔ ∀ u ∈ units, u.getUnitID ≠ some unitID := by
  simp [List.find?_eq_none]

/-! ## The lookups in an array of 256 units -/

set_option maxRecDepth 100000 in
/-- C12: in the control dictionary that 256 CLOCK_SOURCE records with the clock ID 1 leave,
no clock source has the ID 2, and `clockSourceHasFrequencyControl (2, false)` does not
return false: the loop of `getClockSourceDictionary`, whose 8-bit index wraps from 255 to 0
and so stays below the count 256, runs out of any fuel. -/
theorem clockSourceHasFrequencyControl_manyClockSources :
    manyClockSources.clockSources.length = 256
      ∧ (∀ u ∈ manyClockSources.clockSources, u.getUnitID = some 1)
      ∧ clockSourceHasFrequencyControl manyClockSources 2 false = none
      ∧ ∀ fuel, unitDictionaryLoop manyClockSources.clockSources 2 fuel 0 = none := by
  have h : getUnitDictionaryIn manyClockSources.clockSources 2 = none := by decide!
  exact ⟨by decide!, by decide!, by decide!, unitDictionaryLoop_none_forever _ _ h⟩

set_option maxRecDepth 100000 in
/-- C14: in the control dictionary that 256 OUTPUT_TERMINAL records with the terminal ID 1
leave, no output terminal has the ID 2, and `getFeatureUnitIDConnectedToOutputTerminal (2)`
does not return an error: the loop of `getOutputTerminalDictionary`, whose 8-bit index wraps
from 255 to 0 and so stays below the count 256, runs out of any fuel. -/
theorem getFeatureUnitIDConnectedToOutputTerminal_manyOutputTerminals :
    manyOutputTerminals.outputTerminals.length = 256
      ∧ (∀ u ∈ manyOutputTerminals.outputTerminals, u.getUnitID = some 1)
      ∧ getFeatureUnitIDConnectedToOutputTerminal manyOutputTerminals 2 = none
      ∧ ∀ fuel, unitDictionaryLoop manyOutputTerminals.outputTerminals 2 fuel 0 = none := by
  have h : getUnitDictionaryIn manyOutputTerminals.outputTerminals 2 = none := by decide!
  exact ⟨by decide!, by decide!, by decide!, unitDictionaryLoop_none_forever _ _ h⟩

set_option maxRecDepth 100000 in
/-- C17: in the control dictionary that 256 INPUT_TERMINAL records with the terminal ID 1
and one OUTPUT_TERMINAL record with the terminal ID 2 leave, an output terminal has the ID
2, and `getUnitDictionary (2)` does not return it: the loop of `getInputTerminalDictionary`,
the first lookup, whose 8-bit index wraps from 255 to 0 and so stays below the count 256,
runs out of any fuel. -/
theorem getUnitDictionary_manyInputTerminals :
    manyInputTerminals.inputTerminals.length = 256
      ∧ (∃ u ∈ manyInputTerminals.outputTerminals, u.getUnitID = some 2)
      ∧ getUnitDictionary manyInputTerminals 2 = none
      ∧ ∀ fuel, unitDictionaryLoop manyInputTerminals.inputTerminals 2 fuel 0 = none := by
  have h : getUnitDictionaryIn manyInputTerminals.inputTerminals 2 = none := by decide!
  exact ⟨by decide!, by decide!, by decide!, unitDictionaryLoop_none_forever _ _ h⟩

/-! ## `getTerminalClockEntities` -/

/-- One unfolding of `isDuplicateLoop` with fuel left. -/
theorem isDuplicateLoop_succ (clockEntities : List Nat) (clockID fuel entityIndex : Nat) :
    isDuplicateLoop clockEntities clockID (fuel + 1) entityIndex
      = if entityIndex < clockEntities.length then
          if clockEntities.getD entityIndex 0 % 2 ^ 8 = clockID then some true
          else isDuplicateLoop clockEntities clockID fuel ((entityIndex + 1) % 256)
        else some false := by
  rw [isDuplicateLoop]

/-- When the inner loop finds no duplicate, no entry from the index on is the clock ID. -/
theorem isDuplicateLoop_false (clockEntities : List Nat) (clockID : Nat) :
    ∀ fuel entityIndex, isDuplicateLoop clockEntities clockID fuel entityIndex = some false →
      ∀ j, entityIndex ≤ j → j < clockEntities.length →
        clockEntities.getD j 0 % 2 ^ 8 ≠ clockID := by
  intro fuel
  induction fuel with
  | zero =>
    intro i h j h1 h2
    unfold isDuplicateLoop at h
    rw [if_pos (by omega)] at h
    cases h
  | succ fuel ih =>
    intro i h j h1 h2
    rw [isDuplicateLoop_succ, if_pos (by omega)] at h
    by_cases he : clockEntities.getD i 0 % 2 ^ 8 = clockID
    · rw [if_pos he] at h; cases h
    · rw [if_neg he] at h
      rcases Nat.eq_or_lt_of_le h1 with h3 | h3
      · subst h3; exact he
      · by_cases h255 : i + 1 < 256
        · rw [Nat.mod_eq_of_lt h255] at h
          exact ih _ h j h3 h2
        · have h0 : (i + 1) % 256 = 0 ∨ (i + 1) % 256 ≤ j := by omega
          exact ih _ h j (by omega) h2

/-- The inner loop ends in an array of fewer than 256 entries. -/
theorem isDuplicateLoop_isSome (clockEntities : List Nat) (clockID : Nat)
    (hlen : clockEntities.length < 256) :
    ∀ k entityIndex fuel, entityIndex + k = clockEntities.length → k ≤ fuel →
      (isDuplicateLoop clockEntities clockID fuel entityIndex).isSome = true := by
  intro k
  induction k with
  | zero =>
    intro i fuel hk _
    unfold isDuplicateLoop
    rw [if_neg (by omega)]
    rfl
  | succ k ih =>
    intro i fuel hk hfuel
    obtain ⟨fuel, rfl⟩ : ∃ f, fuel = f + 1 := ⟨fuel - 1, by omega⟩
    rw [isDuplicateLoop_succ, if_pos (by omega)]
    by_cases he : clockEntities.getD i 0 % 2 ^ 8 = clockID
    · rw [if_pos he]; rfl
    · rw [if_neg he, Nat.mod_eq_of_lt (by omega)]
      exact ih _ _ (by omega) (by omega)

/-- The clock ID a terminal gives is an 8-bit number. -/
theorem getClockSourceID_lt (u : DJM03UnitDictionary) (clockID : Nat)
    (h : u.getClockSourceID = some clockID) : clockID < 256 := by
  unfold DJM03UnitDictionary.getClockSourceID getDictionaryValue_UInt8 at h
  rcases hv : u.clockSourceID with _ | v
  · rw [hv] at h; cases h
  · rw [hv] at h
    simp only [Option.map_some', Option.some.injEq] at h
    omega

/-- The invariant of `clockEntities` holds again after a clock ID that the inner loop did
not find is added. -/
theorem ClockEntitiesOK.add (clockEntities : Option (List Nat)) (clockID : Nat)
    (hok : ClockEntitiesOK clockEntities) (hid : clockID < 256)
    (hdup : isDuplicate clockEntities clockID = some false) :
    ClockEntitiesOK (some (match clockEntities with
      | none => [OSNumber_withNumber clockID 8]
      | some entities => entities ++ [OSNumber_withNumber clockID 8])) := by
  have hnum : OSNumber_withNumber clockID 8 = clockID := Nat.mod_eq_of_lt hid
  intro l hl
  cases hl
  rcases clockEntities with _ | entities
  · simp [hnum, hid]
  · obtain ⟨hnd, hlt⟩ := hok entities rfl
    simp only [hnum]
    have hnot : clockID ∉ entities := by
      intro hmem
      obtain ⟨j, hj, hje⟩ := List.getElem_of_mem hmem
      have := isDuplicateLoop_false entities clockID 256 0 hdup j (Nat.zero_le _) hj
      rw [List.getD_eq_getElem _ _ hj, hje] at this
      exact this (Nat.mod_eq_of_lt hid)
    refine ⟨?_, ?_⟩
    · rw [List.nodup_append]
      refine ⟨hnd, List.nodup_singleton _, ?_⟩
      intro a ha hb
      rw [List.mem_singleton] at hb
      subst hb
      exact hnot ha
    · intro e he
      rw [List.mem_append, List.mem_singleton] at he
      rcases he with he | he
      · exact hlt e he
      · rw [he]; exact hid

/-- The loop over the input terminals keeps the invariant of `clockEntities`. -/
theorem inputTerminalsLoop_ok (inputTerminals : List DJM03UnitDictionary) :
    ∀ fuel terminalIndex clockEntities r, ClockEntitiesOK clockEntities →
      inputTerminalsLoop inputTerminals fuel terminalIndex clockEntities = some r →
      ClockEntitiesOK r.clockEntities := by
  intro fuel
  induction fuel with
  | zero =>
    intro i ents r hok h
    unfold inputTerminalsLoop at h
    by_cases hlt : i < inputTerminals.length
    · rw [if_pos hlt] at h; cases h
    · rw [if_neg hlt] at h; cases h; exact hok
  | succ fuel ih =>
    intro i ents r hok h
    unfold inputTerminalsLoop at h
    by_cases hlt : i < inputTerminals.length
    · rw [if_pos hlt] at h
      simp only at h
      rcases ht : inputTerminals[i]? with _ | inputTerminal
      · rw [ht] at h; cases h; exact hok
      · rw [ht] at h
        simp only at h
        rcases hc : inputTerminal.getClockSourceID with _ | clockID
        · rw [hc] at h; cases h; exact hok
        · rw [hc] at h
          simp only at h
          rcases hd : isDuplicate ents clockID with _ | _ | _
          · rw [hd] at h; cases h
          · rw [hd] at h
            simp only at h
            have hadd := ClockEntitiesOK.add ents clockID hok (getClockSourceID_lt _ _ hc) hd
            rcases ents with _ | entities
            · exact ih _ _ r hadd h
            · exact ih _ _ r hadd h
          · rw [hd] at h
            exact ih _ _ r hok h
    · rw [if_neg hlt] at h; cases h; exact hok

/-- The loop over the output terminals keeps the invariant of `clockEntities`. -/
theorem outputTerminalsLoop_ok (outputTerminals : List DJM03UnitDictionary) :
    ∀ fuel terminalIndex clockEntities r, ClockEntitiesOK clockEntities →
      outputTerminalsLoop outputTerminals fuel terminalIndex clockEntities = some r →
      ClockEntitiesOK r.clockEntities := by
  intro fuel
  induction fuel with
  | zero =>
    intro i ents r hok h
    unfold outputTerminalsLoop at h
    by_cases hlt : i < outputTerminals.length
    · rw [if_pos hlt] at h; cases h
    · rw [if_neg hlt] at h; cases h; exact hok
  | succ fuel ih =>
    intro i ents r hok h
    unfold outputTerminalsLoop at h
    by_cases hlt : i < outputTerminals.length
    · rw [if_pos hlt] at h
      simp only at h
      rcases ht : outputTerminals[i]? with _ | outputTerminal
      · rw [ht] at h; cases h; exact hok
      · rw [ht] at h
        simp only at h
        rcases hc : outputTerminal.getClockSourceID with _ | clockID
        · rw [hc] at h; cases h; exact hok
        · rw [hc] at h
          simp only at h
          rcases hd : isDuplicate ents clockID with _ | _ | _
          · rw [hd] at h; cases h
          · rw [hd] at h
            simp only at h
            have hadd := ClockEntitiesOK.add ents clockID hok (getClockSourceID_lt _ _ hc) hd
            rcases ents with _ | entities
            · exact ih _ _ r hadd h
            · cases h; exact hadd
          · rw [hd] at h
            exact ih _ _ r hok h
    · rw [if_neg hlt] at h; cases h; exact hok

/-- Whatever `getTerminalClockEntities` returns satisfies the invariant of
`clockEntities`. -/
theorem getTerminalClockEntities_ok (c : DJM03ControlDictionary) (r : Option (List Nat))
    (h : getTerminalClockEntities c = some r) : ClockEntitiesOK r := by
  have hnone : ClockEntitiesOK none := fun l hl => by cases hl
  unfold getTerminalClockEntities at h
  by_cases h1 : c.inputTerminals = []
  · rw [if_pos h1] at h; cases h; exact hnone
  · rw [if_neg h1] at h
    by_cases h2 : c.outputTerminals = []
    · rw [if_pos h2] at h; cases h; exact hnone
    · rw [if_neg h2] at h
      rcases hin : inputTerminalsLoop c.inputTerminals 256 0 none with _ | e1
      · rw [hin] at h; cases h
      · have hok1 := inputTerminalsLoop_ok _ _ _ _ _ hnone hin
        rw [hin] at h
        rcases e1 with ents | ents
        · simp only at h
          rcases hout : outputTerminalsLoop c.outputTerminals 256 0 ents with _ | e2
          · rw [hout] at h; cases h
          · have hok2 := outputTerminalsLoop_ok _ _ _ _ _ hok1 hout
            rw [hout] at h
            rcases e2 with ents2 | ents2 <;> (cases h; exact hok2)
        · cases h; exact hok1

/-- The inner loop ends when `clockEntities` has fewer than 256 entries. -/
theorem isDuplicate_eq_some (clockEntities : Option (List Nat)) (clockID : Nat)
    (h : clockEntitiesCount clockEntities < 256) :
    ∃ b, isDuplicate clockEntities clockID = some b := by
  rcases clockEntities with _ | entities
  · exact ⟨false, rfl⟩
  · have h1 : entities.length < 256 := h
    exact Option.isSome_iff_exists.1
      (isDuplicateLoop_isSome entities clockID h1 entities.length 0 256 (by omega) (by omega))

/-- The loop over fewer than 256 input terminals ends, with at most one entry of
`clockEntities` for each terminal. -/
theorem inputTerminalsLoop_eq_some (inputTerminals : List DJM03UnitDictionary)
    (hlen : inputTerminals.length < 256) :
    ∀ k terminalIndex fuel clockEntities, terminalIndex + k = inputTerminals.length →
      k ≤ fuel → clockEntitiesCount clockEntities ≤ terminalIndex →
      ∃ r, inputTerminalsLoop inputTerminals fuel terminalIndex clockEntities = some r
        ∧ clockEntitiesCount r.clockEntities ≤ inputTerminals.length := by
  intro k
  induction k with
  | zero =>
    intro i fuel ents hk _ hc
    unfold inputTerminalsLoop
    rw [if_neg (by omega)]
    exact ⟨_, rfl, by simp only [ForEnd.clockEntities]; omega⟩
  | succ k ih =>
    intro i fuel ents hk hfuel hc
    obtain ⟨fuel, rfl⟩ : ∃ f, fuel = f + 1 := ⟨fuel - 1, by omega⟩
    unfold inputTerminalsLoop
    rw [if_pos (by omega)]
    simp only
    rcases inputTerminals[i]? with _ | inputTerminal
    · exact ⟨_, rfl, by simp only [ForEnd.clockEntities]; omega⟩
    · simp only
      rcases inputTerminal.getClockSourceID with _ | clockID
      · exact ⟨_, rfl, by simp only [ForEnd.clockEntities]; omega⟩
      · simp only
        obtain ⟨b, hb⟩ := isDuplicate_eq_some ents clockID (by omega)
        rw [hb, Nat.mod_eq_of_lt (by omega)]
        cases b
        · simp only
          rcases ents with _ | entities
          · exact ih _ _ _ (by omega) (by omega) (by simp [clockEntitiesCount])
          · exact ih _ _ _ (by omega) (by omega)
              (by simp only [clockEntitiesCount, List.length_append, List.length_singleton] at hc ⊢
                  omega)
        · exact ih _ _ _ (by omega) (by omega) (by omega)

/-- The loop over fewer than 256 output terminals ends. -/
theorem outputTerminalsLoop_eq_some (outputTerminals : List DJM03UnitDictionary)
    (hlen : outputTerminals.length < 256) :
    ∀ k terminalIndex fuel clockEntities, terminalIndex + k = outputTerminals.length →
      k ≤ fuel → clockEntitiesCount clockEntities < 256 →
      ∃ r, outputTerminalsLoop outputTerminals fuel terminalIndex clockEntities = some r := by
  intro k
  induction k with
  | zero =>
    intro i fuel ents hk _ hc
    unfold outputTerminalsLoop
    rw [if_neg (by omega)]
    exact ⟨_, rfl⟩
  | succ k ih =>
    intro i fuel ents hk hfuel hc
    obtain ⟨fuel, rfl⟩ : ∃ f, fuel = f + 1 := ⟨fuel - 1, by omega⟩
    unfold outputTerminalsLoop
    rw [if_pos (by omega)]
    simp only
    rcases outputTerminals[i]? with _ | outputTerminal
    · exact ⟨_, rfl⟩
    · simp only
      rcases outputTerminal.getClockSourceID with _ | clockID
      · exact ⟨_, rfl⟩
      · simp only
        obtain ⟨b, hb⟩ := isDuplicate_eq_some ents clockID hc
        rw [hb, Nat.mod_eq_of_lt (by omega)]
        cases b
        · simp only
          rcases ents with _ | entities
          · exact ih _ _ _ (by omega) (by omega) (by simp [clockEntitiesCount])
          · exact ⟨_, rfl⟩
        · exact ih _ _ _ (by omega) (by omega) hc

/-- The method `getTerminalClockEntities` returns when the control dictionary has fewer than
256 input terminals and fewer than 256 output terminals. -/
theorem getTerminalClockEntities_eq_some (c : DJM03ControlDictionary)
    (hin : c.inputTerminals.length < 256) (hout : c.outputTerminals.length < 256) :
    ∃ r, getTerminalClockEntities c = some r := by
  unfold getTerminalClockEntities
  by_cases h1 : c.inputTerminals = []
  · rw [if_pos h1]; exact ⟨_, rfl⟩
  · rw [if_neg h1]
    by_cases h2 : c.outputTerminals = []
    · rw [if_pos h2]; exact ⟨_, rfl⟩
    · rw [if_neg h2]
      obtain ⟨e1, he1, hc1⟩ := inputTerminalsLoop_eq_some c.inputTerminals hin
        c.inputTerminals.length 0 256 none (by omega) (by omega) (by simp [clockEntitiesCount])
      rw [he1]
      rcases e1 with ents | ents
      · simp only
        obtain ⟨e2, he2⟩ := outputTerminalsLoop_eq_some c.outputTerminals hout
          c.outputTerminals.length 0 256 ents (by omega) (by omega)
          (by simp only [ForEnd.clockEntities] at hc1; omega)
        rw [he2]
        rcases e2 with ents2 | ents2 <;> exact ⟨_, rfl⟩
      · exact ⟨_, rfl⟩

set_option maxRecDepth 100000 in
/-- C15: `init` parses `uac2Descriptor` into one control dictionary, with one input terminal,
on clock 1, and two output terminals, on the clocks 2 and 3; for it
`getTerminalClockEntities` returns `[1, 2]` and not `[1, 2, 3]`: the loop over the output
terminals leaves the function after the first clock ID it adds, because its
`FailIf (kIOReturnSuccess != clockEntities->setObject (clockIDNum), Exit)` fires when
`setObject` succeeds. -/
theorem getTerminalClockEntities_uac2Descriptor :
    (init (some uac2Descriptor) 0).1 = true
      ∧ (init (some uac2Descriptor) 0).2.controlDictionaries.map
          (fun c => (c.inputTerminals.map DJM03UnitDictionary.getClockSourceID,
            c.outputTerminals.map DJM03UnitDictionary.getClockSourceID,
            getTerminalClockEntities c))
        = [([some 1], [some 2, some 3], some (some [1, 2]))] := by
  decide!

/-- C16: the array that `getTerminalClockEntities` returns never holds the same clock ID
twice; and the method does return when the control dictionary has fewer than 256 input
terminals and fewer than 256 output terminals. -/
theorem getTerminalClockEntities_nodup (c : DJM03ControlDictionary) :
    (∀ l, getTerminalClockEntities c = some (some l) → l.Nodup)
      ∧ (c.inputTerminals.length < 256 → c.outputTerminals.length < 256 →
          ∃ r, getTerminalClockEntities c = some r) :=
  ⟨fun l h => (getTerminalClockEntities_ok c (some l) h l rfl).1,
    getTerminalClockEntities_eq_some c⟩

/-- The witness of C16: the control dictionary `clockTerminalsControl`, whose terminals are
on the clocks 7, 7, 8 and 8, 9. -/
theorem getTerminalClockEntities_nodup_witness :
    getTerminalClockEntities clockTerminalsControl = some (some [7, 8, 9])
      ∧ [7, 8, 9].Nodup
      ∧ clockTerminalsControl.inputTerminals.length < 256
      ∧ clockTerminalsControl.outputTerminals.length < 256
      ∧ ∃ r, getTerminalClockEntities clockTerminalsControl = some r :=
  ⟨by decide, (getTerminalClockEntities_nodup clockTerminalsControl).1 [7, 8, 9] (by decide),
    by decide, by decide,
    (getTerminalClockEntities_nodup clockTerminalsControl).2 (by decide) (by decide)⟩

/-! ## What the record handlers leave in the arrays of units -/

/-- The 8-bit numbers made of descriptor bytes are the bytes. -/
theorem map_OSNumber_rdBytes (m : List Nat) (p n : Nat) :
    (rdBytes m p n).map (fun b => OSNumber_withNumber b 8) = rdBytes m p n := by
  unfold rdBytes
  rw [List.map_map]
  apply List.map_congr_left
  intro k _
  exact Nat.mod_eq_of_lt (rd_lt m _)

/-- A property of all units of an array holds again after a unit with the property is
added. -/
theorem forall_mem_append_singleton {P : DJM03UnitDictionary → Prop}
    {units : List DJM03UnitDictionary} {u : DJM03UnitDictionary}
    (h : ∀ x ∈ units, P x) (hu : P u) : ∀ x ∈ units ++ [u], P x := by
  intro x hx
  rw [List.mem_append, List.mem_singleton] at hx
  rcases hx with hx | rfl
  · exact h x hx
  · exact hu

/-- A control dictionary without units has the properties of `ParsedUnits`. -/
theorem parsedUnits_controlDictionaryAt (m : List Nat) (p : Nat) :
    ParsedUnits m (controlDictionaryAt m p) := by
  constructor <;> simp [controlDictionaryAt]

/-- The record handlers of a UAC 1.0 control interface keep the properties of
`ParsedUnits`. -/
theorem parsedUnits_parseACRecord {m : List Nat} {c c1 : DJM03ControlDictionary} (p : Nat)
    (h : ParsedUnits m c) (hrec : parseACRecord m p c = some c1) : ParsedUnits m c1 := by
  have hid : ∃ unitID, unitID < 256 ∧ some (rd m (p + 3)) = some unitID :=
    ⟨_, rd_lt m _, rfl⟩
  unfold parseACRecord at hrec
  simp only at hrec
  by_cases h1 : rd m (p + 2) = HEADER
  · rw [if_pos h1] at hrec
    cases hrec
    exact ⟨h.1, h.2, h.3, h.4, h.5, h.6, h.7, h.8, h.9, h.10, h.11⟩
  rw [if_neg h1] at hrec
  by_cases h2 : rd m (p + 2) = INPUT_TERMINAL
  · rw [if_pos h2] at hrec
    cases hrec
    exact ⟨forall_mem_append_singleton h.1 ⟨congrArg some h2, hid⟩,
      h.2, h.3, h.4, h.5, h.6, h.7, h.8, h.9, h.10, h.11⟩
  rw [if_neg h2] at hrec
  by_cases h3 : rd m (p + 2) = OUTPUT_TERMINAL
  · rw [if_pos h3] at hrec
    cases hrec
    exact ⟨h.1, forall_mem_append_singleton h.2 ⟨congrArg some h3, hid⟩,
      h.3, h.4, h.5, h.6, h.7, h.8, h.9, h.10, h.11⟩
  rw [if_neg h3] at hrec
  by_cases h4 : rd m (p + 2) = FEATURE_UNIT
  · rw [if_pos h4] at hrec
    unfold parseACRecord.FEATURE_UNIT at hrec
    simp only at hrec
    by_cases hz : rd m (p + 5) = 0
    · rw [if_pos hz] at hrec; cases hrec
    · rw [if_neg hz] at hrec
      cases hrec
      exact ⟨h.1, h.2, h.3, h.4, forall_mem_append_singleton h.5 ⟨congrArg some h4, hid⟩,
        h.6, h.7, h.8, h.9, h.10, h.11⟩
  rw [if_neg h4] at hrec
  by_cases h5 : rd m (p + 2) = MIXER_UNIT
  · rw [if_pos h5] at hrec
    cases hrec
    exact ⟨h.1, h.2, forall_mem_append_singleton h.3 ⟨⟨congrArg some h5, hid⟩,
        p, 4, rfl, rfl, congrArg some (map_OSNumber_rdBytes m _ _)⟩,
      h.4, h.5, h.6, h.7, h.8, h.9, h.10, h.11⟩
  rw [if_neg h5] at hrec
  by_cases h6 : rd m (p + 2) = SELECTOR_UNIT
  · rw [if_pos h6] at hrec
    cases hrec
    exact ⟨h.1, h.2, h.3, forall_mem_append_singleton h.4 ⟨⟨congrArg some h6, hid⟩,
        p, 4, rfl, rfl, congrArg some (map_OSNumber_rdBytes m _ _)⟩,
      h.5, h.6, h.7, h.8, h.9, h.10, h.11⟩
  rw [if_neg h6] at hrec
  by_cases h7 : rd m (p + 2) = PROCESSING_UNIT
  · rw [if_pos h7] at hrec
    cases hrec
    exact ⟨h.1, h.2, h.3, h.4, h.5, h.6, forall_mem_append_singleton h.7
        ⟨⟨congrArg some h7, hid⟩, p, 6, rfl, rfl, congrArg some (map_OSNumber_rdBytes m _ _)⟩,
      h.8, h.9, h.10, h.11⟩
  rw [if_neg h7] at hrec
  by_cases h8 : rd m (p + 2) = EXTENSION_UNIT
  · rw [if_pos h8] at hrec
    cases hrec
    exact ⟨h.1, h.2, h.3, h.4, h.5, h.6, h.7, forall_mem_append_singleton h.8
        ⟨⟨congrArg some h8, hid⟩, p, 6, rfl, rfl, congrArg some (map_OSNumber_rdBytes m _ _)⟩,
      h.9, h.10, h.11⟩
  rw [if_neg h8] at hrec
  cases hrec
  exact h

/-- A control dictionary without units has the properties of `ParsedUnits_0200`. -/
theorem parsedUnits_0200_controlDictionaryAt (m : List Nat) (p : Nat) :
    ParsedUnits_0200 m (controlDictionaryAt m p) := by
  constructor <;> simp [controlDictionaryAt]

/-- The record handlers of a UAC 2.0 control interface keep the properties of
`ParsedUnits_0200`. -/
theorem parsedUnits_0200_parseACRecord_0200 {m : List Nat} {c : DJM03ControlDictionary}
    (p : Nat) (h : ParsedUnits_0200 m c) : ParsedUnits_0200 m (parseACRecord_0200 m p c) := by
  have hid : ∃ unitID, unitID < 256 ∧ some (rd m (p + 3)) = some unitID :=
    ⟨_, rd_lt m _, rfl⟩
  unfold parseACRecord_0200
  simp only
  by_cases h1 : rd m (p + 2) = HEADER
  · rw [if_pos h1]
    exact ⟨h.1, h.2, h.3, h.4, h.5, h.6, h.7, h.8, h.9, h.10, h.11⟩
  rw [if_neg h1]
  by_cases h2 : rd m (p + 2) = INPUT_TERMINAL
  · rw [if_pos h2]
    exact ⟨forall_mem_append_singleton h.1 ⟨congrArg some h2, hid⟩,
      h.2, h.3, h.4, h.5, h.6, h.7, h.8, h.9, h.10, h.11⟩
  rw [if_neg h2]
  by_cases h3 : rd m (p + 2) = OUTPUT_TERMINAL
  · rw [if_pos h3]
    exact ⟨h.1, forall_mem_append_singleton h.2 ⟨congrArg some h3, hid⟩,
      h.3, h.4, h.5, h.6, h.7, h.8, h.9, h.10, h.11⟩
  rw [if_neg h3]
  by_cases h4 : rd m (p + 2) = FEATURE_UNIT
  · rw [if_pos h4]
    exact ⟨h.1, h.2, h.3, h.4, forall_mem_append_singleton h.5 ⟨congrArg some h4, hid⟩,
      h.6, h.7, h.8, h.9, h.10, h.11⟩
  rw [if_neg h4]
  by_cases h5 : rd m (p + 2) = MIXER_UNIT
  · rw [if_pos h5]
    exact ⟨h.1, h.2, forall_mem_append_singleton h.3 ⟨⟨congrArg some h5, hid⟩,
        p, 4, rfl, rfl, congrArg some (map_OSNumber_rdBytes m _ _)⟩,
      h.4, h.5, h.6, h.7, h.8, h.9, h.10, h.11⟩
  rw [if_neg h5]
  by_cases h6 : rd m (p + 2) = SELECTOR_UNIT
  · rw [if_pos h6]
    exact ⟨h.1, h.2, h.3, forall_mem_append_singleton h.4 ⟨⟨congrArg some h6, hid⟩,
        p, 4, rfl, rfl, congrArg some (map_OSNumber_rdBytes m _ _)⟩,
      h.5, h.6, h.7, h.8, h.9, h.10, h.11⟩
  rw [if_neg h6]
  by_cases h7 : rd m (p + 2) = EFFECT_UNIT_0200
  · rw [if_pos h7]
    exact ⟨h.1, h.2, h.3, h.4, h.5, forall_mem_append_singleton h.6 ⟨congrArg some h7, hid⟩,
      h.7, h.8, h.9, h.10, h.11⟩
  rw [if_neg h7]
  by_cases h8 : rd m (p + 2) = PROCESSING_UNIT_0200
  · rw [if_pos h8]
    exact ⟨h.1, h.2, h.3, h.4, h.5, h.6, forall_mem_append_singleton h.7
        ⟨⟨congrArg some h8, hid⟩, p, 6, rfl, rfl, congrArg some (map_OSNumber_rdBytes m _ _)⟩,
      h.8, h.9, h.10, h.11⟩
  rw [if_neg h8]
  by_cases h9 : rd m (p + 2) = EXTENSION_UNIT_0200
  · rw [if_pos h9]
    exact ⟨h.1, h.2, h.3, h.4, h.5, h.6, h.7, forall_mem_append_singleton h.8
        ⟨⟨congrArg some h9, hid⟩, p, 6, rfl, rfl, congrArg some (map_OSNumber_rdBytes m _ _)⟩,
      h.9, h.10, h.11⟩
  rw [if_neg h9]
  by_cases h10 : rd m (p + 2) = CLOCK_SOURCE
  · rw [if_pos h10]
    exact ⟨h.1, h.2, h.3, h.4, h.5, h.6, h.7, h.8,
      forall_mem_append_singleton h.9 ⟨congrArg some h10, hid⟩, h.10, h.11⟩
  rw [if_neg h10]
  by_cases h11 : rd m (p + 2) = CLOCK_SELECTOR
  · rw [if_pos h11]
    exact ⟨h.1, h.2, h.3, h.4, h.5, h.6, h.7, h.8, h.9,
      forall_mem_append_singleton h.10 ⟨⟨congrArg some h11, hid⟩,
        p, rfl, rfl, congrArg some (map_OSNumber_rdBytes m _ _)⟩, h.11⟩
  rw [if_neg h11]
  by_cases h12 : rd m (p + 2) = CLOCK_MULTIPLIER
  · rw [if_pos h12]
    exact ⟨h.1, h.2, h.3, h.4, h.5, h.6, h.7, h.8, h.9, h.10,
      forall_mem_append_singleton h.11 ⟨congrArg some h12, hid⟩⟩
  rw [if_neg h12]
  exact h

/-- An update that keeps the units keeps the properties of `ParsedUnits`. -/
theorem parsedUnits_of_sameUnits {m : List Nat} {c c1 : DJM03ControlDictionary}
    (h : ParsedUnits m c) (hs : SameUnits c c1) : ParsedUnits m c1 := by
  obtain ⟨_, e1, e2, e3, e4, e5, e6, e7, e8, e9, e10, e11⟩ := hs
  constructor
  · rw [e1]; exact h.1
  · rw [e2]; exact h.2
  · rw [e3]; exact h.3
  · rw [e4]; exact h.4
  · rw [e5]; exact h.5
  · rw [e6]; exact h.6
  · rw [e7]; exact h.7
  · rw [e8]; exact h.8
  · rw [e9]; exact h.9
  · rw [e10]; exact h.10
  · rw [e11]; exact h.11

/-- An update that keeps the units keeps the properties of `ParsedUnits_0200`. -/
theorem parsedUnits_0200_of_sameUnits {m : List Nat} {c c1 : DJM03ControlDictionary}
    (h : ParsedUnits_0200 m c) (hs : SameUnits c c1) : ParsedUnits_0200 m c1 := by
  obtain ⟨_, e1, e2, e3, e4, e5, e6, e7, e8, e9, e10, e11⟩ := hs
  constructor
  · rw [e1]; exact h.1
  · rw [e2]; exact h.2
  · rw [e3]; exact h.3
  · rw [e4]; exact h.4
  · rw [e5]; exact h.5
  · rw [e6]; exact h.6
  · rw [e7]; exact h.7
  · rw [e8]; exact h.8
  · rw [e9]; exact h.9
  · rw [e10]; exact h.10
  · rw [e11]; exact h.11

/-- The arrays of units of a control dictionary parsed from the records of a UAC 1.0 control
interface have the properties of `ParsedUnits`. -/
theorem parsedUnits_of_parsesRecords {m : List Nat} {c c2 : DJM03ControlDictionary}
    (hp : ParsesRecords m c c2) (h : ParsedUnits m c) : ParsedUnits m c2 := by
  induction hp with
  | refl c => exact h
  | record p hrec _ ih => exact ih (parsedUnits_parseACRecord p h hrec)
  | other hs _ ih => exact ih (parsedUnits_of_sameUnits h hs)

/-- The arrays of units of a control dictionary parsed from the records of a UAC 2.0 control
interface have the properties of `ParsedUnits_0200`. -/
theorem parsedUnits_0200_of_parsesRecords {m : List Nat} {c c2 : DJM03ControlDictionary}
    (hp : ParsesRecords_0200 m c c2) (h : ParsedUnits_0200 m c) : ParsedUnits_0200 m c2 := by
  induction hp with
  | refl c => exact h
  | record p _ ih => exact ih (parsedUnits_0200_parseACRecord_0200 p h)
  | other hs _ ih => exact ih (parsedUnits_0200_of_sameUnits h hs)

/-- The relation `ParsesRecords` is transitive. -/
theorem ParsesRecords.append {m : List Nat} {c c1 c2 : DJM03ControlDictionary}
    (h1 : ParsesRecords m c c1) (h2 : ParsesRecords m c1 c2) : ParsesRecords m c c2 := by
  induction h1 with
  | refl c => exact h2
  | record p hrec _ ih => exact .record p hrec (ih h2)
  | other hs _ ih => exact .other hs (ih h2)

/-- The relation `ParsesRecords_0200` is transitive. -/
theorem ParsesRecords_0200.append_0200 {m : List Nat} {c c1 c2 : DJM03ControlDictionary}
    (h1 : ParsesRecords_0200 m c c1) (h2 : ParsesRecords_0200 m c1 c2) :
    ParsesRecords_0200 m c c2 := by
  induction h1 with
  | refl c => exact h2
  | record p _ ih => exact .record p (ih h2)
  | other hs _ ih => exact .other hs (ih h2)

/-- The loop of `parseACInterfaceDescriptor` parses records of a UAC 1.0 control
interface. -/
theorem parseACInterfaceDescriptor_loop_parses (m : List Nat) (totalLength : Nat) :
    ∀ fuel theInterfacePtr parsedLength c r,
      parseACInterfaceDescriptor_loop m totalLength fuel theInterfacePtr parsedLength c = some r →
      ParsesRecords m c r.2.2 := by
  intro fuel
  induction fuel with
  | zero =>
    intro ptr pl c r h
    unfold parseACInterfaceDescriptor_loop at h
    by_cases hc : rd m ptr > 0 ∧ rd m (ptr + 1) = CS_INTERFACE ∧ pl ≤ totalLength
    · rw [if_pos hc] at h; cases h
    · rw [if_neg hc] at h; cases h; exact .refl c
  | succ fuel ih =>
    intro ptr pl c r h
    unfold parseACInterfaceDescriptor_loop at h
    by_cases hc : rd m ptr > 0 ∧ rd m (ptr + 1) = CS_INTERFACE ∧ pl ≤ totalLength
    · rw [if_pos hc] at h
      simp only at h
      rcases hrec : parseACRecord m ptr c with _ | c1
      · rw [hrec] at h; cases h; exact .refl c
      · rw [hrec] at h
        exact .record ptr hrec (ih _ _ _ _ h)
    · rw [if_neg hc] at h; cases h; exact .refl c

/-- The method `parseACInterfaceDescriptor` parses records of a UAC 1.0 control
interface. -/
theorem parseACInterfaceDescriptor_parses (m : List Nat)
    (fuel theInterfacePtr parsedLength totalLength : Nat) (c : DJM03ControlDictionary)
    (r : Nat × Nat × DJM03ControlDictionary)
    (h : parseACInterfaceDescriptor m fuel theInterfacePtr parsedLength totalLength c = some r) :
    ParsesRecords m c r.2.2 := by
  unfold parseACInterfaceDescriptor at h
  by_cases h0 : rd m theInterfacePtr = 0
  · rw [if_pos h0] at h; cases h; exact .refl c
  · rw [if_neg h0] at h
    by_cases h1 : rd m (theInterfacePtr + 1) ≠ CS_INTERFACE
    · rw [if_pos h1] at h; cases h; exact .refl c
    · rw [if_neg h1] at h
      exact parseACInterfaceDescriptor_loop_parses m totalLength _ _ _ _ _ h

/-- The loop of `parseACInterfaceDescriptor_0200` parses records of a UAC 2.0 control
interface. -/
theorem parseACInterfaceDescriptor_0200_loop_parses (m : List Nat) (totalLength : Nat) :
    ∀ fuel theInterfacePtr parsedLength c r,
      parseACInterfaceDescriptor_0200_loop m totalLength fuel theInterfacePtr parsedLength c
        = some r →
      ParsesRecords_0200 m c r.2.2 := by
  intro fuel
  induction fuel with
  | zero =>
    intro ptr pl c r h
    unfold parseACInterfaceDescriptor_0200_loop at h
    by_cases hc : rd m ptr > 0 ∧ rd m (ptr + 1) = CS_INTERFACE ∧ pl ≤ totalLength
    · rw [if_pos hc] at h; cases h
    · rw [if_neg hc] at h; cases h; exact .refl c
  | succ fuel ih =>
    intro ptr pl c r h
    unfold parseACInterfaceDescriptor_0200_loop at h
    by_cases hc : rd m ptr > 0 ∧ rd m (ptr + 1) = CS_INTERFACE ∧ pl ≤ totalLength
    · rw [if_pos hc] at h
      exact .record ptr (ih _ _ _ _ h)
    · rw [if_neg hc] at h; cases h; exact .refl c

/-- The method `parseACInterfaceDescriptor_0200` parses records of a UAC 2.0 control
interface. -/
theorem parseACInterfaceDescriptor_0200_parses (m : List Nat)
    (fuel theInterfacePtr parsedLength totalLength : Nat) (c : DJM03ControlDictionary)
    (r : Nat × Nat × DJM03ControlDictionary)
    (h : parseACInterfaceDescriptor_0200 m fuel theInterfacePtr parsedLength totalLength c
      = some r) :
    ParsesRecords_0200 m c r.2.2 := by
  unfold parseACInterfaceDescriptor_0200 at h
  by_cases h0 : rd m theInterfacePtr = 0
  · rw [if_pos h0] at h; cases h; exact .refl c
  · rw [if_neg h0] at h
    by_cases h1 : rd m (theInterfacePtr + 1) ≠ CS_INTERFACE
    · rw [if_pos h1] at h; cases h; exact .refl c
    · rw [if_neg h1] at h
      exact parseACInterfaceDescriptor_0200_loop_parses m totalLength _ _ _ _ _ h

/-- The method `parseInterfaceAssociationDescriptor` keeps the units. -/
theorem parseInterfaceAssociationDescriptor_sameUnits (m : List Nat)
    (theInterfaceAssociationPtr : Option Nat) (c : DJM03ControlDictionary) :
    SameUnits c (parseInterfaceAssociationDescriptor m theInterfaceAssociationPtr c) := by
  unfold parseInterfaceAssociationDescriptor SameUnits
  rcases theInterfaceAssociationPtr with _ | p
  · simp
  · simp only
    split_ifs <;> simp

/-- The method `parseACInterruptEndpointDescriptor` keeps the units. -/
theorem parseACInterruptEndpointDescriptor_sameUnits (m : List Nat) (theInterfacePtr : Nat)
    (c : DJM03ControlDictionary) :
    SameUnits c (parseACInterruptEndpointDescriptor m theInterfacePtr c).2 := by
  unfold parseACInterruptEndpointDescriptor SameUnits
  split_ifs <;> simp

/-! ## The clock sources of a UAC 2.0 control interface -/

/-- A unit with the properties of `UnitOK` has an ID. -/
theorem UnitOK.getUnitID_ne_none {subtype : Nat} {u : DJM03UnitDictionary}
    (h : UnitOK subtype u) : u.getUnitID ≠ none := by
  obtain ⟨_, unitID, _, hu⟩ := h
  simp [DJM03UnitDictionary.getUnitID, getDictionaryValue_UInt8, hu]

/-- A record handler of a UAC 2.0 control interface adds to the array of clock sources, if
it changes it. -/
theorem parseACRecord_0200_clockSources (m : List Nat) (p : Nat) (c : DJM03ControlDictionary) :
    ∃ rest, (parseACRecord_0200 m p c).clockSources = c.clockSources ++ rest := by
  unfold parseACRecord_0200
  dsimp only
  by_cases h0 : rd m (p + 2) = HEADER
  · rw [if_pos h0]; exact ⟨[], (List.append_nil _).symm⟩
  rw [if_neg h0]
  by_cases h1 : rd m (p + 2) = INPUT_TERMINAL
  · rw [if_pos h1]; exact ⟨[], (List.append_nil _).symm⟩
  rw [if_neg h1]
  by_cases h2 : rd m (p + 2) = OUTPUT_TERMINAL
  · rw [if_pos h2]; exact ⟨[], (List.append_nil _).symm⟩
  rw [if_neg h2]
  by_cases h3 : rd m (p + 2) = FEATURE_UNIT
  · rw [if_pos h3]; exact ⟨[], (List.append_nil _).symm⟩
  rw [if_neg h3]
  by_cases h4 : rd m (p + 2) = MIXER_UNIT
  · rw [if_pos h4]; exact ⟨[], (List.append_nil _).symm⟩
  rw [if_neg h4]
  by_cases h5 : rd m (p + 2) = SELECTOR_UNIT
  · rw [if_pos h5]; exact ⟨[], (List.append_nil _).symm⟩
  rw [if_neg h5]
  by_cases h6 : rd m (p + 2) = EFFECT_UNIT_0200
  · rw [if_pos h6]; exact ⟨[], (List.append_nil _).symm⟩
  rw [if_neg h6]
  by_cases h7 : rd m (p + 2) = PROCESSING_UNIT_0200
  · rw [if_pos h7]; exact ⟨[], (List.append_nil _).symm⟩
  rw [if_neg h7]
  by_cases h8 : rd m (p + 2) = EXTENSION_UNIT_0200
  · rw [if_pos h8]; exact ⟨[], (List.append_nil _).symm⟩
  rw [if_neg h8]
  by_cases h9 : rd m (p + 2) = CLOCK_SOURCE
  · rw [if_pos h9]; exact ⟨[_], rfl⟩
  rw [if_neg h9]
  by_cases h10 : rd m (p + 2) = CLOCK_SELECTOR
  · rw [if_pos h10]; exact ⟨[], (List.append_nil _).symm⟩
  rw [if_neg h10]
  by_cases h11 : rd m (p + 2) = CLOCK_MULTIPLIER
  · rw [if_pos h11]; exact ⟨[], (List.append_nil _).symm⟩
  rw [if_neg h11]
  exact ⟨[], (List.append_nil _).symm⟩

/-- Parsing more records of a UAC 2.0 control interface adds to the array of clock
sources. -/
theorem ParsesRecords_0200.clockSources_append {m : List Nat} {c c2 : DJM03ControlDictionary}
    (h : ParsesRecords_0200 m c c2) :
    ∃ rest, c2.clockSources = c.clockSources ++ rest := by
  induction h with
  | refl c => exact ⟨[], (List.append_nil _).symm⟩
  | @record c c2 p _ ih =>
    obtain ⟨rest, hrest⟩ := ih
    obtain ⟨r1, hr1⟩ := parseACRecord_0200_clockSources m p c
    exact ⟨r1 ++ rest, by rw [hrest, hr1, List.append_assoc]⟩
  | other hs _ ih =>
    obtain ⟨rest, hrest⟩ := ih
    exact ⟨rest, by rw [hrest, hs.2.2.2.2.2.2.2.2.2.1]⟩

/-- The CLOCK_SOURCE record at offset `p` adds a clock source with the ID `bClockID` whose
control bitmap is the byte `bmControls`. -/
theorem parseACRecord_0200_of_CLOCK_SOURCE (m : List Nat) (p : Nat) (c : DJM03ControlDictionary)
    (h : rd m (p + 2) = CLOCK_SOURCE) :
    ∃ clockSource, (parseACRecord_0200 m p c).clockSources = c.clockSources ++ [clockSource]
      ∧ clockSource.getUnitID = some (rd m (p + 3))
      ∧ clockSource.attributes = some (rd m (p + 4))
      ∧ AUAClockSourceDictionary.getControlBitmap clockSource = some (rd m (p + 5)) := by
  have h8 : ∀ i, rd m i % 2 ^ 8 = rd m i := fun i => Nat.mod_eq_of_lt (rd_lt m i)
  unfold parseACRecord_0200
  dsimp only
  rw [h]
  rw [if_neg (by decide), if_neg (by decide), if_neg (by decide), if_neg (by decide),
    if_neg (by decide), if_neg (by decide), if_neg (by decide), if_neg (by decide),
    if_neg (by decide), if_pos rfl]
  refine ⟨_, rfl, ?_, rfl, ?_⟩
  · simp [DJM03UnitDictionary.getUnitID, getDictionaryValue_UInt8, initControlsArray, h8]
    exact rd_lt m _
  · simp [AUAClockSourceDictionary.getControlBitmap, DJM03UnitDictionary.getControls,
      initControlsArray, rdBytes, OSNumber_withNumber, h8]
    exact rd_lt m _

/-- The lookup of a clock source after the record at offset `p` was parsed: when the record
is a CLOCK_SOURCE record, fewer than 256 clock sources were parsed before it and none of
them has its ID, the lookup of that ID gives the clock source of the record, whatever
records are parsed after it. -/
theorem getClockSourceDictionary_of_CLOCK_SOURCE (m : List Nat) (q p : Nat)
    (c0 c : DJM03ControlDictionary)
    (hbefore : ParsesRecords_0200 m (controlDictionaryAt m q) c0)
    (hsub : rd m (p + 2) = CLOCK_SOURCE)
    (hfirst : ∀ u ∈ c0.clockSources, u.getUnitID ≠ some (rd m (p + 3)))
    (hlen : c0.clockSources.length < 256)
    (hafter : ParsesRecords_0200 m (parseACRecord_0200 m p c0) c) :
    ∃ clockSource, getClockSourceDictionary c (rd m (p + 3)) = some (some clockSource)
      ∧ clockSource.attributes = some (rd m (p + 4))
      ∧ AUAClockSourceDictionary.getControlBitmap clockSource = some (rd m (p + 5)) := by
  have hpu0 := parsedUnits_0200_of_parsesRecords hbefore (parsedUnits_0200_controlDictionaryAt m q)
  have hpu := parsedUnits_0200_of_parsesRecords hafter (parsedUnits_0200_parseACRecord_0200 p hpu0)
  obtain ⟨cs, hcs, hid, hattr, hbm⟩ := parseACRecord_0200_of_CLOCK_SOURCE m p c0 hsub
  obtain ⟨rest, hrest⟩ := hafter.clockSources_append
  rw [hcs] at hrest
  refine ⟨cs, ?_, hattr, hbm⟩
  have hj : c.clockSources[c0.clockSources.length]? = some cs := by
    rw [hrest, List.append_assoc, List.getElem?_append_right (le_refl _)]
    simp
  unfold getClockSourceDictionary getUnitDictionaryIn
  rw [unitDictionaryLoop_eq_find _ _ (fun u hu => (hpu.clockSources u hu).getUnitID_ne_none)
    256 0 256 rfl (le_refl _) (Or.inr ⟨c0.clockSources.length, cs, Nat.zero_le _, hlen, hj, hid⟩)]
  rw [List.drop_zero, hrest, List.append_assoc, List.find?_append,
    (find?_unitID_eq_none _ _).2 hfirst]
  simp [hid]

/-- C13: when the class-specific records of a UAC 2.0 control interface are parsed into the
control dictionary `c`, among them a CLOCK_SOURCE record at offset `p` whose control bitmap
byte `bmControls` (offset 5) is `0x3`, with fewer than 256 clock sources parsed before it,
none of them with its clock ID, then `clockSourceHasFrequencyControl` returns true for that
clock ID, with `isProgrammable` true and with `isProgrammable` false.  The byte
`bmAttributes` (offset 4) and the terminals play no part. -/
theorem clockSourceHasFrequencyControl_of_bmControls (m : List Nat) (q p : Nat)
    (c0 c : DJM03ControlDictionary)
    (hbefore : ParsesRecords_0200 m (controlDictionaryAt m q) c0)
    (hsub : rd m (p + 2) = CLOCK_SOURCE) (hctl : rd m (p + 5) = 0x3)
    (hfirst : ∀ u ∈ c0.clockSources, u.getUnitID ≠ some (rd m (p + 3)))
    (hlen : c0.clockSources.length < 256)
    (hafter : ParsesRecords_0200 m (parseACRecord_0200 m p c0) c) :
    clockSourceHasFrequencyControl c (rd m (p + 3)) true = some true
      ∧ clockSourceHasFrequencyControl c (rd m (p + 3)) false = some true := by
  obtain ⟨cs, hlook, _, hbm⟩ :=
    getClockSourceDictionary_of_CLOCK_SOURCE m q p c0 c hbefore hsub hfirst hlen hafter
  unfold clockSourceHasFrequencyControl
  rw [hlook]
  simp only [hbm, hctl]
  exact ⟨by decide, by decide⟩

set_option maxRecDepth 100000 in
/-- The witness of C13: the descriptor `uac2Descriptor`, whose control interface record is at
offset 17, with the HEADER record at offset 26, the CLOCK_SOURCE records of the clocks 1, 2
and 3 at the offsets 35, 43 and 51, and the terminals at the offsets 59, 76 and 88; the
clock 2 has `bmControls = 0x3`. -/
theorem clockSourceHasFrequencyControl_of_bmControls_witness :
    rd (mutableDescriptor uac2Descriptor) (43 + 2) = CLOCK_SOURCE
      ∧ rd (mutableDescriptor uac2Descriptor) (43 + 5) = 0x3
      ∧ rd (mutableDescriptor uac2Descriptor) (43 + 3) = 2
      ∧ (init (some uac2Descriptor) 0).2.controlDictionaries = [uac2Control]
      ∧ clockSourceHasFrequencyControl uac2Control
          (rd (mutableDescriptor uac2Descriptor) (43 + 3)) true = some true
      ∧ clockSourceHasFrequencyControl uac2Control
          (rd (mutableDescriptor uac2Descriptor) (43 + 3)) false = some true :=
  ⟨by decide, by decide, by decide, by decide!,
    clockSourceHasFrequencyControl_of_bmControls (mutableDescriptor uac2Descriptor) 17 43
      (parseACRecord_0200 (mutableDescriptor uac2Descriptor) 35
        (parseACRecord_0200 (mutableDescriptor uac2Descriptor) 26
          (controlDictionaryAt (mutableDescriptor uac2Descriptor) 17)))
      uac2Control
      (.record 26 (.record 35 (.refl _))) (by decide) (by decide) (by decide!) (by decide!)
      (.record 51 (.record 59 (.record 76 (.record 88 (.other (by decide!) (.refl _))))))⟩

set_option maxRecDepth 100000 in
/-- The counterexample of C13: `init` parses `uac2Descriptor`, whose control interface has
the protocol `IP_VERSION_02_00`, into one control dictionary; the clock source 1, to which
the input terminal refers, has the attributes byte `bmAttributes = 0x3` (and
`bmControls = 0x0`), and `clockSourceHasFrequencyControl` returns false for it, with
`isProgrammable` true and with `isProgrammable` false. -/
theorem clockSourceHasFrequencyControl_bmAttributes_uac2Descriptor :
    (init (some uac2Descriptor) 0).1 = true
      ∧ (init (some uac2Descriptor) 0).2.controlDictionaries.map
          (fun c => (c.interfaceProtocol,
            c.clockSources.map (fun u => (u.getUnitID, u.attributes)),
            c.inputTerminals.map DJM03UnitDictionary.getClockSourceID))
        = [(IP_VERSION_02_00, [(some 1, some 0x3), (some 2, some 0x3), (some 3, some 0x3)],
            [some 1])]
      ∧ (init (some uac2Descriptor) 0).2.controlDictionaries.map
          (fun c => (clockSourceHasFrequencyControl c 1 true,
            clockSourceHasFrequencyControl c 1 false))
        = [(some false, some false)] := by
  decide!

/-! ## Lookups in a control dictionary with unique unit IDs -/

/-- The ID a unit gives is an 8-bit number. -/
theorem getUnitID_lt (u : DJM03UnitDictionary) (unitID : Nat)
    (h : u.getUnitID = some unitID) : unitID < 256 := by
  unfold DJM03UnitDictionary.getUnitID getDictionaryValue_UInt8 at h
  rcases hv : u.unitID with _ | v
  · rw [hv] at h; cases h
  · rw [hv] at h
    simp only [Option.map_some', Option.some.injEq] at h
    omega

/-- In an array of units with an ID each, no ID twice, either there are fewer than 256 units
or each 8-bit ID is the ID of one of the first 256 units. -/
theorem lt_or_exists_of_nodup (units : List DJM03UnitDictionary) (unitID : Nat)
    (hid : ∀ u ∈ units, u.getUnitID ≠ none)
    (hnd : (units.map DJM03UnitDictionary.getUnitID).Nodup) (hlt : unitID < 256) :
    units.length < 256 ∨ ∃ j u, 0 ≤ j ∧ j < 256 ∧ units[j]? = some u
      ∧ u.getUnitID = some unitID := by
  by_cases hlen : units.length < 256
  · exact Or.inl hlen
  · right
    have hnd1 : ((units.take 256).map DJM03UnitDictionary.getUnitID).Nodup :=
      hnd.sublist ((List.take_sublist _ _).map _)
    have hlen1 : ((units.take 256).map DJM03UnitDictionary.getUnitID).length = 256 := by
      rw [List.length_map, List.length_take]; omega
    have hcard : ((units.take 256).map DJM03UnitDictionary.getUnitID).toFinset.card = 256 := by
      rw [List.toFinset_card_of_nodup hnd1, hlen1]
    have hsub : ((units.take 256).map DJM03UnitDictionary.getUnitID).toFinset
        ⊆ (Finset.range 256).image some := by
      intro x hx
      rw [List.mem_toFinset, List.mem_map] at hx
      obtain ⟨u, hu, rfl⟩ := hx
      rcases hg : u.getUnitID with _ | v
      · exact absurd hg (hid u (List.mem_of_mem_take hu))
      · rw [Finset.mem_image]
        exact ⟨v, Finset.mem_range.2 (getUnitID_lt u v hg), rfl⟩
    have heq := Finset.eq_of_subset_of_card_le hsub (by
      rw [hcard]
      exact (Finset.card_image_le).trans (by rw [Finset.card_range]))
    have hmem : some unitID ∈ ((units.take 256).map DJM03UnitDictionary.getUnitID).toFinset := by
      rw [heq, Finset.mem_image]
      exact ⟨unitID, Finset.mem_range.2 hlt, rfl⟩
    rw [List.mem_toFinset, List.mem_map] at hmem
    obtain ⟨u, hu, hg⟩ := hmem
    obtain ⟨j, hj, hje⟩ := List.getElem_of_mem hu
    rw [List.length_take] at hj
    refine ⟨j, u, Nat.zero_le _, by omega, ?_, hg⟩
    rw [List.getElem_take] at hje
    rw [List.getElem?_eq_getElem (by omega), hje]

/-- In an array of units with an ID each, no ID twice, a lookup gives the first unit with the
ID, and `NULL` when there is none. -/
theorem getUnitDictionaryIn_eq_find_of_nodup (units : List DJM03UnitDictionary) (unitID : Nat)
    (hid : ∀ u ∈ units, u.getUnitID ≠ none)
    (hnd : (units.map DJM03UnitDictionary.getUnitID).Nodup) (hlt : unitID < 256) :
    getUnitDictionaryIn units unitID
      = some (units.find? (fun u => u.getUnitID == some unitID)) :=
  unitDictionaryLoop_eq_find units unitID hid 256 0 256 rfl (le_refl _)
    (lt_or_exists_of_nodup units unitID hid hnd hlt)

/-- In an array of units with no ID twice, the first unit with the ID of the unit `u` of the
array is `u`. -/
theorem find?_eq_some_of_nodup (units : List DJM03UnitDictionary) (u : DJM03UnitDictionary)
    (unitID : Nat) (hnd : (units.map DJM03UnitDictionary.getUnitID).Nodup) (hu : u ∈ units)
    (hg : u.getUnitID = some unitID) :
    units.find? (fun x => x.getUnitID == some unitID) = some u := by
  induction units with
  | nil => cases hu
  | cons x rest ih =>
    rw [List.map_cons, List.nodup_cons] at hnd
    rcases List.mem_cons.1 hu with rfl | hmem
    · rw [List.find?_cons_of_pos]
      simp [hg]
    · have hne : x.getUnitID ≠ some unitID := by
        intro hx
        apply hnd.1
        rw [hx, ← hg]
        exact List.mem_map_of_mem _ hmem
      rw [List.find?_cons_of_neg]
      · exact ih hnd.2 hmem
      · simp [hne]

/-- The units of a control dictionary are the units of its arrays. -/
theorem allUnits_eq_flatten (c : DJM03ControlDictionary) :
    allUnits c = (registries c).flatten := by
  simp [allUnits, registries, List.append_assoc]

/-- In a control dictionary whose units have an ID each, no ID twice, a lookup in one of the
arrays gives the first unit of the array with the ID. -/
theorem getUnitDictionaryIn_of_unique (c : DJM03ControlDictionary) (unitID : Nat)
    (hid : ∀ u ∈ allUnits c, u.getUnitID ≠ none)
    (hunique : ((allUnits c).map DJM03UnitDictionary.getUnitID).Nodup) (hlt : unitID < 256)
    (units : List DJM03UnitDictionary) (hunits : units ∈ registries c) :
    getUnitDictionaryIn units unitID
      = some (units.find? (fun u => u.getUnitID == some unitID)) := by
  have hsub : units.Sublist (allUnits c) := by
    rw [allUnits_eq_flatten]; exact List.sublist_flatten_of_mem hunits
  exact getUnitDictionaryIn_eq_find_of_nodup units unitID
    (fun u hu => hid u (hsub.subset hu)) (hunique.sublist (hsub.map _)) hlt

/-- In a control dictionary whose units have an ID each, no ID twice, a lookup of the ID of
a unit in the array of the unit gives the unit. -/
theorem getUnitDictionaryIn_of_mem (c : DJM03ControlDictionary) (unitID : Nat)
    (hid : ∀ u ∈ allUnits c, u.getUnitID ≠ none)
    (hunique : ((allUnits c).map DJM03UnitDictionary.getUnitID).Nodup)
    (units : List DJM03UnitDictionary) (hunits : units ∈ registries c)
    (u : DJM03UnitDictionary) (hu : u ∈ units) (hg : u.getUnitID = some unitID) :
    getUnitDictionaryIn units unitID = some (some u) := by
  have hsub : units.Sublist (allUnits c) := by
    rw [allUnits_eq_flatten]; exact List.sublist_flatten_of_mem hunits
  rw [getUnitDictionaryIn_of_unique c unitID hid hunique (getUnitID_lt u unitID hg) units hunits,
    find?_eq_some_of_nodup units u unitID (hunique.sublist (hsub.map _)) hu hg]

/-- In a control dictionary whose units have an ID each, no ID twice, `getUnitDictionary`
gives the first unit with the ID among all units, and `NULL` when there is none. -/
theorem getUnitDictionary_of_unique (c : DJM03ControlDictionary) (unitID : Nat)
    (hid : ∀ u ∈ allUnits c, u.getUnitID ≠ none)
    (hunique : ((allUnits c).map DJM03UnitDictionary.getUnitID).Nodup) (hlt : unitID < 256) :
    getUnitDictionary c unitID
      = some ((allUnits c).find? (fun u => u.getUnitID == some unitID)) :=
  getUnitDictionary_eq_find_of c unitID
    (fun units hunits => getUnitDictionaryIn_of_unique c unitID hid hunique hlt units hunits)

/-- The dispatch of `getSourceIDs` for the ID of a unit `u` of a control dictionary whose
units have an ID each, no ID twice: the unit found is `u`, and the `switch` is made on the
ADC version of the control dictionary and the descriptor subtype of `u`. -/
theorem getSourceIDs_of_mem (c : DJM03ControlDictionary) (unitID adcVersion subtype : Nat)
    (hid : ∀ u ∈ allUnits c, u.getUnitID ≠ none)
    (hunique : ((allUnits c).map DJM03UnitDictionary.getUnitID).Nodup)
    (u : DJM03UnitDictionary) (hu : u ∈ allUnits c) (hg : u.getUnitID = some unitID)
    (hadc : c.getADCVersion = some adcVersion)
    (hsub : u.getDescriptorSubType = some subtype) :
    getSourceIDs c unitID
      = if kAUAUSBSpec1_0 = adcVersion then
          if subtype = MIXER_UNIT then sourcesResult (getMixerSources c unitID)
          else if subtype = SELECTOR_UNIT then sourcesResult (getSelectorSources c unitID)
          else if subtype = PROCESSING_UNIT then
            sourcesResult (getProcessingUnitSources c unitID)
          else if subtype = EXTENSION_UNIT then
            sourcesResult (getExtensionUnitSources c unitID)
          else some (.code .kIOReturnError, none)
        else if kAUAUSBSpec2_0 = adcVersion then
          if subtype = MIXER_UNIT then sourcesResult (getMixerSources c unitID)
          else if subtype = SELECTOR_UNIT then sourcesResult (getSelectorSources c unitID)
          else if subtype = PROCESSING_UNIT_0200 then
            sourcesResult (getProcessingUnitSources c unitID)
          else if subtype = EXTENSION_UNIT_0200 then
            sourcesResult (getExtensionUnitSources c unitID)
          else if subtype = CLOCK_SELECTOR then
            sourcesResult (getClockSelectorSources c unitID)
          else some (.code .kIOReturnError, none)
        else some (.kIOReturnUnsupported, none) := by
  unfold getSourceIDs
  rw [getUnitDictionary_of_unique c unitID hid hunique (getUnitID_lt u unitID hg),
    find?_eq_some_of_nodup (allUnits c) u unitID hunique hu hg]
  simp only [hadc, hsub]

/-- When no unit has the ID, `getSourceIDs` returns an error and no array. -/
theorem getSourceIDs_of_not_mem (c : DJM03ControlDictionary) (unitID : Nat)
    (hid : ∀ u ∈ allUnits c, u.getUnitID ≠ none)
    (hunique : ((allUnits c).map DJM03UnitDictionary.getUnitID).Nodup) (hlt : unitID < 256)
    (hnone : ∀ u ∈ allUnits c, u.getUnitID ≠ some unitID) :
    getSourceIDs c unitID = some (.code .kIOReturnError, none) := by
  unfold getSourceIDs
  rw [getUnitDictionary_of_unique c unitID hid hunique hlt,
    (find?_unitID_eq_none _ _).2 hnone]

/-- What the accessors give for a unit with the properties of `UnitOK`. -/
theorem UnitOK.accessors {subtype : Nat} {u : DJM03UnitDictionary} (h : UnitOK subtype u)
    (hsub : subtype < 256) :
    ∃ unitID, u.getUnitID = some unitID ∧ u.getDescriptorSubType = some subtype := by
  obtain ⟨h1, unitID, h2, h3⟩ := h
  refine ⟨unitID, ?_, ?_⟩
  · simp [DJM03UnitDictionary.getUnitID, getDictionaryValue_UInt8, h3, Nat.mod_eq_of_lt h2]
  · simp [DJM03UnitDictionary.getDescriptorSubType, getDictionaryValue_UInt8, h1,
      Nat.mod_eq_of_lt hsub]

/-- The units of a control dictionary with the properties of `ParsedUnits` have an ID
each. -/
theorem ParsedUnits.unitOK {m : List Nat} {c : DJM03ControlDictionary} (h : ParsedUnits m c)
    (u : DJM03UnitDictionary) (hu : u ∈ allUnits c) : ∃ subtype, UnitOK subtype u := by
  simp only [allUnits, List.mem_append, h.effectUnits, h.clockSources, h.clockSelectors,
    h.clockMultipliers, List.not_mem_nil, or_false] at hu
  rcases hu with ((((((hu | hu) | hu) | hu) | hu) | hu) | hu)
  · exact ⟨_, h.inputTerminals u hu⟩
  · exact ⟨_, h.outputTerminals u hu⟩
  · exact ⟨_, (h.mixerUnits u hu).1⟩
  · exact ⟨_, (h.selectorUnits u hu).1⟩
  · exact ⟨_, h.featureUnits u hu⟩
  · exact ⟨_, (h.processingUnits u hu).1⟩
  · exact ⟨_, (h.extensionUnits u hu).1⟩

/-- The units of a control dictionary with the properties of `ParsedUnits_0200` have an ID
each. -/
theorem ParsedUnits_0200.unitOK_0200 {m : List Nat} {c : DJM03ControlDictionary}
    (h : ParsedUnits_0200 m c) (u : DJM03UnitDictionary) (hu : u ∈ allUnits c) :
    ∃ subtype, UnitOK subtype u := by
  simp only [allUnits, List.mem_append] at hu
  rcases hu with ((((((((((hu | hu) | hu) | hu) | hu) | hu) | hu) | hu) | hu) | hu) | hu)
  · exact ⟨_, h.inputTerminals u hu⟩
  · exact ⟨_, h.outputTerminals u hu⟩
  · exact ⟨_, (h.mixerUnits u hu).1⟩
  · exact ⟨_, (h.selectorUnits u hu).1⟩
  · exact ⟨_, h.featureUnits u hu⟩
  · exact ⟨_, h.effectUnits u hu⟩
  · exact ⟨_, (h.processingUnits u hu).1⟩
  · exact ⟨_, (h.extensionUnits u hu).1⟩
  · exact ⟨_, h.clockSources u hu⟩
  · exact ⟨_, (h.clockSelectors u hu).1⟩
  · exact ⟨_, h.clockMultipliers u hu⟩

/-- A unit of one of the arrays is a unit of the control dictionary. -/
theorem mem_allUnits_of_mem (c : DJM03ControlDictionary) (units : List DJM03UnitDictionary)
    (hunits : units ∈ registries c) (u : DJM03UnitDictionary) (hu : u ∈ units) :
    u ∈ allUnits c := by
  rw [allUnits_eq_flatten, List.mem_flatten]
  exact ⟨units, hunits, hu⟩

/-- The method `getMixerSources` for the ID of a mixer unit, in a control dictionary whose
units have an ID each, no ID twice. -/
theorem getMixerSources_of_mem (c : DJM03ControlDictionary) (unitID : Nat)
    (hid : ∀ u ∈ allUnits c, u.getUnitID ≠ none)
    (hunique : ((allUnits c).map DJM03UnitDictionary.getUnitID).Nodup)
    (u : DJM03UnitDictionary) (hu : u ∈ c.mixerUnits) (hg : u.getUnitID = some unitID)
    (sources : List Nat) (hs : u.sourceIDs = some sources) :
    sourcesResult (getMixerSources c unitID)
      = some (.code .kIOReturnSuccess, some sources) := by
  unfold getMixerSources getMixerUnitDictionary
  rw [getUnitDictionaryIn_of_mem c unitID hid hunique _ (by simp [registries]) u hu hg]
  simp [DJM03UnitDictionary.getSources, hs, sourcesResult]

/-- The method `getSelectorSources` for the ID of a selector unit. -/
theorem getSelectorSources_of_mem (c : DJM03ControlDictionary) (unitID : Nat)
    (hid : ∀ u ∈ allUnits c, u.getUnitID ≠ none)
    (hunique : ((allUnits c).map DJM03UnitDictionary.getUnitID).Nodup)
    (u : DJM03UnitDictionary) (hu : u ∈ c.selectorUnits) (hg : u.getUnitID = some unitID)
    (sources : List Nat) (hs : u.sourceIDs = some sources) :
    sourcesResult (getSelectorSources c unitID)
      = some (.code .kIOReturnSuccess, some sources) := by
  unfold getSelectorSources getSelectorUnitDictionary
  rw [getUnitDictionaryIn_of_mem c unitID hid hunique _ (by simp [registries]) u hu hg]
  simp [DJM03UnitDictionary.getSources, hs, sourcesResult]

/-- The method `getProcessingUnitSources` for the ID of a processing unit. -/
theorem getProcessingUnitSources_of_mem (c : DJM03ControlDictionary) (unitID : Nat)
    (hid : ∀ u ∈ allUnits c, u.getUnitID ≠ none)
    (hunique : ((allUnits c).map DJM03UnitDictionary.getUnitID).Nodup)
    (u : DJM03UnitDictionary) (hu : u ∈ c.processingUnits) (hg : u.getUnitID = some unitID)
    (sources : List Nat) (hs : u.sourceIDs = some sources) :
    sourcesResult (getProcessingUnitSources c unitID)
      = some (.code .kIOReturnSuccess, some sources) := by
  unfold getProcessingUnitSources getProcessingUnitDictionary
  rw [getUnitDictionaryIn_of_mem c unitID hid hunique _ (by simp [registries]) u hu hg]
  simp [DJM03UnitDictionary.getSources, hs, sourcesResult]

/-- The method `getExtensionUnitSources` for the ID of an extension unit. -/
theorem getExtensionUnitSources_of_mem (c : DJM03ControlDictionary) (unitID : Nat)
    (hid : ∀ u ∈ allUnits c, u.getUnitID ≠ none)
    (hunique : ((allUnits c).map DJM03UnitDictionary.getUnitID).Nodup)
    (u : DJM03UnitDictionary) (hu : u ∈ c.extensionUnits) (hg : u.getUnitID = some unitID)
    (sources : List Nat) (hs : u.sourceIDs = some sources) :
    sourcesResult (getExtensionUnitSources c unitID)
      = some (.code .kIOReturnSuccess, some sources) := by
  unfold getExtensionUnitSources getExtensionUnitDictionary
  rw [getUnitDictionaryIn_of_mem c unitID hid hunique _ (by simp [registries]) u hu hg]
  simp [DJM03UnitDictionary.getSources, hs, sourcesResult]

/-- The method `getClockSelectorSources` for the ID of a clock selector. -/
theorem getClockSelectorSources_of_mem (c : DJM03ControlDictionary) (unitID : Nat)
    (hid : ∀ u ∈ allUnits c, u.getUnitID ≠ none)
    (hunique : ((allUnits c).map DJM03UnitDictionary.getUnitID).Nodup)
    (u : DJM03UnitDictionary) (hu : u ∈ c.clockSelectors) (hg : u.getUnitID = some unitID)
    (sources : List Nat) (hs : u.clockSourceIDs = some sources) :
    sourcesResult (getClockSelectorSources c unitID)
      = some (.code .kIOReturnSuccess, some sources) := by
  unfold getClockSelectorSources getClockSelectorDictionary
  rw [getUnitDictionaryIn_of_mem c unitID hid hunique _ (by simp [registries]) u hu hg]
  simp [DJM03UnitDictionary.getClockSources, hs, sourcesResult]

/-- The method `getSourceIDs` in a control dictionary that holds the units of a UAC 1.0
control interface, with the ADC version 1.0 and no unit ID twice. -/
theorem getSourceIDs_of_parsedUnits (m : List Nat) (c : DJM03ControlDictionary)
    (hP : ParsedUnits m c) (hadc : c.adcVersion = some kAUAUSBSpec1_0)
    (hunique : ((allUnits c).map DJM03UnitDictionary.getUnitID).Nodup) :
    (∀ u ∈ c.mixerUnits ++ c.selectorUnits ++ c.processingUnits ++ c.extensionUnits,
        SourcesOK m u ∧ ∃ unitID, u.getUnitID = some unitID
          ∧ getSourceIDs c unitID = some (.code .kIOReturnSuccess, u.sourceIDs))
      ∧ (∀ u ∈ c.clockSelectors,
        ClockSourcesOK m u ∧ ∃ unitID, u.getUnitID = some unitID
          ∧ getSourceIDs c unitID = some (.code .kIOReturnSuccess, u.clockSourceIDs))
      ∧ (∀ u ∈ c.inputTerminals ++ c.outputTerminals ++ c.featureUnits ++ c.effectUnits
            ++ c.clockSources ++ c.clockMultipliers,
        ∃ unitID, u.getUnitID = some unitID
          ∧ getSourceIDs c unitID = some (.code .kIOReturnError, none))
      ∧ (∀ unitID, unitID < 256 → (∀ u ∈ allUnits c, u.getUnitID ≠ some unitID) →
          getSourceIDs c unitID = some (.code .kIOReturnError, none)) := by
  have hid : ∀ u ∈ allUnits c, u.getUnitID ≠ none := fun u hu => by
    obtain ⟨_, hok⟩ := hP.unitOK u hu
    exact hok.getUnitID_ne_none
  have hadc1 : c.getADCVersion = some kAUAUSBSpec1_0 := by
    simp [DJM03ControlDictionary.getADCVersion, getDictionaryValue_UInt16, hadc, kAUAUSBSpec1_0]
  refine ⟨?_, ?_, ?_, ?_⟩
  · intro u hu
    simp only [List.mem_append] at hu
    rcases hu with ((hu | hu) | hu) | hu
    · obtain ⟨hok, hsrc⟩ := hP.mixerUnits u hu
      obtain ⟨unitID, hg, hsub⟩ := hok.accessors (by decide)
      obtain ⟨p, k, _, _, hs⟩ := hsrc
      refine ⟨⟨p, k, ‹_›, ‹_›, hs⟩, unitID, hg, ?_⟩
      rw [getSourceIDs_of_mem c unitID _ _ hid hunique u
        (mem_allUnits_of_mem c _ (by simp [registries]) u hu) hg hadc1 hsub,
        if_pos rfl, if_pos rfl, hs]
      exact getMixerSources_of_mem c unitID hid hunique u hu hg _ hs
    · obtain ⟨hok, hsrc⟩ := hP.selectorUnits u hu
      obtain ⟨unitID, hg, hsub⟩ := hok.accessors (by decide)
      obtain ⟨p, k, _, _, hs⟩ := hsrc
      refine ⟨⟨p, k, ‹_›, ‹_›, hs⟩, unitID, hg, ?_⟩
      rw [getSourceIDs_of_mem c unitID _ _ hid hunique u
        (mem_allUnits_of_mem c _ (by simp [registries]) u hu) hg hadc1 hsub,
        if_pos rfl, if_neg (by decide), if_pos rfl, hs]
      exact getSelectorSources_of_mem c unitID hid hunique u hu hg _ hs
    · obtain ⟨hok, hsrc⟩ := hP.processingUnits u hu
      obtain ⟨unitID, hg, hsub⟩ := hok.accessors (by decide)
      obtain ⟨p, k, _, _, hs⟩ := hsrc
      refine ⟨⟨p, k, ‹_›, ‹_›, hs⟩, unitID, hg, ?_⟩
      rw [getSourceIDs_of_mem c unitID _ _ hid hunique u
        (mem_allUnits_of_mem c _ (by simp [registries]) u hu) hg hadc1 hsub,
        if_pos rfl, if_neg (by decide), if_neg (by decide), if_pos rfl, hs]
      exact getProcessingUnitSources_of_mem c unitID hid hunique u hu hg _ hs
    · obtain ⟨hok, hsrc⟩ := hP.extensionUnits u hu
      obtain ⟨unitID, hg, hsub⟩ := hok.accessors (by decide)
      obtain ⟨p, k, _, _, hs⟩ := hsrc
      refine ⟨⟨p, k, ‹_›, ‹_›, hs⟩, unitID, hg, ?_⟩
      rw [getSourceIDs_of_mem c unitID _ _ hid hunique u
        (mem_allUnits_of_mem c _ (by simp [registries]) u hu) hg hadc1 hsub,
        if_pos rfl, if_neg (by decide), if_neg (by decide), if_neg (by decide), if_pos rfl, hs]
      exact getExtensionUnitSources_of_mem c unitID hid hunique u hu hg _ hs
  · intro u hu
    rw [hP.clockSelectors] at hu
    cases hu
  · intro u hu
    simp only [List.mem_append, hP.effectUnits, hP.clockSources, hP.clockMultipliers,
      List.not_mem_nil, or_false] at hu
    rcases hu with (hu | hu) | hu
    · obtain ⟨unitID, hg, hsub⟩ := (hP.inputTerminals u hu).accessors (by decide)
      refine ⟨unitID, hg, ?_⟩
      rw [getSourceIDs_of_mem c unitID _ _ hid hunique u
        (mem_allUnits_of_mem c _ (by simp [registries]) u hu) hg hadc1 hsub,
        if_pos rfl, if_neg (by decide), if_neg (by decide), if_neg (by decide),
        if_neg (by decide)]
    · obtain ⟨unitID, hg, hsub⟩ := (hP.outputTerminals u hu).accessors (by decide)
      refine ⟨unitID, hg, ?_⟩
      rw [getSourceIDs_of_mem c unitID _ _ hid hunique u
        (mem_allUnits_of_mem c _ (by simp [registries]) u hu) hg hadc1 hsub,
        if_pos rfl, if_neg (by decide), if_neg (by decide), if_neg (by decide),
        if_neg (by decide)]
    · obtain ⟨unitID, hg, hsub⟩ := (hP.featureUnits u hu).accessors (by decide)
      refine ⟨unitID, hg, ?_⟩
      rw [getSourceIDs_of_mem c unitID _ _ hid hunique u
        (mem_allUnits_of_mem c _ (by simp [registries]) u hu) hg hadc1 hsub,
        if_pos rfl, if_neg (by decide), if_neg (by decide), if_neg (by decide),
        if_neg (by decide)]
  · intro unitID hlt hnone
    exact getSourceIDs_of_not_mem c unitID hid hunique hlt hnone

/-- The method `getSourceIDs` in a control dictionary that holds the units of a UAC 2.0
control interface, with the ADC version 2.0 and no unit ID twice. -/
theorem getSourceIDs_of_parsedUnits_0200 (m : List Nat) (c : DJM03ControlDictionary)
    (hP : ParsedUnits_0200 m c) (hadc : c.adcVersion = some kAUAUSBSpec2_0)
    (hunique : ((allUnits c).map DJM03UnitDictionary.getUnitID).Nodup) :
    (∀ u ∈ c.mixerUnits ++ c.selectorUnits ++ c.processingUnits ++ c.extensionUnits,
        SourcesOK m u ∧ ∃ unitID, u.getUnitID = some unitID
          ∧ getSourceIDs c unitID = some (.code .kIOReturnSuccess, u.sourceIDs))
      ∧ (∀ u ∈ c.clockSelectors,
        ClockSourcesOK m u ∧ ∃ unitID, u.getUnitID = some unitID
          ∧ getSourceIDs c unitID = some (.code .kIOReturnSuccess, u.clockSourceIDs))
      ∧ (∀ u ∈ c.inputTerminals ++ c.outputTerminals ++ c.featureUnits ++ c.effectUnits
            ++ c.clockSources ++ c.clockMultipliers,
        ∃ unitID, u.getUnitID = some unitID
          ∧ getSourceIDs c unitID = some (.code .kIOReturnError, none))
      ∧ (∀ unitID, unitID < 256 → (∀ u ∈ allUnits c, u.getUnitID ≠ some unitID) →
          getSourceIDs c unitID = some (.code .kIOReturnError, none)) := by
  have hid : ∀ u ∈ allUnits c, u.getUnitID ≠ none := fun u hu => by
    obtain ⟨_, hok⟩ := hP.unitOK_0200 u hu
    exact hok.getUnitID_ne_none
  have hadc1 : c.getADCVersion = some kAUAUSBSpec2_0 := by
    simp [DJM03ControlDictionary.getADCVersion, getDictionaryValue_UInt16, hadc, kAUAUSBSpec2_0]
  refine ⟨?_, ?_, ?_, ?_⟩
  · intro u hu
    simp only [List.mem_append] at hu
    rcases hu with ((hu | hu) | hu) | hu
    · obtain ⟨hok, hsrc⟩ := hP.mixerUnits u hu
      obtain ⟨unitID, hg, hsub⟩ := hok.accessors (by decide)
      obtain ⟨p, k, _, _, hs⟩ := hsrc
      refine ⟨⟨p, k, ‹_›, ‹_›, hs⟩, unitID, hg, ?_⟩
      rw [getSourceIDs_of_mem c unitID _ _ hid hunique u
        (mem_allUnits_of_mem c _ (by simp [registries]) u hu) hg hadc1 hsub,
        if_neg (by decide), if_pos rfl, if_pos rfl, hs]
      exact getMixerSources_of_mem c unitID hid hunique u hu hg _ hs
    · obtain ⟨hok, hsrc⟩ := hP.selectorUnits u hu
      obtain ⟨unitID, hg, hsub⟩ := hok.accessors (by decide)
      obtain ⟨p, k, _, _, hs⟩ := hsrc
      refine ⟨⟨p, k, ‹_›, ‹_›, hs⟩, unitID, hg, ?_⟩
      rw [getSourceIDs_of_mem c unitID _ _ hid hunique u
        (mem_allUnits_of_mem c _ (by simp [registries]) u hu) hg hadc1 hsub,
        if_neg (by decide), if_pos rfl, if_neg (by decide), if_pos rfl, hs]
      exact getSelectorSources_of_mem c unitID hid hunique u hu hg _ hs
    · obtain ⟨hok, hsrc⟩ := hP.processingUnits u hu
      obtain ⟨unitID, hg, hsub⟩ := hok.accessors (by decide)
      obtain ⟨p, k, _, _, hs⟩ := hsrc
      refine ⟨⟨p, k, ‹_›, ‹_›, hs⟩, unitID, hg, ?_⟩
      rw [getSourceIDs_of_mem c unitID _ _ hid hunique u
        (mem_allUnits_of_mem c _ (by simp [registries]) u hu) hg hadc1 hsub,
        if_neg (by decide), if_pos rfl, if_neg (by decide), if_neg (by decide), if_pos rfl, hs]
      exact getProcessingUnitSources_of_mem c unitID hid hunique u hu hg _ hs
    · obtain ⟨hok, hsrc⟩ := hP.extensionUnits u hu
      obtain ⟨unitID, hg, hsub⟩ := hok.accessors (by decide)
      obtain ⟨p, k, _, _, hs⟩ := hsrc
      refine ⟨⟨p, k, ‹_›, ‹_›, hs⟩, unitID, hg, ?_⟩
      rw [getSourceIDs_of_mem c unitID _ _ hid hunique u
        (mem_allUnits_of_mem c _ (by simp [registries]) u hu) hg hadc1 hsub,
        if_neg (by decide), if_pos rfl, if_neg (by decide), if_neg (by decide), if_neg (by decide), if_pos rfl, hs]
      exact getExtensionUnitSources_of_mem c unitID hid hunique u hu hg _ hs
  · intro u hu
    obtain ⟨hok, hsrc⟩ := hP.clockSelectors u hu
    obtain ⟨unitID, hg, hsub⟩ := hok.accessors (by decide)
    obtain ⟨p, _, _, hs⟩ := hsrc
    refine ⟨⟨p, ‹_›, ‹_›, hs⟩, unitID, hg, ?_⟩
    rw [getSourceIDs_of_mem c unitID _ _ hid hunique u
      (mem_allUnits_of_mem c _ (by simp [registries]) u hu) hg hadc1 hsub,
      if_neg (by decide), if_pos rfl, if_neg (by decide), if_neg (by decide),
      if_neg (by decide), if_neg (by decide), if_pos rfl, hs]
    exact getClockSelectorSources_of_mem c unitID hid hunique u hu hg _ hs
  · intro u hu
    simp only [List.mem_append] at hu
    rcases hu with ((((hu | hu) | hu) | hu) | hu) | hu
    · obtain ⟨unitID, hg, hsub⟩ := (hP.inputTerminals u hu).accessors (by decide)
      refine ⟨unitID, hg, ?_⟩
      rw [getSourceIDs_of_mem c unitID _ _ hid hunique u
        (mem_allUnits_of_mem c _ (by simp [registries]) u hu) hg hadc1 hsub,
        if_neg (by decide), if_pos rfl, if_neg (by decide), if_neg (by decide),
        if_neg (by decide), if_neg (by decide), if_neg (by decide)]
    · obtain ⟨unitID, hg, hsub⟩ := (hP.outputTerminals u hu).accessors (by decide)
      refine ⟨unitID, hg, ?_⟩
      rw [getSourceIDs_of_mem c unitID _ _ hid hunique u
        (mem_allUnits_of_mem c _ (by simp [registries]) u hu) hg hadc1 hsub,
        if_neg (by decide), if_pos rfl, if_neg (by decide), if_neg (by decide),
        if_neg (by decide), if_neg (by decide), if_neg (by decide)]
    · obtain ⟨unitID, hg, hsub⟩ := (hP.featureUnits u hu).accessors (by decide)
      refine ⟨unitID, hg, ?_⟩
      rw [getSourceIDs_of_mem c unitID _ _ hid hunique u
        (mem_allUnits_of_mem c _ (by simp [registries]) u hu) hg hadc1 hsub,
        if_neg (by decide), if_pos rfl, if_neg (by decide), if_neg (by decide),
        if_neg (by decide), if_neg (by decide), if_neg (by decide)]
    · obtain ⟨unitID, hg, hsub⟩ := (hP.effectUnits u hu).accessors (by decide)
      refine ⟨unitID, hg, ?_⟩
      rw [getSourceIDs_of_mem c unitID _ _ hid hunique u
        (mem_allUnits_of_mem c _ (by simp [registries]) u hu) hg hadc1 hsub,
        if_neg (by decide), if_pos rfl, if_neg (by decide), if_neg (by decide),
        if_neg (by decide), if_neg (by decide), if_neg (by decide)]
    · obtain ⟨unitID, hg, hsub⟩ := (hP.clockSources u hu).accessors (by decide)
      refine ⟨unitID, hg, ?_⟩
      rw [getSourceIDs_of_mem c unitID _ _ hid hunique u
        (mem_allUnits_of_mem c _ (by simp [registries]) u hu) hg hadc1 hsub,
        if_neg (by decide), if_pos rfl, if_neg (by decide), if_neg (by decide),
        if_neg (by decide), if_neg (by decide), if_neg (by decide)]
    · obtain ⟨unitID, hg, hsub⟩ := (hP.clockMultipliers u hu).accessors (by decide)
      refine ⟨unitID, hg, ?_⟩
      rw [getSourceIDs_of_mem c unitID _ _ hid hunique u
        (mem_allUnits_of_mem c _ (by simp [registries]) u hu) hg hadc1 hsub,
        if_neg (by decide), if_pos rfl, if_neg (by decide), if_neg (by decide),
        if_neg (by decide), if_neg (by decide), if_neg (by decide)]
  · intro unitID hlt hnone
    exact getSourceIDs_of_not_mem c unitID hid hunique hlt hnone

/-! ## `getSourceIDs` -/

/-- The method `getSourceIDs`, unit by unit: let the control dictionary `c` come from the class-specific records of a UAC 1.0
control interface, with the ADC version 1.0, or from those of a UAC 2.0 control interface,
with the ADC version 2.0, and let no unit ID occur twice in `c`.  Then `getSourceIDs`
succeeds for the ID of each mixer, selector, processing and extension unit and returns the
source IDs the unit's record declares (`bNrInPins` bytes, in the order of the descriptor),
and likewise the clock source IDs for the ID of each clock selector; and it returns an error
and no array for the ID of each terminal, feature unit, effect unit, clock source and clock
multiplier, and for each 8-bit ID that no unit has. -/
theorem getSourceIDs_parsed (m : List Nat) (q : Nat) (c : DJM03ControlDictionary)
    (hparsed : (ParsesRecords m (controlDictionaryAt m q) c
          ∧ c.adcVersion = some kAUAUSBSpec1_0)
      ∨ (ParsesRecords_0200 m (controlDictionaryAt m q) c
          ∧ c.adcVersion = some kAUAUSBSpec2_0))
    (hunique : ((allUnits c).map DJM03UnitDictionary.getUnitID).Nodup) :
    (∀ u ∈ c.mixerUnits ++ c.selectorUnits ++ c.processingUnits ++ c.extensionUnits,
        SourcesOK m u ∧ ∃ unitID, u.getUnitID = some unitID
          ∧ getSourceIDs c unitID = some (.code .kIOReturnSuccess, u.sourceIDs))
      ∧ (∀ u ∈ c.clockSelectors,
        ClockSourcesOK m u ∧ ∃ unitID, u.getUnitID = some unitID
          ∧ getSourceIDs c unitID = some (.code .kIOReturnSuccess, u.clockSourceIDs))
      ∧ (∀ u ∈ c.inputTerminals ++ c.outputTerminals ++ c.featureUnits ++ c.effectUnits
            ++ c.clockSources ++ c.clockMultipliers,
        ∃ unitID, u.getUnitID = some unitID
          ∧ getSourceIDs c unitID = some (.code .kIOReturnError, none))
      ∧ (∀ unitID, unitID < 256 → (∀ u ∈ allUnits c, u.getUnitID ≠ some unitID) →
          getSourceIDs c unitID = some (.code .kIOReturnError, none)) := by
  rcases hparsed with ⟨hp, hadc⟩ | ⟨hp, hadc⟩
  · exact getSourceIDs_of_parsedUnits m c
      (parsedUnits_of_parsesRecords hp (parsedUnits_controlDictionaryAt m q)) hadc hunique
  · exact getSourceIDs_of_parsedUnits_0200 m c
      (parsedUnits_0200_of_parsesRecords hp (parsedUnits_0200_controlDictionaryAt m q)) hadc
      hunique

set_option maxRecDepth 100000 in
/-- The control dictionary that `init` parses from `uac1UnitsDescriptor` comes from the
class-specific records of the control interface at offset 9. -/
theorem parsesRecords_uac1UnitsControl :
    ParsesRecords (mutableDescriptor uac1UnitsDescriptor)
      (controlDictionaryAt (mutableDescriptor uac1UnitsDescriptor) 9) uac1UnitsControl :=
  (parseACInterfaceDescriptor_parses (mutableDescriptor uac1UnitsDescriptor) 100 18 27 99
    (controlDictionaryAt (mutableDescriptor uac1UnitsDescriptor) 9) (90, 99, uac1UnitsRecords)
    (by decide!)).append (.other (by decide!) (.refl _))

set_option maxRecDepth 100000 in
/-- The results of `getSourceIDs`, unit by unit, in the control dictionary that `init`
parses from `uac1UnitsDescriptor`. -/
theorem getSourceIDs_parsed_uac1UnitsControl :
    uac1UnitsControl.adcVersion = some kAUAUSBSpec1_0
      ∧ ((allUnits uac1UnitsControl).map DJM03UnitDictionary.getUnitID).Nodup
      ∧ (allUnits uac1UnitsControl).map (fun u => (u.getUnitID, u.sourceIDs))
        = [(some 1, none), (some 2, none), (some 6, none), (some 4, some [1, 2]),
            (some 3, some [1, 2]), (some 5, none)]
      ∧ (∀ u ∈ uac1UnitsControl.mixerUnits ++ uac1UnitsControl.selectorUnits
            ++ uac1UnitsControl.processingUnits ++ uac1UnitsControl.extensionUnits,
          SourcesOK (mutableDescriptor uac1UnitsDescriptor) u
            ∧ ∃ unitID, u.getUnitID = some unitID
              ∧ getSourceIDs uac1UnitsControl unitID
                = some (.code .kIOReturnSuccess, u.sourceIDs))
      ∧ (∀ unitID, unitID < 256 →
          (∀ u ∈ allUnits uac1UnitsControl, u.getUnitID ≠ some unitID) →
          getSourceIDs uac1UnitsControl unitID = some (.code .kIOReturnError, none)) :=
  have h := getSourceIDs_parsed (mutableDescriptor uac1UnitsDescriptor) 9 uac1UnitsControl
    (Or.inl ⟨parsesRecords_uac1UnitsControl, by decide!⟩) (by decide!)
  ⟨by decide!, by decide!, by decide!, h.1, h.2.2.2⟩

set_option maxRecDepth 100000 in
/-- The results of `getSourceIDs` in the control dictionary that `init` parses from
`uac1UnitsDescriptor`: the source IDs 1 and 2 for the selector unit 3 and the mixer unit 4,
and an error for the terminals 1, 2 and 6, the feature unit 5 and the IDs 0 and 7, which no
unit has. -/
theorem getSourceIDs_uac1UnitsControl :
    (List.range 8).map (getSourceIDs uac1UnitsControl)
      = [some (.code .kIOReturnError, none), some (.code .kIOReturnError, none),
          some (.code .kIOReturnError, none), some (.code .kIOReturnSuccess, some [1, 2]),
          some (.code .kIOReturnSuccess, some [1, 2]), some (.code .kIOReturnError, none),
          some (.code .kIOReturnError, none), some (.code .kIOReturnError, none)] := by
  decide!

/-! ## `addSampleRatesToStreamDictionary` -/

set_option maxRecDepth 100000 in
/-- C19: the stream `wideStream` has no rates, 114 channels of 24 bits and one isochronous
data endpoint with the interval 4 (one transaction per frame) and the maximum packet size
1024.  For the candidate rate 192000 the exact product
`floor (192000 / 1000) * 114 * floor (24 / 8)` is 65664, which exceeds 1024; still
`addSampleRatesToStreamDictionary` appends the rate, because it keeps the product in the
`UInt16` variable `averageFrameSize`, where it is 128. -/
theorem addSampleRatesToStreamDictionary_wideStream :
    wideStream.sampleRates = []
      ∧ wideStream.endpoints.map (fun e => (e.isIsocStreaming, e.getInterval, e.getMaxPacketSize))
        = [(true, some 4, some 1024)]
      ∧ transactionsPerUSBFrame 4 = some 1
      ∧ 192000 / (1000 * 1) * 114 * (24 / 8) = 65664
      ∧ 65664 % 2 ^ 16 = 128
      ∧ averageFrameSizeFits wideStream 192000 = some (some true)
      ∧ (wideStream.addSampleRatesToStreamDictionary (some [192000])).map
          (fun r => (r.1, r.2.sampleRates)) = some (.kIOReturnSuccess, [192000]) := by
  decide!

/-- One unfolding of `isDuplicateRate_loop` with fuel left. -/
theorem isDuplicateRate_loop_succ (existingSampleRates : List Nat)
    (sampleRateNumber fuel rateIndex : Nat) :
    isDuplicateRate_loop existingSampleRates sampleRateNumber (fuel + 1) rateIndex
      = if rateIndex < existingSampleRates.length then
          if existingSampleRates.getD rateIndex 0 = sampleRateNumber then some true
          else isDuplicateRate_loop existingSampleRates sampleRateNumber fuel
            ((rateIndex + 1) % 65536)
        else some false := by
  rw [isDuplicateRate_loop]

/-- When the inner loop finds no duplicate, no entry from the index on is the number. -/
theorem isDuplicateRate_loop_false (existingSampleRates : List Nat) (sampleRateNumber : Nat) :
    ∀ fuel rateIndex,
      isDuplicateRate_loop existingSampleRates sampleRateNumber fuel rateIndex = some false →
      ∀ j, rateIndex ≤ j → j < existingSampleRates.length →
        existingSampleRates.getD j 0 ≠ sampleRateNumber := by
  intro fuel
  induction fuel with
  | zero =>
    intro i h j h1 h2
    unfold isDuplicateRate_loop at h
    rw [if_pos (by omega)] at h
    cases h
  | succ fuel ih =>
    intro i h j h1 h2
    rw [isDuplicateRate_loop_succ, if_pos (by omega)] at h
    by_cases he : existingSampleRates.getD i 0 = sampleRateNumber
    · rw [if_pos he] at h; cases h
    · rw [if_neg he] at h
      rcases Nat.eq_or_lt_of_le h1 with h3 | h3
      · subst h3; exact he
      · by_cases hw : i + 1 < 65536
        · rw [Nat.mod_eq_of_lt hw] at h
          exact ih _ h j h3 h2
        · have h0 : (i + 1) % 65536 = 0 ∨ (i + 1) % 65536 ≤ j := by omega
          exact ih _ h j (by omega) h2

/-- When the inner loop finds no duplicate from index 0, the number is not in the array. -/
theorem not_mem_of_isDuplicateRate_loop (existingSampleRates : List Nat)
    (sampleRateNumber fuel : Nat)
    (h : isDuplicateRate_loop existingSampleRates sampleRateNumber fuel 0 = some false) :
    sampleRateNumber ∉ existingSampleRates := by
  intro hmem
  obtain ⟨j, hj, hje⟩ := List.getElem_of_mem hmem
  have := isDuplicateRate_loop_false existingSampleRates sampleRateNumber fuel 0 h j
    (Nat.zero_le _) hj
  rw [List.getD_eq_getElem _ _ hj] at this
  exact this hje

/-- The inner loop ends in an array of fewer than 65536 rates. -/
theorem isDuplicateRate_loop_isSome (existingSampleRates : List Nat) (sampleRateNumber : Nat)
    (hlen : existingSampleRates.length < 65536) :
    ∀ k rateIndex fuel, rateIndex + k = existingSampleRates.length → k ≤ fuel →
      (isDuplicateRate_loop existingSampleRates sampleRateNumber fuel rateIndex).isSome
        = true := by
  intro k
  induction k with
  | zero =>
    intro i fuel hk _
    unfold isDuplicateRate_loop
    rw [if_neg (by omega)]
    rfl
  | succ k ih =>
    intro i fuel hk hfuel
    obtain ⟨fuel, rfl⟩ : ∃ f, fuel = f + 1 := ⟨fuel - 1, by omega⟩
    rw [isDuplicateRate_loop_succ, if_pos (by omega)]
    by_cases he : existingSampleRates.getD i 0 = sampleRateNumber
    · rw [if_pos he]; rfl
    · rw [if_neg he, Nat.mod_eq_of_lt (by omega)]
      exact ih _ _ (by omega) (by omega)

/-- The outer loop of `addSampleRatesToStreamDictionary` keeps the number of occurrences of a
rate `r` that is in the array of rates, when the pointer `existingSampleRates` is set and
the candidate numbers are 32-bit values. -/
theorem addSampleRates_loop_count (sampleRates : List Nat) (r : Nat)
    (h32 : ∀ c ∈ sampleRates, c < 2 ^ 32) :
    ∀ fuel sampleRateIndex s b s1, r ∈ s.sampleRates →
      addSampleRates_loop sampleRates true fuel sampleRateIndex s = some (b, s1) →
      s1.sampleRates.count r = s.sampleRates.count r := by
  intro fuel
  induction fuel with
  | zero =>
    intro i s b s1 hr h
    unfold addSampleRates_loop at h
    by_cases hlt : i < sampleRates.length
    · rw [if_pos hlt] at h; cases h
    · rw [if_neg hlt] at h; cases h; rfl
  | succ fuel ih =>
    intro i s b s1 hr h
    unfold addSampleRates_loop at h
    by_cases hlt : i < sampleRates.length
    · rw [if_pos hlt] at h
      simp only [if_true] at h
      rcases hd : isDuplicateRate_loop s.sampleRates (sampleRates.getD i 0) 65536 0
        with _ | _ | _
      · rw [hd] at h; cases h
      · rw [hd] at h
        simp only at h
        have hc32 : sampleRates.getD i 0 % 2 ^ 32 = sampleRates.getD i 0 := by
          apply Nat.mod_eq_of_lt
          rw [List.getD_eq_getElem _ _ hlt]
          exact h32 _ (List.getElem_mem hlt)
        have hne : sampleRates.getD i 0 ≠ r := by
          intro he
          exact not_mem_of_isDuplicateRate_loop _ _ _ hd (he ▸ hr)
        by_cases hz : sampleRates.getD i 0 % 2 ^ 32 ≠ 0
        · rw [if_pos hz] at h
          rcases hf : averageFrameSizeFits s (sampleRates.getD i 0 % 2 ^ 32) with _ | _ | _ | _
          · rw [hf] at h; cases h
          · rw [hf] at h; cases h; rfl
          · rw [hf] at h
            exact ih _ s b s1 hr h
          · rw [hf] at h
            have hadd : (s.addSampleRate (sampleRates.getD i 0 % 2 ^ 32)).sampleRates
                = s.sampleRates ++ [sampleRates.getD i 0] := by
              simp only [DJM03StreamDictionary.addSampleRate, OSNumber_withNumber, hc32]
            have := ih _ _ b s1 (by rw [hadd]; exact List.mem_append_left _ hr) h
            rw [this, hadd, List.count_append,
              List.count_eq_zero.2 (fun hm => hne (List.mem_singleton.1 hm).symm), Nat.add_zero]
        · rw [if_neg hz] at h
          exact ih _ s b s1 hr h
      · rw [hd] at h
        exact ih _ s b s1 hr h
    · rw [if_neg hlt] at h; cases h; rfl

/-- The loop that looks for the isochronous streaming endpoint ends in an array of fewer than
256 endpoints. -/
theorem isocStreamingDirection_loop_isSome (endpoints : List DJM03EndpointDictionary)
    (hlen : endpoints.length < 256) :
    ∀ k endpointIndex fuel, endpointIndex + k = endpoints.length → k ≤ fuel →
      (isocStreamingDirection_loop endpoints fuel endpointIndex).isSome = true := by
  intro k
  induction k with
  | zero =>
    intro i fuel hk _
    unfold isocStreamingDirection_loop
    rw [if_neg (by omega)]
    rfl
  | succ k ih =>
    intro i fuel hk hfuel
    obtain ⟨fuel, rfl⟩ : ∃ f, fuel = f + 1 := ⟨fuel - 1, by omega⟩
    unfold isocStreamingDirection_loop
    rw [if_pos (by omega)]
    simp only
    rcases endpoints[i]? with _ | endpoint
    · rfl
    · simp only
      by_cases hs : endpoint.isIsocStreaming = true
      · rw [if_pos hs]
        rcases endpoint.getDirection with _ | d <;> rfl
      · rw [if_neg hs, Nat.mod_eq_of_lt (by omega)]
        exact ih _ _ (by omega) (by omega)

/-- The loop of `getIsocEndpointMaxPacketSize` ends in an array of fewer than 256
endpoints. -/
theorem getIsocEndpointMaxPacketSize_loop_isSome (endpoints : List DJM03EndpointDictionary)
    (direction : Nat) (hlen : endpoints.length < 256) :
    ∀ k endpointIndex fuel result, endpointIndex + k = endpoints.length → k ≤ fuel →
      (getIsocEndpointMaxPacketSize_loop endpoints direction fuel endpointIndex result).isSome
        = true := by
  intro k
  induction k with
  | zero =>
    intro i fuel result hk _
    unfold getIsocEndpointMaxPacketSize_loop
    rw [if_neg (by omega)]
    rfl
  | succ k ih =>
    intro i fuel result hk hfuel
    obtain ⟨fuel, rfl⟩ : ∃ f, fuel = f + 1 := ⟨fuel - 1, by omega⟩
    unfold getIsocEndpointMaxPacketSize_loop
    rw [if_pos (by omega)]
    simp only
    rcases endpoints[i]? with _ | thisEndpoint
    · rfl
    · simp only
      rcases thisEndpoint.getDirection with _ | thisDirection
      · rfl
      · simp only
        by_cases hd : direction = thisDirection
        · rw [if_pos hd]
          rcases thisEndpoint.getMaxPacketSize with _ | maxPacketSize
          · rfl
          · simp only
            by_cases hz : maxPacketSize ≠ 0
            · rw [if_pos hz]; rfl
            · rw [if_neg hz, Nat.mod_eq_of_lt (by omega)]
              exact ih _ _ _ (by omega) (by omega)
        · rw [if_neg hd, Nat.mod_eq_of_lt (by omega)]
          exact ih _ _ _ (by omega) (by omega)

/-- The loop of `getIsocEndpointInterval` ends in an array of fewer than 256 endpoints. -/
theorem getIsocEndpointInterval_loop_isSome (endpoints : List DJM03EndpointDictionary)
    (direction : Nat) (hlen : endpoints.length < 256) :
    ∀ k endpointIndex fuel result, endpointIndex + k = endpoints.length → k ≤ fuel →
      (getIsocEndpointInterval_loop endpoints direction fuel endpointIndex result).isSome
        = true := by
  intro k
  induction k with
  | zero =>
    intro i fuel result hk _
    unfold getIsocEndpointInterval_loop
    rw [if_neg (by omega)]
    rfl
  | succ k ih =>
    intro i fuel result hk hfuel
    obtain ⟨fuel, rfl⟩ : ∃ f, fuel = f + 1 := ⟨fuel - 1, by omega⟩
    unfold getIsocEndpointInterval_loop
    rw [if_pos (by omega)]
    simp only
    rcases endpoints[i]? with _ | thisEndpoint
    · rfl
    · simp only
      rcases thisEndpoint.getDirection with _ | thisDirection
      · rfl
      · simp only
        by_cases hd : direction = thisDirection
        · rw [if_pos hd]
          by_cases hs : thisEndpoint.isIsocStreaming = false
          · rw [if_pos hs]; rfl
          · rw [if_neg hs]
            rcases thisEndpoint.getInterval with _ | interval
            · rfl
            · simp only
              by_cases hz : interval ≠ 0
              · rw [if_pos hz]; rfl
              · rw [if_neg hz, Nat.mod_eq_of_lt (by omega)]
                exact ih _ _ _ (by omega) (by omega)
        · rw [if_neg hd, Nat.mod_eq_of_lt (by omega)]
          exact ih _ _ _ (by omega) (by omega)

/-- The test of the average frame size ends for a stream with fewer than 256 endpoints. -/
theorem averageFrameSizeFits_isSome (s : DJM03StreamDictionary) (sampleRate : Nat)
    (hlen : s.endpoints.length < 256) : (averageFrameSizeFits s sampleRate).isSome = true := by
  unfold averageFrameSizeFits
  by_cases he : s.endpoints = []
  · rw [if_pos he]; rfl
  · rw [if_neg he]
    have h1 := isocStreamingDirection_loop_isSome s.endpoints hlen s.endpoints.length 0 256
      (by omega) (by omega)
    rcases hdir : isocStreamingDirection_loop s.endpoints 256 0 with _ | _ | direction
    · rw [hdir] at h1; cases h1
    · rfl
    · simp only
      have h2 := getIsocEndpointMaxPacketSize_loop_isSome s.endpoints direction hlen
        s.endpoints.length 0 256 .kIOReturnError (by omega) (by omega)
      unfold DJM03StreamDictionary.getIsocEndpointMaxPacketSize
      rw [if_neg he]
      rcases hmax : getIsocEndpointMaxPacketSize_loop s.endpoints direction 256 0 .kIOReturnError
        with _ | ⟨result, maxPacketSize⟩
      · rw [hmax] at h2; cases h2
      · simp only
        by_cases hres : result ≠ .kIOReturnSuccess
        · rw [if_pos hres]; rfl
        · rw [if_neg hres]
          rcases s.getNumChannels with _ | numChannels
          · rfl
          · simp only
            rcases s.getBitResolution with _ | bitResolution
            · rfl
            · simp only
              have h3 := getIsocEndpointInterval_loop_isSome s.endpoints direction hlen
                s.endpoints.length 0 256 .kIOReturnError (by omega) (by omega)
              unfold DJM03StreamDictionary.getIsocEndpointInterval
              rw [if_neg he]
              rcases hint : getIsocEndpointInterval_loop s.endpoints direction 256 0
                .kIOReturnError with _ | ⟨result2, interval⟩
              · rw [hint] at h3; cases h3
              · simp only
                by_cases hres2 : result2 ≠ .kIOReturnSuccess
                · rw [if_pos hres2]; rfl
                · rw [if_neg hres2]
                  rcases transactionsPerUSBFrame interval with _ | tpf
                  · rfl
                  · simp only
                    split_ifs <;> rfl

/-- The method `addSampleRate` keeps the endpoints and adds one rate. -/
theorem addSampleRate_fields (s : DJM03StreamDictionary) (sampleRate : Nat) :
    (s.addSampleRate sampleRate).endpoints = s.endpoints
      ∧ (s.addSampleRate sampleRate).sampleRates.length = s.sampleRates.length + 1 := by
  simp [DJM03StreamDictionary.addSampleRate]

/-- The outer loop of `addSampleRatesToStreamDictionary` ends when there are fewer than
65536 candidate numbers, fewer than 256 endpoints, and fewer than 65536 rates even if each
candidate left is added. -/
theorem addSampleRates_loop_isSome (sampleRates : List Nat) (existingSampleRates : Bool)
    (hlen : sampleRates.length < 65536) :
    ∀ k sampleRateIndex fuel s, sampleRateIndex + k = sampleRates.length → k ≤ fuel →
      s.endpoints.length < 256 → s.sampleRates.length + k < 65536 →
      (addSampleRates_loop sampleRates existingSampleRates fuel sampleRateIndex s).isSome
        = true := by
  intro k
  induction k with
  | zero =>
    intro i fuel s hk _ _ _
    unfold addSampleRates_loop
    rw [if_neg (by omega)]
    rfl
  | succ k ih =>
    intro i fuel s hk hfuel hep hrates
    obtain ⟨fuel, rfl⟩ : ∃ f, fuel = f + 1 := ⟨fuel - 1, by omega⟩
    unfold addSampleRates_loop
    rw [if_pos (by omega), Nat.mod_eq_of_lt (by omega)]
    simp only
    have hnext := ih (i + 1) fuel s (by omega) (by omega) hep (by omega)
    have hdup : ∃ b, (if existingSampleRates = true then
          isDuplicateRate_loop s.sampleRates (sampleRates.getD i 0) 65536 0
        else some false) = some b := by
      cases existingSampleRates
      · exact ⟨false, rfl⟩
      · exact Option.isSome_iff_exists.1
          (isDuplicateRate_loop_isSome s.sampleRates _ (by omega) s.sampleRates.length 0 65536
            (by omega) (by omega))
    obtain ⟨b, hb⟩ := hdup
    rw [hb]
    cases b
    · simp only
      by_cases hz : sampleRates.getD i 0 % 2 ^ 32 ≠ 0
      · rw [if_pos hz]
        obtain ⟨f, hf⟩ := Option.isSome_iff_exists.1
          (averageFrameSizeFits_isSome s (sampleRates.getD i 0 % 2 ^ 32) hep)
        rw [hf]
        rcases f with _ | _ | _
        · rfl
        · exact hnext
        · obtain ⟨h1, h2⟩ := addSampleRate_fields s (sampleRates.getD i 0 % 2 ^ 32)
          exact ih (i + 1) fuel _ (by omega) (by omega) (by rw [h1]; exact hep)
            (by rw [h2]; omega)
      · rw [if_neg hz]
        exact hnext
    · exact hnext

/-- C20: a rate `r` that is in the array of rates of the stream before
`addSampleRatesToStreamDictionary` is called occurs in the array as often after the call as
before it, whichever way the call ends: no candidate equal to it is appended.  The candidate
numbers are rates, that is 32-bit values.  And the call does return when the stream has fewer
than 256 endpoints and the rates and the candidates are fewer than 65536 together. -/
theorem addSampleRatesToStreamDictionary_count (s : DJM03StreamDictionary)
    (sampleRates : List Nat) (r : Nat) (hr : r ∈ s.sampleRates)
    (h32 : ∀ c ∈ sampleRates, c < 2 ^ 32) :
    (∀ result s1, s.addSampleRatesToStreamDictionary (some sampleRates) = some (result, s1) →
        s1.sampleRates.count r = s.sampleRates.count r)
      ∧ (s.endpoints.length < 256 → s.sampleRates.length + sampleRates.length < 65536 →
          ∃ result s1, s.addSampleRatesToStreamDictionary (some sampleRates)
            = some (result, s1)) := by
  have hex : decide (s.sampleRates ≠ []) = true :=
    decide_eq_true (List.ne_nil_of_mem hr)
  constructor
  · intro result s1 h
    unfold DJM03StreamDictionary.addSampleRatesToStreamDictionary at h
    simp only [hex] at h
    rcases hl : addSampleRates_loop sampleRates true 65536 0 s with _ | ⟨b, s2⟩
    · rw [hl] at h; cases h
    · rw [hl] at h
      have hc := addSampleRates_loop_count sampleRates r h32 65536 0 s b s2 hr hl
      cases b
      · cases h; exact hc
      · cases h; exact hc
  · intro hep hrates
    unfold DJM03StreamDictionary.addSampleRatesToStreamDictionary
    simp only [hex]
    obtain ⟨⟨b, s2⟩, hl⟩ := Option.isSome_iff_exists.1
      (addSampleRates_loop_isSome sampleRates true (by omega) sampleRates.length 0 65536 s
        (by omega) (by omega) hep hrates)
    rw [hl]
    cases b
    · exact ⟨_, _, rfl⟩
    · exact ⟨_, _, rfl⟩

set_option maxRecDepth 100000 in
/-- The witness of C20: the stream `stereoStream`, which has the rate 44100, and the
candidate numbers 44100, 48000 and 44100; the call adds 48000 and leaves one 44100. -/
theorem addSampleRatesToStreamDictionary_count_witness :
    (44100 ∈ stereoStream.sampleRates)
      ∧ (∀ c ∈ [44100, 48000, 44100], c < 2 ^ 32)
      ∧ (stereoStream.addSampleRatesToStreamDictionary (some [44100, 48000, 44100])).map
          (fun x => (x.1, x.2.sampleRates)) = some (.kIOReturnSuccess, [44100, 48000])
      ∧ (∀ result s1,
          stereoStream.addSampleRatesToStreamDictionary (some [44100, 48000, 44100])
            = some (result, s1) →
          s1.sampleRates.count 44100 = stereoStream.sampleRates.count 44100)
      ∧ ∃ result s1, stereoStream.addSampleRatesToStreamDictionary
          (some [44100, 48000, 44100]) = some (result, s1) :=
  ⟨by decide, by decide, by decide!,
    (addSampleRatesToStreamDictionary_count stereoStream [44100, 48000, 44100] 44100
      (by decide) (by decide)).1,
    (addSampleRatesToStreamDictionary_count stereoStream [44100, 48000, 44100] 44100
      (by decide) (by decide)).2 (by decide) (by decide)⟩
/-! ## C21: `addSampleRatesToStreamDictionary` only appends -/

/-- The outer loop of `addSampleRatesToStreamDictionary` only appends to the array of rates:
the array it starts with is a prefix of the array it ends with, at the end of the candidates
and at a `FailIf` exit alike. -/
theorem addSampleRates_loop_appends (sampleRates : List Nat) (existingSampleRates : Bool) :
    ∀ fuel sampleRateIndex s b s1,
      addSampleRates_loop sampleRates existingSampleRates fuel sampleRateIndex s = some (b, s1) →
      s.sampleRates <+: s1.sampleRates := by
  intro fuel
  induction fuel with
  | zero =>
    intro i s b s1 h
    unfold addSampleRates_loop at h
    by_cases hlt : i < sampleRates.length
    · rw [if_pos hlt] at h; cases h
    · rw [if_neg hlt] at h; cases h; exact List.prefix_refl _
  | succ fuel ih =>
    intro i s b s1 h
    unfold addSampleRates_loop at h
    by_cases hlt : i < sampleRates.length
    · rw [if_pos hlt] at h
      simp only at h
      generalize (if existingSampleRates = true then
          isDuplicateRate_loop s.sampleRates (sampleRates.getD i 0) 65536 0
        else some false) = d at h
      rcases d with _ | _ | _
      · cases h
      · simp only at h
        by_cases hz : sampleRates.getD i 0 % 2 ^ 32 ≠ 0
        · rw [if_pos hz] at h
          rcases hf : averageFrameSizeFits s (sampleRates.getD i 0 % 2 ^ 32) with _ | _ | _ | _
          · rw [hf] at h; cases h
          · rw [hf] at h; cases h; exact List.prefix_refl _
          · rw [hf] at h
            exact ih _ s b s1 h
          · rw [hf] at h
            have := ih _ _ b s1 h
            exact List.IsPrefix.trans (List.prefix_append _ _) this
        · rw [if_neg hz] at h
          exact ih _ s b s1 h
      · exact ih _ s b s1 h
    · rw [if_neg hlt] at h; cases h; exact List.prefix_refl _

/-- C21: `addSampleRatesToStreamDictionary` only appends.  Whatever the call returns, success
or error, the array of rates the stream had before the call is a prefix of the array it has
after it (no rate is removed, replaced or moved); this holds for the `NULL` array of
candidates too.  And the call does return when the stream has fewer than 256 endpoints and
the rates and the candidates are fewer than 65536 together. -/
theorem addSampleRatesToStreamDictionary_appends (s : DJM03StreamDictionary)
    (sampleRates : Option (List Nat)) :
    (∀ result s1, s.addSampleRatesToStreamDictionary sampleRates = some (result, s1) →
        s.sampleRates <+: s1.sampleRates)
      ∧ (s.endpoints.length < 256 →
          s.sampleRates.length + (sampleRates.getD []).length < 65536 →
          ∃ result s1, s.addSampleRatesToStreamDictionary sampleRates = some (result, s1)) := by
  rcases sampleRates with _ | sampleRates
  · constructor
    · intro result s1 h
      unfold DJM03StreamDictionary.addSampleRatesToStreamDictionary at h
      cases h
      exact List.prefix_refl _
    · intro _ _
      exact ⟨_, _, rfl⟩
  · constructor
    · intro result s1 h
      unfold DJM03StreamDictionary.addSampleRatesToStreamDictionary at h
      simp only at h
      rcases hl : addSampleRates_loop sampleRates (decide (s.sampleRates ≠ [])) 65536 0 s
        with _ | ⟨b, s2⟩
      · rw [hl] at h; cases h
      · rw [hl] at h
        have hp := addSampleRates_loop_appends sampleRates _ 65536 0 s b s2 hl
        cases b
        · cases h; exact hp
        · cases h; exact hp
    · intro hep hrates
      have hrates1 : s.sampleRates.length + sampleRates.length < 65536 := hrates
      unfold DJM03StreamDictionary.addSampleRatesToStreamDictionary
      simp only
      obtain ⟨⟨b, s2⟩, hl⟩ := Option.isSome_iff_exists.1
        (addSampleRates_loop_isSome sampleRates (decide (s.sampleRates ≠ [])) (by omega)
          sampleRates.length 0 65536 s (by omega) (by omega) hep hrates1)
      rw [hl]
      cases b
      · exact ⟨_, _, rfl⟩
      · exact ⟨_, _, rfl⟩

set_option maxRecDepth 100000 in
/-- C21 (witness): the call of `addSampleRatesToStreamDictionary_appends` on the stream `stereoStream`, which
has the rate 44100, with the candidate numbers 48000, 44100 and 96000: the rates after the
call are 44100, 48000 (44100 is there already, and a frame of 96000 Hz does not fit the
packet size of the endpoint). -/
theorem addSampleRatesToStreamDictionary_appends_witness :
    (stereoStream.addSampleRatesToStreamDictionary (some [48000, 44100, 96000])).map
        (fun x => (x.1, x.2.sampleRates)) = some (.kIOReturnSuccess, [44100, 48000])
      ∧ (∀ result s1,
          stereoStream.addSampleRatesToStreamDictionary (some [48000, 44100, 96000])
            = some (result, s1) →
          stereoStream.sampleRates <+: s1.sampleRates)
      ∧ ∃ result s1, stereoStream.addSampleRatesToStreamDictionary
          (some [48000, 44100, 96000]) = some (result, s1) :=
  ⟨by decide!,
    (addSampleRatesToStreamDictionary_appends stereoStream (some [48000, 44100, 96000])).1,
    (addSampleRatesToStreamDictionary_appends stereoStream (some [48000, 44100, 96000])).2
      (by decide) (by decide)⟩
/-! ## C22: the transfer opportunities per millisecond -/

/-- When the inner loop of `addSampleRatesToStreamDictionary` reports a duplicate, the number
is in the array. -/
theorem mem_of_isDuplicateRate_loop (existingSampleRates : List Nat) (sampleRateNumber : Nat) :
    ∀ fuel rateIndex,
      isDuplicateRate_loop existingSampleRates sampleRateNumber fuel rateIndex = some true →
      sampleRateNumber ∈ existingSampleRates := by
  intro fuel
  induction fuel with
  | zero =>
    intro i h
    unfold isDuplicateRate_loop at h
    by_cases hlt : i < existingSampleRates.length
    · rw [if_pos hlt] at h; cases h
    · rw [if_neg hlt] at h; cases h
  | succ fuel ih =>
    intro i h
    rw [isDuplicateRate_loop_succ] at h
    by_cases hlt : i < existingSampleRates.length
    · rw [if_pos hlt] at h
      by_cases he : existingSampleRates.getD i 0 = sampleRateNumber
      · rw [← he, List.getD_eq_getElem _ _ hlt]
        exact List.getElem_mem hlt
      · rw [if_neg he] at h
        exact ih _ h
    · rw [if_neg hlt] at h; cases h

/-- The values of `transactionsPerUSBFrame`: 1 for the interval 0, then 8, 4, 2, 1 for the
intervals 1 to 4, and the `FailIf` exit above 4. -/
theorem transactionsPerUSBFrame_values :
    transactionsPerUSBFrame 0 = some 1 ∧ transactionsPerUSBFrame 1 = some 8
      ∧ transactionsPerUSBFrame 2 = some 4 ∧ transactionsPerUSBFrame 3 = some 2
      ∧ transactionsPerUSBFrame 4 = some 1
      ∧ ∀ interval, 4 < interval → transactionsPerUSBFrame interval = none := by
  refine ⟨by decide, by decide, by decide, by decide, by decide, ?_⟩
  intro interval h
  unfold transactionsPerUSBFrame
  rw [if_neg (by omega), if_pos h]

/-- C22, as the code has it: in `addSampleRatesToStreamDictionary` the number of transfer
opportunities per millisecond is 1 when the interval of the isochronous endpoint is 0, and
8, 4, 2, 1 for the intervals 1, 2, 3, 4 (`8 >> (interval - 1)`); an interval above 4 is not
clamped but fails the call: when the stream has an isochronous streaming endpoint, a maximum
packet size, a number of channels and a bit resolution, and the interval found is above 4,
a call whose first candidate `r` is a new rate other than 0 returns `kIOReturnError` and
leaves the stream as it was. -/
theorem addSampleRatesToStreamDictionary_interval (s : DJM03StreamDictionary)
    (direction maxPacketSize numChannels bitResolution interval r : Nat) (rest : List Nat)
    (hdir : isocStreamingDirection_loop s.endpoints 256 0 = some (some direction))
    (hmax : s.getIsocEndpointMaxPacketSize direction = some (.kIOReturnSuccess, maxPacketSize))
    (hch : s.getNumChannels = some numChannels)
    (hbit : s.getBitResolution = some bitResolution)
    (hint : s.getIsocEndpointInterval direction = some (.kIOReturnSuccess, interval))
    (hr0 : r % 2 ^ 32 ≠ 0) (hnew : r ∉ s.sampleRates) (hlen : s.sampleRates.length < 65536) :
    (interval = 0 → transactionsPerUSBFrame interval = some 1)
      ∧ (1 ≤ interval → interval ≤ 4 →
          transactionsPerUSBFrame interval = some (8 >>> (interval - 1)))
      ∧ (4 < interval →
          transactionsPerUSBFrame interval = none
            ∧ s.addSampleRatesToStreamDictionary (some (r :: rest))
              = some (.kIOReturnError, s)) := by
  refine ⟨?_, ?_, ?_⟩
  · intro h
    subst h
    rfl
  · intro h1 h4
    have : interval = 1 ∨ interval = 2 ∨ interval = 3 ∨ interval = 4 := by omega
    rcases this with h | h | h | h <;> subst h <;> rfl
  · intro h
    have htpf := transactionsPerUSBFrame_values.2.2.2.2.2 interval h
    refine ⟨htpf, ?_⟩
    have hend : s.endpoints ≠ [] := by
      intro he
      rw [he] at hdir
      unfold isocStreamingDirection_loop at hdir
      simp at hdir
    have hfit : averageFrameSizeFits s (r % 2 ^ 32) = some none := by
      unfold averageFrameSizeFits
      rw [if_neg hend, hdir]
      simp only [hmax, hch, hbit, hint, htpf, ne_eq, not_true_eq_false, if_false]
    have hdup : (if decide (s.sampleRates ≠ []) = true then
          isDuplicateRate_loop s.sampleRates r 65536 0
        else some false) = some false := by
      by_cases hd : decide (s.sampleRates ≠ []) = true
      · rw [if_pos hd]
        obtain ⟨b, hb⟩ := Option.isSome_iff_exists.1
          (isDuplicateRate_loop_isSome s.sampleRates r hlen s.sampleRates.length 0 65536
            (by omega) (by omega))
        cases b
        · exact hb
        · exact absurd (mem_of_isDuplicateRate_loop _ _ _ _ hb) hnew
      · rw [if_neg hd]
    unfold DJM03StreamDictionary.addSampleRatesToStreamDictionary
    simp only
    unfold addSampleRates_loop
    rw [if_pos (by simp)]
    simp only [List.getD_cons_zero, hdup, hfit, if_pos hr0]

set_option maxRecDepth 100000 in
/-- C22 (witness): the stream `slowStream`, whose isochronous endpoint has the interval 5, in
`addSampleRatesToStreamDictionary_interval`: the call with the candidate 48000 fails. -/
theorem addSampleRatesToStreamDictionary_interval_witness :
    (4 < 5) ∧ transactionsPerUSBFrame 5 = none
      ∧ slowStream.addSampleRatesToStreamDictionary (some [48000])
        = some (.kIOReturnError, slowStream) :=
  ⟨by decide,
    (addSampleRatesToStreamDictionary_interval slowStream 0 200 2 16 5 48000 []
      (by decide) (by decide) (by decide) (by decide) (by decide) (by decide) (by decide)
      (by decide)).2.2 (by decide)⟩

set_option maxRecDepth 100000 in
/-- C22 (counterexample): an interval above 4 is not treated like 4: with the interval 4 (`stereoStream`) the call
with the candidate 48000 succeeds and adds the rate; with the interval 5 (`slowStream`, the
same stream otherwise) there is no number of transfer opportunities, and the call returns
`kIOReturnError` and adds nothing. -/
theorem addSampleRatesToStreamDictionary_slowStream :
    transactionsPerUSBFrame 4 = some 1 ∧ transactionsPerUSBFrame 5 = none
      ∧ (stereoStream.addSampleRatesToStreamDictionary (some [48000])).map
          (fun x => (x.1, x.2.sampleRates)) = some (.kIOReturnSuccess, [44100, 48000])
      ∧ (slowStream.addSampleRatesToStreamDictionary (some [48000])).map
          (fun x => (x.1, x.2.sampleRates)) = some (.kIOReturnError, [44100]) := by
  decide!
/-! ## C28: the maximum packet size of a UAC 2.0 endpoint -/

/-- The reduction the code makes is the first-set-bit rule of the specification. -/
theorem pseudoFormatTag_eq_firstSetTag (bFormatType formats undefinedTag : Nat)
    (priority : List (Nat × Nat))
    (hpri : formatPriority bFormatType = some (undefinedTag, priority)) :
    pseudoFormatTag bFormatType formats = firstSetTag formats undefinedTag priority := by
  unfold formatPriority at hpri
  unfold pseudoFormatTag
  by_cases h1 : bFormatType = FORMAT_TYPE_I
  · rw [if_pos h1] at hpri ⊢
    cases hpri
    rfl
  · rw [if_neg h1] at hpri ⊢
    by_cases h2 : bFormatType = FORMAT_TYPE_II
    · rw [if_pos h2] at hpri ⊢
      cases hpri
      rfl
    · rw [if_neg h2] at hpri ⊢
      by_cases h3 : bFormatType = FORMAT_TYPE_III
      · rw [if_pos h3] at hpri ⊢
        cases hpri
        rfl
      · rw [if_neg h3] at hpri
        cases hpri

/-- The tag of a priority list is the tag of its first mask with a bit set: the masks behind
it play no part. -/
theorem firstSetTag_append (formats undefinedTag mask tag : Nat) (post : List (Nat × Nat)) :
    ∀ pre : List (Nat × Nat), (∀ x ∈ pre, formats &&& x.1 = 0) → formats &&& mask ≠ 0 →
      firstSetTag formats undefinedTag (pre ++ (mask, tag) :: post) = tag := by
  intro pre
  induction pre with
  | nil =>
    intro _ h
    simp only [List.nil_append, firstSetTag]
    rw [if_pos h]
  | cons x xs ih =>
    intro hpre h
    obtain ⟨mask1, tag1⟩ := x
    simp only [List.cons_append, firstSetTag]
    rw [if_neg (by simpa using hpre (mask1, tag1) (List.mem_cons_self _ _))]
    exact ih (fun y hy => hpre y (List.mem_cons_of_mem _ hy)) h

/-- The tag of a priority list none of whose masks has a bit set is the undefined tag. -/
theorem firstSetTag_undefined (formats undefinedTag : Nat) :
    ∀ priority : List (Nat × Nat), (∀ x ∈ priority, formats &&& x.1 = 0) →
      firstSetTag formats undefinedTag priority = undefinedTag := by
  intro priority
  induction priority with
  | nil => intro _; rfl
  | cons x xs ih =>
    intro hpre
    obtain ⟨mask1, tag1⟩ := x
    simp only [firstSetTag]
    rw [if_neg (by simpa using hpre (mask1, tag1) (List.mem_cons_self _ _))]
    exact ih (fun y hy => hpre y (List.mem_cons_of_mem _ hy))

/-- C23: for an AS_GENERAL record of a UAC 2.0 streaming interface whose format type is I, II
or III, `parseASInterfaceDescriptor_0200` stores as the format tag of the stream the tag of
the first bit of `bmFormats` that is set, in the priority order of the format type
(`formatPriority`: PCM, PCM8, IEEE_FLOAT, ALAW for Type I; MPEG, AC3 for Type II;
IEC61937_AC3, MPEG1_Layer1, MPEG1_Layer2or3, MPEG2_EXT, MPEG2_Layer1_LS, MPEG2_Layer2or3_LS
for Type III), and the undefined tag of the type when none is set.  The choice depends on no
bit of lower priority: when the bits before one are clear and that one is set, its tag is
stored whatever the other bits are. -/
theorem parseASRecord_0200_formatTag (m : List Nat) (p : Nat) (st : ASState_0200)
    (undefinedTag : Nat) (priority : List (Nat × Nat))
    (hty : rd m (p + 1) = CS_INTERFACE) (hsub : rd m (p + 2) = AS_GENERAL)
    (hpri : formatPriority (rd m (p + 5)) = some (undefinedTag, priority)) :
    (parseASRecord_0200 m p st).1.s.formatTag
        = some (firstSetTag (rd32 m (p + 6)) undefinedTag priority)
      ∧ (∀ pre mask tag post, priority = pre ++ (mask, tag) :: post →
          (∀ x ∈ pre, rd32 m (p + 6) &&& x.1 = 0) → rd32 m (p + 6) &&& mask ≠ 0 →
          (parseASRecord_0200 m p st).1.s.formatTag = some tag)
      ∧ ((∀ x ∈ priority, rd32 m (p + 6) &&& x.1 = 0) →
          (parseASRecord_0200 m p st).1.s.formatTag = some undefinedTag) := by
  have hrec : (parseASRecord_0200 m p st).1.s.formatTag
      = some (pseudoFormatTag (rd m (p + 5)) (rd32 m (p + 6))) := by
    unfold parseASRecord_0200
    dsimp only
    rw [if_pos hty, if_pos hsub]
  rw [hrec, pseudoFormatTag_eq_firstSetTag _ _ _ _ hpri]
  refine ⟨rfl, ?_, ?_⟩
  · intro pre mask tag post hp hpre hmask
    rw [hp, firstSetTag_append _ _ _ _ _ pre hpre hmask]
  · intro hall
    rw [firstSetTag_undefined _ _ priority hall]

set_option maxRecDepth 100000 in
/-- C23 (witness): the AS_GENERAL record at offset 53 of `uac2TypeIIDescriptor` in
`parseASRecord_0200_formatTag`: Format Type II with `bmFormats = 0x3` (MPEG and AC3) gives
the tag MPEG. -/
theorem parseASRecord_0200_formatTag_witness :
    rd uac2TypeIIDescriptor (53 + 1) = CS_INTERFACE ∧ rd uac2TypeIIDescriptor (53 + 2) = AS_GENERAL
      ∧ formatPriority (rd uac2TypeIIDescriptor (53 + 5))
        = some (TYPE_II_UNDEFINED, [(MPEG_0200, MPEG), (AC3_0200, AC3)])
      ∧ rd32 uac2TypeIIDescriptor (53 + 6) = 0x3
      ∧ (parseASRecord_0200 uac2TypeIIDescriptor 53 { s := stereoStream }).1.s.formatTag
        = some MPEG :=
  ⟨by decide, by decide, by decide, by decide,
    (parseASRecord_0200_formatTag uac2TypeIIDescriptor 53 { s := stereoStream }
      TYPE_II_UNDEFINED [(MPEG_0200, MPEG), (AC3_0200, AC3)] (by decide) (by decide)
      (by decide)).2.1 [] MPEG_0200 MPEG [(AC3_0200, AC3)] rfl (by decide) (by decide)⟩
/-! ## C30: `getSamplesPerFrame` -/

/-- The method `getSamplesPerFrame` of the configuration dictionary gives what `getMaxBitRate`
gives, for every dictionary, interface and alternate setting: both read the maximum bit rate
of the stream. -/
theorem getSamplesPerFrame_eq_getMaxBitRate (cfg : DJM03ConfigurationDictionary)
    (interfaceNum altSettingID : Nat) :
    getSamplesPerFrame cfg interfaceNum altSettingID
      = getMaxBitRate cfg interfaceNum altSettingID := rfl

set_option maxRecDepth 100000 in
/-- C30, evaluated on `uac2TypeIIDescriptor`: `init` succeeds, the alternate setting 1 of the
streaming interface 1 is a Type II stream whose FORMAT_TYPE record is parsed into the maximum
bit rate 384 and the samples per frame 1152 (`wSlotsPerFrame`), and
`getSamplesPerFrame (1, 1)` returns success with the value 384, the maximum bit rate, not
the 1152 parsed as samples per frame. -/
theorem getSamplesPerFrame_uac2TypeIIDescriptor :
    (init (some uac2TypeIIDescriptor) 0).1 = true
      ∧ (init (some uac2TypeIIDescriptor) 0).2.streamDictionaries.map
          (fun s => (s.interfaceNumber, s.alternateSetting, s.formatTag))
        = [(1, 0, none), (1, 1, some MPEG)]
      ∧ (init (some uac2TypeIIDescriptor) 0).2.streamDictionaries.map
          (fun s => (s.getMaxBitRate, s.getSamplesPerFrame))
        = [(none, none), (some 384, some 1152)]
      ∧ getSamplesPerFrame (init (some uac2TypeIIDescriptor) 0).2 1 1
        = some (.kIOReturnSuccess, 384)
      ∧ getMaxBitRate (init (some uac2TypeIIDescriptor) 0).2 1 1
        = some (.kIOReturnSuccess, 384) := by
  decide!
/-! ## C26: the skip of an AUDIOCONTROL interface that is not the requested one -/

/-- A read in the first part of a concatenation. -/
theorem rd_append_left (a b : List Nat) (i : Nat) (h : i < a.length) :
    rd (a ++ b) i = rd a i := by
  unfold rd
  rw [List.getD_append _ _ _ _ h]

/-- A read behind the first part of a concatenation. -/
theorem rd_append_right (a b : List Nat) (i : Nat) (h : a.length ≤ i) :
    rd (a ++ b) i = rd b (i - a.length) := by
  unfold rd
  rw [List.getD_append_right _ _ _ _ h]

/-- A read behind a run of zero bytes. -/
theorem rd_append_replicate (a b : List Nat) (n i : Nat) :
    rd (a ++ (List.replicate n 0 ++ b)) (a.length + n + i) = rd b i := by
  rw [rd_append_right _ _ _ (by omega), rd_append_right _ _ _ (by rw [List.length_replicate]; omega),
    List.length_replicate]
  congr 1
  omega

/-- The first 27 bytes of `wrapLengthDescriptor`. -/
theorem rd_wrapLengthDescriptor_lt (i : Nat) (h : i < 27) :
    rd wrapLengthDescriptor i = rd [9, 0x02, 0xFA, 0xFF, 2, 1, 0, 0x80, 50,
   9, 0x04, 1, 0, 0, 0x01, 0x01, 0x00, 0,
   9, 0x24, 0x01, 0x00, 0x01, 0xDF, 0xFF, 0, 0] i := by
  unfold wrapLengthDescriptor
  refine rd_append_left _ _ i ?_
  exact h

/-- The bytes of `wrapLengthDescriptor` from offset 65521 on. -/
theorem rd_wrapLengthDescriptor_ge (i : Nat) :
    rd wrapLengthDescriptor (65521 + i) = rd [15, 0x04, 2, 0, 0, 0x01, 0x02, 0x00, 0] i := by
  unfold wrapLengthDescriptor
  exact rd_append_replicate _ _ 65494 i

/-- The bytes of the copy `init` makes of `wrapLengthDescriptor`: the first 27, the nine from
offset 65521, and the zero byte read at offset 65536. -/
theorem rd_mutable_wrapLengthDescriptor :
    (∀ i, i < 27 → rd (mutableDescriptor wrapLengthDescriptor) i
      = rd [9, 0x02, 0xFA, 0xFF, 2, 1, 0, 0x80, 50,
   9, 0x04, 1, 0, 0, 0x01, 0x01, 0x00, 0,
   9, 0x24, 0x01, 0x00, 0x01, 0xDF, 0xFF, 0, 0] i)
    ∧ (∀ i, i < 9 → rd (mutableDescriptor wrapLengthDescriptor) (65521 + i)
      = rd [15, 0x04, 2, 0, 0, 0x01, 0x02, 0x00, 0] i)
    ∧ rd (mutableDescriptor wrapLengthDescriptor) 65536 = 0 := by
  have h16 : rd16 wrapLengthDescriptor 2 = 65530 := by
    unfold rd16
    rw [rd_wrapLengthDescriptor_lt 2 (by decide), rd_wrapLengthDescriptor_lt 3 (by decide)]
    decide
  refine ⟨?_, ?_, ?_⟩
  · intro i hi
    rw [rd_mutableDescriptor, h16, if_pos (by omega), rd_wrapLengthDescriptor_lt i hi]
  · intro i hi
    rw [rd_mutableDescriptor, h16, if_pos (by omega), rd_wrapLengthDescriptor_ge]
  · rw [rd_mutableDescriptor, h16, if_neg (by omega)]

/-- One iteration of the `while` loop of `parseConfigurationDescriptor` that ends at the
bottom of the loop body. -/
theorem parseLoop_next (m : List Nat) (totalLength fuel : Nat) (w w1 : WalkState)
    (h0 : rd m w.theInterfacePtr ≠ 0) (h1 : w.parsedLength ≤ totalLength)
    (hb : loopBody m totalLength w = .next w1) :
    parseLoop m totalLength (fuel + 1) w = parseLoop m totalLength fuel w1 := by
  rw [parseLoop, if_pos ⟨h0, h1⟩]
  simp only [hb]

/-- The `while` loop of `parseConfigurationDescriptor` ends at a record of length 0. -/
theorem parseLoop_end (m : List Nat) (totalLength fuel : Nat) (w : WalkState)
    (h0 : rd m w.theInterfacePtr = 0) :
    parseLoop m totalLength fuel w = (.loopEnd, w) := by
  unfold parseLoop
  rw [if_neg (by simp [h0])]

/-- The walk over a descriptor that has the bytes of `wrapLengthDescriptor`: the skip of the
AUDIOCONTROL interface 1 takes `parsedLength` from 27 to 27 - 9 + 65503 + 15 = 65536, which
is 0 as a `UInt16`; the loop goes on, and the interface record at offset 65521 is parsed. -/
theorem walk_wraps (m : List Nat) (fuel : Nat)
    (hpre : ∀ i, i < 27 → rd m i = rd [9, 0x02, 0xFA, 0xFF, 2, 1, 0, 0x80, 50,
      9, 0x04, 1, 0, 0, 0x01, 0x01, 0x00, 0,
      9, 0x24, 0x01, 0x00, 0x01, 0xDF, 0xFF, 0, 0] i)
    (hrec : ∀ i, i < 9 → rd m (65521 + i) = rd [15, 0x04, 2, 0, 0, 0x01, 0x02, 0x00, 0] i)
    (hend : rd m 65536 = 0) :
    parseConfigurationDescriptorWith (fuel + 3) m { controlInterfaceNum := 0 }
      = { result := .kIOReturnSuccess
          cfg := { controlInterfaceNum := 0, streamDictionaries := [wrapLengthStream] }
          theInterfacePtr := 65536
          parsedLength := 0
          controlDictionary := false
          foundStreamInterface := false
          ending := .loopEnd } := by
  have b0 : rd m 0 = 9 := by rw [hpre 0 (by decide)]; decide
  have b1 : rd m 1 = 2 := by rw [hpre 1 (by decide)]; decide
  have b2 : rd m 2 = 0xFA := by rw [hpre 2 (by decide)]; decide
  have b3 : rd m 3 = 0xFF := by rw [hpre 3 (by decide)]; decide
  have b9 : rd m 9 = 9 := by rw [hpre 9 (by decide)]; decide
  have b10 : rd m 10 = 4 := by rw [hpre 10 (by decide)]; decide
  have b11 : rd m 11 = 1 := by rw [hpre 11 (by decide)]; decide
  have b14 : rd m 14 = 1 := by rw [hpre 14 (by decide)]; decide
  have b15 : rd m 15 = 1 := by rw [hpre 15 (by decide)]; decide
  have b16 : rd m 16 = 0 := by rw [hpre 16 (by decide)]; decide
  have b18 : rd m 18 = 9 := by rw [hpre 18 (by decide)]; decide
  have b23 : rd m 23 = 0xDF := by rw [hpre 23 (by decide)]; decide
  have b24 : rd m 24 = 0xFF := by rw [hpre 24 (by decide)]; decide
  have r0 : rd m 65521 = 15 := by rw [hrec 0 (by decide)]; decide
  have r1 : rd m 65522 = 4 := by rw [hrec 1 (by decide)]; decide
  have r2 : rd m 65523 = 2 := by rw [hrec 2 (by decide)]; decide
  have r3 : rd m 65524 = 0 := by rw [hrec 3 (by decide)]; decide
  have r4 : rd m 65525 = 0 := by rw [hrec 4 (by decide)]; decide
  have r5 : rd m 65526 = 1 := by rw [hrec 5 (by decide)]; decide
  have r6 : rd m 65527 = 2 := by rw [hrec 6 (by decide)]; decide
  have r7 : rd m 65528 = 0 := by rw [hrec 7 (by decide)]; decide
  have h16 : rd16 m 2 = 65530 := by
    unfold rd16; rw [b2, b3]; decide
  -- first iteration: the AUDIOCONTROL interface 1, which is not the requested one
  have s1 : loopBody m 65530 (initialState m { controlInterfaceNum := 0 })
      = .next { (initialState m { controlInterfaceNum := 0 }) with
          theInterfacePtr := 65521, parsedLength := 0 } := by
    simp [loopBody, initialState, parseInterfaceDescriptor, otherControlBranch, b0, b9, b10, b11,
      b14, b15, b16, b18, b23, b24, r0, INTERFACE_ASSOCIATION, INTERFACE, AUDIO, AUDIOCONTROL,
      AUDIOSTREAMING, MIDISTREAMING, INTERFACE_PROTOCOL_UNDEFINED, toUInt16]
  -- second iteration: the interface record behind the end of the descriptor
  have s2 : loopBody m 65530 { (initialState m { controlInterfaceNum := 0 }) with
          theInterfacePtr := 65521, parsedLength := 0 }
      = .next { (initialState m { controlInterfaceNum := 0 }) with
          cfg := { controlInterfaceNum := 0, streamDictionaries := [wrapLengthStream] }
          theInterfacePtr := 65536, parsedLength := 0 } := by
    simp [loopBody, initialState, parseInterfaceDescriptor, WalkState.skip, r0, r1, r2, r3, r4,
      r5, r6, r7, hend, wrapLengthStream, INTERFACE_ASSOCIATION, INTERFACE, AUDIO, AUDIOCONTROL,
      AUDIOSTREAMING, MIDISTREAMING, INTERFACE_PROTOCOL_UNDEFINED]
  unfold parseConfigurationDescriptorWith
  rw [if_neg (by rw [b0]; decide), if_neg (by rw [b1]; decide)]
  simp only [h16]
  rw [if_neg (by decide)]
  rw [parseLoop_next m 65530 (fuel + 2) _ _ (by simp [initialState, b0, b9])
      (by simp [initialState, b0, b9]) s1,
    parseLoop_next m 65530 (fuel + 1) _ _ (by simp [r0]) (by simp) s2,
    parseLoop_end m 65530 _ _ (by simp [hend])]
  simp [finish, initialState]

/-- Where C26 holds: when the counter is exact at the class-specific header of a UAC 1.0
AUDIOCONTROL interface that is not the requested one (`parsedLength` is the offset of the end
of the header record) and header offset + `wTotalLength` + the next `bLength` is below
65536, the branch moves the cursor by `wTotalLength` and the counter becomes exactly that
sum, so the loop condition compares the sum itself with the length of the descriptor. -/
theorem otherControlBranch_exact (m : List Nat) (w : WalkState) (wTotalLength : Nat)
    (hw : (rd m (w.theInterfacePtr + 6) <<< 8) ||| rd m (w.theInterfacePtr + 5) = wTotalLength)
    (hexact : w.parsedLength = w.theInterfacePtr + rd m w.theInterfacePtr)
    (hfit : w.theInterfacePtr + wTotalLength + rd m (w.theInterfacePtr + wTotalLength) < 65536) :
    otherControlBranch m INTERFACE_PROTOCOL_UNDEFINED w
      = .next { w with
          theInterfacePtr := w.theInterfacePtr + wTotalLength
          parsedLength := w.theInterfacePtr + wTotalLength
            + rd m (w.theInterfacePtr + wTotalLength) } := by
  unfold otherControlBranch
  dsimp only
  rw [if_pos rfl, hw, hexact]
  have h1 : toUInt16 (((w.theInterfacePtr + rd m w.theInterfacePtr : Nat) : Int)
      - (rd m w.theInterfacePtr : Int) + (wTotalLength : Int))
      = w.theInterfacePtr + wTotalLength := by
    unfold toUInt16
    omega
  rw [h1, Nat.mod_eq_of_lt hfit]

/-- The copy `init` makes has one byte more than `wTotalLength` says. -/
theorem length_mutableDescriptor (d : List Nat) :
    (mutableDescriptor d).length = rd16 d 2 + 1 := by
  unfold mutableDescriptor
  rw [List.length_append, List.length_map, List.length_range]
  rfl

/-- C26, evaluated on `wrapLengthDescriptor` (`wTotalLength = 65530`): the class-specific
header of the AUDIOCONTROL interface 1 is at offset 18 and declares `wTotalLength = 65503`,
and the record at offset 18 + 65503 = 65521 has `bLength = 15`, so header offset +
wTotalLength + the next `bLength` is 65536, beyond the 65530 bytes of the descriptor.  The
walk does not stop there: it goes on with `parsedLength = 0`, parses the interface record at
offset 65521 into a stream dictionary, and `init` succeeds. -/
theorem parse_wrapLengthDescriptor :
    rd16 wrapLengthDescriptor 2 = 65530
      ∧ rd16 wrapLengthDescriptor (18 + 5) = 65503
      ∧ rd wrapLengthDescriptor (18 + 65503) = 15
      ∧ 65530 < 18 + 65503 + 15
      ∧ parseConfigurationDescriptor (mutableDescriptor wrapLengthDescriptor)
          { controlInterfaceNum := 0 }
        = { result := .kIOReturnSuccess
            cfg := { controlInterfaceNum := 0, streamDictionaries := [wrapLengthStream] }
            theInterfacePtr := 65536
            parsedLength := 0
            controlDictionary := false
            foundStreamInterface := false
            ending := .loopEnd }
      ∧ init (some wrapLengthDescriptor) 0
        = (true, { controlInterfaceNum := 0, streamDictionaries := [wrapLengthStream] }) := by
  have h16 : rd16 wrapLengthDescriptor 2 = 65530 := by
    unfold rd16
    rw [rd_wrapLengthDescriptor_lt 2 (by decide), rd_wrapLengthDescriptor_lt 3 (by decide)]
    decide
  have hlen : (mutableDescriptor wrapLengthDescriptor).length + 1 = 65529 + 3 := by
    rw [length_mutableDescriptor, h16]
  obtain ⟨hpre, hrec, hend⟩ := rd_mutable_wrapLengthDescriptor
  have hparse : parseConfigurationDescriptor (mutableDescriptor wrapLengthDescriptor)
      { controlInterfaceNum := 0 }
      = { result := .kIOReturnSuccess
          cfg := { controlInterfaceNum := 0, streamDictionaries := [wrapLengthStream] }
          theInterfacePtr := 65536
          parsedLength := 0
          controlDictionary := false
          foundStreamInterface := false
          ending := .loopEnd } := by
    unfold parseConfigurationDescriptor
    rw [hlen]
    exact walk_wraps _ 65529 hpre hrec hend
  refine ⟨h16, ?_, ?_, by decide, hparse, ?_⟩
  · unfold rd16
    rw [rd_wrapLengthDescriptor_lt 23 (by decide), rd_wrapLengthDescriptor_lt 24 (by decide)]
    decide
  · rw [rd_wrapLengthDescriptor_ge 0]
    decide
  · unfold init
    simp only [Nat.zero_mod, hparse]
    rfl
/-! ## C29: a UAC 1.0 Feature Unit with `bControlSize = 0` -/

/-- The `switch` of `parseACInterfaceDescriptor` leaves the function at a Feature Unit record
with `bControlSize = 0`. -/
theorem parseACRecord_zeroControlSize (m : List Nat) (p : Nat) (c : DJM03ControlDictionary)
    (hsub : rd m (p + 2) = FEATURE_UNIT) (hcs : rd m (p + 5) = 0) :
    parseACRecord m p c = none := by
  unfold parseACRecord
  dsimp only
  rw [hsub, if_neg (by decide), if_neg (by decide), if_neg (by decide), if_pos rfl]
  unfold parseACRecord.FEATURE_UNIT
  dsimp only
  rw [if_pos hcs]

/-- The loop of `parseACInterfaceDescriptor` ends on a Feature Unit record with
`bControlSize = 0` in the state it reaches it with, given the fuel for the records on the
way. -/
theorem parseACInterfaceDescriptor_loop_zeroControlSize (m : List Nat) (totalLength : Nat)
    {ptr0 parsedLength0 ptr parsedLength : Nat} {c0 c : DJM03ControlDictionary}
    (h : ACParsesTo m totalLength ptr0 parsedLength0 c0 ptr parsedLength c)
    (hsub : rd m (ptr + 2) = FEATURE_UNIT) (hcs : rd m (ptr + 5) = 0) :
    ∀ fuel, m.length < ptr0 + fuel →
      parseACInterfaceDescriptor_loop m totalLength fuel ptr0 parsedLength0 c0
        = some (ptr, parsedLength, c) := by
  induction h with
  | refl ptr parsedLength c =>
    intro fuel hf
    unfold parseACInterfaceDescriptor_loop
    by_cases hc : rd m ptr > 0 ∧ rd m (ptr + 1) = CS_INTERFACE ∧ parsedLength ≤ totalLength
    · rw [if_pos hc]
      have hlt := lt_length_of_rd_ne_zero m ptr (by omega)
      obtain ⟨fuel, rfl⟩ : ∃ f, fuel = f + 1 := ⟨fuel - 1, by omega⟩
      simp only [parseACRecord_zeroControlSize m ptr c hsub hcs]
    · rw [if_neg hc]
  | @step ptr parsedLength ptr2 parsedLength2 c c1 c2 h0 h1 h2 hrec _ ih =>
    intro fuel hf
    unfold parseACInterfaceDescriptor_loop
    rw [if_pos ⟨h0, h1, h2⟩]
    have hlt := lt_length_of_rd_ne_zero m ptr (by omega)
    obtain ⟨fuel, rfl⟩ : ∃ f, fuel = f + 1 := ⟨fuel - 1, by omega⟩
    simp only [hrec]
    exact ih hsub hcs fuel (by omega)

/-- C29, as the code has it: a UAC 1.0 Feature Unit record with `bControlSize = 0` ends the
parsing of the units of its control interface.  When the loop of `parseACInterfaceDescriptor`,
started at `ptr0`, has parsed the records up to such a record at `ptr` and has the control
dictionary `c` there, the method returns with the cursor on that record and with `c`: the
unit is not added, what the records before it gave is retained, and no record behind it is
parsed by the method.  The walk of `parseConfigurationDescriptor` then passes over every
class-specific record it meets by its `bLength`, leaving the dictionary as it is. -/
theorem parseACInterfaceDescriptor_zeroControlSize (m : List Nat) (totalLength : Nat)
    {ptr0 parsedLength0 ptr parsedLength : Nat} {c0 c : DJM03ControlDictionary}
    (h : ACParsesTo m totalLength ptr0 parsedLength0 c0 ptr parsedLength c)
    (hty : rd m (ptr + 1) = CS_INTERFACE)
    (hsub : rd m (ptr + 2) = FEATURE_UNIT) (hcs : rd m (ptr + 5) = 0) :
    parseACInterfaceDescriptor m (m.length + 1) ptr0 parsedLength0 totalLength c0
        = some (ptr, parsedLength, c)
      ∧ ∀ w : WalkState, rd m (w.theInterfacePtr + 1) = CS_INTERFACE →
          loopBody m totalLength w = .next (w.skip m) ∧ (w.skip m).cfg = w.cfg := by
  constructor
  · unfold parseACInterfaceDescriptor
    by_cases h0 : rd m ptr0 = 0
    · rw [if_pos h0]
      cases h with
      | refl => rfl
      | step h1 _ _ _ _ => omega
    · rw [if_neg h0]
      by_cases h1 : rd m (ptr0 + 1) ≠ CS_INTERFACE
      · rw [if_pos h1]
        cases h with
        | refl => rfl
        | step _ h2 _ _ _ => exact absurd h2 h1
      · rw [if_neg h1]
        exact parseACInterfaceDescriptor_loop_zeroControlSize m totalLength h hsub hcs _
          (by omega)
  · intro w hw
    refine ⟨?_, rfl⟩
    unfold loopBody
    dsimp only
    rw [hw, if_neg (by decide), if_neg (by decide)]

set_option maxRecDepth 100000 in
/-- C29 (witness): the run of `parseACInterfaceDescriptor_zeroControlSize` on `zeroControlSizeDescriptor`
from the input terminal at offset 27 to the Feature Unit with `bControlSize = 0` at offset
39: the method returns there, with the input terminal and nothing else. -/
theorem parseACInterfaceDescriptor_zeroControlSize_witness :
    rd zeroControlSizeDescriptor (39 + 1) = CS_INTERFACE
      ∧ rd zeroControlSizeDescriptor (39 + 2) = FEATURE_UNIT
      ∧ rd zeroControlSizeDescriptor (39 + 5) = 0
      ∧ parseACInterfaceDescriptor zeroControlSizeDescriptor
          (zeroControlSizeDescriptor.length + 1) 27 39 64 zeroControlSizeHeader
        = some (39, 46,
            { zeroControlSizeHeader with inputTerminals := [zeroControlSizeInputTerminal] }) :=
  ⟨by decide, by decide, by decide,
    (parseACInterfaceDescriptor_zeroControlSize zeroControlSizeDescriptor 64
      (ACParsesTo.step (by decide) (by decide) (by decide)
        (show parseACRecord zeroControlSizeDescriptor 27 zeroControlSizeHeader
          = some { zeroControlSizeHeader with inputTerminals := [zeroControlSizeInputTerminal] }
          by decide!)
        (ACParsesTo.refl 39 46 _))
      (by decide) (by decide) (by decide)).1⟩

set_option maxRecDepth 100000 in
/-- C29 (counterexample): the unit records behind a Feature Unit with `bControlSize = 0` are not parsed: `init`
succeeds on `zeroControlSizeDescriptor`, and the control dictionary has the input terminal 1
of the record before the Feature Unit, no feature unit, and no output terminal, although the
record of the output terminal 3 follows in the same control interface. -/
theorem init_zeroControlSizeDescriptor :
    (init (some zeroControlSizeDescriptor) 0).1 = true
      ∧ rd zeroControlSizeDescriptor (46 + 1) = CS_INTERFACE
      ∧ rd zeroControlSizeDescriptor (46 + 2) = OUTPUT_TERMINAL
      ∧ (init (some zeroControlSizeDescriptor) 0).2.controlDictionaries.map
          (fun c => (c.inputTerminals.map (fun u => u.unitID),
            c.featureUnits.map (fun u => u.unitID), c.outputTerminals.map (fun u => u.unitID)))
        = [([some 1], [], [])] := by
  decide!
/-! ## C27: the stream interface numbers of a UAC 2.0 control interface -/

/-- The walk remembers an audio-function interface association under its cursor and goes to
the next record. -/
theorem loopBody_interfaceAssociation (m : List Nat) (totalLength : Nat) (w : WalkState)
    (hty : rd m (w.theInterfacePtr + 1) = INTERFACE_ASSOCIATION)
    (hcls : rd m (w.theInterfacePtr + 4) = AUDIO_FUNCTION)
    (hsub : rd m (w.theInterfacePtr + 5) = FUNCTION_SUBCLASS_UNDEFINED)
    (hpro : rd m (w.theInterfacePtr + 6) = AF_VERSION_02_00) :
    loopBody m totalLength w
      = .next ({ w with theInterfaceAssociationPtr := some w.theInterfacePtr }.skip m) := by
  unfold loopBody
  dsimp only
  rw [if_pos hty.symm, if_pos ⟨hcls, hsub, hpro⟩]

/-- What `parseInterfaceAssociationDescriptor` stores for an audio-function interface
association with a count of at least 1. -/
theorem parseInterfaceAssociationDescriptor_eq (m : List Nat) (q : Nat)
    (c : DJM03ControlDictionary)
    (hlen : rd m q ≠ 0) (hty : rd m (q + 1) = INTERFACE_ASSOCIATION)
    (hcls : rd m (q + 4) = AUDIO_FUNCTION) (hsub : rd m (q + 5) = FUNCTION_SUBCLASS_UNDEFINED)
    (hpro : rd m (q + 6) = AF_VERSION_02_00) (hk : 1 ≤ rd m (q + 3)) :
    parseInterfaceAssociationDescriptor m (some q) c
      = { c with
          numStreamInterfaces := some (rd m (q + 3) - 1)
          streamInterfaceNumbers := some ((List.range (rd m (q + 3) - 1)).map
            (fun j => (rd m (q + 2) + (j + 1)) % 256)) } := by
  unfold parseInterfaceAssociationDescriptor
  dsimp only
  rw [if_neg hlen, if_neg (by rw [hty]; exact fun h => h rfl),
    if_neg (by rw [hcls]; exact fun h => h rfl), if_neg (by rw [hsub]; exact fun h => h rfl),
    if_neg (by rw [hpro]; exact fun h => h rfl), if_neg (by omega)]
  rfl

/-- The interrupt endpoint sub-parser leaves the stream interface numbers and their count as
they are. -/
theorem parseACInterruptEndpointDescriptor_streamInterfaceNumbers (m : List Nat) (ptr : Nat)
    (c : DJM03ControlDictionary) :
    (parseACInterruptEndpointDescriptor m ptr c).2.streamInterfaceNumbers
        = c.streamInterfaceNumbers
      ∧ (parseACInterruptEndpointDescriptor m ptr c).2.numStreamInterfaces
        = c.numStreamInterfaces := by
  unfold parseACInterruptEndpointDescriptor
  split
  · exact ⟨rfl, rfl⟩
  · split
    · split
      · exact ⟨rfl, rfl⟩
      · exact ⟨rfl, rfl⟩
    · exact ⟨rfl, rfl⟩

/-- The last control dictionary after `setLastControl`. -/
theorem setLastControl_getLast? (cfg : DJM03ConfigurationDictionary)
    (c : DJM03ControlDictionary) :
    (setLastControl cfg c).controlDictionaries.getLast? = some c := by
  unfold setLastControl
  simp

/-- The numbers `f + 1, ..., f + n` taken modulo 256 are the numbers themselves when
`f + n` is below 256. -/
theorem map_mod_range (f n : Nat) (h : f + n < 256) :
    (List.range n).map (fun j => (f + (j + 1)) % 256) = List.range' (f + 1) n := by
  apply List.ext_getElem
  · simp
  · intro i h1 h2
    simp only [List.length_map, List.length_range] at h1
    simp only [List.getElem_map, List.getElem_range, List.getElem_range']
    rw [Nat.mod_eq_of_lt (by omega)]
    omega

/-- C27, as the code has it: when the walk parses a requested UAC 2.0 control interface and
remembers an audio-function Interface Association Descriptor with `bFirstInterface = f` and
`bInterfaceCount = k >= 1`, the control dictionary (the last one of the array) holds
afterwards the stream-interface-number list `f + 1, f + 2, ..., f + k - 1` with each number
taken modulo 256 (the numbers are stored in 8 bits), and the stream-interface count `k - 1`.
The list is `f + 1, ..., f + k - 1` itself when `f + k - 1` is at most 255. -/
theorem audioControlBranch_streamInterfaceNumbers (m : List Nat) (totalLength q f k : Nat)
    (w : WalkState) (cd : DJM03ControlDictionary)
    (hlast : w.cfg.controlDictionaries.getLast? = some cd)
    (hq : w.theInterfaceAssociationPtr = some q)
    (hlen : rd m q ≠ 0) (hty : rd m (q + 1) = INTERFACE_ASSOCIATION)
    (hcls : rd m (q + 4) = AUDIO_FUNCTION) (hsub : rd m (q + 5) = FUNCTION_SUBCLASS_UNDEFINED)
    (hpro : rd m (q + 6) = AF_VERSION_02_00)
    (hf : rd m (q + 2) = f) (hk : rd m (q + 3) = k) (hk1 : 1 ≤ k) :
    (∃ w1 c, (audioControlBranch m totalLength IP_VERSION_02_00 w).state? = some w1
        ∧ w1.cfg.controlDictionaries.getLast? = some c
        ∧ c.streamInterfaceNumbers
          = some ((List.range (k - 1)).map (fun j => (f + (j + 1)) % 256))
        ∧ c.numStreamInterfaces = some (k - 1))
      ∧ (f + k - 1 < 256 →
          (List.range (k - 1)).map (fun j => (f + (j + 1)) % 256)
            = List.range' (f + 1) (k - 1)) := by
  refine ⟨?_, fun h => map_mod_range f (k - 1) (by omega)⟩
  unfold audioControlBranch
  simp only [hlast]
  rw [if_pos True.intro]
  rcases hp : parseACInterfaceDescriptor_0200 m (m.length + 1) w.theInterfacePtr
    w.parsedLength totalLength cd with _ | ⟨ptr, parsedLength, c⟩
  · exact absurd hp (parseACInterfaceDescriptor_0200_isSome m _ _ _ _)
  · simp only [hq]
    have hia := parseInterfaceAssociationDescriptor_eq m q c hlen hty hcls hsub hpro
      (by omega)
    rw [hf, hk] at hia
    generalize parseInterfaceAssociationDescriptor m (some q) c = c1 at hia
    have h1 : c1.streamInterfaceNumbers
        = some ((List.range (k - 1)).map (fun j => (f + (j + 1)) % 256)) := by
      rw [hia]
    have h2 : c1.numStreamInterfaces = some (k - 1) := by
      rw [hia]
    unfold afterControlBody
    dsimp only
    rcases hg : getControlledStreamNumbers (setLastControl { w with controlDictionary := true }.cfg c1)
      with ⟨r, a, n⟩
    cases r
    · by_cases he : 1 = c1.numEndpoints
      · simp only [hg]
        rw [if_pos he]
        obtain ⟨e1, e2⟩ := parseACInterruptEndpointDescriptor_streamInterfaceNumbers m ptr c1
        exact ⟨_, _, rfl, setLastControl_getLast? _ _, by rw [e1, h1], by rw [e2, h2]⟩
      · simp only [hg]
        rw [if_neg he]
        exact ⟨_, _, rfl, setLastControl_getLast? _ _, h1, h2⟩
    · simp only [hg]
      exact ⟨_, _, rfl, setLastControl_getLast? _ _, h1, h2⟩

set_option maxRecDepth 100000 in
/-- C27 (witness): the control interface of `uac2TypeIIDescriptor` in
`audioControlBranch_streamInterfaceNumbers`: the interface association at offset 9 has
`bFirstInterface = 0` and `bInterfaceCount = 2`; the state `uac2TypeIIControlState` is the
one in which the walk enters the branch, and the list afterwards is `[1]`. -/
theorem audioControlBranch_streamInterfaceNumbers_witness :
    (loopBody (mutableDescriptor uac2TypeIIDescriptor) 92
        (parseLoop (mutableDescriptor uac2TypeIIDescriptor) 92 1
          (initialState (mutableDescriptor uac2TypeIIDescriptor)
            { controlInterfaceNum := 0 })).2
      = audioControlBranch (mutableDescriptor uac2TypeIIDescriptor) 92 IP_VERSION_02_00
          uac2TypeIIControlState)
      ∧ (List.range (2 - 1)).map (fun j => (0 + (j + 1)) % 256) = [1]
      ∧ ∃ w1 c, (audioControlBranch (mutableDescriptor uac2TypeIIDescriptor) 92
            IP_VERSION_02_00 uac2TypeIIControlState).state? = some w1
        ∧ w1.cfg.controlDictionaries.getLast? = some c
        ∧ c.streamInterfaceNumbers
          = some ((List.range (2 - 1)).map (fun j => (0 + (j + 1)) % 256))
        ∧ c.numStreamInterfaces = some (2 - 1) :=
  ⟨rfl, by decide,
    (audioControlBranch_streamInterfaceNumbers (mutableDescriptor uac2TypeIIDescriptor) 92 9 0 2
      uac2TypeIIControlState uac2TypeIIControlRecord rfl rfl (by decide) (by decide)
      (by decide) (by decide) (by decide) (by decide) (by decide) (by decide)).1⟩

set_option maxRecDepth 100000 in
/-- C27 (counterexample): the stream interface numbers are 8-bit values: `init` succeeds on `wrapIADDescriptor`,
whose interface association has `bFirstInterface = 254` and `bInterfaceCount = 3`, and the
control dictionary holds the list 255, 0 (not 255, 256) and the count 2. -/
theorem init_wrapIADDescriptor :
    (init (some wrapIADDescriptor) 254).1 = true
      ∧ rd wrapIADDescriptor (9 + 2) = 254 ∧ rd wrapIADDescriptor (9 + 3) = 3
      ∧ (init (some wrapIADDescriptor) 254).2.controlDictionaries.map
          (fun c => (c.streamInterfaceNumbers, c.numStreamInterfaces))
        = [(some [255, 0], some 2)]
      ∧ List.range' (254 + 1) (3 - 1) = [255, 256] := by
  decide!
/-! ## C24 and C25: the MIDISTREAMING branch -/

/-- The prune loop only removes entries. -/
theorem pruneStreamInterface_sublist (thisInterfaceNumber : Nat) :
    ∀ (indices streamInterfaceNumbers : List Nat),
      (pruneStreamInterface thisInterfaceNumber indices streamInterfaceNumbers).1.Sublist
        streamInterfaceNumbers := by
  intro indices
  induction indices with
  | nil => intro l; exact List.Sublist.refl _
  | cons i rest ih =>
    intro l
    unfold pruneStreamInterface
    rcases hg : l.get? i with _ | x
    · exact List.Sublist.refl _
    · simp only
      by_cases he : thisInterfaceNumber = x % 256
      · rw [if_pos he]
        exact (ih _).trans (List.eraseIdx_sublist l i)
      · rw [if_neg he]
        exact ih _

/-- The prune loop removes the interface number from a list of 8-bit numbers in which it
occurs at most once, when the indices reach the end of the list. -/
theorem pruneStreamInterface_not_mem (thisInterfaceNumber : Nat) :
    ∀ (r i : Nat) (l : List Nat), (∀ x ∈ l, x < 256) →
      (∀ j1 j2 : Nat, l[j1]? = some thisInterfaceNumber → l[j2]? = some thisInterfaceNumber →
        j1 = j2) →
      (∀ j : Nat, j < i → l[j]? ≠ some thisInterfaceNumber) → l.length ≤ i + r →
      thisInterfaceNumber ∉ (pruneStreamInterface thisInterfaceNumber (List.range' i r) l).1 := by
  intro r
  induction r with
  | zero =>
    intro i l _ _ hbefore hlen hmem
    simp only [List.range', pruneStreamInterface] at hmem
    obtain ⟨j, hj, hje⟩ := List.getElem_of_mem hmem
    exact hbefore j (by omega) (by rw [List.getElem?_eq_getElem hj, hje])
  | succ r ih =>
    intro i l h8 honce hbefore hlen hmem
    rw [List.range'_succ] at hmem
    unfold pruneStreamInterface at hmem
    rcases hg : l.get? i with _ | x
    · rw [hg] at hmem
      simp only at hmem
      obtain ⟨j, hj, hje⟩ := List.getElem_of_mem hmem
      have hi : l.length ≤ i := by
        rw [List.get?_eq_getElem?] at hg
        exact List.getElem?_eq_none_iff.1 hg
      exact hbefore j (by omega) (by rw [List.getElem?_eq_getElem hj, hje])
    · rw [hg] at hmem
      simp only at hmem
      rw [List.get?_eq_getElem?] at hg
      have hx : x < 256 := h8 x (List.getElem?_mem hg)
      by_cases he : thisInterfaceNumber = x % 256
      · rw [if_pos he] at hmem
        rw [Nat.mod_eq_of_lt hx] at he
        subst he
        have hsub := (pruneStreamInterface_sublist thisInterfaceNumber (List.range' (i + 1) r)
          (l.eraseIdx i)).subset hmem
        obtain ⟨j, hji, hj⟩ := List.mem_eraseIdx_iff_getElem?.1 hsub
        exact hji (honce j i hj hg)
      · rw [if_neg he] at hmem
        rw [Nat.mod_eq_of_lt hx] at he
        refine ih (i + 1) l h8 honce ?_ (by omega) hmem
        intro j hj hjn
        rcases Nat.lt_or_ge j i with h1 | h1
        · exact hbefore j h1 hjn
        · have : j = i := by omega
          subst this
          rw [hg] at hjn
          exact he (Option.some.inj hjn).symm

/-- Where C24 holds: when the MIDISTREAMING branch is entered with a list of 8-bit stream
interface numbers in which the number of the interface occurs at most once, and the local
count is not below the length of the list, the list of the first control dictionary does not
contain the number afterwards, however the branch ends. -/
theorem midiStreamingBranch_pruned (m : List Nat) (thisInterfaceNumber : Nat) (w w1 : WalkState)
    (c : DJM03ControlDictionary) (cs : List DJM03ControlDictionary) (l : List Nat)
    (hc : w.cfg.controlDictionaries = c :: cs) (hl : c.streamInterfaceNumbers = some l)
    (h8 : ∀ x ∈ l, x < 256)
    (honce : ∀ j1 j2 : Nat, l[j1]? = some thisInterfaceNumber → l[j2]? = some thisInterfaceNumber →
      j1 = j2)
    (hlen : l.length ≤ w.numStreamInterfaces)
    (h : (midiStreamingBranch m thisInterfaceNumber w).state? = some w1) :
    ∃ l1, (w1.cfg.controlDictionaries.head?).bind (fun c => c.streamInterfaceNumbers) = some l1
      ∧ thisInterfaceNumber ∉ l1 := by
  unfold midiStreamingBranch at h
  by_cases h0 : w.numStreamInterfaces = 0
  · rw [if_pos h0] at h
    simp only [Step.state?, Option.some.injEq] at h
    subst h
    have : l = [] := List.eq_nil_of_length_eq_zero (by omega)
    subst this
    refine ⟨[], ?_, by simp⟩
    simp [WalkState.skip, hc, hl]
  · rw [if_neg h0] at h
    have hh : (w.cfg.controlDictionaries.head?).bind (fun c => c.streamInterfaceNumbers)
        = some l := by
      simp [hc, hl]
    rw [hh] at h
    simp only at h
    have hnot := pruneStreamInterface_not_mem thisInterfaceNumber w.numStreamInterfaces 0 l h8
      honce (fun j hj => absurd hj (Nat.not_lt_zero j)) (by omega)
    rw [← List.range_eq_range'] at hnot
    rcases hpr : pruneStreamInterface thisInterfaceNumber (List.range w.numStreamInterfaces) l
      with ⟨a, b⟩
    rw [hpr] at h hnot
    cases b
    · simp only [Step.state?, Option.some.injEq] at h
      subst h
      refine ⟨a, ?_, hnot⟩
      simp [setFirstStreamInterfaceNumbers, hc]
    · simp only [Step.state?, Option.some.injEq] at h
      subst h
      refine ⟨a, ?_, hnot⟩
      simp [WalkState.skip, setFirstStreamInterfaceNumbers, hc]

set_option maxRecDepth 100000 in
/-- C24, evaluated on `midiTwiceDescriptor`: the header of the requested control interface
lists the interface 1 twice, and the MIDISTREAMING interface 1 follows.  The prune loop
removes the entry at index 0, finds no entry at index 1 and leaves the function through its
`FailIf`; `init` succeeds, and the list of the control interface still contains the number
1. -/
theorem init_midiTwiceDescriptor :
    (init (some midiTwiceDescriptor) 0).1 = true
      ∧ pruneStreamInterface 1 (List.range 2) [1, 1] = ([1], false)
      ∧ (parseConfigurationDescriptor (mutableDescriptor midiTwiceDescriptor)
          { controlInterfaceNum := 0 }).ending = .failExit
      ∧ (init (some midiTwiceDescriptor) 0).2.controlDictionaries.map
          (fun c => (c.streamInterfaceNumbers, c.numStreamInterfaces))
        = [(some [1], some 2)] := by
  decide!

set_option maxRecDepth 100000 in
/-- C25, evaluated on `midiFirstDescriptor`: the header of the requested control interface
lists the interfaces 1 and 2, the MIDISTREAMING interface 1 comes first and the AudioStreaming
interface 2 follows it.  The prune loop removes the entry at index 0, finds no entry at
index 1 and leaves the function through its `FailIf`: the walk ends on the MIDI interface
(cursor 37, behind its interface record), `init` succeeds, and the interface 2, which is
listed, gets no stream dictionary.  On `midiLastDescriptor`, which differs only in the order
of the two numbers in the header, the walk goes on to the end and the interface 2 is
dispatched to the streaming sub-parser. -/
theorem init_midiFirstDescriptor :
    (init (some midiFirstDescriptor) 0).1 = true
      ∧ pruneStreamInterface 1 (List.range 2) [1, 2] = ([2], false)
      ∧ (parseConfigurationDescriptor (mutableDescriptor midiFirstDescriptor)
          { controlInterfaceNum := 0 }).ending = .failExit
      ∧ (parseConfigurationDescriptor (mutableDescriptor midiFirstDescriptor)
          { controlInterfaceNum := 0 }).theInterfacePtr = 37
      ∧ (init (some midiFirstDescriptor) 0).2.controlDictionaries.map
          (fun c => (c.streamInterfaceNumbers, c.numStreamInterfaces))
        = [(some [2], some 2)]
      ∧ (init (some midiFirstDescriptor) 0).2.streamDictionaries = []
      ∧ (init (some midiLastDescriptor) 0).1 = true
      ∧ pruneStreamInterface 1 (List.range 2) [2, 1] = ([2], true)
      ∧ (parseConfigurationDescriptor (mutableDescriptor midiLastDescriptor)
          { controlInterfaceNum := 0 }).ending = .loopEnd
      ∧ (parseConfigurationDescriptor (mutableDescriptor midiLastDescriptor)
          { controlInterfaceNum := 0 }).foundStreamInterface = true
      ∧ (init (some midiLastDescriptor) 0).2.streamDictionaries.map
          (fun s => (s.interfaceNumber, s.terminalLink, s.formatTag))
        = [(2, some 1, some PCM)] := by
  decide!
/-! ## C33: `ConvertSampleFreq` -/

/-- The bytes of a 24-bit field put together with shifts and `|` are the little-endian
value. -/
theorem ConvertSampleFreq_eq (m : List Nat) (p : Nat) :
    ConvertSampleFreq m p = rd m p + 256 * rd m (p + 1) + 65536 * rd m (p + 2) := by
  unfold ConvertSampleFreq
  have h0 := rd_lt m p
  have h1 := rd_lt m (p + 1)
  have h2 := rd_lt m (p + 2)
  have e1 : rd m (p + 2) <<< 16 ||| rd m (p + 1) <<< 8
      = 2 ^ 8 * (2 ^ 8 * rd m (p + 2) + rd m (p + 1)) := by
    rw [Nat.shiftLeft_eq, Nat.shiftLeft_eq]
    have : rd m (p + 2) * 2 ^ 16 = 2 ^ 16 * rd m (p + 2) := Nat.mul_comm _ _
    rw [this, ← Nat.mul_add_lt_is_or (by omega) (rd m (p + 2))]
    omega
  rw [e1, ← Nat.mul_add_lt_is_or h0]
  omega

/-- Every value of `ConvertSampleFreq` is below `2^24`. -/
theorem ConvertSampleFreq_lt (m : List Nat) (p : Nat) : ConvertSampleFreq m p < 2 ^ 24 := by
  rw [ConvertSampleFreq_eq]
  have h0 := rd_lt m p
  have h1 := rd_lt m (p + 1)
  have h2 := rd_lt m (p + 2)
  omega

/-- C33: `ConvertSampleFreq` decodes three bytes as a little-endian 24-bit unsigned integer:
for every `n` below `2^24` the bytes `n mod 256`, `(n div 256) mod 256`, `n div 65536` give
`n`, and every result is below `2^24`. -/
theorem ConvertSampleFreq_littleEndian :
    (∀ n, n < 2 ^ 24 → ConvertSampleFreq [n % 256, (n / 256) % 256, n / 65536] 0 = n)
      ∧ ∀ (m : List Nat) (p : Nat), ConvertSampleFreq m p < 2 ^ 24 := by
  constructor
  · intro n hn
    rw [ConvertSampleFreq_eq]
    simp only [rd, Nat.zero_add, List.getD_cons_zero, List.getD_cons_succ]
    omega
  · exact ConvertSampleFreq_lt

/-- C33 (witness): the bytes 0x44, 0xAC, 0x00 of the rate 44100. -/
theorem ConvertSampleFreq_littleEndian_witness :
    44100 < 2 ^ 24
      ∧ ConvertSampleFreq [44100 % 256, (44100 / 256) % 256, 44100 / 65536] 0 = 44100 :=
  ⟨by decide, ConvertSampleFreq_littleEndian.1 44100 (by decide)⟩
/-! ## C34: the format queries of the configuration dictionary -/

/-- C34: the configuration-level format queries do not depend on the descriptor.  For any
two models and every interface number and alternate setting, existing or not,
`getNumChannels` returns 8, `getBitResolution` returns 24, `getSubframeSize` returns 3 and
`getFormat` returns `PCM`, always with success; so each query gives the same on both
models. -/
theorem formatQueries_constant (cfg1 cfg2 : DJM03ConfigurationDictionary)
    (interfaceNum altSettingID : Nat) :
    getNumChannels cfg1 interfaceNum altSettingID = (.kIOReturnSuccess, 8)
      ∧ getBitResolution cfg1 interfaceNum altSettingID = (.kIOReturnSuccess, 24)
      ∧ getSubframeSize cfg1 interfaceNum altSettingID = (.kIOReturnSuccess, 3)
      ∧ getFormat cfg1 interfaceNum altSettingID = (.kIOReturnSuccess, PCM)
      ∧ getNumChannels cfg1 interfaceNum altSettingID
        = getNumChannels cfg2 interfaceNum altSettingID
      ∧ getBitResolution cfg1 interfaceNum altSettingID
        = getBitResolution cfg2 interfaceNum altSettingID
      ∧ getSubframeSize cfg1 interfaceNum altSettingID
        = getSubframeSize cfg2 interfaceNum altSettingID
      ∧ getFormat cfg1 interfaceNum altSettingID = getFormat cfg2 interfaceNum altSettingID :=
  ⟨rfl, rfl, rfl, rfl, rfl, rfl, rfl, rfl⟩
/-! ## C31: the sample rates of a UAC 1.0 FORMAT_TYPE record -/

/-- Adding the rates `f i` for the indices `i` of a list, one after the other, appends them in
that order and leaves the stored number of rates as it is. -/
theorem foldl_addSampleRate (f : Nat → Nat) :
    ∀ (l : List Nat) (s : DJM03StreamDictionary),
      (l.foldl (fun s i => s.addSampleRate (f i)) s).sampleRates
          = s.sampleRates ++ l.map (fun i => f i % 2 ^ 32)
        ∧ (l.foldl (fun s i => s.addSampleRate (f i)) s).numSampleRates = s.numSampleRates := by
  intro l
  induction l with
  | nil => intro s; simp
  | cons i rest ih =>
    intro s
    rw [List.foldl_cons]
    obtain ⟨h1, h2⟩ := ih (s.addSampleRate (f i))
    rw [h1, h2]
    simp [DJM03StreamDictionary.addSampleRate, OSNumber_withNumber]

/-- The rates `addSampleRates` appends: the `numSampleFreqs` decoded rates, or the two bounds
of the range when `numSampleFreqs = 0`; the stored number of rates stays. -/
theorem addSampleRates_eq (m : List Nat) (p numSampleFreqs : Nat) (s : DJM03StreamDictionary) :
    (addSampleRates m p numSampleFreqs s).sampleRates
        = s.sampleRates ++ (List.range (if numSampleFreqs ≠ 0 then numSampleFreqs else 2)).map
            (fun k => ConvertSampleFreq m (p + k * 3))
      ∧ (addSampleRates m p numSampleFreqs s).numSampleRates = s.numSampleRates := by
  have hmod : ∀ k, ConvertSampleFreq m (p + k * 3) % 2 ^ 32 = ConvertSampleFreq m (p + k * 3) :=
    fun k => Nat.mod_eq_of_lt (Nat.lt_trans (ConvertSampleFreq_lt m _) (by decide))
  unfold addSampleRates
  by_cases h : numSampleFreqs ≠ 0
  · rw [if_pos h, if_pos h]
    obtain ⟨h1, h2⟩ := foldl_addSampleRate
      (fun k => ConvertSampleFreq m (p + k * kBytesPerSampleFrequency))
      (List.range numSampleFreqs) s
    refine ⟨?_, h2⟩
    rw [h1]
    simp only [kBytesPerSampleFrequency, hmod]
  · rw [if_neg h, if_neg h]
    obtain ⟨h1, h2⟩ := foldl_addSampleRate (fun k => ConvertSampleFreq m (p + k * 3))
      (List.range 2) s
    refine ⟨?_, h2⟩
    rw [h1]
    simp only [hmod]

/-- C31: a UAC 1.0 FORMAT_TYPE record of Type I or III with `bSamFreqType = n`, parsed into a
stream dictionary that has no rates yet.  If `n > 0` the sample-rate list is then the `n`
24-bit little-endian rates of the record (three bytes each from offset 8) in the order of
the descriptor, and the stored number of rates is `n`; if `n = 0` the list is exactly
`[low, high]`, the two 24-bit values at the offsets 8 and 11, and the stored number of rates
is 0. -/
theorem parseASRecord_FORMAT_TYPE_rates (m : List Nat) (p n : Nat) (s : DJM03StreamDictionary)
    (hfresh : s.sampleRates = [])
    (hty : rd m (p + 1) = CS_INTERFACE) (hsub : rd m (p + 2) = FORMAT_TYPE)
    (hft : rd m (p + 3) = FORMAT_TYPE_I ∨ rd m (p + 3) = FORMAT_TYPE_III)
    (hn : rd m (p + 7) = n) :
    (parseASRecord m p s).1.numSampleRates = some n
      ∧ (0 < n → (parseASRecord m p s).1.sampleRates
          = (List.range n).map (fun k => rd m (p + 8 + 3 * k) + 256 * rd m (p + 8 + 3 * k + 1)
              + 65536 * rd m (p + 8 + 3 * k + 2)))
      ∧ (n = 0 → (parseASRecord m p s).1.sampleRates
          = [rd m (p + 8) + 256 * rd m (p + 9) + 65536 * rd m (p + 10),
             rd m (p + 11) + 256 * rd m (p + 12) + 65536 * rd m (p + 13)]) := by
  have hrec : (parseASRecord m p s).1 = addSampleRates m (p + 8) n
      { s with numChannels := some (rd m (p + 4)), subframeSize := some (rd m (p + 5)),
               bitResolution := some (rd m (p + 6)), numSampleRates := some n } := by
    unfold parseASRecord
    dsimp only
    rw [if_pos hty, hsub, if_neg (by decide), if_pos rfl, if_pos hft, hn]
  obtain ⟨h1, h2⟩ := addSampleRates_eq m (p + 8) n
    { s with numChannels := some (rd m (p + 4)), subframeSize := some (rd m (p + 5)),
             bitResolution := some (rd m (p + 6)), numSampleRates := some n }
  rw [hrec]
  refine ⟨h2, ?_, ?_⟩
  · intro hpos
    rw [h1, if_pos (by omega)]
    simp only [hfresh, List.nil_append]
    apply List.map_congr_left
    intro k _
    rw [ConvertSampleFreq_eq]
    have e : p + 8 + k * 3 = p + 8 + 3 * k := by omega
    rw [e]
  · intro h0
    subst h0
    rw [h1, if_neg (by simp)]
    simp only [hfresh, List.nil_append]
    simp [List.range_succ, ConvertSampleFreq_eq]

/-- C31 (witness): the record `formatTypeRecord`, with the three rates 44100, 48000 and
96000, parsed into the stream dictionary `freshStream`. -/
theorem parseASRecord_FORMAT_TYPE_rates_witness :
    rd formatTypeRecord (0 + 7) = 3 ∧ 0 < 3
      ∧ (parseASRecord formatTypeRecord 0 freshStream).1.sampleRates = [44100, 48000, 96000]
      ∧ (parseASRecord formatTypeRecord 0 freshStream).1.sampleRates
        = (List.range 3).map (fun k => rd formatTypeRecord (0 + 8 + 3 * k)
            + 256 * rd formatTypeRecord (0 + 8 + 3 * k + 1)
            + 65536 * rd formatTypeRecord (0 + 8 + 3 * k + 2)) :=
  ⟨by decide, by decide, by decide,
    (parseASRecord_FORMAT_TYPE_rates formatTypeRecord 0 3 freshStream rfl (by decide)
      (by decide) (Or.inl (by decide)) (by decide)).2.1 (by decide)⟩

/-! ## C32: the controls of a UAC 2.0 feature unit -/

/-- The mask 3 tests the bits 0 and 1. -/
theorem land_three_eq (x : Nat) :
    ((x &&& 3) == 3) = (x.testBit 0 && x.testBit 1) := by
  have h : x &&& 3 = x % 4 := Nat.and_pow_two_sub_one_eq_mod x 2
  rw [h, Bool.eq_iff_iff]
  simp only [Nat.testBit_to_div_mod, beq_iff_eq, Bool.and_eq_true, decide_eq_true_eq]
  omega

/-- The mask 12 tests the bits 2 and 3. -/
theorem land_twelve_eq (x : Nat) :
    ((x &&& 12) == 12) = (x.testBit 2 && x.testBit 3) := by
  have h12 : ∀ i, (12 : Nat).testBit i = (decide (i = 2) || decide (i = 3)) := by
    intro i
    have : (12 : Nat) = (2 ^ 2 - 1) <<< 2 := by decide
    rw [this, Nat.testBit_shiftLeft, Nat.testBit_two_pow_sub_one, Bool.eq_iff_iff]
    simp only [Bool.and_eq_true, decide_eq_true_eq, Bool.or_eq_true]
    omega
  rw [Bool.eq_iff_iff]
  simp only [beq_iff_eq, Bool.and_eq_true]
  constructor
  · intro h
    have h2 := congrArg (fun y => y.testBit 2) h
    have h3 := congrArg (fun y => y.testBit 3) h
    simp only [Nat.testBit_and, h12] at h2 h3
    simpa using And.intro h2 h3
  · intro h
    apply Nat.eq_of_testBit_eq
    intro i
    rw [Nat.testBit_and, h12]
    by_cases h2 : i = 2
    · subst h2; simp [h.1]
    · by_cases h3 : i = 3
      · subst h3; simp [h.2]
      · simp [h2, h3]
/-- C32: a UAC 2.0 FEATURE_UNIT record at offset `p` with `bLength` at least 6 is parsed
into a feature unit `u` with the control size 4 and the control count
`n = (bLength - 6) / 4`, appended to the feature units.  For this unit
`channelHasMuteControl u ch` is true iff `ch < n` and the bits 0 and 1 of the channel's
bitmap (the little-endian 32-bit value at `p + 5 + 4 * ch`) are both set, and
`channelHasVolumeControl u ch` is true iff `ch < n` and the bits 2 and 3 are both set: a
control that is present (even bit) but not programmable (odd bit) is reported as absent. -/
theorem channelHasControl_of_FEATURE_UNIT_0200 (m : List Nat) (p : Nat)
    (c : DJM03ControlDictionary) (n : Nat) (hlen : 6 ≤ rd m p) (hn : (rd m p - 6) / 4 = n) :
    ∃ u, parseACRecord_0200.FEATURE_UNIT m p c
        = { c with featureUnits := c.featureUnits ++ [u] }
      ∧ u.unitID = some (rd m (p + 3)) ∧ u.controlSize = some 4 ∧ u.numControls = some n
      ∧ ∀ ch : Nat,
        (AUAFeatureUnitDictionary.channelHasMuteControl u ch = true
          ↔ ch < n ∧ (rd32 m (p + 5 + 4 * ch)).testBit 0 = true
              ∧ (rd32 m (p + 5 + 4 * ch)).testBit 1 = true)
        ∧ (AUAFeatureUnitDictionary.channelHasVolumeControl u ch = true
          ↔ ch < n ∧ (rd32 m (p + 5 + 4 * ch)).testBit 2 = true
              ∧ (rd32 m (p + 5 + 4 * ch)).testBit 3 = true) := by
  have hb := rd_lt m p
  have hn256 : n < 256 := by omega
  have hnum : toUInt8 (Int.tdiv ((rd m p : Int) - 6) 4) = n := by
    have e : ((rd m p : Int) - 6) = ((rd m p - 6 : Nat) : Int) := by omega
    rw [e]
    unfold toUInt8
    have e2 : Int.tdiv ((rd m p - 6 : Nat) : Int) 4 = (((rd m p - 6) / 4 : Nat) : Int) := by
      rw [Int.tdiv_eq_ediv (by omega) (by decide)]
      rfl
    rw [e2, hn]
    omega
  refine ⟨{ descriptorSubType := some (rd m (p + 2)), unitID := some (rd m (p + 3)),
            sourceID := some (rd m (p + 4)), controlSize := some 4, numControls := some n,
            controls := some ((List.range n).map (fun i => rd32 m (p + 5 + 4 * i) % 2 ^ 32)),
            stringIndex := some (rd m (p + rd m p - 1)) }, ?_, rfl, rfl, rfl, ?_⟩
  · unfold parseACRecord_0200.FEATURE_UNIT
    simp only [hnum]
    simp [AUAFeatureUnitDictionary.initControlsArray, OSNumber_withNumber]
  · intro ch
    have hbit : ∀ x i, i < 32 → (x % 2 ^ 32 % 2 ^ 32).testBit i = x.testBit i := by
      intro x i hi
      rw [Nat.mod_mod, Nat.testBit_mod_two_pow]
      simp [hi]
    by_cases hch : ch < n
    · have h1 : n ≥ ch + 1 := hch
      have hm : AUAFeatureUnitDictionary.channelHasMuteControl
          { descriptorSubType := some (rd m (p + 2)), unitID := some (rd m (p + 3)),
            sourceID := some (rd m (p + 4)), controlSize := some 4, numControls := some n,
            controls := some ((List.range n).map (fun i => rd32 m (p + 5 + 4 * i) % 2 ^ 32)),
            stringIndex := some (rd m (p + rd m p - 1)) } ch
          = (((rd32 m (p + 5 + 4 * ch) % 2 ^ 32 % 2 ^ 32) &&& 3) == 3) := by
        simp [AUAFeatureUnitDictionary.channelHasMuteControl, DJM03UnitDictionary.getControls,
          DJM03UnitDictionary.getNumControls, DJM03UnitDictionary.getControlSize,
          getDictionaryValue_UInt8, Nat.mod_eq_of_lt hn256, h1, hch, kMuteBit,
          List.getElem?_map, List.getElem?_range hch]
      have hv : AUAFeatureUnitDictionary.channelHasVolumeControl
          { descriptorSubType := some (rd m (p + 2)), unitID := some (rd m (p + 3)),
            sourceID := some (rd m (p + 4)), controlSize := some 4, numControls := some n,
            controls := some ((List.range n).map (fun i => rd32 m (p + 5 + 4 * i) % 2 ^ 32)),
            stringIndex := some (rd m (p + rd m p - 1)) } ch
          = (((rd32 m (p + 5 + 4 * ch) % 2 ^ 32 % 2 ^ 32) &&& 12) == 12) := by
        simp [AUAFeatureUnitDictionary.channelHasVolumeControl, DJM03UnitDictionary.getControls,
          DJM03UnitDictionary.getNumControls, DJM03UnitDictionary.getControlSize,
          getDictionaryValue_UInt8, Nat.mod_eq_of_lt hn256, h1, hch, kVolumeBit,
          List.getElem?_map, List.getElem?_range hch]
      rw [hm, hv, land_three_eq, land_twelve_eq, hbit _ 0 (by decide), hbit _ 1 (by decide),
        hbit _ 2 (by decide), hbit _ 3 (by decide)]
      simp [hch]
    · have h1 : ¬ n ≥ ch + 1 := by omega
      simp [AUAFeatureUnitDictionary.channelHasMuteControl,
        AUAFeatureUnitDictionary.channelHasVolumeControl, DJM03UnitDictionary.getControls,
        DJM03UnitDictionary.getNumControls, DJM03UnitDictionary.getControlSize,
        getDictionaryValue_UInt8, Nat.mod_eq_of_lt hn256, h1, hch]

/-- C32 (witness): the record `featureUnitRecord_0200` with the bitmaps `0xF` and `0x5`. -/
theorem channelHasControl_of_FEATURE_UNIT_0200_witness :
    6 ≤ rd featureUnitRecord_0200 0 ∧ (rd featureUnitRecord_0200 0 - 6) / 4 = 2
      ∧ ∃ u, parseACRecord_0200.FEATURE_UNIT featureUnitRecord_0200 0 emptyControl_0200
          = { emptyControl_0200 with featureUnits := emptyControl_0200.featureUnits ++ [u] }
        ∧ u.unitID = some (rd featureUnitRecord_0200 (0 + 3)) ∧ u.controlSize = some 4
        ∧ u.numControls = some 2
        ∧ ∀ ch : Nat,
          (AUAFeatureUnitDictionary.channelHasMuteControl u ch = true
            ↔ ch < 2 ∧ (rd32 featureUnitRecord_0200 (0 + 5 + 4 * ch)).testBit 0 = true
                ∧ (rd32 featureUnitRecord_0200 (0 + 5 + 4 * ch)).testBit 1 = true)
          ∧ (AUAFeatureUnitDictionary.channelHasVolumeControl u ch = true
            ↔ ch < 2 ∧ (rd32 featureUnitRecord_0200 (0 + 5 + 4 * ch)).testBit 2 = true
                ∧ (rd32 featureUnitRecord_0200 (0 + 5 + 4 * ch)).testBit 3 = true) :=
  ⟨by decide, by decide,
    channelHasControl_of_FEATURE_UNIT_0200 featureUnitRecord_0200 0 emptyControl_0200 2
      (by decide) (by decide)⟩

/-- The example of the bitmaps `0xF` and `0x5`: the feature unit parsed from
`featureUnitRecord_0200` has the mute and the volume control on the master channel; on
channel 1, where both are present but read-only, and on channel 2, which has no bitmap, it
has neither. -/
theorem channelHasControl_featureUnitRecord_0200 :
    ((parseACRecord_0200.FEATURE_UNIT featureUnitRecord_0200 0
        emptyControl_0200).featureUnits.map (fun u =>
      [AUAFeatureUnitDictionary.channelHasMuteControl u 0,
       AUAFeatureUnitDictionary.channelHasVolumeControl u 0,
       AUAFeatureUnitDictionary.channelHasMuteControl u 1,
       AUAFeatureUnitDictionary.channelHasVolumeControl u 1,
       AUAFeatureUnitDictionary.channelHasMuteControl u 2,
       AUAFeatureUnitDictionary.channelHasVolumeControl u 2]))
      = [[true, true, false, false, false, false]] := by
  decide

/-! ## The feature unit behind an output terminal -/

/-- C35: in a control dictionary with fewer than 256 output terminals and fewer than 256
feature units, all with an ID, let `outputTerminal` be the first output terminal with the ID
`outputTerminalID` and `sourceID` its source ID.  When `sourceID` is 0 or is the ID of a
feature unit, `getFeatureUnitIDConnectedToOutputTerminal` returns success with the feature
unit ID 0, not with `sourceID`. -/
theorem getFeatureUnitIDConnectedToOutputTerminal_zero (c : DJM03ControlDictionary)
    (outputTerminalID sourceID : Nat) (outputTerminal : DJM03UnitDictionary)
    (hidO : ∀ u ∈ c.outputTerminals, u.getUnitID ≠ none) (hlenO : c.outputTerminals.length < 256)
    (hidF : ∀ u ∈ c.featureUnits, u.getUnitID ≠ none) (hlenF : c.featureUnits.length < 256)
    (hterminal : c.outputTerminals.find? (fun u => u.getUnitID == some outputTerminalID)
      = some outputTerminal)
    (hsource : outputTerminal.getSourceID = some sourceID)
    (hunit : sourceID = 0 ∨ ∃ u ∈ c.featureUnits, u.getUnitID = some sourceID) :
    getFeatureUnitIDConnectedToOutputTerminal c outputTerminalID
      = some (.kIOReturnSuccess, 0) := by
  rw [getFeatureUnitIDConnectedToOutputTerminal_eq c outputTerminalID hidO hlenO hidF hlenF,
    hterminal]
  simp only [hsource]
  rw [if_neg]
  rintro ⟨h0, hnone⟩
  rcases hunit with h | ⟨u, hu, hg⟩
  · exact h0 h
  · rw [List.find?_eq_none] at hnone
    exact hnone u hu (by simp [hg])

/-- C35 at `chainControl_0200`: the source of the output terminal 3 is the feature unit 2,
and the feature unit ID returned for the terminal is 0. -/
theorem getFeatureUnitIDConnectedToOutputTerminal_zero_witness :
    (∃ u ∈ chainControl_0200.featureUnits, u.getUnitID = some 2)
      ∧ getFeatureUnitIDConnectedToOutputTerminal chainControl_0200 3
        = some (.kIOReturnSuccess, 0) :=
  ⟨⟨_, List.mem_singleton.2 rfl, by decide⟩,
    getFeatureUnitIDConnectedToOutputTerminal_zero chainControl_0200 3 2
      { descriptorSubType := some 3, unitID := some 3, terminalType := some 0x0301,
        assocTerminal := some 0, sourceID := some 2, clockSourceID := some 1,
        stringIndex := some 0 }
      (by decide) (by decide) (by decide) (by decide) (by decide) (by decide)
      (Or.inr ⟨_, List.mem_singleton.2 rfl, by decide⟩)⟩

/-! ## The lookup of a stream dictionary -/

/-- One unfolding of `streamDictionaryLoop` with fuel left, for stream dictionaries, whose
accessors do not fail. -/
theorem streamDictionaryLoop_succ (streams : List DJM03StreamDictionary)
    (interfaceNum altSettingID fuel index : Nat) (h : index < streams.length) :
    streamDictionaryLoop streams interfaceNum altSettingID (fuel + 1) index
      = if interfaceNum = streams[index].interfaceNumber % 256
            ∧ altSettingID = streams[index].alternateSetting % 256 then
          some (some streams[index])
        else streamDictionaryLoop streams interfaceNum altSettingID fuel ((index + 1) % 256) := by
  rw [streamDictionaryLoop, if_pos h, List.getElem?_eq_getElem h]
  rfl

/-- Beyond the end of the array the loop gives `NULL`, whatever the fuel. -/
theorem streamDictionaryLoop_of_length_le (streams : List DJM03StreamDictionary)
    (interfaceNum altSettingID fuel index : Nat) (h : streams.length ≤ index) :
    streamDictionaryLoop streams interfaceNum altSettingID fuel index = some none := by
  unfold streamDictionaryLoop
  rw [if_neg (by omega)]

/-- In an array of fewer than 256 stream dictionaries the loop gives the first one with the
key from the index on, and `NULL` when there is none. -/
theorem streamDictionaryLoop_eq_find (streams : List DJM03StreamDictionary)
    (interfaceNum altSettingID : Nat) (hlen : streams.length < 256) :
    ∀ k index fuel, index + k = 256 → k ≤ fuel →
      streamDictionaryLoop streams interfaceNum altSettingID fuel index
        = some ((streams.drop index).find? (fun s =>
            decide (interfaceNum = s.interfaceNumber % 256
              ∧ altSettingID = s.alternateSetting % 256))) := by
  intro k
  induction k with
  | zero =>
    intro index fuel hk _
    rw [streamDictionaryLoop_of_length_le _ _ _ _ _ (by omega),
      List.drop_of_length_le (by omega)]
    rfl
  | succ k ih =>
    intro index fuel hk hfuel
    obtain ⟨fuel, rfl⟩ : ∃ f, fuel = f + 1 := ⟨fuel - 1, by omega⟩
    by_cases hlt : index < streams.length
    · rw [streamDictionaryLoop_succ _ _ _ _ _ hlt, List.drop_eq_getElem_cons hlt]
      by_cases heq : interfaceNum = streams[index].interfaceNumber % 256
          ∧ altSettingID = streams[index].alternateSetting % 256
      · rw [if_pos heq, List.find?_cons_of_pos]
        exact decide_eq_true heq
      · rw [if_neg heq, List.find?_cons_of_neg, Nat.mod_eq_of_lt (by omega)]
        · exact ih (index + 1) fuel (by omega) (by omega)
        · simpa using heq
    · rw [streamDictionaryLoop_of_length_le _ _ _ _ _ (by omega),
        List.drop_of_length_le (by omega)]
      rfl

/-- With fewer than 256 stream dictionaries `getStreamDictionary` ends, and returns the
first stream dictionary whose interface number and alternate setting are the key, or `NULL`
when there is none. -/
theorem getStreamDictionary_eq_find (cfg : DJM03ConfigurationDictionary)
    (interfaceNum altSettingID : Nat) (hlen : cfg.streamDictionaries.length < 256) :
    getStreamDictionary cfg interfaceNum altSettingID
      = some (cfg.streamDictionaries.find? (fun s =>
          decide (interfaceNum % 256 = s.interfaceNumber % 256
            ∧ altSettingID % 256 = s.alternateSetting % 256))) :=
  streamDictionaryLoop_eq_find _ _ _ hlen 256 0 256 rfl (le_refl _)

/-- The index passes each of the first 256 entries, none of which has the key: the loop runs
out of any fuel. -/
theorem streamDictionaryLoop_none_of_passes (streams : List DJM03StreamDictionary)
    (interfaceNum altSettingID : Nat)
    (hp : ∀ j, j < 256 → ∃ s, streams[j]? = some s
      ∧ ¬ (interfaceNum = s.interfaceNumber % 256 ∧ altSettingID = s.alternateSetting % 256)) :
    ∀ fuel index, index < 256 →
      streamDictionaryLoop streams interfaceNum altSettingID fuel index = none := by
  intro fuel
  induction fuel with
  | zero =>
    intro index hi
    obtain ⟨s, h1, _⟩ := hp index hi
    have hlt : index < streams.length := (List.getElem?_eq_some_iff.1 h1).1
    unfold streamDictionaryLoop
    rw [if_pos hlt]
  | succ fuel ih =>
    intro index hi
    obtain ⟨s, h1, h2⟩ := hp index hi
    have hlt : index < streams.length := (List.getElem?_eq_some_iff.1 h1).1
    rw [List.getElem?_eq_getElem hlt] at h1
    cases h1
    rw [streamDictionaryLoop_succ _ _ _ _ _ hlt, if_neg h2]
    exact ih _ (Nat.mod_lt _ (by decide))

/-- When the fuel 256 runs out, the index has passed each of the first 256 entries. -/
theorem passes_of_streamDictionaryLoop_none (streams : List DJM03StreamDictionary)
    (interfaceNum altSettingID : Nat) :
    ∀ k index, index + k = 256 →
      streamDictionaryLoop streams interfaceNum altSettingID k index = none →
      ∀ j, index ≤ j → j < 256 → ∃ s, streams[j]? = some s
        ∧ ¬ (interfaceNum = s.interfaceNumber % 256
          ∧ altSettingID = s.alternateSetting % 256) := by
  intro k
  induction k with
  | zero => intro index hk _ j h1 h2; omega
  | succ k ih =>
    intro index hk h j h1 h2
    by_cases hlt : index < streams.length
    · rw [streamDictionaryLoop_succ _ _ _ _ _ hlt] at h
      by_cases heq : interfaceNum = streams[index].interfaceNumber % 256
          ∧ altSettingID = streams[index].alternateSetting % 256
      · rw [if_pos heq] at h; cases h
      · rw [if_neg heq] at h
        rcases Nat.eq_or_lt_of_le h1 with h3 | h3
        · subst h3
          exact ⟨_, List.getElem?_eq_getElem hlt, heq⟩
        · rw [Nat.mod_eq_of_lt (by omega)] at h
          exact ih (index + 1) (by omega) h j h3 h2
    · rw [streamDictionaryLoop_of_length_le _ _ _ _ _ (by omega)] at h; cases h

/-- A lookup that runs out of its fuel 256 runs out of any fuel: the loop does not end. -/
theorem streamDictionaryLoop_none_forever (cfg : DJM03ConfigurationDictionary)
    (interfaceNum altSettingID : Nat)
    (h : getStreamDictionary cfg interfaceNum altSettingID = none) (fuel : Nat) :
    streamDictionaryLoop cfg.streamDictionaries (interfaceNum % 256) (altSettingID % 256)
      fuel 0 = none :=
  streamDictionaryLoop_none_of_passes _ _ _
    (fun j hj => passes_of_streamDictionaryLoop_none _ _ _ 256 0 rfl h j (Nat.zero_le _) hj)
    fuel 0 (by decide)

set_option maxRecDepth 100000 in
/-- C39: in the configuration dictionary that the 256 alternate settings 0 .. 255 of the
stream interface 1 leave, no stream dictionary has the interface number 2, and
`getStreamDictionary (2, 0)` does not return `NULL`: the loop, whose 8-bit index wraps from
255 to 0 and so stays below the count 256, runs out of any fuel. -/
theorem getStreamDictionary_manyStreams :
    manyStreams.streamDictionaries.length = 256
      ∧ (∀ s ∈ manyStreams.streamDictionaries, s.getInterfaceNumber = some 1)
      ∧ getStreamDictionary manyStreams 2 0 = none
      ∧ ∀ fuel, streamDictionaryLoop manyStreams.streamDictionaries 2 0 fuel 0 = none := by
  have h : getStreamDictionary manyStreams 2 0 = none := by decide!
  exact ⟨by decide!, by decide!, h, streamDictionaryLoop_none_forever manyStreams 2 0 h⟩

/-! ## Rates added twice -/

/-- The outer loop of `addSampleRatesToStreamDictionary` keeps the array of rates free of
repetitions, when the pointer `existingSampleRates` is set and the candidate numbers are
32-bit values. -/
theorem addSampleRates_loop_nodup (sampleRates : List Nat)
    (h32 : ∀ c ∈ sampleRates, c < 2 ^ 32) :
    ∀ fuel sampleRateIndex s b s1, s.sampleRates.Nodup →
      addSampleRates_loop sampleRates true fuel sampleRateIndex s = some (b, s1) →
      s1.sampleRates.Nodup := by
  intro fuel
  induction fuel with
  | zero =>
    intro i s b s1 hnd h
    unfold addSampleRates_loop at h
    by_cases hlt : i < sampleRates.length
    · rw [if_pos hlt] at h; cases h
    · rw [if_neg hlt] at h; cases h; exact hnd
  | succ fuel ih =>
    intro i s b s1 hnd h
    unfold addSampleRates_loop at h
    by_cases hlt : i < sampleRates.length
    · rw [if_pos hlt] at h
      simp only [if_true] at h
      rcases hd : isDuplicateRate_loop s.sampleRates (sampleRates.getD i 0) 65536 0
        with _ | _ | _
      · rw [hd] at h; cases h
      · rw [hd] at h
        simp only at h
        have hc32 : sampleRates.getD i 0 % 2 ^ 32 = sampleRates.getD i 0 := by
          apply Nat.mod_eq_of_lt
          rw [List.getD_eq_getElem _ _ hlt]
          exact h32 _ (List.getElem_mem hlt)
        by_cases hz : sampleRates.getD i 0 % 2 ^ 32 ≠ 0
        · rw [if_pos hz] at h
          rcases hf : averageFrameSizeFits s (sampleRates.getD i 0 % 2 ^ 32) with _ | _ | _ | _
          · rw [hf] at h; cases h
          · rw [hf] at h; cases h; exact hnd
          · rw [hf] at h
            exact ih _ s b s1 hnd h
          · rw [hf] at h
            have hadd : (s.addSampleRate (sampleRates.getD i 0 % 2 ^ 32)).sampleRates
                = s.sampleRates ++ [sampleRates.getD i 0] := by
              simp only [DJM03StreamDictionary.addSampleRate, OSNumber_withNumber, hc32]
            refine ih _ _ b s1 ?_ h
            rw [hadd]
            refine List.Nodup.append hnd (List.nodup_singleton _) ?_
            intro x hx hx1
            rw [List.mem_singleton] at hx1
            subst hx1
            exact not_mem_of_isDuplicateRate_loop _ _ _ hd hx
        · rw [if_neg hz] at h
          exact ih _ s b s1 hnd h
      · rw [hd] at h
        exact ih _ s b s1 hnd h
    · rw [if_neg hlt] at h; cases h; exact hnd

/-- A stream dictionary that has rates, none twice, has no rate twice after
`addSampleRatesToStreamDictionary` with candidate numbers of 32 bits. -/
theorem addSampleRatesToStreamDictionary_nodup (s : DJM03StreamDictionary)
    (sampleRates : List Nat) (result : IOReturn) (s1 : DJM03StreamDictionary)
    (hne : s.sampleRates ≠ []) (hnd : s.sampleRates.Nodup)
    (h32 : ∀ c ∈ sampleRates, c < 2 ^ 32)
    (h : s.addSampleRatesToStreamDictionary (some sampleRates) = some (result, s1)) :
    s1.sampleRates.Nodup := by
  unfold DJM03StreamDictionary.addSampleRatesToStreamDictionary at h
  simp only [hne, ne_eq, not_false_eq_true, decide_True] at h
  rcases hl : addSampleRates_loop sampleRates true 65536 0 s with _ | ⟨b, s2⟩
  · rw [hl] at h; cases h
  · rw [hl] at h
    have h2 := addSampleRates_loop_nodup sampleRates h32 _ _ _ _ _ hnd hl
    cases b
    · cases h; exact h2
    · cases h; exact h2

/-- C38: the stream dictionary `unratedStream` has no rate, and after
`addSampleRatesToStreamDictionary` with the candidate numbers 48000 and 48000 it has the
rates 48000 and 48000, and the count 2: the pointer `existingSampleRates` is `NULL` during
the whole call, and no candidate is compared with the rates added before it. -/
theorem addSampleRatesToStreamDictionary_unratedStream :
    unratedStream.sampleRates = []
      ∧ unratedStream.addSampleRatesToStreamDictionary (some [48000, 48000])
        = some (.kIOReturnSuccess,
            { unratedStream with sampleRates := [48000, 48000], numSampleRates := some 2 })
      ∧ ¬ [48000, 48000].Nodup := by
  refine ⟨rfl, by decide!, by decide⟩

/-! ## The stored number of stream interfaces -/

/-- The case `HEADER` of the UAC 1.0 parser stores `bInCollection` as the number of stream
interfaces and a list of that many interface numbers. -/
theorem HEADER_numStreamInterfaces (m : List Nat) (p : Nat) (c : DJM03ControlDictionary) :
    ∃ c1 l, parseACRecord.HEADER m p c = some c1
      ∧ c1.numStreamInterfaces = some (rd m (p + 7))
      ∧ c1.streamInterfaceNumbers = some l ∧ l.length = rd m (p + 7) :=
  ⟨_, _, rfl, rfl, rfl, by simp [rdBytes]⟩

/-- An audio-function interface association with a count of at least 1 stores the count less
one as the number of stream interfaces and a list of that many interface numbers. -/
theorem parseInterfaceAssociationDescriptor_numStreamInterfaces (m : List Nat) (q : Nat)
    (c : DJM03ControlDictionary)
    (hlen : rd m q ≠ 0) (hty : rd m (q + 1) = INTERFACE_ASSOCIATION)
    (hcls : rd m (q + 4) = AUDIO_FUNCTION) (hsub : rd m (q + 5) = FUNCTION_SUBCLASS_UNDEFINED)
    (hpro : rd m (q + 6) = AF_VERSION_02_00) (hk : 1 ≤ rd m (q + 3)) :
    ∃ l, (parseInterfaceAssociationDescriptor m (some q) c).numStreamInterfaces
        = some (rd m (q + 3) - 1)
      ∧ (parseInterfaceAssociationDescriptor m (some q) c).streamInterfaceNumbers = some l
      ∧ l.length = rd m (q + 3) - 1 := by
  rw [parseInterfaceAssociationDescriptor_eq m q c hlen hty hcls hsub hpro hk]
  exact ⟨_, rfl, rfl, by simp⟩

/-- Replacing the stream-interface-number array of the first control dictionary leaves the
stored number of stream interfaces as it is: the MIDISTREAMING branch, which changes the
dictionary only in this way, does not store a new count. -/
theorem setFirstStreamInterfaceNumbers_numStreamInterfaces (cfg : DJM03ConfigurationDictionary)
    (a : List Nat) :
    (setFirstStreamInterfaceNumbers cfg a).controlDictionaries.map
        (fun c => c.numStreamInterfaces)
      = cfg.controlDictionaries.map (fun c => c.numStreamInterfaces) := by
  unfold setFirstStreamInterfaceNumbers
  rcases h : cfg.controlDictionaries with _ | ⟨c, rest⟩
  · simp only [h]
  · rfl

/-- C37: `init` on `midiLastDescriptor`, whose header lists the stream interfaces 2 and 1
and whose interface 1 is a MIDISTREAMING interface, returns true, and
`getControlledStreamNumbers` then gives the list `[2]` of length 1 with the number of
controlled streams 2: the prune removes the entry 1 from the list and leaves the stored
number as the header gave it. -/
theorem getControlledStreamNumbers_midiLastDescriptor :
    (init (some midiLastDescriptor) 0).1 = true
      ∧ getControlledStreamNumbers (init (some midiLastDescriptor) 0).2
        = (.kIOReturnSuccess, some [2], 2) := by
  exact ⟨by decide!, by decide!⟩

/-! ## The stream dictionaries and the records the walk visits -/

/-- Adding rates leaves the interface number of a stream dictionary as it is. -/
theorem foldl_addSampleRate_interfaceNumber (f : Nat → Nat) :
    ∀ (l : List Nat) (s : DJM03StreamDictionary),
      (l.foldl (fun s i => s.addSampleRate (f i)) s).interfaceNumber = s.interfaceNumber := by
  intro l
  induction l with
  | nil => intro s; rfl
  | cons i rest ih =>
    intro s
    rw [List.foldl_cons, ih]
    rfl

/-- The rate loops of a FORMAT_TYPE record leave the interface number as it is. -/
theorem addSampleRates_interfaceNumber (m : List Nat) (p numSampleFreqs : Nat)
    (s : DJM03StreamDictionary) :
    (addSampleRates m p numSampleFreqs s).interfaceNumber = s.interfaceNumber := by
  unfold addSampleRates
  split <;> exact foldl_addSampleRate_interfaceNumber _ _ _

/-- A record of a UAC 1.0 stream interface leaves the interface number as it is. -/
theorem parseASRecord_interfaceNumber (m : List Nat) (p : Nat) (s : DJM03StreamDictionary) :
    (parseASRecord m p s).1.interfaceNumber = s.interfaceNumber := by
  unfold parseASRecord
  simp only
  split_ifs <;> first | rfl | exact addSampleRates_interfaceNumber _ _ _ _

/-- The loop of the UAC 1.0 stream sub-parser leaves the interface number as it is. -/
theorem parseASInterfaceDescriptor_loop_interfaceNumber (m : List Nat) (totalLength : Nat) :
    ∀ (fuel ptr parsedLength : Nat) (s : DJM03StreamDictionary) (r : Nat × Nat × DJM03StreamDictionary),
      parseASInterfaceDescriptor_loop m totalLength fuel ptr parsedLength s = some r →
      r.2.2.interfaceNumber = s.interfaceNumber := by
  intro fuel
  induction fuel with
  | zero =>
    intro ptr pl s r h
    unfold parseASInterfaceDescriptor_loop at h
    split at h
    · cases h
    · cases h; rfl
  | succ fuel ih =>
    intro ptr pl s r h
    unfold parseASInterfaceDescriptor_loop at h
    split at h
    · have hn := parseASRecord_interfaceNumber m ptr s
      rcases hr : parseASRecord m ptr s with ⟨s1, b⟩
      rw [hr] at h hn
      cases b
      · simp only [Option.some.injEq] at h
        subst h
        exact hn
      · simp only at h
        rw [ih _ _ _ _ h]
        exact hn
    · cases h; rfl

/-- The UAC 1.0 stream sub-parser leaves the interface number as it is. -/
theorem parseASInterfaceDescriptor_interfaceNumber (m : List Nat)
    (fuel ptr parsedLength totalLength : Nat) (s : DJM03StreamDictionary)
    (r : Nat × Nat × DJM03StreamDictionary)
    (h : parseASInterfaceDescriptor m fuel ptr parsedLength totalLength s = some r) :
    r.2.2.interfaceNumber = s.interfaceNumber := by
  unfold parseASInterfaceDescriptor at h
  split at h
  · cases h; rfl
  · exact parseASInterfaceDescriptor_loop_interfaceNumber m totalLength _ _ _ _ _ h

/-- The ENDPOINT case of the UAC 2.0 stream sub-parser leaves the interface number as it
is. -/
theorem parseASEndpoint_0200_interfaceNumber (m : List Nat) (p : Nat) (st : ASState_0200) :
    (parseASEndpoint_0200 m p st).s.interfaceNumber = st.s.interfaceNumber := by
  unfold parseASEndpoint_0200
  simp only
  split
  · split
    · split_ifs <;> rfl
    · split_ifs <;> rfl
  · split_ifs <;> rfl

/-- A record of a UAC 2.0 stream interface leaves the interface number as it is. -/
theorem parseASRecord_0200_interfaceNumber (m : List Nat) (p : Nat) (st : ASState_0200) :
    (parseASRecord_0200 m p st).1.s.interfaceNumber = st.s.interfaceNumber := by
  unfold parseASRecord_0200
  simp only
  split_ifs <;> first | rfl | exact parseASEndpoint_0200_interfaceNumber _ _ _

/-- The loop of the UAC 2.0 stream sub-parser leaves the interface number as it is. -/
theorem parseASInterfaceDescriptor_0200_loop_interfaceNumber (m : List Nat)
    (totalLength : Nat) :
    ∀ (fuel ptr parsedLength : Nat) (st : ASState_0200)
      (r : Nat × Nat × DJM03StreamDictionary),
      parseASInterfaceDescriptor_0200_loop m totalLength fuel ptr parsedLength st = some r →
      r.2.2.interfaceNumber = st.s.interfaceNumber := by
  intro fuel
  induction fuel with
  | zero =>
    intro ptr pl st r h
    unfold parseASInterfaceDescriptor_0200_loop at h
    split at h
    · cases h
    · cases h; rfl
  | succ fuel ih =>
    intro ptr pl st r h
    unfold parseASInterfaceDescriptor_0200_loop at h
    split at h
    · have hn := parseASRecord_0200_interfaceNumber m ptr st
      rcases hr : parseASRecord_0200 m ptr st with ⟨st1, b⟩
      rw [hr] at h hn
      cases b
      · simp only [Option.some.injEq] at h
        subst h
        exact hn
      · simp only at h
        rw [ih _ _ _ _ h]
        exact hn
    · cases h; rfl

/-- The UAC 2.0 stream sub-parser leaves the interface number as it is. -/
theorem parseASInterfaceDescriptor_0200_interfaceNumber (m : List Nat)
    (fuel ptr parsedLength totalLength : Nat) (s : DJM03StreamDictionary)
    (r : Nat × Nat × DJM03StreamDictionary)
    (h : parseASInterfaceDescriptor_0200 m fuel ptr parsedLength totalLength s = some r) :
    r.2.2.interfaceNumber = s.interfaceNumber := by
  unfold parseASInterfaceDescriptor_0200 at h
  split at h
  · cases h; rfl
  · exact parseASInterfaceDescriptor_0200_loop_interfaceNumber m totalLength _ _ _ _ _ h

/-- Replacing the last stream dictionary by one with the same interface number leaves the
list of the interface numbers as it is. -/
theorem streamInterfaceNumbersOf_setLastStream (cfg : DJM03ConfigurationDictionary)
    (sd s : DJM03StreamDictionary) (hl : cfg.streamDictionaries.getLast? = some sd)
    (hs : s.interfaceNumber = sd.interfaceNumber) :
    streamInterfaceNumbersOf (setLastStream cfg s) = streamInterfaceNumbersOf cfg := by
  have h := List.dropLast_append_getLast? sd (by rw [hl]; exact rfl)
  unfold streamInterfaceNumbersOf setLastStream
  simp only
  conv => rhs; rw [← h]
  simp only [List.map_append, List.map_cons, List.map_nil, hs]

/-- Replacing the last control dictionary leaves the stream dictionaries as they are. -/
theorem setLastControl_streamDictionaries (cfg : DJM03ConfigurationDictionary)
    (c : DJM03ControlDictionary) :
    (setLastControl cfg c).streamDictionaries = cfg.streamDictionaries := rfl

/-- Replacing the stream-interface-number array of the first control dictionary leaves the
stream dictionaries as they are. -/
theorem setFirstStreamInterfaceNumbers_streamDictionaries (cfg : DJM03ConfigurationDictionary)
    (a : List Nat) :
    (setFirstStreamInterfaceNumbers cfg a).streamDictionaries = cfg.streamDictionaries := by
  unfold setFirstStreamInterfaceNumbers
  split <;> rfl

/-- The part of the AUDIOCONTROL branch behind the control body leaves the stream
dictionaries as they are. -/
theorem afterControlBody_streams (m : List Nat) (w : WalkState) (ptr parsedLength : Nat)
    (c : DJM03ControlDictionary) (w1 : WalkState)
    (h : (afterControlBody m w ptr parsedLength c).state? = some w1) :
    w1.cfg.streamDictionaries = w.cfg.streamDictionaries := by
  unfold afterControlBody at h
  rcases hg : getControlledStreamNumbers (setLastControl w.cfg c) with ⟨r, a, n⟩
  simp only [hg] at h
  cases r
  · simp only at h
    split at h
    · simp only [Step.state?, Option.some.injEq] at h
      subst h
      rfl
    · simp only [Step.state?, Option.some.injEq] at h
      subst h
      rfl
  · simp only [Step.state?, Option.some.injEq] at h
    subst h
    rfl

/-- The AUDIOCONTROL branch leaves the stream dictionaries as they are. -/
theorem audioControlBranch_streams (m : List Nat) (totalLength interfaceProtocol : Nat)
    (w w1 : WalkState)
    (h : (audioControlBranch m totalLength interfaceProtocol w).state? = some w1) :
    w1.cfg.streamDictionaries = w.cfg.streamDictionaries := by
  unfold audioControlBranch at h
  rcases hl : w.cfg.controlDictionaries.getLast? with _ | cd
  · rw [hl] at h
    simp only [Step.state?, Option.some.injEq] at h
    subst h
    rfl
  · rw [hl] at h
    simp only at h
    split at h
    · split at h
      · cases h
      · have := afterControlBody_streams m _ _ _ _ w1 h
        exact this
    · split at h
      · split at h
        · cases h
        · have := afterControlBody_streams m _ _ _ _ w1 h
          exact this
      · simp only [Step.state?, Option.some.injEq] at h
        subst h
        rfl

/-- The dispatch of a stream interface to its sub-parser leaves the interface numbers of the
stream dictionaries as they are. -/
theorem dispatchStream_streams (m : List Nat) (totalLength interfaceProtocol : Nat)
    (w w1 : WalkState)
    (h : (dispatchStream m totalLength interfaceProtocol w).state? = some w1) :
    streamInterfaceNumbersOf w1.cfg = streamInterfaceNumbersOf w.cfg := by
  unfold dispatchStream at h
  rcases hl : w.cfg.streamDictionaries.getLast? with _ | sd
  · rw [hl] at h
    simp only [Step.state?, Option.some.injEq] at h
    subst h
    rfl
  · rw [hl] at h
    simp only at h
    split at h
    · rcases hp : parseASInterfaceDescriptor m (m.length + 1) w.theInterfacePtr w.parsedLength
        totalLength sd with _ | ⟨ptr, parsedLength, s⟩
      · rw [hp] at h; cases h
      · rw [hp] at h
        simp only [Step.state?, Option.some.injEq] at h
        subst h
        exact streamInterfaceNumbersOf_setLastStream _ sd s hl
          (parseASInterfaceDescriptor_interfaceNumber m _ _ _ _ _ _ hp)
    · split at h
      · rcases hp : parseASInterfaceDescriptor_0200 m (m.length + 1) w.theInterfacePtr
          w.parsedLength totalLength sd with _ | ⟨ptr, parsedLength, s⟩
        · rw [hp] at h; cases h
        · rw [hp] at h
          simp only [Step.state?, Option.some.injEq] at h
          subst h
          exact streamInterfaceNumbersOf_setLastStream _ sd s hl
            (parseASInterfaceDescriptor_0200_interfaceNumber m _ _ _ _ _ _ hp)
      · simp only [Step.state?, Option.some.injEq] at h
        subst h
        rfl

/-- The end of the AUDIOSTREAMING branch leaves the dictionary as it is. -/
theorem countInterface_cfg (thisInterfaceNumber : Nat) (w w1 : WalkState)
    (h : (countInterface thisInterfaceNumber w).state? = some w1) : w1.cfg = w.cfg := by
  unfold countInterface at h
  split at h
  · simp only at h
    split at h
    · simp only [Step.state?, Option.some.injEq] at h
      subst h
      rfl
    · simp only [Step.state?, Option.some.injEq] at h
      subst h
      rfl
  · simp only [Step.state?, Option.some.injEq] at h
    subst h
    rfl

/-- The AUDIOSTREAMING branch leaves the interface numbers of the stream dictionaries as
they are. -/
theorem audioStreamingBranch_streams (m : List Nat) (totalLength thisInterfaceNumber
    interfaceProtocol : Nat) (w w1 : WalkState)
    (h : (audioStreamingBranch m totalLength thisInterfaceNumber interfaceProtocol w).state?
      = some w1) :
    streamInterfaceNumbersOf w1.cfg = streamInterfaceNumbersOf w.cfg := by
  unfold audioStreamingBranch at h
  rcases hg : getControlledStreamNumbers w.cfg with ⟨r, a, n⟩
  rw [hg] at h
  cases r
  · cases a
    · simp only [Step.state?, Option.some.injEq] at h
      subst h
      rfl
    · rename_i nums
      simp only at h
      rcases hf : findStreamInterface nums thisInterfaceNumber (List.range n) with _ | found
      · rw [hf] at h
        simp only [Step.state?, Option.some.injEq] at h
        subst h
        rfl
      · rw [hf] at h
        simp only at h
        cases found
        · simp only [Bool.false_eq_true, if_false] at h
          rw [countInterface_cfg _ _ _ h]
        · simp only [if_true] at h
          have hd := dispatchStream_streams m totalLength interfaceProtocol
            { w with result := .kIOReturnSuccess, numStreamInterfaces := n }
          rcases hds : dispatchStream m totalLength interfaceProtocol
            { w with result := .kIOReturnSuccess, numStreamInterfaces := n } with w2 | w2 | w2 | _
          · rw [hds] at h hd
            simp only at h
            rw [countInterface_cfg _ _ _ h]
            exact hd w2 rfl
          · rw [hds] at h hd
            simp only [Step.state?, Option.some.injEq] at h
            subst h
            exact hd _ rfl
          · rw [hds] at h hd
            simp only [Step.state?, Option.some.injEq] at h
            subst h
            exact hd _ rfl
          · rw [hds] at h
            cases h
  · simp only [Step.state?, Option.some.injEq] at h
    subst h
    rfl

/-- The MIDISTREAMING branch leaves the stream dictionaries as they are. -/
theorem midiStreamingBranch_streams (m : List Nat) (thisInterfaceNumber : Nat)
    (w w1 : WalkState) (h : (midiStreamingBranch m thisInterfaceNumber w).state? = some w1) :
    w1.cfg.streamDictionaries = w.cfg.streamDictionaries := by
  unfold midiStreamingBranch at h
  split at h
  · simp only [Step.state?, Option.some.injEq] at h
    subst h
    rfl
  · rcases hh : (w.cfg.controlDictionaries.head?).bind (fun c => c.streamInterfaceNumbers)
      with _ | nums
    · rw [hh] at h
      simp only [Step.state?, Option.some.injEq] at h
      subst h
      rfl
    · rw [hh] at h
      simp only at h
      rcases hpr : pruneStreamInterface thisInterfaceNumber (List.range w.numStreamInterfaces)
        nums with ⟨a, b⟩
      rw [hpr] at h
      cases b
      · simp only [Step.state?, Option.some.injEq] at h
        subst h
        exact setFirstStreamInterfaceNumbers_streamDictionaries _ _
      · simp only [Step.state?, Option.some.injEq] at h
        subst h
        exact setFirstStreamInterfaceNumbers_streamDictionaries _ _

/-- The branch for another AUDIOCONTROL interface leaves the dictionary as it is. -/
theorem otherControlBranch_cfg (m : List Nat) (interfaceProtocol : Nat) (w w1 : WalkState)
    (h : (otherControlBranch m interfaceProtocol w).state? = some w1) : w1.cfg = w.cfg := by
  unfold otherControlBranch at h
  simp only at h
  split at h
  · simp only [Step.state?, Option.some.injEq] at h
    subst h
    rfl
  · split at h
    · simp only [Step.state?, Option.some.injEq] at h
      subst h
      rfl
    · simp only [Step.state?, Option.some.injEq] at h
      subst h
      rfl

/-- The stream dictionaries after `parseInterfaceDescriptor` on a record with a length other
than 0: one more, with the interface number of the record, when the subclass is
AUDIOSTREAMING. -/
theorem parseInterfaceDescriptor_streams (m : List Nat) (cfg : DJM03ConfigurationDictionary)
    (p a b c : Nat) (h : rd m p ≠ 0) :
    streamInterfaceNumbersOf (parseInterfaceDescriptor m cfg p a b c).2.1
      = streamInterfaceNumbersOf cfg
        ++ (if rd m (p + 6) = AUDIOSTREAMING then [rd m (p + 2)] else []) := by
  unfold parseInterfaceDescriptor
  simp only [h, if_false]
  by_cases h2 : AUDIOSTREAMING = rd m (p + 6)
  · have h1 : ¬ AUDIOCONTROL = rd m (p + 6) := by rw [← h2]; decide
    rw [if_neg h1, if_pos h2, if_pos h2.symm]
    simp [streamInterfaceNumbersOf]
  · have h3 : ¬ rd m (p + 6) = AUDIOSTREAMING := fun h => h2 h.symm
    rw [if_neg h3, List.append_nil]
    by_cases h1 : AUDIOCONTROL = rd m (p + 6)
    · rw [if_pos h1]
      split <;> rfl
    · rw [if_neg h1, if_neg h2]

/-- One iteration of the loop body on a record with a length other than 0, however it ends:
the list of the interface numbers of the stream dictionaries grows by the interface number
of the record when the record is an AUDIO-class AUDIOSTREAMING interface record, and stays
as it is otherwise. -/
theorem loopBody_streams (m : List Nat) (totalLength : Nat) (w w1 : WalkState)
    (hne : rd m w.theInterfacePtr ≠ 0)
    (h : (loopBody m totalLength w).state? = some w1) :
    streamInterfaceNumbersOf w1.cfg
      = streamInterfaceNumbersOf w.cfg
        ++ (if isAudioStreamingInterfaceAt m w.theInterfacePtr = true then
            [rd m (w.theInterfacePtr + 2)] else []) := by
  unfold loopBody at h
  simp only at h
  by_cases hIA : INTERFACE_ASSOCIATION = rd m (w.theInterfacePtr + 1)
  · have hnot : isAudioStreamingInterfaceAt m w.theInterfacePtr = false := by
      simp [isAudioStreamingInterfaceAt, ← hIA, INTERFACE_ASSOCIATION, INTERFACE]
    rw [if_pos hIA] at h
    simp only [Step.state?, Option.some.injEq] at h
    subst h
    rw [hnot]
    simp only [Bool.false_eq_true, if_false, List.append_nil]
    split <;> rfl
  · rw [if_neg hIA] at h
    by_cases hI : INTERFACE = rd m (w.theInterfacePtr + 1)
    · rw [if_pos hI] at h
      by_cases hA : AUDIO = rd m (w.theInterfacePtr + 5)
      · rw [if_pos hA] at h
        have hs := parseInterfaceDescriptor_streams m w.cfg w.theInterfacePtr 0 0 0 hne
        obtain ⟨cfg1, he, hctl⟩ := parseInterfaceDescriptor_eq m w.cfg w.theInterfacePtr 0 0 0 hne
        rw [he] at hs
        simp only [he] at h
        simp only at hs
        have hiff : (isAudioStreamingInterfaceAt m w.theInterfacePtr = true)
            ↔ rd m (w.theInterfacePtr + 6) = AUDIOSTREAMING := by
          simp [isAudioStreamingInterfaceAt, ← hI, ← hA]
        rw [if_congr hiff rfl rfl, ← hs]
        by_cases hC : AUDIOCONTROL = rd m (w.theInterfacePtr + 6)
            ∧ cfg1.controlInterfaceNum = rd m (w.theInterfacePtr + 2)
        · rw [if_pos hC] at h
          have := audioControlBranch_streams m totalLength _ _ w1 h
          unfold streamInterfaceNumbersOf
          rw [this]
        · rw [if_neg hC] at h
          by_cases hS : w.haveControlInterface = true
              ∧ AUDIOSTREAMING = rd m (w.theInterfacePtr + 6)
          · rw [if_pos hS] at h
            have := audioStreamingBranch_streams m totalLength _ _ _ w1 h
            exact this
          · rw [if_neg hS] at h
            by_cases hM : MIDISTREAMING = rd m (w.theInterfacePtr + 6)
            · rw [if_pos hM] at h
              have := midiStreamingBranch_streams m _ _ w1 h
              unfold streamInterfaceNumbersOf
              rw [this]
            · rw [if_neg hM] at h
              by_cases hO : AUDIOCONTROL = rd m (w.theInterfacePtr + 6)
              · rw [if_pos hO] at h
                have := otherControlBranch_cfg m _ _ w1 h
                rw [this]
              · rw [if_neg hO] at h
                simp only [Step.state?, Option.some.injEq] at h
                subst h
                rfl
      · rw [if_neg hA] at h
        have hnot : isAudioStreamingInterfaceAt m w.theInterfacePtr = false := by
          simp only [isAudioStreamingInterfaceAt, Bool.and_eq_false_imp, Bool.and_eq_true,
            beq_iff_eq, beq_eq_false_iff_ne]
          intro ⟨_, h5⟩
          exact absurd h5.symm hA
        simp only [Step.state?, Option.some.injEq] at h
        subst h
        rw [hnot]
        simp only [Bool.false_eq_true, if_false, List.append_nil]
        rfl
    · rw [if_neg hI] at h
      have hnot : isAudioStreamingInterfaceAt m w.theInterfacePtr = false := by
        simp only [isAudioStreamingInterfaceAt, Bool.and_eq_false_imp, Bool.and_eq_true,
          beq_iff_eq, beq_eq_false_iff_ne]
        intro ⟨h1, _⟩
        exact absurd h1.symm hI
      simp only [Step.state?, Option.some.injEq] at h
      subst h
      rw [hnot]
      simp only [Bool.false_eq_true, if_false, List.append_nil]
      rfl

/-- The loop of the walk from the state `w`: the list of the interface numbers of the stream
dictionaries grows by the interface numbers of the AUDIO-class AUDIOSTREAMING interface
records among the records visited, in the order of the visits. -/
theorem parseLoop_streams (m : List Nat) (totalLength : Nat) :
    ∀ (fuel : Nat) (w : WalkState),
      streamInterfaceNumbersOf (parseLoop m totalLength fuel w).2.cfg
        = streamInterfaceNumbersOf w.cfg
          ++ ((visited m totalLength fuel w).filter
              (fun p => isAudioStreamingInterfaceAt m p)).map (fun p => rd m (p + 2)) := by
  intro fuel
  induction fuel with
  | zero =>
    intro w
    unfold parseLoop visited
    split <;> simp
  | succ fuel ih =>
    intro w
    unfold parseLoop visited
    by_cases hc : rd m w.theInterfacePtr ≠ 0 ∧ w.parsedLength ≤ totalLength
    · rw [if_pos hc, if_pos hc]
      have hb := loopBody_spec m totalLength w hc.1
      have hs := loopBody_streams m totalLength w
      rcases hl : loopBody m totalLength w with w1 | w1 | w1 | _
      · rw [hl] at hs
        simp only
        rw [ih w1, hs w1 hc.1 rfl, List.filter_cons]
        split <;> simp
      · rw [hl] at hs
        simp only
        rw [hs w1 hc.1 rfl, List.filter_cons]
        split <;> simp
      · rw [hl] at hs
        simp only
        rw [hs w1 hc.1 rfl, List.filter_cons]
        split <;> simp
      · exact absurd hl hb.1
    · rw [if_neg hc, if_neg hc]
      simp

/-- The number of stream dictionaries stays below the length of the descriptor: each one
comes from an interface record of its own, seven bytes of which are inside the
descriptor. -/
theorem parseLoop_streams_length (m : List Nat) (totalLength fuel : Nat) (w : WalkState)
    (h0 : w.cfg.streamDictionaries = []) :
    (parseLoop m totalLength fuel w).2.cfg.streamDictionaries = []
      ∨ (parseLoop m totalLength fuel w).2.cfg.streamDictionaries.length < m.length := by
  have hI := parseLoop_invariant m totalLength
    (fun w => w.cfg.streamDictionaries.length ≤ w.theInterfacePtr
      ∧ (w.cfg.streamDictionaries.length = 0 ∨ w.cfg.streamDictionaries.length < m.length))
    (by
      intro w w1 ⟨h1, h2⟩ hne _ hst
      have hb := ((loopBody_spec m totalLength w hne).2 w1 hst).lt hne
      have hs := congrArg List.length (loopBody_streams m totalLength w w1 hne hst)
      simp only [streamInterfaceNumbersOf, List.length_map, List.length_append] at hs
      by_cases ha : isAudioStreamingInterfaceAt m w.theInterfacePtr = true
      · rw [if_pos ha] at hs
        have h6 : rd m (w.theInterfacePtr + 6) ≠ 0 := by
          simp only [isAudioStreamingInterfaceAt, Bool.and_eq_true, beq_iff_eq] at ha
          rw [ha.2]
          decide
        have := lt_length_of_rd_ne_zero m _ h6
        simp only [List.length_singleton] at hs
        exact ⟨by omega, Or.inr (by omega)⟩
      · rw [if_neg ha] at hs
        simp only [List.length_nil, Nat.add_zero] at hs
        exact ⟨by omega, by omega⟩)
    fuel w ⟨by simp [h0], Or.inl (by simp [h0])⟩
  rcases hI.2 with h | h
  · exact Or.inl (List.length_eq_zero.1 h)
  · exact Or.inr h

/-- The code behind the loop leaves the stream dictionaries as they are. -/
theorem finish_streamDictionaries (e : Ending) (w : WalkState) :
    (finish e w).cfg.streamDictionaries = w.cfg.streamDictionaries := by
  unfold finish
  cases e <;> simp only <;> split <;> rfl

/-- The stream dictionaries `init` leaves: none when `parseConfigurationDescriptor` leaves
before its loop, and those the loop leaves otherwise. -/
theorem init_streamDictionaries (d : List Nat) (controlInterfaceNum : Nat) :
    (init (some d) controlInterfaceNum).2.streamDictionaries
      = if rd (mutableDescriptor d) 0 = 0 ∨ CONFIGURATION ≠ rd (mutableDescriptor d) 1
            ∨ rd16 (mutableDescriptor d) 2 = 0 then []
        else (parseLoop (mutableDescriptor d) (rd16 (mutableDescriptor d) 2)
          ((mutableDescriptor d).length + 1)
          (initialState (mutableDescriptor d)
            { controlInterfaceNum := controlInterfaceNum % 256 })).2.cfg.streamDictionaries := by
  have hinit : (init (some d) controlInterfaceNum).2
      = (parseConfigurationDescriptor (mutableDescriptor d)
          { controlInterfaceNum := controlInterfaceNum % 256 }).cfg := by
    unfold init
    simp only
    split <;> rfl
  rw [hinit]
  unfold parseConfigurationDescriptor parseConfigurationDescriptorWith
  by_cases h0 : rd (mutableDescriptor d) 0 = 0
  · rw [if_pos h0, if_pos (Or.inl h0)]
  · rw [if_neg h0]
    by_cases h1 : CONFIGURATION ≠ rd (mutableDescriptor d) 1
    · rw [if_pos h1, if_pos (Or.inr (Or.inl h1))]
    · rw [if_neg h1]
      simp only
      by_cases h2 : rd16 (mutableDescriptor d) 2 = 0
      · rw [if_pos h2, if_pos (Or.inr (Or.inr h2))]
      · rw [if_neg h2, if_neg (by rintro (h | h | h) <;> contradiction)]
        exact finish_streamDictionaries _ _

/-- C36: after `init` on the descriptor `d`, the interface numbers of the stream
dictionaries are, in order, the interface numbers (the byte at offset 2) of the AUDIO-class
AUDIOSTREAMING interface records the walk visited, whether the record comes before or
behind the control interface and whether or not its number is in the stream list of the
control interface; and for every interface number `n`, `getNumAltSettings (n)` returns, with
the count modulo 256 of the visited records of this kind whose interface number is `n`. -/
theorem getNumAltSettings_eq_visited (d : List Nat) (controlInterfaceNum : Nat) :
    streamInterfaceNumbersOf (init (some d) controlInterfaceNum).2
        = (visitedStreamInterfaces d controlInterfaceNum).map
            (fun p => rd (mutableDescriptor d) (p + 2))
      ∧ ∀ n : Nat, ∃ result, getNumAltSettings (init (some d) controlInterfaceNum).2 n
          = some (result, ((visitedStreamInterfaces d controlInterfaceNum).filter
              (fun p => rd (mutableDescriptor d) (p + 2) == n)).length % 256) := by
  have hstreams := init_streamDictionaries d controlInterfaceNum
  have hnum : streamInterfaceNumbersOf (init (some d) controlInterfaceNum).2
      = (visitedStreamInterfaces d controlInterfaceNum).map
          (fun p => rd (mutableDescriptor d) (p + 2)) := by
    unfold streamInterfaceNumbersOf visitedStreamInterfaces visitedRecords
    rw [hstreams]
    simp only
    split
    · rfl
    · have := parseLoop_streams (mutableDescriptor d) (rd16 (mutableDescriptor d) 2)
        ((mutableDescriptor d).length + 1)
        (initialState (mutableDescriptor d) { controlInterfaceNum := controlInterfaceNum % 256 })
      simpa [streamInterfaceNumbersOf, initialState] using this
  have hlen : (init (some d) controlInterfaceNum).2.streamDictionaries = []
      ∨ (init (some d) controlInterfaceNum).2.streamDictionaries.length < 65536 := by
    rw [hstreams]
    split
    · exact Or.inl rfl
    · rcases parseLoop_streams_length (mutableDescriptor d) (rd16 (mutableDescriptor d) 2)
        ((mutableDescriptor d).length + 1)
        (initialState (mutableDescriptor d) { controlInterfaceNum := controlInterfaceNum % 256 })
        rfl with h | h
      · exact Or.inl h
      · right
        have h1 := length_mutableDescriptor d
        have h2 := rd16_lt d 2
        omega
  refine ⟨hnum, ?_⟩
  intro n
  have hcount : ((init (some d) controlInterfaceNum).2.streamDictionaries.filter
        (fun thisStream => thisStream.interfaceNumber == n)).length
      = ((visitedStreamInterfaces d controlInterfaceNum).filter
          (fun p => rd (mutableDescriptor d) (p + 2) == n)).length := by
    have h1 : ((streamInterfaceNumbersOf (init (some d) controlInterfaceNum).2).filter
        (fun x => x == n)).length
        = ((init (some d) controlInterfaceNum).2.streamDictionaries.filter
            (fun thisStream => thisStream.interfaceNumber == n)).length := by
      unfold streamInterfaceNumbersOf
      rw [List.filter_map, List.length_map]
      rfl
    rw [← h1, hnum, List.filter_map, List.length_map]
    rfl
  unfold getNumAltSettings
  by_cases hnil : (init (some d) controlInterfaceNum).2.streamDictionaries = []
  · rw [if_pos hnil]
    refine ⟨.kIOReturnError, ?_⟩
    rw [← hcount, hnil]
    rfl
  · rw [if_neg hnil]
    have hlt : (init (some d) controlInterfaceNum).2.streamDictionaries.length < 65536 := by
      rcases hlen with h | h
      · exact absurd h hnil
      · exact h
    rw [if_neg (by omega), hcount]
    exact ⟨.kIOReturnSuccess, rfl⟩

/-- The list of the visited records does not depend on the fuel, once the fuel covers the
bytes behind the cursor. -/
theorem visited_succ_fuel (m : List Nat) (totalLength : Nat) :
    ∀ (fuel : Nat) (w : WalkState), m.length ≤ w.theInterfacePtr + fuel →
      visited m totalLength (fuel + 1) w = visited m totalLength fuel w := by
  intro fuel
  induction fuel with
  | zero =>
    intro w hw
    have h0 : rd m w.theInterfacePtr = 0 := rd_of_length_le m _ (by omega)
    unfold visited
    rw [if_neg (by simp [h0]), if_neg (by simp [h0])]
  | succ fuel ih =>
    intro w hw
    rw [visited]
    conv => rhs; rw [visited]
    by_cases hc : rd m w.theInterfacePtr ≠ 0 ∧ w.parsedLength ≤ totalLength
    · rw [if_pos hc, if_pos hc]
      have hb := loopBody_spec m totalLength w hc.1
      rcases hl : loopBody m totalLength w with w1 | w1 | w1 | _
      · simp only
        have hlt := (hb.2 w1 (by rw [hl]; rfl)).lt hc.1
        rw [ih w1 (by omega)]
      · rfl
      · rfl
      · rfl
    · rw [if_neg hc, if_neg hc]

/-- The claim C36 on `streamFirstDescriptor`: the walk visits the AudioStreaming interface
records at the offsets 9, 43, 52 and 68, and the numbers of alternate settings of the
interfaces 1, 2, 3 and 4 are 1, 2, 1 and 0. -/
theorem getNumAltSettings_streamFirstDescriptor :
    visitedStreamInterfaces streamFirstDescriptor 0 = [9, 43, 52, 68]
      ∧ getNumAltSettings (init (some streamFirstDescriptor) 0).2 1
        = some (.kIOReturnSuccess, 1)
      ∧ getNumAltSettings (init (some streamFirstDescriptor) 0).2 2
        = some (.kIOReturnSuccess, 2)
      ∧ getNumAltSettings (init (some streamFirstDescriptor) 0).2 3
        = some (.kIOReturnSuccess, 1)
      ∧ getNumAltSettings (init (some streamFirstDescriptor) 0).2 4
        = some (.kIOReturnSuccess, 0) := by
  refine ⟨by decide!, by decide!, by decide!, by decide!, by decide!⟩

/-! ## C18: the sources of the units a control interface declares -/

/-- The list of the record offsets does not depend on the fuel, once the fuel covers the
bytes up to `stop`. -/
theorem recordOffsets_fuel (m : List Nat) (stop : Nat) :
    ∀ (f1 f2 p : Nat), stop ≤ p + f1 → stop ≤ p + f2 →
      recordOffsets m stop f1 p = recordOffsets m stop f2 p := by
  intro f1
  induction f1 with
  | zero =>
    intro f2 p h1 _
    cases f2 with
    | zero => rfl
    | succ f2 =>
      unfold recordOffsets
      rw [if_neg (by omega)]
  | succ f1 ih =>
    intro f2 p h1 h2
    by_cases hc : p < stop ∧ 0 < rd m p
    · obtain ⟨f2, rfl⟩ : ∃ f, f2 = f + 1 := ⟨f2 - 1, by omega⟩
      rw [recordOffsets, recordOffsets, if_pos hc, if_pos hc,
        ih f2 (p + rd m p) (by omega) (by omega)]
    · cases f2 with
      | zero => simp only [recordOffsets, if_neg hc]
      | succ f2 => simp only [recordOffsets, if_neg hc]

/-- The records between a record with a length other than 0 and a later offset: the record
and the records behind it. -/
theorem recordsBetween_cons (m : List Nat) (p stop : Nat) (h : p < stop) (hlen : 0 < rd m p) :
    recordsBetween m p stop = p :: recordsBetween m (p + rd m p) stop := by
  unfold recordsBetween
  obtain ⟨s, rfl⟩ : ∃ s, stop = s + 1 := ⟨stop - 1, by omega⟩
  rw [recordOffsets, if_pos ⟨h, hlen⟩,
    recordOffsets_fuel m (s + 1) s (s + 1) (p + rd m p) (by omega) (by omega)]

/-- There is no record between an offset and itself. -/
theorem recordsBetween_self (m : List Nat) (p : Nat) : recordsBetween m p p = [] := by
  unfold recordsBetween
  cases p with
  | zero => rfl
  | succ p =>
    rw [recordOffsets, if_neg (by omega)]

/-- No record: the control dictionary stays. -/
theorem Declares.refl (m : List Nat) (declared : Nat → Option (Option (List Nat)))
    (c : DJM03ControlDictionary) : Declares m declared [] c c :=
  ⟨fun _ h => h, fun _ h => h, fun _ h => h, fun _ h => absurd h (List.not_mem_nil _),
    fun _ h => Or.inl h⟩

/-- A control dictionary that holds more units of each kind holds the unit of a record. -/
theorem HoldsUnit.mono {m : List Nat} {p : Nat} {sources : Option (List Nat)}
    {c c1 : DJM03ControlDictionary} (h : HoldsUnit m p sources c)
    (h1 : ∀ u ∈ sourceUnits c, u ∈ sourceUnits c1)
    (h2 : ∀ u ∈ c.clockSelectors, u ∈ c1.clockSelectors)
    (h3 : ∀ u ∈ plainUnits c, u ∈ plainUnits c1) : HoldsUnit m p sources c1 := by
  cases sources with
  | none =>
    obtain ⟨u, hu, hid⟩ := h
    exact ⟨u, h3 u hu, hid⟩
  | some l =>
    rcases h with ⟨u, hu, hid⟩ | ⟨u, hu, hid⟩
    · exact Or.inl ⟨u, h1 u hu, hid⟩
    · exact Or.inr ⟨u, h2 u hu, hid⟩

/-- The records at the offsets `ps1` and then those at the offsets `ps2`. -/
theorem Declares.concat {m : List Nat} {declared : Nat → Option (Option (List Nat))}
    {ps1 ps2 : List Nat} {c c1 c2 : DJM03ControlDictionary}
    (h1 : Declares m declared ps1 c c1) (h2 : Declares m declared ps2 c1 c2) :
    Declares m declared (ps1 ++ ps2) c c2 := by
  obtain ⟨a1, a2, a3, a4, a5⟩ := h1
  obtain ⟨b1, b2, b3, b4, b5⟩ := h2
  refine ⟨fun u h => b1 u (a1 u h), fun u h => b2 u (a2 u h), fun u h => b3 u (a3 u h), ?_, ?_⟩
  · intro p hp sources hd
    rcases List.mem_append.1 hp with hp | hp
    · exact (a4 p hp sources hd).mono b1 b2 b3
    · exact b4 p hp sources hd
  · intro u hu
    rcases b5 u hu with h | ⟨p, hp, hd, hid⟩
    · rcases a5 u h with h | ⟨p, hp, hd, hid⟩
      · exact Or.inl h
      · exact Or.inr ⟨p, List.mem_append_left _ hp, hd, hid⟩
    · exact Or.inr ⟨p, List.mem_append_right _ hp, hd, hid⟩

/-- An update that keeps the units declares nothing. -/
theorem Declares.of_sameUnits (m : List Nat) (declared : Nat → Option (Option (List Nat)))
    {c c1 : DJM03ControlDictionary} (hs : SameUnits c c1) : Declares m declared [] c c1 := by
  obtain ⟨_, e1, e2, e3, e4, e5, e6, e7, e8, e9, e10, e11⟩ := hs
  have hsrc : sourceUnits c1 = sourceUnits c := by
    unfold sourceUnits; rw [e3, e4, e7, e8]
  have hplain : plainUnits c1 = plainUnits c := by
    unfold plainUnits; rw [e1, e2, e5, e6, e9, e11]
  have hall : allUnits c1 = allUnits c := by
    unfold allUnits; rw [e1, e2, e3, e4, e5, e6, e7, e8, e9, e10, e11]
  refine ⟨fun u h => hsrc ▸ h, fun u h => e10 ▸ h, fun u h => hplain ▸ h,
    fun _ h => absurd h (List.not_mem_nil _), fun u h => Or.inl (hall ▸ h)⟩

/-- A unit with sources added to the array `mixerUnits` for the record at offset `p`. -/
theorem Declares.append_mixerUnits (m : List Nat)
    (declared : Nat → Option (Option (List Nat))) (p : Nat) (c : DJM03ControlDictionary)
    (x : DJM03UnitDictionary) (l : List Nat) (hd : declared p = some (some l))
    (hid : x.unitID = some (rd m (p + 3))) (hsrc : x.sourceIDs = some l) :
    Declares m declared [p] c { c with mixerUnits := c.mixerUnits ++ [x] } := by
  refine ⟨?_, ?_, ?_, ?_, ?_⟩
  · intro u hu
    simp only [sourceUnits, List.mem_append, List.mem_singleton] at hu ⊢
    tauto
  · intro u hu
    exact hu
  · intro u hu
    exact hu
  · intro p1 hp1 sources hs
    rw [List.mem_singleton] at hp1
    subst hp1
    rw [hd] at hs
    cases hs
    exact Or.inl ⟨x, by simp [sourceUnits], hid, hsrc⟩
  · intro u hu
    simp only [allUnits, List.mem_append, List.mem_singleton] at hu ⊢
    by_cases hux : u = x
    · exact Or.inr ⟨p, rfl, by rw [hd]; simp, hux ▸ hid⟩
    · left
      tauto

/-- A unit with sources added to the array `selectorUnits` for the record at offset `p`. -/
theorem Declares.append_selectorUnits (m : List Nat)
    (declared : Nat → Option (Option (List Nat))) (p : Nat) (c : DJM03ControlDictionary)
    (x : DJM03UnitDictionary) (l : List Nat) (hd : declared p = some (some l))
    (hid : x.unitID = some (rd m (p + 3))) (hsrc : x.sourceIDs = some l) :
    Declares m declared [p] c { c with selectorUnits := c.selectorUnits ++ [x] } := by
  refine ⟨?_, ?_, ?_, ?_, ?_⟩
  · intro u hu
    simp only [sourceUnits, List.mem_append, List.mem_singleton] at hu ⊢
    tauto
  · intro u hu
    exact hu
  · intro u hu
    exact hu
  · intro p1 hp1 sources hs
    rw [List.mem_singleton] at hp1
    subst hp1
    rw [hd] at hs
    cases hs
    exact Or.inl ⟨x, by simp [sourceUnits], hid, hsrc⟩
  · intro u hu
    simp only [allUnits, List.mem_append, List.mem_singleton] at hu ⊢
    by_cases hux : u = x
    · exact Or.inr ⟨p, rfl, by rw [hd]; simp, hux ▸ hid⟩
    · left
      tauto

/-- A unit with sources added to the array `processingUnits` for the record at offset `p`. -/
theorem Declares.append_processingUnits (m : List Nat)
    (declared : Nat → Option (Option (List Nat))) (p : Nat) (c : DJM03ControlDictionary)
    (x : DJM03UnitDictionary) (l : List Nat) (hd : declared p = some (some l))
    (hid : x.unitID = some (rd m (p + 3))) (hsrc : x.sourceIDs = some l) :
    Declares m declared [p] c { c with processingUnits := c.processingUnits ++ [x] } := by
  refine ⟨?_, ?_, ?_, ?_, ?_⟩
  · intro u hu
    simp only [sourceUnits, List.mem_append, List.mem_singleton] at hu ⊢
    tauto
  · intro u hu
    exact hu
  · intro u hu
    exact hu
  · intro p1 hp1 sources hs
    rw [List.mem_singleton] at hp1
    subst hp1
    rw [hd] at hs
    cases hs
    exact Or.inl ⟨x, by simp [sourceUnits], hid, hsrc⟩
  · intro u hu
    simp only [allUnits, List.mem_append, List.mem_singleton] at hu ⊢
    by_cases hux : u = x
    · exact Or.inr ⟨p, rfl, by rw [hd]; simp, hux ▸ hid⟩
    · left
      tauto

/-- A unit with sources added to the array `extensionUnits` for the record at offset `p`. -/
theorem Declares.append_extensionUnits (m : List Nat)
    (declared : Nat → Option (Option (List Nat))) (p : Nat) (c : DJM03ControlDictionary)
    (x : DJM03UnitDictionary) (l : List Nat) (hd : declared p = some (some l))
    (hid : x.unitID = some (rd m (p + 3))) (hsrc : x.sourceIDs = some l) :
    Declares m declared [p] c { c with extensionUnits := c.extensionUnits ++ [x] } := by
  refine ⟨?_, ?_, ?_, ?_, ?_⟩
  · intro u hu
    simp only [sourceUnits, List.mem_append, List.mem_singleton] at hu ⊢
    tauto
  · intro u hu
    exact hu
  · intro u hu
    exact hu
  · intro p1 hp1 sources hs
    rw [List.mem_singleton] at hp1
    subst hp1
    rw [hd] at hs
    cases hs
    exact Or.inl ⟨x, by simp [sourceUnits], hid, hsrc⟩
  · intro u hu
    simp only [allUnits, List.mem_append, List.mem_singleton] at hu ⊢
    by_cases hux : u = x
    · exact Or.inr ⟨p, rfl, by rw [hd]; simp, hux ▸ hid⟩
    · left
      tauto

/-- A clock selector added for the record at offset `p`. -/
theorem Declares.append_clockSelectors (m : List Nat)
    (declared : Nat → Option (Option (List Nat))) (p : Nat) (c : DJM03ControlDictionary)
    (x : DJM03UnitDictionary) (l : List Nat) (hd : declared p = some (some l))
    (hid : x.unitID = some (rd m (p + 3))) (hsrc : x.clockSourceIDs = some l) :
    Declares m declared [p] c { c with clockSelectors := c.clockSelectors ++ [x] } := by
  refine ⟨?_, ?_, ?_, ?_, ?_⟩
  · intro u hu
    exact hu
  · intro u hu
    exact List.mem_append_left _ hu
  · intro u hu
    exact hu
  · intro p1 hp1 sources hs
    rw [List.mem_singleton] at hp1
    subst hp1
    rw [hd] at hs
    cases hs
    exact Or.inr ⟨x, by simp, hid, hsrc⟩
  · intro u hu
    simp only [allUnits, List.mem_append, List.mem_singleton] at hu ⊢
    by_cases hux : u = x
    · exact Or.inr ⟨p, rfl, by rw [hd]; simp, hux ▸ hid⟩
    · left
      tauto

/-- A unit without sources added to the array `inputTerminals` for the record at offset `p`. -/
theorem Declares.append_inputTerminals (m : List Nat)
    (declared : Nat → Option (Option (List Nat))) (p : Nat) (c : DJM03ControlDictionary)
    (x : DJM03UnitDictionary) (hd : declared p = some none)
    (hid : x.unitID = some (rd m (p + 3))) :
    Declares m declared [p] c { c with inputTerminals := c.inputTerminals ++ [x] } := by
  refine ⟨?_, ?_, ?_, ?_, ?_⟩
  · intro u hu
    exact hu
  · intro u hu
    exact hu
  · intro u hu
    simp only [plainUnits, List.mem_append, List.mem_singleton] at hu ⊢
    tauto
  · intro p1 hp1 sources hs
    rw [List.mem_singleton] at hp1
    subst hp1
    rw [hd] at hs
    cases hs
    exact ⟨x, by simp [plainUnits], hid⟩
  · intro u hu
    simp only [allUnits, List.mem_append, List.mem_singleton] at hu ⊢
    by_cases hux : u = x
    · exact Or.inr ⟨p, rfl, by rw [hd]; simp, hux ▸ hid⟩
    · left
      tauto

/-- A unit without sources added to the array `outputTerminals` for the record at offset `p`. -/
theorem Declares.append_outputTerminals (m : List Nat)
    (declared : Nat → Option (Option (List Nat))) (p : Nat) (c : DJM03ControlDictionary)
    (x : DJM03UnitDictionary) (hd : declared p = some none)
    (hid : x.unitID = some (rd m (p + 3))) :
    Declares m declared [p] c { c with outputTerminals := c.outputTerminals ++ [x] } := by
  refine ⟨?_, ?_, ?_, ?_, ?_⟩
  · intro u hu
    exact hu
  · intro u hu
    exact hu
  · intro u hu
    simp only [plainUnits, List.mem_append, List.mem_singleton] at hu ⊢
    tauto
  · intro p1 hp1 sources hs
    rw [List.mem_singleton] at hp1
    subst hp1
    rw [hd] at hs
    cases hs
    exact ⟨x, by simp [plainUnits], hid⟩
  · intro u hu
    simp only [allUnits, List.mem_append, List.mem_singleton] at hu ⊢
    by_cases hux : u = x
    · exact Or.inr ⟨p, rfl, by rw [hd]; simp, hux ▸ hid⟩
    · left
      tauto

/-- A unit without sources added to the array `featureUnits` for the record at offset `p`. -/
theorem Declares.append_featureUnits (m : List Nat)
    (declared : Nat → Option (Option (List Nat))) (p : Nat) (c : DJM03ControlDictionary)
    (x : DJM03UnitDictionary) (hd : declared p = some none)
    (hid : x.unitID = some (rd m (p + 3))) :
    Declares m declared [p] c { c with featureUnits := c.featureUnits ++ [x] } := by
  refine ⟨?_, ?_, ?_, ?_, ?_⟩
  · intro u hu
    exact hu
  · intro u hu
    exact hu
  · intro u hu
    simp only [plainUnits, List.mem_append, List.mem_singleton] at hu ⊢
    tauto
  · intro p1 hp1 sources hs
    rw [List.mem_singleton] at hp1
    subst hp1
    rw [hd] at hs
    cases hs
    exact ⟨x, by simp [plainUnits], hid⟩
  · intro u hu
    simp only [allUnits, List.mem_append, List.mem_singleton] at hu ⊢
    by_cases hux : u = x
    · exact Or.inr ⟨p, rfl, by rw [hd]; simp, hux ▸ hid⟩
    · left
      tauto

/-- A unit without sources added to the array `effectUnits` for the record at offset `p`. -/
theorem Declares.append_effectUnits (m : List Nat)
    (declared : Nat → Option (Option (List Nat))) (p : Nat) (c : DJM03ControlDictionary)
    (x : DJM03UnitDictionary) (hd : declared p = some none)
    (hid : x.unitID = some (rd m (p + 3))) :
    Declares m declared [p] c { c with effectUnits := c.effectUnits ++ [x] } := by
  refine ⟨?_, ?_, ?_, ?_, ?_⟩
  · intro u hu
    exact hu
  · intro u hu
    exact hu
  · intro u hu
    simp only [plainUnits, List.mem_append, List.mem_singleton] at hu ⊢
    tauto
  · intro p1 hp1 sources hs
    rw [List.mem_singleton] at hp1
    subst hp1
    rw [hd] at hs
    cases hs
    exact ⟨x, by simp [plainUnits], hid⟩
  · intro u hu
    simp only [allUnits, List.mem_append, List.mem_singleton] at hu ⊢
    by_cases hux : u = x
    · exact Or.inr ⟨p, rfl, by rw [hd]; simp, hux ▸ hid⟩
    · left
      tauto

/-- A unit without sources added to the array `clockSources` for the record at offset `p`. -/
theorem Declares.append_clockSources (m : List Nat)
    (declared : Nat → Option (Option (List Nat))) (p : Nat) (c : DJM03ControlDictionary)
    (x : DJM03UnitDictionary) (hd : declared p = some none)
    (hid : x.unitID = some (rd m (p + 3))) :
    Declares m declared [p] c { c with clockSources := c.clockSources ++ [x] } := by
  refine ⟨?_, ?_, ?_, ?_, ?_⟩
  · intro u hu
    exact hu
  · intro u hu
    exact hu
  · intro u hu
    simp only [plainUnits, List.mem_append, List.mem_singleton] at hu ⊢
    tauto
  · intro p1 hp1 sources hs
    rw [List.mem_singleton] at hp1
    subst hp1
    rw [hd] at hs
    cases hs
    exact ⟨x, by simp [plainUnits], hid⟩
  · intro u hu
    simp only [allUnits, List.mem_append, List.mem_singleton] at hu ⊢
    by_cases hux : u = x
    · exact Or.inr ⟨p, rfl, by rw [hd]; simp, hux ▸ hid⟩
    · left
      tauto

/-- A unit without sources added to the array `clockMultipliers` for the record at offset `p`. -/
theorem Declares.append_clockMultipliers (m : List Nat)
    (declared : Nat → Option (Option (List Nat))) (p : Nat) (c : DJM03ControlDictionary)
    (x : DJM03UnitDictionary) (hd : declared p = some none)
    (hid : x.unitID = some (rd m (p + 3))) :
    Declares m declared [p] c { c with clockMultipliers := c.clockMultipliers ++ [x] } := by
  refine ⟨?_, ?_, ?_, ?_, ?_⟩
  · intro u hu
    exact hu
  · intro u hu
    exact hu
  · intro u hu
    simp only [plainUnits, List.mem_append, List.mem_singleton] at hu ⊢
    tauto
  · intro p1 hp1 sources hs
    rw [List.mem_singleton] at hp1
    subst hp1
    rw [hd] at hs
    cases hs
    exact ⟨x, by simp [plainUnits], hid⟩
  · intro u hu
    simp only [allUnits, List.mem_append, List.mem_singleton] at hu ⊢
    by_cases hux : u = x
    · exact Or.inr ⟨p, rfl, by rw [hd]; simp, hux ▸ hid⟩
    · left
      tauto

/-- A record that declares no unit and leaves the arrays of units as they are. -/
theorem Declares.of_no_unit (m : List Nat) (declared : Nat → Option (Option (List Nat)))
    (p : Nat) {c c1 : DJM03ControlDictionary} (hd : declared p = none)
    (h1 : sourceUnits c1 = sourceUnits c) (h2 : c1.clockSelectors = c.clockSelectors)
    (h3 : plainUnits c1 = plainUnits c) (h4 : allUnits c1 = allUnits c) :
    Declares m declared [p] c c1 := by
  refine ⟨fun u h => h1 ▸ h, fun u h => h2 ▸ h, fun u h => h3 ▸ h, ?_, fun u h => Or.inl (h4 ▸ h)⟩
  intro p1 hp1 sources hs1
  rw [List.mem_singleton] at hp1
  subst hp1
  rw [hd] at hs1
  cases hs1

/-- The handler of a record of a UAC 1.0 control interface leaves the units before it where
they are, and adds the unit the record declares, with the unit ID and the source IDs of the
record. -/
theorem parseACRecord_declares {m : List Nat} {c c1 : DJM03ControlDictionary} (p : Nat)
    (hrec : parseACRecord m p c = some c1) : Declares m (declaredSources m) [p] c c1 := by
  unfold parseACRecord at hrec
  simp only at hrec
  by_cases h1 : rd m (p + 2) = HEADER
  · rw [if_pos h1] at hrec
    cases hrec
    exact Declares.of_no_unit m _ p (by simp [declaredSources, h1, HEADER, INPUT_TERMINAL, OUTPUT_TERMINAL, FEATURE_UNIT, MIXER_UNIT, SELECTOR_UNIT, PROCESSING_UNIT, EXTENSION_UNIT]) rfl rfl rfl rfl
  rw [if_neg h1] at hrec
  by_cases h2 : rd m (p + 2) = INPUT_TERMINAL
  · rw [if_pos h2] at hrec
    cases hrec
    exact Declares.append_inputTerminals m _ p c _ (by simp [declaredSources, h2, HEADER, INPUT_TERMINAL, OUTPUT_TERMINAL, FEATURE_UNIT, MIXER_UNIT, SELECTOR_UNIT, PROCESSING_UNIT, EXTENSION_UNIT]) rfl
  rw [if_neg h2] at hrec
  by_cases h3 : rd m (p + 2) = OUTPUT_TERMINAL
  · rw [if_pos h3] at hrec
    cases hrec
    exact Declares.append_outputTerminals m _ p c _ (by simp [declaredSources, h3, HEADER, INPUT_TERMINAL, OUTPUT_TERMINAL, FEATURE_UNIT, MIXER_UNIT, SELECTOR_UNIT, PROCESSING_UNIT, EXTENSION_UNIT]) rfl
  rw [if_neg h3] at hrec
  by_cases h4 : rd m (p + 2) = FEATURE_UNIT
  · rw [if_pos h4] at hrec
    unfold parseACRecord.FEATURE_UNIT at hrec
    simp only at hrec
    by_cases hz : rd m (p + 5) = 0
    · rw [if_pos hz] at hrec; cases hrec
    · rw [if_neg hz] at hrec
      cases hrec
      exact Declares.append_featureUnits m _ p c _ (by simp [declaredSources, h4, HEADER, INPUT_TERMINAL, OUTPUT_TERMINAL, FEATURE_UNIT, MIXER_UNIT, SELECTOR_UNIT, PROCESSING_UNIT, EXTENSION_UNIT]) rfl
  rw [if_neg h4] at hrec
  by_cases h5 : rd m (p + 2) = MIXER_UNIT
  · rw [if_pos h5] at hrec
    cases hrec
    exact Declares.append_mixerUnits m _ p c _ (rdBytes m (p + 5) (rd m (p + 4))) (by simp [declaredSources, h5, HEADER, INPUT_TERMINAL, OUTPUT_TERMINAL, FEATURE_UNIT, MIXER_UNIT, SELECTOR_UNIT, PROCESSING_UNIT, EXTENSION_UNIT]) rfl
      (by simp [initSourceIDs, initControlsArray, initClockSourceIDs, map_OSNumber_rdBytes])
  rw [if_neg h5] at hrec
  by_cases h6 : rd m (p + 2) = SELECTOR_UNIT
  · rw [if_pos h6] at hrec
    cases hrec
    exact Declares.append_selectorUnits m _ p c _ (rdBytes m (p + 5) (rd m (p + 4))) (by simp [declaredSources, h6, HEADER, INPUT_TERMINAL, OUTPUT_TERMINAL, FEATURE_UNIT, MIXER_UNIT, SELECTOR_UNIT, PROCESSING_UNIT, EXTENSION_UNIT]) rfl
      (by simp [initSourceIDs, initControlsArray, initClockSourceIDs, map_OSNumber_rdBytes])
  rw [if_neg h6] at hrec
  by_cases h7 : rd m (p + 2) = PROCESSING_UNIT
  · rw [if_pos h7] at hrec
    cases hrec
    exact Declares.append_processingUnits m _ p c _ (rdBytes m (p + 7) (rd m (p + 6))) (by simp [declaredSources, h7, HEADER, INPUT_TERMINAL, OUTPUT_TERMINAL, FEATURE_UNIT, MIXER_UNIT, SELECTOR_UNIT, PROCESSING_UNIT, EXTENSION_UNIT]) rfl
      (by simp [initSourceIDs, initControlsArray, initClockSourceIDs, map_OSNumber_rdBytes])
  rw [if_neg h7] at hrec
  by_cases h8 : rd m (p + 2) = EXTENSION_UNIT
  · rw [if_pos h8] at hrec
    cases hrec
    exact Declares.append_extensionUnits m _ p c _ (rdBytes m (p + 7) (rd m (p + 6))) (by simp [declaredSources, h8, HEADER, INPUT_TERMINAL, OUTPUT_TERMINAL, FEATURE_UNIT, MIXER_UNIT, SELECTOR_UNIT, PROCESSING_UNIT, EXTENSION_UNIT]) rfl
      (by simp [initSourceIDs, initControlsArray, initClockSourceIDs, map_OSNumber_rdBytes])
  rw [if_neg h8] at hrec
  cases hrec
  exact Declares.of_no_unit m _ p
    (by simp [declaredSources, h2, h3, h4, h5, h6, h7, h8]) rfl rfl rfl rfl

/-- The handler of a record of a UAC 2.0 control interface leaves the units before it where
they are, and adds the unit the record declares, with the unit ID and the source IDs of the
record. -/
theorem parseACRecord_0200_declares (m : List Nat) (p : Nat) (c : DJM03ControlDictionary) :
    Declares m (declaredSources_0200 m) [p] c (parseACRecord_0200 m p c) := by
  unfold parseACRecord_0200
  simp only
  by_cases h1 : rd m (p + 2) = HEADER
  · rw [if_pos h1]
    exact Declares.of_no_unit m _ p (by simp [declaredSources_0200, h1, HEADER, INPUT_TERMINAL, OUTPUT_TERMINAL, FEATURE_UNIT, MIXER_UNIT, SELECTOR_UNIT, EFFECT_UNIT_0200, PROCESSING_UNIT_0200, EXTENSION_UNIT_0200, CLOCK_SOURCE, CLOCK_SELECTOR, CLOCK_MULTIPLIER]) rfl rfl rfl rfl
  rw [if_neg h1]
  by_cases h2 : rd m (p + 2) = INPUT_TERMINAL
  · rw [if_pos h2]
    exact Declares.append_inputTerminals m _ p c _ (by simp [declaredSources_0200, h2, HEADER, INPUT_TERMINAL, OUTPUT_TERMINAL, FEATURE_UNIT, MIXER_UNIT, SELECTOR_UNIT, EFFECT_UNIT_0200, PROCESSING_UNIT_0200, EXTENSION_UNIT_0200, CLOCK_SOURCE, CLOCK_SELECTOR, CLOCK_MULTIPLIER]) rfl
  rw [if_neg h2]
  by_cases h3 : rd m (p + 2) = OUTPUT_TERMINAL
  · rw [if_pos h3]
    exact Declares.append_outputTerminals m _ p c _ (by simp [declaredSources_0200, h3, HEADER, INPUT_TERMINAL, OUTPUT_TERMINAL, FEATURE_UNIT, MIXER_UNIT, SELECTOR_UNIT, EFFECT_UNIT_0200, PROCESSING_UNIT_0200, EXTENSION_UNIT_0200, CLOCK_SOURCE, CLOCK_SELECTOR, CLOCK_MULTIPLIER]) rfl
  rw [if_neg h3]
  by_cases h4 : rd m (p + 2) = FEATURE_UNIT
  · rw [if_pos h4]
    exact Declares.append_featureUnits m _ p c _ (by simp [declaredSources_0200, h4, HEADER, INPUT_TERMINAL, OUTPUT_TERMINAL, FEATURE_UNIT, MIXER_UNIT, SELECTOR_UNIT, EFFECT_UNIT_0200, PROCESSING_UNIT_0200, EXTENSION_UNIT_0200, CLOCK_SOURCE, CLOCK_SELECTOR, CLOCK_MULTIPLIER]) rfl
  rw [if_neg h4]
  by_cases h5 : rd m (p + 2) = MIXER_UNIT
  · rw [if_pos h5]
    exact Declares.append_mixerUnits m _ p c _ (rdBytes m (p + 5) (rd m (p + 4))) (by simp [declaredSources_0200, h5, HEADER, INPUT_TERMINAL, OUTPUT_TERMINAL, FEATURE_UNIT, MIXER_UNIT, SELECTOR_UNIT, EFFECT_UNIT_0200, PROCESSING_UNIT_0200, EXTENSION_UNIT_0200, CLOCK_SOURCE, CLOCK_SELECTOR, CLOCK_MULTIPLIER]) rfl
      (by simp [initSourceIDs, initControlsArray, initClockSourceIDs, map_OSNumber_rdBytes])
  rw [if_neg h5]
  by_cases h6 : rd m (p + 2) = SELECTOR_UNIT
  · rw [if_pos h6]
    exact Declares.append_selectorUnits m _ p c _ (rdBytes m (p + 5) (rd m (p + 4))) (by simp [declaredSources_0200, h6, HEADER, INPUT_TERMINAL, OUTPUT_TERMINAL, FEATURE_UNIT, MIXER_UNIT, SELECTOR_UNIT, EFFECT_UNIT_0200, PROCESSING_UNIT_0200, EXTENSION_UNIT_0200, CLOCK_SOURCE, CLOCK_SELECTOR, CLOCK_MULTIPLIER]) rfl
      (by simp [initSourceIDs, initControlsArray, initClockSourceIDs, map_OSNumber_rdBytes])
  rw [if_neg h6]
  by_cases h7 : rd m (p + 2) = EFFECT_UNIT_0200
  · rw [if_pos h7]
    exact Declares.append_effectUnits m _ p c _ (by simp [declaredSources_0200, h7, HEADER, INPUT_TERMINAL, OUTPUT_TERMINAL, FEATURE_UNIT, MIXER_UNIT, SELECTOR_UNIT, EFFECT_UNIT_0200, PROCESSING_UNIT_0200, EXTENSION_UNIT_0200, CLOCK_SOURCE, CLOCK_SELECTOR, CLOCK_MULTIPLIER]) rfl
  rw [if_neg h7]
  by_cases h8 : rd m (p + 2) = PROCESSING_UNIT_0200
  · rw [if_pos h8]
    exact Declares.append_processingUnits m _ p c _ (rdBytes m (p + 7) (rd m (p + 6))) (by simp [declaredSources_0200, h8, HEADER, INPUT_TERMINAL, OUTPUT_TERMINAL, FEATURE_UNIT, MIXER_UNIT, SELECTOR_UNIT, EFFECT_UNIT_0200, PROCESSING_UNIT_0200, EXTENSION_UNIT_0200, CLOCK_SOURCE, CLOCK_SELECTOR, CLOCK_MULTIPLIER]) rfl
      (by simp [initSourceIDs, initControlsArray, initClockSourceIDs, map_OSNumber_rdBytes])
  rw [if_neg h8]
  by_cases h9 : rd m (p + 2) = EXTENSION_UNIT_0200
  · rw [if_pos h9]
    exact Declares.append_extensionUnits m _ p c _ (rdBytes m (p + 7) (rd m (p + 6))) (by simp [declaredSources_0200, h9, HEADER, INPUT_TERMINAL, OUTPUT_TERMINAL, FEATURE_UNIT, MIXER_UNIT, SELECTOR_UNIT, EFFECT_UNIT_0200, PROCESSING_UNIT_0200, EXTENSION_UNIT_0200, CLOCK_SOURCE, CLOCK_SELECTOR, CLOCK_MULTIPLIER]) rfl
      (by simp [initSourceIDs, initControlsArray, initClockSourceIDs, map_OSNumber_rdBytes])
  rw [if_neg h9]
  by_cases h10 : rd m (p + 2) = CLOCK_SOURCE
  · rw [if_pos h10]
    exact Declares.append_clockSources m _ p c _ (by simp [declaredSources_0200, h10, HEADER, INPUT_TERMINAL, OUTPUT_TERMINAL, FEATURE_UNIT, MIXER_UNIT, SELECTOR_UNIT, EFFECT_UNIT_0200, PROCESSING_UNIT_0200, EXTENSION_UNIT_0200, CLOCK_SOURCE, CLOCK_SELECTOR, CLOCK_MULTIPLIER]) rfl
  rw [if_neg h10]
  by_cases h11 : rd m (p + 2) = CLOCK_SELECTOR
  · rw [if_pos h11]
    exact Declares.append_clockSelectors m _ p c _ (rdBytes m (p + 5) (rd m (p + 4))) (by simp [declaredSources_0200, h11, HEADER, INPUT_TERMINAL, OUTPUT_TERMINAL, FEATURE_UNIT, MIXER_UNIT, SELECTOR_UNIT, EFFECT_UNIT_0200, PROCESSING_UNIT_0200, EXTENSION_UNIT_0200, CLOCK_SOURCE, CLOCK_SELECTOR, CLOCK_MULTIPLIER]) rfl
      (by simp [initSourceIDs, initControlsArray, initClockSourceIDs, map_OSNumber_rdBytes])
  rw [if_neg h11]
  by_cases h12 : rd m (p + 2) = CLOCK_MULTIPLIER
  · rw [if_pos h12]
    exact Declares.append_clockMultipliers m _ p c _ (by simp [declaredSources_0200, h12, HEADER, INPUT_TERMINAL, OUTPUT_TERMINAL, FEATURE_UNIT, MIXER_UNIT, SELECTOR_UNIT, EFFECT_UNIT_0200, PROCESSING_UNIT_0200, EXTENSION_UNIT_0200, CLOCK_SOURCE, CLOCK_SELECTOR, CLOCK_MULTIPLIER]) rfl
  rw [if_neg h12]
  exact Declares.of_no_unit m _ p
    (by simp [declaredSources_0200, h2, h3, h4, h5, h6, h7, h8, h9, h10, h11, h12])
    rfl rfl rfl rfl

/-- The loop of `parseACInterfaceDescriptor` adds the units that the records between its
first and its last cursor declare. -/
theorem parseACInterfaceDescriptor_loop_declares (m : List Nat) (totalLength : Nat) :
    ∀ fuel ptr parsedLength c r,
      parseACInterfaceDescriptor_loop m totalLength fuel ptr parsedLength c = some r →
      Declares m (declaredSources m) (recordsBetween m ptr r.1) c r.2.2 := by
  intro fuel
  induction fuel with
  | zero =>
    intro ptr pl c r h
    unfold parseACInterfaceDescriptor_loop at h
    by_cases hc : rd m ptr > 0 ∧ rd m (ptr + 1) = CS_INTERFACE ∧ pl ≤ totalLength
    · rw [if_pos hc] at h; cases h
    · rw [if_neg hc] at h
      cases h
      rw [recordsBetween_self]
      exact Declares.refl _ _ _
  | succ fuel ih =>
    intro ptr pl c r h
    unfold parseACInterfaceDescriptor_loop at h
    by_cases hc : rd m ptr > 0 ∧ rd m (ptr + 1) = CS_INTERFACE ∧ pl ≤ totalLength
    · rw [if_pos hc] at h
      simp only at h
      rcases hrec : parseACRecord m ptr c with _ | c1
      · rw [hrec] at h
        cases h
        rw [recordsBetween_self]
        exact Declares.refl _ _ _
      · rw [hrec] at h
        have hle := (parseACInterfaceDescriptor_loop_skips m totalLength _ _ _ _ _ h).ptr_le
        rw [recordsBetween_cons m ptr r.1 (by omega) hc.1]
        exact Declares.concat (parseACRecord_declares ptr hrec) (ih _ _ _ _ h)
    · rw [if_neg hc] at h
      cases h
      rw [recordsBetween_self]
      exact Declares.refl _ _ _

/-- The method `parseACInterfaceDescriptor` adds the units that the records between its
first and its last cursor declare. -/
theorem parseACInterfaceDescriptor_declares (m : List Nat)
    (fuel ptr parsedLength totalLength : Nat) (c : DJM03ControlDictionary)
    (r : Nat × Nat × DJM03ControlDictionary)
    (h : parseACInterfaceDescriptor m fuel ptr parsedLength totalLength c = some r) :
    Declares m (declaredSources m) (recordsBetween m ptr r.1) c r.2.2 := by
  unfold parseACInterfaceDescriptor at h
  by_cases h0 : rd m ptr = 0
  · rw [if_pos h0] at h
    cases h
    rw [recordsBetween_self]
    exact Declares.refl _ _ _
  · rw [if_neg h0] at h
    by_cases h1 : rd m (ptr + 1) ≠ CS_INTERFACE
    · rw [if_pos h1] at h
      cases h
      rw [recordsBetween_self]
      exact Declares.refl _ _ _
    · rw [if_neg h1] at h
      exact parseACInterfaceDescriptor_loop_declares m totalLength _ _ _ _ _ h

/-- The loop of `parseACInterfaceDescriptor_0200` adds the units that the records between
its first and its last cursor declare. -/
theorem parseACInterfaceDescriptor_0200_loop_declares (m : List Nat) (totalLength : Nat) :
    ∀ fuel ptr parsedLength c r,
      parseACInterfaceDescriptor_0200_loop m totalLength fuel ptr parsedLength c = some r →
      Declares m (declaredSources_0200 m) (recordsBetween m ptr r.1) c r.2.2 := by
  intro fuel
  induction fuel with
  | zero =>
    intro ptr pl c r h
    unfold parseACInterfaceDescriptor_0200_loop at h
    by_cases hc : rd m ptr > 0 ∧ rd m (ptr + 1) = CS_INTERFACE ∧ pl ≤ totalLength
    · rw [if_pos hc] at h; cases h
    · rw [if_neg hc] at h
      cases h
      rw [recordsBetween_self]
      exact Declares.refl _ _ _
  | succ fuel ih =>
    intro ptr pl c r h
    unfold parseACInterfaceDescriptor_0200_loop at h
    by_cases hc : rd m ptr > 0 ∧ rd m (ptr + 1) = CS_INTERFACE ∧ pl ≤ totalLength
    · rw [if_pos hc] at h
      simp only at h
      have hle := (parseACInterfaceDescriptor_0200_loop_skips m totalLength _ _ _ _ _ h).ptr_le
      rw [recordsBetween_cons m ptr r.1 (by omega) hc.1]
      exact Declares.concat (parseACRecord_0200_declares m ptr c) (ih _ _ _ _ h)
    · rw [if_neg hc] at h
      cases h
      rw [recordsBetween_self]
      exact Declares.refl _ _ _

/-- The method `parseACInterfaceDescriptor_0200` adds the units that the records between its
first and its last cursor declare. -/
theorem parseACInterfaceDescriptor_0200_declares (m : List Nat)
    (fuel ptr parsedLength totalLength : Nat) (c : DJM03ControlDictionary)
    (r : Nat × Nat × DJM03ControlDictionary)
    (h : parseACInterfaceDescriptor_0200 m fuel ptr parsedLength totalLength c = some r) :
    Declares m (declaredSources_0200 m) (recordsBetween m ptr r.1) c r.2.2 := by
  unfold parseACInterfaceDescriptor_0200 at h
  by_cases h0 : rd m ptr = 0
  · rw [if_pos h0] at h
    cases h
    rw [recordsBetween_self]
    exact Declares.refl _ _ _
  · rw [if_neg h0] at h
    by_cases h1 : rd m (ptr + 1) ≠ CS_INTERFACE
    · rw [if_pos h1] at h
      cases h
      rw [recordsBetween_self]
      exact Declares.refl _ _ _
    · rw [if_neg h1] at h
      exact parseACInterfaceDescriptor_0200_loop_declares m totalLength _ _ _ _ _ h

/-- The accessor `getUnitID` gives the unit ID a record byte has set. -/
theorem getUnitID_of_unitID (m : List Nat) (i : Nat) (u : DJM03UnitDictionary)
    (h : u.unitID = some (rd m i)) : u.getUnitID = some (rd m i) := by
  simp [DJM03UnitDictionary.getUnitID, getDictionaryValue_UInt8, h,
    Nat.mod_eq_of_lt (rd_lt m i)]

/-- The results of `getSourceIDs`, record by record, in a control dictionary that holds the
units the records at the offsets `ps` declare and no other: what the queries give unit by
unit is what they give record by record. -/
theorem getSourceIDs_of_declares (m : List Nat)
    (declared : Nat → Option (Option (List Nat))) (ps : List Nat)
    (c0 c : DJM03ControlDictionary) (hnil : allUnits c0 = [])
    (hdec : Declares m declared ps c0 c)
    (h1 : ∀ u ∈ sourceUnits c, ∃ unitID, u.getUnitID = some unitID
      ∧ getSourceIDs c unitID = some (.code .kIOReturnSuccess, u.sourceIDs))
    (h2 : ∀ u ∈ c.clockSelectors, ∃ unitID, u.getUnitID = some unitID
      ∧ getSourceIDs c unitID = some (.code .kIOReturnSuccess, u.clockSourceIDs))
    (h3 : ∀ u ∈ plainUnits c, ∃ unitID, u.getUnitID = some unitID
      ∧ getSourceIDs c unitID = some (.code .kIOReturnError, none))
    (h4 : ∀ unitID, unitID < 256 → (∀ u ∈ allUnits c, u.getUnitID ≠ some unitID) →
      getSourceIDs c unitID = some (.code .kIOReturnError, none)) :
    (∀ p ∈ ps, ∀ sources, declared p = some sources →
        getSourceIDs c (rd m (p + 3)) = some (sourceIDsResult sources))
      ∧ (∀ unitID, unitID < 256 →
        (∀ p ∈ ps, declared p ≠ none → rd m (p + 3) ≠ unitID) →
        getSourceIDs c unitID = some (.code .kIOReturnError, none)) := by
  obtain ⟨_, _, _, d4, d5⟩ := hdec
  constructor
  · intro p hp sources hs
    have hold := d4 p hp sources hs
    cases sources with
    | none =>
      obtain ⟨u, hu, hid⟩ := hold
      obtain ⟨unitID, hget, hres⟩ := h3 u hu
      rw [getUnitID_of_unitID m _ u hid] at hget
      cases hget
      exact hres
    | some l =>
      rcases hold with ⟨u, hu, hid, hsrc⟩ | ⟨u, hu, hid, hsrc⟩
      · obtain ⟨unitID, hget, hres⟩ := h1 u hu
        rw [getUnitID_of_unitID m _ u hid] at hget
        cases hget
        rw [hres, hsrc]
        rfl
      · obtain ⟨unitID, hget, hres⟩ := h2 u hu
        rw [getUnitID_of_unitID m _ u hid] at hget
        cases hget
        rw [hres, hsrc]
        rfl
  · intro unitID hlt hno
    apply h4 unitID hlt
    intro u hu hget
    rcases d5 u hu with h | ⟨p, hp, hd, hid⟩
    · rw [hnil] at h
      exact absurd h (List.not_mem_nil _)
    · rw [getUnitID_of_unitID m _ u hid] at hget
      cases hget
      exact hno p hp hd rfl

/-- C18: let `parseACInterfaceDescriptor`, for a control interface with the ADC version 1.0,
or `parseACInterfaceDescriptor_0200`, for one with the ADC version 2.0, start on the empty
control dictionary of the interface with its cursor on `ptr` and return with its cursor on
`ptr1`; let the control dictionary `c` hold the units the sub-parser has left and have that
ADC version; and let no unit ID occur twice in `c`.  Then for each record between `ptr` and
`ptr1` that declares a unit, `getSourceIDs` for the unit ID of the record (the byte at offset
3) succeeds and returns the source IDs the record declares, the `bNrInPins` bytes behind
`bNrInPins` in the order of the descriptor, when the unit is a mixer, selector, processing
or extension unit or, in UAC 2.0, a clock selector; and it returns an error and no list when
the unit is a terminal, a feature unit, an effect unit, a clock source or a clock
multiplier.  It also returns an error and no list for each 8-bit ID that no record between
`ptr` and `ptr1` gives to a unit. -/
theorem getSourceIDs_declared (m : List Nat)
    (fuel ptr parsedLength totalLength q ptr1 parsedLength1 adcVersion : Nat)
    (c0 c : DJM03ControlDictionary)
    (hparsed :
      (parseACInterfaceDescriptor m fuel ptr parsedLength totalLength (controlDictionaryAt m q)
          = some (ptr1, parsedLength1, c0) ∧ adcVersion = kAUAUSBSpec1_0)
      ∨ (parseACInterfaceDescriptor_0200 m fuel ptr parsedLength totalLength
            (controlDictionaryAt m q)
          = some (ptr1, parsedLength1, c0) ∧ adcVersion = kAUAUSBSpec2_0))
    (hsame : SameUnits c0 c) (hadc : c.adcVersion = some adcVersion)
    (hunique : ((allUnits c).map DJM03UnitDictionary.getUnitID).Nodup) :
    (∀ p ∈ recordsBetween m ptr ptr1, ∀ sources,
        declaredSourcesIn adcVersion m p = some sources →
        getSourceIDs c (rd m (p + 3)) = some (sourceIDsResult sources))
      ∧ (∀ unitID, unitID < 256 →
        (∀ p ∈ recordsBetween m ptr ptr1, declaredSourcesIn adcVersion m p ≠ none →
          rd m (p + 3) ≠ unitID) →
        getSourceIDs c unitID = some (.code .kIOReturnError, none)) := by
  have hnil : allUnits (controlDictionaryAt m q) = [] := by
    simp [allUnits, controlDictionaryAt]
  rcases hparsed with ⟨hp, hv⟩ | ⟨hp, hv⟩
  · subst hv
    have hd : ∀ p, declaredSourcesIn kAUAUSBSpec1_0 m p = declaredSources m p := by
      intro p
      simp [declaredSourcesIn, kAUAUSBSpec1_0, kAUAUSBSpec2_0]
    have hdec := Declares.concat (parseACInterfaceDescriptor_declares m _ _ _ _ _ _ hp)
      (Declares.of_sameUnits m _ hsame)
    rw [List.append_nil] at hdec
    have hP := parsedUnits_of_sameUnits
      (parsedUnits_of_parsesRecords (parseACInterfaceDescriptor_parses m _ _ _ _ _ _ hp)
        (parsedUnits_controlDictionaryAt m q)) hsame
    have H := getSourceIDs_of_parsedUnits m c hP hadc hunique
    simp only [hd]
    exact getSourceIDs_of_declares m (declaredSources m) _ (controlDictionaryAt m q) c hnil
      hdec (fun u hu => (H.1 u hu).2) (fun u hu => (H.2.1 u hu).2) H.2.2.1 H.2.2.2
  · subst hv
    have hd : ∀ p, declaredSourcesIn kAUAUSBSpec2_0 m p = declaredSources_0200 m p := by
      intro p
      simp [declaredSourcesIn]
    have hdec := Declares.concat (parseACInterfaceDescriptor_0200_declares m _ _ _ _ _ _ hp)
      (Declares.of_sameUnits m _ hsame)
    rw [List.append_nil] at hdec
    have hP := parsedUnits_0200_of_sameUnits
      (parsedUnits_0200_of_parsesRecords
        (parseACInterfaceDescriptor_0200_parses m _ _ _ _ _ _ hp)
        (parsedUnits_0200_controlDictionaryAt m q)) hsame
    have H := getSourceIDs_of_parsedUnits_0200 m c hP hadc hunique
    simp only [hd]
    exact getSourceIDs_of_declares m (declaredSources_0200 m) _ (controlDictionaryAt m q) c
      hnil hdec (fun u hu => (H.1 u hu).2) (fun u hu => (H.2.1 u hu).2) H.2.2.1 H.2.2.2

set_option maxRecDepth 100000 in
/-- The records of the control interface of `uac1UnitsDescriptor`, between the offsets 18 and
90, and what they declare: the header, the input terminals 1 and 2, the selector unit 3 and
the mixer unit 4 with the sources 1 and 2, the feature unit 5 and the output terminal 6. -/
theorem recordsBetween_uac1UnitsDescriptor :
    recordsBetween (mutableDescriptor uac1UnitsDescriptor) 18 90 = [18, 27, 39, 51, 59, 72, 81]
      ∧ [18, 27, 39, 51, 59, 72, 81].map (fun p =>
          (rd (mutableDescriptor uac1UnitsDescriptor) (p + 3),
            declaredSourcesIn kAUAUSBSpec1_0 (mutableDescriptor uac1UnitsDescriptor) p))
        = [(0, none), (1, some none), (2, some none), (3, some (some [1, 2])),
            (4, some (some [1, 2])), (5, some none), (6, some none)] := by
  exact ⟨by decide!, by decide!⟩

set_option maxRecDepth 100000 in
/-- The records of the control interface of `uac2UnitsDescriptor`, between the offsets 26 and
122, and what they declare: the header, the clock sources 1 and 2, the clock selector 3 with
the clock sources 1 and 2, the input terminals 4 and 5, the mixer unit 6 with the sources 4
and 5, and the output terminal 7. -/
theorem recordsBetween_uac2UnitsDescriptor :
    recordsBetween (mutableDescriptor uac2UnitsDescriptor) 26 122
        = [26, 35, 43, 51, 60, 77, 94, 110]
      ∧ [26, 35, 43, 51, 60, 77, 94, 110].map (fun p =>
          (rd (mutableDescriptor uac2UnitsDescriptor) (p + 3),
            declaredSourcesIn kAUAUSBSpec2_0 (mutableDescriptor uac2UnitsDescriptor) p))
        = [(0, none), (1, some none), (2, some none), (3, some (some [1, 2])),
            (4, some none), (5, some none), (6, some (some [4, 5])), (7, some none)] := by
  exact ⟨by decide!, by decide!⟩

set_option maxRecDepth 100000 in
/-- The results of `getSourceIDs` in the control dictionary that `init` parses from
`uac2UnitsDescriptor`: the clock sources 1 and 2 for the clock selector 3, the sources 4 and
5 for the mixer unit 6, and an error for the clock sources 1 and 2, the terminals 4, 5 and 7
and the IDs 0 and 8, which no unit has. -/
theorem getSourceIDs_uac2UnitsControl :
    (List.range 9).map (getSourceIDs uac2UnitsControl)
      = [some (.code .kIOReturnError, none), some (.code .kIOReturnError, none),
          some (.code .kIOReturnError, none), some (.code .kIOReturnSuccess, some [1, 2]),
          some (.code .kIOReturnError, none), some (.code .kIOReturnError, none),
          some (.code .kIOReturnSuccess, some [4, 5]), some (.code .kIOReturnError, none),
          some (.code .kIOReturnError, none)] := by
  decide!

set_option maxRecDepth 100000 in
/-- The witness of C18: the control dictionaries that `init` parses from
`uac1UnitsDescriptor` (UAC 1.0, records between the offsets 18 and 90) and from
`uac2UnitsDescriptor` (UAC 2.0, records between the offsets 26 and 122). -/
theorem getSourceIDs_declared_witness :
    ((∀ p ∈ recordsBetween (mutableDescriptor uac1UnitsDescriptor) 18 90, ∀ sources,
          declaredSourcesIn kAUAUSBSpec1_0 (mutableDescriptor uac1UnitsDescriptor) p
            = some sources →
          getSourceIDs uac1UnitsControl (rd (mutableDescriptor uac1UnitsDescriptor) (p + 3))
            = some (sourceIDsResult sources))
        ∧ (∀ unitID, unitID < 256 →
          (∀ p ∈ recordsBetween (mutableDescriptor uac1UnitsDescriptor) 18 90,
            declaredSourcesIn kAUAUSBSpec1_0 (mutableDescriptor uac1UnitsDescriptor) p ≠ none →
            rd (mutableDescriptor uac1UnitsDescriptor) (p + 3) ≠ unitID) →
          getSourceIDs uac1UnitsControl unitID = some (.code .kIOReturnError, none)))
      ∧ ((∀ p ∈ recordsBetween (mutableDescriptor uac2UnitsDescriptor) 26 122, ∀ sources,
          declaredSourcesIn kAUAUSBSpec2_0 (mutableDescriptor uac2UnitsDescriptor) p
            = some sources →
          getSourceIDs uac2UnitsControl (rd (mutableDescriptor uac2UnitsDescriptor) (p + 3))
            = some (sourceIDsResult sources))
        ∧ (∀ unitID, unitID < 256 →
          (∀ p ∈ recordsBetween (mutableDescriptor uac2UnitsDescriptor) 26 122,
            declaredSourcesIn kAUAUSBSpec2_0 (mutableDescriptor uac2UnitsDescriptor) p ≠ none →
            rd (mutableDescriptor uac2UnitsDescriptor) (p + 3) ≠ unitID) →
          getSourceIDs uac2UnitsControl unitID = some (.code .kIOReturnError, none))) :=
  ⟨getSourceIDs_declared (mutableDescriptor uac1UnitsDescriptor) 100 18 27 99 9 90 99
      kAUAUSBSpec1_0 uac1UnitsRecords uac1UnitsControl (Or.inl ⟨by decide!, rfl⟩)
      (by decide!) (by decide!) (by decide!),
    getSourceIDs_declared (mutableDescriptor uac2UnitsDescriptor) 132 26 35 131 17 122 131
      kAUAUSBSpec2_0 uac2UnitsRecords uac2UnitsControl (Or.inr ⟨by decide!, rfl⟩)
      (by decide!) (by decide!) (by decide!)⟩

end DJM03
